import Mathlib

/-!
MobileDataBridge: content analyzer, transfer engine, bridge client session and
device registry.

A shallow embedding of `dataanalyzer.cpp`, `datatransfermanager.cpp`,
`adbsocketclient.cpp` and `devicemanager.cpp`.

Conventions of the embedding

* `QString` is `String`, `QList`/`QQueue` are `List` (front of the queue is the
  head), `QMap<QString, V>` is an association list with at most one entry per
  key.
* `qint64` and `int` values are `Int`. Every sum that the code stores in a
  `qint64` (the total size of a data set, the bytes credited to a task, the
  totals of a transfer) is reduced to 64 bits with `wrap64`; the batch progress
  of the analyzer is computed in 32 bits with `wrap32`, and a division that the
  processor refuses ends the program (`crashed`). The item counters of a task
  are only ever increased by one from 0 and are not reduced.
* The percentages and the partial item size that the code computes in `double`
  are computed in binary64 (`Double`): the conversion of a `qint64`, the
  division and the multiplication each round to 53 significant bits, ties to
  even, and the cast back truncates towards zero. A cast of a value outside the
  range of the target type, which C++ leaves undefined, gives the lowest value
  of the type, as the conversion instructions of x86-64 do.
* Qt signals emitted by an object are appended to a trace kept in its state.
* Deferred calls (`QTimer::singleShot`, queued `invokeMethod`) are kept in a
  list of pending timers; the event loop is the `step` function, which takes
  one event at a time.
* Everything the code asks of its collaborators (device registry, bridge
  clients, external processes, the file system) is read from a `World` value
  passed to every call.
* `m_transferMutex` is a plain `QMutex`. The engine state records whether it is
  held (`locked`) and whether the thread is blocked on it (`hung`): a function
  that locks it while the same thread holds it never returns, nothing that
  follows the call is run, and the event loop delivers no further event. All
  slots of the engine run on the one thread of its owner. `m_dataSetMutex` of
  the analyzer is never requested while held and is left out.
* The text that `parseAndroidPhotoList` reads is a list of characters (code
  points); its regular expression is matched by a function written for it. The
  three other parsers of process output are parameters (`ContentParsers`).
* A JSON array received from the bridge client is the list of its elements,
  each with the members that the parsers read.
* The connections between the analyzer and the bridge client are not part of
  the analyzer state: its slots are events (`AnalyzerEvent`).
* A bridge client session (`AdbSocketClient`) and the device registry
  (`DeviceManager`) are states of their own, each with its event loop
  (`AdbSocketClient.step`, `DeviceManager.step`). What the socket, the timers
  and the external tools answer comes with the event. A JSON document carried by
  a signal of the session is the text it was decoded from; whether a text
  decodes to an array or to an object is asked of a `JsonDecoder`, a parameter
  of every general statement.
-/

namespace MobileDataBridge

/-! ## Data model (`devicemanager.h`, `dataanalyzer.h`) -/

/-- Record `DeviceInfo` of `devicemanager.h`; a default-constructed value has an
empty `id` and `authorized = false`. -/
structure DeviceInfo where
  id : String := ""
  type : String := ""
  model : String := ""
  name : String := ""
  authorized : Bool := false
  osVersion : String := ""
deriving DecidableEq, Repr

/-- Record `DataItem` of `dataanalyzer.h`. The `QDateTime` plays no role in the control
flow and is left out; of the `QVariantMap data` the entries are kept that the analyzer
reads back, each value as the text that `toString()` gives. -/
structure DataItem where
  id : String := ""
  displayName : String := ""
  filePath : String := ""
  size : Int := 0
  data : List (String × String) := []
deriving DecidableEq, Repr

/-- Record `DataSet` of `dataanalyzer.h`. -/
structure DataSet where
  type : String := ""
  items : List DataItem := []
  totalSize : Int := 0
  isSupported : Bool := false
  errorMessage : String := ""
deriving DecidableEq, Repr

/-- Record `AnalysisTask` of `dataanalyzer.h`; the values of its `QVariantMap data` are
texts ("type", "basePath"). -/
structure AnalysisTask where
  deviceId : String := ""
  dataType : String := ""
  quickScan : Bool := false
  data : List (String × String) := []
  useBridgeClient : Bool := false
deriving DecidableEq, Repr

/-! ## `QMap` as an association list -/

/-- `QMap::contains`. -/
def mapContains {V : Type} (m : List (String × V)) (k : String) : Bool :=
  m.any (fun p => p.1 == k)

/-- `QMap::value(k, d)`: the stored value, or `d` when the key is absent. -/
def mapValue {V : Type} (m : List (String × V)) (k : String) (d : V) : V :=
  match m.find? (fun p => p.1 == k) with
  | some p => p.2
  | none => d

/-- `m[k] = v`: replaces the entry of `k`, or adds one. -/
def mapInsert {V : Type} (m : List (String × V)) (k : String) (v : V) : List (String × V) :=
  if mapContains m k then m.map (fun p => if p.1 == k then (k, v) else p)
  else m ++ [(k, v)]

/-! ## Cross-platform support rules (`dataanalyzer.cpp`, 323-361) -/

/-- `DataAnalyzer::isTypeSupported`. -/
def isTypeSupported (sourceType destType dataType : String) : Bool :=
  if dataType = "contacts" then true
  else if dataType = "photos" ∨ dataType = "videos" then true
  else if dataType = "documents" then true
  else if dataType = "music" then true
  else if dataType = "messages" ∧ sourceType = "android" ∧ destType = "ios" then false
  else if dataType = "calls" ∧ destType = "ios" then false
  else if dataType = "calendar" ∧ sourceType ≠ destType then false
  else if dataType = "applications" ∧ sourceType ≠ destType then false
  else true

/-- `DataAnalyzer::getIncompatibilityReason`. -/
def getIncompatibilityReason (sourceType destType dataType : String) : String :=
  if isTypeSupported sourceType destType dataType then ""
  else if dataType = "messages" ∧ sourceType = "android" ∧ destType = "ios" then
    "iOS no permite importar mensajes SMS/MMS desde Android."
  else if dataType = "calls" ∧ destType = "ios" then
    "iOS no permite importar registros de llamadas."
  else if dataType = "calendar" ∧ sourceType ≠ destType then
    "La transferencia de calendario solo es posible entre dispositivos del mismo tipo."
  else if dataType = "applications" ∧ sourceType ≠ destType then
    "Las aplicaciones no pueden transferirse entre diferentes sistemas operativos."
  else
    "Transferencia de " ++ dataType ++ " no soportada entre " ++ sourceType ++ " y " ++ destType ++ "."

/-! ## The collaborators of the analyzer and of the transfer engine -/

/-- What an `AdbSocketClient` answers when asked: `isConnected()`, and whether the
socket write made by `setRole` and by `requestFile` goes through. -/
structure BridgeClient where
  connected : Bool := false
  setRoleWritten : Bool := true
  requestFileWritten : Bool := true
deriving DecidableEq, Repr

/-- The surroundings read by one call: the registry of `DeviceManager`
(`connectedDevices`, `m_bridgeClients`, `getAdbPath()`), and the outcome of the
external actions a call performs synchronously. -/
structure World where
  connectedDevices : List (String × DeviceInfo) := []
  bridgeClients : List (String × BridgeClient) := []
  adbPath : String := "adb"
  /-- Result of `DeviceManager::setupBridgeClient`. -/
  setupBridgeClientResult : Bool := false
  /-- `QStandardPaths::writableLocation(TempLocation)`. -/
  tempLocation : String := "/tmp"
  /-- `QDateTime::currentDateTime().toString("yyyyMMdd_hhmmsszzz")`. -/
  timestamp : String := "20240101_000000000"
  /-- Result of `QDir::mkpath` for the scratch directory. -/
  mkpathOk : Bool := true
  /-- `mkdirProcess.waitForFinished(3000)`. -/
  mkdirFinished : Bool := true
  /-- `mkdirProcess.exitCode()`. -/
  mkdirExitCode : Int := 0
  /-- `QFile::exists(m_currentTask.tempFilePath)`. -/
  tempFileExists : Bool := true
deriving Repr

/-- `DeviceManager::getDeviceInfo`: the registered record, or an empty one. -/
def getDeviceInfo (w : World) (deviceId : String) : DeviceInfo :=
  if mapContains w.connectedDevices deviceId then mapValue w.connectedDevices deviceId {}
  else {}

/-- `DeviceManager::isBridgeClientConnected`; it is also the test
`bridgeClient && bridgeClient->isConnected()` on `getBridgeClient(deviceId)`. -/
def isBridgeClientConnected (w : World) (deviceId : String) : Bool :=
  mapContains w.bridgeClients deviceId && (mapValue w.bridgeClients deviceId {}).connected

/-- `AdbSocketClient::setRole` on the client of `deviceId`: `sendCommand` succeeds when
the client is connected and the write goes through. -/
def setRole (w : World) (deviceId : String) : Bool :=
  (mapValue w.bridgeClients deviceId {}).connected &&
    (mapValue w.bridgeClients deviceId {}).setRoleWritten

/-- `AdbSocketClient::requestFile` on the client of `deviceId`. -/
def requestFile (w : World) (deviceId : String) : Bool :=
  (mapValue w.bridgeClients deviceId {}).connected &&
    (mapValue w.bridgeClients deviceId {}).requestFileWritten

/-! ## Machine numbers

The sizes are `qint64` values in the code and the percentages are computed in `double`.
A sum that the code stores in a `qint64` is reduced to 64 bits (`wrap64`). A `double` is
a sign, a mantissa and an exponent of two; every operation rounds its exact result to 53
significant bits, ties to the even mantissa, as IEEE 754 binary64 does in its default
rounding mode. All the values met are quotients and products of two 64-bit integers, which
lie within the normal range of binary64, so the exponent needs no bound. -/

/-- The value a signed 64-bit integer takes when `x` is stored in it: the integer
congruent to `x` modulo `2^64` between `-2^63` and `2^63 - 1`. -/
def wrap64 (x : Int) : Int := (x + 2 ^ 63) % 2 ^ 64 - 2 ^ 63

/-- The value a signed 32-bit integer takes when `x` is stored in it. -/
def wrap32 (x : Int) : Int := (x + 2 ^ 31) % 2 ^ 32 - 2 ^ 31

/-- The number of binary digits of `n`, found in at most `fuel` halvings. -/
def bitLengthAux : Nat → Nat → Nat
  | 0, _ => 0
  | fuel + 1, n => if n = 0 then 0 else bitLengthAux fuel (n / 2) + 1

/-- The number of binary digits of a number below `2^256`. -/
def bitLength (n : Nat) : Nat := bitLengthAux 256 n

/-- A finite `double`: the number `mantissa * 2^exponent`, negated when `negative`. -/
structure Double where
  negative : Bool := false
  mantissa : Nat := 0
  exponent : Int := 0
deriving DecidableEq, Repr

namespace Double

/-- The `double` nearest to `(n + f) * 2^exponent`, where `0 < f < 1` when `sticky` and
`f = 0` otherwise: `n` is cut to its 53 leading binary digits and rounded on the digits
cut off, a tie going to the even mantissa. A number of at most 53 digits is kept as it is
(it is never `sticky` where this function is used). -/
def round (negative : Bool) (n : Nat) (sticky : Bool) (exponent : Int) : Double :=
  if bitLength n ≤ 53 then { negative := negative, mantissa := n, exponent := exponent }
  else
    let shift := bitLength n - 53
    let q := n / 2 ^ shift
    let r := n % 2 ^ shift
    let half := 2 ^ (shift - 1)
    let up := decide (half < r) || (decide (r = half) && (sticky || decide (q % 2 = 1)))
    { negative := negative, mantissa := if up then q + 1 else q,
      exponent := exponent + (shift : Int) }

/-- The conversion of an integer to `double`. -/
def ofInt (i : Int) : Double := round (decide (i < 0)) i.natAbs false 0

/-- The quotient `x / y` of two `double` values, `y` not zero: the mantissa of `x` is
extended by `k` binary digits, enough for the integer quotient to have more than 64 of
them, and the remainder of the integer division is the sticky part. -/
def div (x y : Double) : Double :=
  if x.mantissa = 0 then { negative := x.negative != y.negative }
  else
    let k := bitLength y.mantissa + 64
    round (x.negative != y.negative) (x.mantissa * 2 ^ k / y.mantissa)
      (decide (x.mantissa * 2 ^ k % y.mantissa ≠ 0)) (x.exponent - y.exponent - (k : Int))

/-- The product `x * y` of two `double` values. -/
def mul (x y : Double) : Double :=
  round (x.negative != y.negative) (x.mantissa * y.mantissa) false (x.exponent + y.exponent)

/-- The integer part of a `double`, the fraction discarded (rounding towards zero). -/
def truncate (x : Double) : Int :=
  let magnitude : Nat :=
    if 0 ≤ x.exponent then x.mantissa * 2 ^ x.exponent.toNat
    else x.mantissa / 2 ^ (-x.exponent).toNat
  if x.negative then -(magnitude : Int) else (magnitude : Int)

/-- The conversion `static_cast<int>(x)`. For an integer part outside the range of `int`
the C++ conversion is undefined; the value given here is the one the conversion
instruction of x86-64 gives, the lowest `int`. -/
def toInt (x : Double) : Int :=
  if -2 ^ 31 ≤ x.truncate ∧ x.truncate < 2 ^ 31 then x.truncate else -2 ^ 31

/-- The conversion of a `double` to `qint64`, with the lowest `qint64` for an integer part
outside the range. -/
def toLongLong (x : Double) : Int :=
  if -2 ^ 63 ≤ x.truncate ∧ x.truncate < 2 ^ 63 then x.truncate else -2 ^ 63

end Double

/-- The percentage `static_cast<int>((static_cast<double>(num) / den) * 100.0)`; the
divisor is converted to `double` by the division. -/
def percentOf (num den : Int) : Int :=
  (((Double.ofInt num).div (Double.ofInt den)).mul (Double.ofInt 100)).toInt

/-- The partial size `progress * fullItemSize` of `onBridgeClientFileProgress`, with
`progress = static_cast<double>(bytesReceived) / totalBytes` for a positive `totalBytes`
and `0` otherwise, converted to `qint64`. -/
def partialSize (bytesReceived totalBytes fullItemSize : Int) : Int :=
  let progress : Double :=
    if totalBytes > 0 then (Double.ofInt bytesReceived).div (Double.ofInt totalBytes) else {}
  (progress.mul (Double.ofInt fullItemSize)).toLongLong

/-! ## The analyzer (`dataanalyzer.cpp`) -/

/-- Signals of `DataAnalyzer`. -/
inductive AnalyzerSignal where
  | analysisStarted (deviceId : String)
  | analysisProgress (deviceId dataType : String) (progress : Int)
  | analysisComplete (deviceId : String)
  | analysisError (deviceId dataType errorMessage : String)
  | dataSetUpdated (deviceId dataType : String)
  | analysisFinishedForDevice (deviceId : String)
deriving DecidableEq, Repr

/-- Member variables of `DataAnalyzer`, the number of queued invocations of
`processNextAnalysisTask`, the signals emitted so far, and whether the program has been
ended by an integer division that the processor refuses (`mergeBatch`). -/
structure DataAnalyzer where
  m_dataSets : List (String × List (String × DataSet)) := []
  m_analysisQueue : List AnalysisTask := []
  m_currentAnalysisTask : AnalysisTask := {}
  m_isAnalyzing : Bool := false
  m_pendingTasksPerDevice : List (String × Int) := []
  m_bridgeScanComplete : List (String × List (String × Bool)) := []
  queuedProcessNext : Nat := 0
  emitted : List AnalyzerSignal := []
  crashed : Bool := false
deriving DecidableEq, Repr

/-- The loop of `analyzeDevice` that queues one task per category and, for a full
scan over the bridge, marks the category as not yet complete. -/
def enqueueAnalysisTasks (deviceId : String) (quickScan useBridgeClient : Bool) :
    List String → DataAnalyzer → DataAnalyzer
  | [], a => a
  | t :: ts, a =>
    let a1 := { a with m_analysisQueue := a.m_analysisQueue ++
      [{ deviceId := deviceId, dataType := t, quickScan := quickScan,
         useBridgeClient := useBridgeClient }] }
    let a2 := if useBridgeClient && !quickScan then
        let perType := mapInsert (mapValue a1.m_bridgeScanComplete deviceId []) t false
        { a1 with m_bridgeScanComplete := mapInsert a1.m_bridgeScanComplete deviceId perType }
      else a1
    enqueueAnalysisTasks deviceId quickScan useBridgeClient ts a2

/-- `DataAnalyzer::analyzeDevice`: the returned flag and the analyzer afterwards. -/
def analyzeDevice (w : World) (a : DataAnalyzer) (deviceId : String) (quickScan : Bool) :
    Bool × DataAnalyzer :=
  let device := getDeviceInfo w deviceId
  if device.id.isEmpty then (false, a)
  else if !device.authorized then
    let msg := "El dispositivo no está autorizado para acceder a los datos."
    (false, { a with emitted := a.emitted ++ [AnalyzerSignal.analysisError deviceId "all" msg] })
  else
    let useBridgeClient :=
      if device.type = "android" then
        if !isBridgeClientConnected w deviceId then w.setupBridgeClientResult else true
      else false
    let a1 := { a with m_dataSets := mapInsert a.m_dataSets deviceId [] }
    if device.type ≠ "android" ∧ device.type ≠ "ios" then
      let msg := "Tipo de dispositivo no soportado: " ++ device.type
      (false, { a1 with emitted := a1.emitted ++ [AnalyzerSignal.analysisError deviceId "all" msg] })
    else
      let dataTypesToAnalyze : List String :=
        if device.type = "android" then
          ["photos", "videos", "contacts", "messages", "calls"] ++
            (if useBridgeClient then ["music", "documents", "applications"] else [])
        else ["photos", "contacts", "messages", "calls"]
      let taskCount : Int := dataTypesToAnalyze.length
      let pendingTasks := mapInsert a1.m_pendingTasksPerDevice deviceId taskCount
      let a2 := { a1 with
        m_pendingTasksPerDevice := pendingTasks
        emitted := a1.emitted ++ [AnalyzerSignal.analysisStarted deviceId] }
      let a3 := if useBridgeClient && !quickScan then
          { a2 with m_bridgeScanComplete := mapInsert a2.m_bridgeScanComplete deviceId [] }
        else a2
      let a4 := enqueueAnalysisTasks deviceId quickScan useBridgeClient dataTypesToAnalyze a3
      let a5 := if !a4.m_isAnalyzing then
          { a4 with m_isAnalyzing := true, queuedProcessNext := a4.queuedProcessNext + 1 }
        else a4
      (true, a5)

/-- `DataAnalyzer::getDataSet`: the stored set, or an empty unsupported one. -/
def getDataSet (a : DataAnalyzer) (deviceId dataType : String) : DataSet :=
  if mapContains a.m_dataSets deviceId ∧
      mapContains (mapValue a.m_dataSets deviceId []) dataType then
    mapValue (mapValue a.m_dataSets deviceId []) dataType {}
  else { type := dataType, totalSize := 0, isSupported := false }

/-! ## The parser of `ls -l` listings (`dataanalyzer.cpp`, 1387-1481)

Text is handled as lists of characters. The regular expression of
`parseAndroidPhotoList` is matched from left to right: every repeated class in it is
followed by a character outside the class, so the greedy match is the only one. -/

/-- The class `\s` of the regular expression (which is compiled without Unicode
properties): the space and the control characters 9 to 13. -/
def isRegexSpace (c : Char) : Bool :=
  c.toNat == 32 || (decide (9 ≤ c.toNat) && decide (c.toNat ≤ 13))

/-- The class `\d` of the regular expression: the ten ASCII digits. -/
def isRegexDigit (c : Char) : Bool := decide (48 ≤ c.toNat) && decide (c.toNat ≤ 57)

/-- `QChar::isSpace`: the characters of `\s`, and the separators of Unicode (next line,
no-break space, the spaces of the categories Zs, Zl and Zp). -/
def isSpace (c : Char) : Bool :=
  isRegexSpace c || c.toNat == 133 || c.toNat == 160 || c.toNat == 5760 ||
    (decide (8192 ≤ c.toNat) && decide (c.toNat ≤ 8202)) || c.toNat == 8232 ||
    c.toNat == 8233 || c.toNat == 8239 || c.toNat == 8287 || c.toNat == 12288

/-- `QString::trimmed`. -/
def trimmed (s : List Char) : List Char :=
  ((s.dropWhile isSpace).reverse.dropWhile isSpace).reverse

/-- `QString::split(sep, Qt::SkipEmptyParts)`; `cur` holds, in reverse, the part read so
far. -/
def splitSkipEmptyAux (sep : Char) : List Char → List Char → List (List Char)
  | [], cur => if cur.isEmpty then [] else [cur.reverse]
  | c :: rest, cur =>
    if c = sep then
      if cur.isEmpty then splitSkipEmptyAux sep rest []
      else cur.reverse :: splitSkipEmptyAux sep rest []
    else splitSkipEmptyAux sep rest (c :: cur)

/-- `QString::split(sep, Qt::SkipEmptyParts)`. -/
def splitSkipEmpty (sep : Char) (s : List Char) : List (List Char) :=
  splitSkipEmptyAux sep s []

/-- `\s+`: the text after the white space at the front, if there is any. -/
def skipSpaces (s : List Char) : Option (List Char) :=
  if (s.takeWhile isRegexSpace).isEmpty then none else some (s.dropWhile isRegexSpace)

/-- `\d+`: the digits at the front, if there are any, and the text after them. -/
def takeDigits (s : List Char) : Option (List Char × List Char) :=
  if (s.takeWhile isRegexDigit).isEmpty then none
  else some (s.takeWhile isRegexDigit, s.dropWhile isRegexDigit)

/-- `[^\s]+`: the text after the characters at the front that are not white space, if
there are any. -/
def skipWord (s : List Char) : Option (List Char) :=
  if (s.takeWhile (fun c => !isRegexSpace c)).isEmpty then none
  else some (s.dropWhile (fun c => !isRegexSpace c))

/-- `\d{n}`: the text after exactly `n` digits. -/
def skipDigits : Nat → List Char → Option (List Char)
  | 0, s => some s
  | n + 1, c :: rest => if isRegexDigit c then skipDigits n rest else none
  | _ + 1, [] => none

/-- One given character. -/
def skipChar (x : Char) : List Char → Option (List Char)
  | c :: rest => if c = x then some rest else none
  | [] => none

/-- `[rwx-]{9}`: the text after nine permission characters. -/
def skipPermissions : Nat → List Char → Option (List Char)
  | 0, s => some s
  | n + 1, c :: rest =>
    if c.toNat = 114 ∨ c.toNat = 119 ∨ c.toNat = 120 ∨ c.toNat = 45 then skipPermissions n rest
    else none
  | _ + 1, [] => none

/-- `\d{4}-\d{2}-\d{2}`. -/
def skipDate (s : List Char) : Option (List Char) :=
  (skipDigits 4 s).bind fun r1 => (skipChar (Char.ofNat 45) r1).bind fun r2 =>
  (skipDigits 2 r2).bind fun r3 => (skipChar (Char.ofNat 45) r3).bind fun r4 => skipDigits 2 r4

/-- `\d{2}:\d{2}`. -/
def skipTime (s : List Char) : Option (List Char) :=
  (skipDigits 2 s).bind fun r1 => (skipChar (Char.ofNat 58) r1).bind fun r2 => skipDigits 2 r2

/-- The captured groups of the regular expression that `parseAndroidPhotoList` reads:
group 1 (the type), group 5 (the size) and group 8 (the file name). -/
structure LsMatch where
  type : Char
  size : List Char
  filename : List Char
deriving DecidableEq, Repr

/-- The tail `\s+(.+)$` of the expression on a line that does not end in white space: all
the white space, then the rest of the line, which must not be empty. -/
def takeFilename (s : List Char) : Option (List Char) :=
  (skipSpaces s).bind fun r => if r.isEmpty then none else some r

/-- The match of the regular expression of `parseAndroidPhotoList` against a trimmed line
(one without line feed, not ending in white space). -/
def matchLsLine (line : List Char) : Option LsMatch :=
  match line with
  | [] => none
  | t :: rest =>
    if t.toNat = 45 ∨ t.toNat = 100 then
      (skipPermissions 9 rest).bind fun r0 => (skipSpaces r0).bind fun r1 =>
      (takeDigits r1).bind fun links => (skipSpaces links.2).bind fun r2 =>
      (skipWord r2).bind fun r3 => (skipSpaces r3).bind fun r4 =>
      (skipWord r4).bind fun r5 => (skipSpaces r5).bind fun r6 =>
      (takeDigits r6).bind fun size => (skipSpaces size.2).bind fun r7 =>
      (skipDate r7).bind fun r8 => (skipSpaces r8).bind fun r9 =>
      (skipTime r9).bind fun r10 => (takeFilename r10).bind fun name =>
      some { type := t, size := size.1, filename := name }
    else none

/-- The number written by a string of decimal digits. -/
def decimalValue (digits : List Char) : Nat :=
  digits.foldl (fun v c => 10 * v + (c.toNat - 48)) 0

/-- `QString::toLongLong` on a string of decimal digits: the number written, or 0 when it
does not fit in 64 bits. -/
def toLongLong (digits : List Char) : Int :=
  if decimalValue digits ≤ 9223372036854775807 then (decimalValue digits : Int) else 0

/-- `QString::endsWith(ext, Qt::CaseInsensitive)` for a lower-case ASCII `ext` without the
letters k and s: no character outside ASCII folds to a letter of `ext`, so it is enough to
lower the ASCII capitals of the name. -/
def endsWithIgnoreCase (name : List Char) (ext : String) : Bool :=
  ext.data.isSuffixOf (name.map Char.toLower)

/-- The image extensions accepted by `parseAndroidPhotoList`. -/
def photoExtensions : List String :=
  [".jpg", ".jpeg", ".png", ".gif", ".bmp", ".webp", ".heic", ".heif"]

/-- The body of the loop of `parseAndroidPhotoList` for one line: the item it appends, if
any (the date of the item is left out). -/
def photoOfLine (basePath : String) (line : List Char) : Option DataItem :=
  if (trimmed line).isEmpty then none
  else
    match matchLsLine (trimmed line) with
    | none => none
    | some m =>
      if m.type.toNat = 100 then none
      else if m.filename.head? = some (Char.ofNat 46) then none
      else if !photoExtensions.any (endsWithIgnoreCase m.filename) then none
      else
        let currentBasePath :=
          if basePath.data.getLast? = some (Char.ofNat 47) then basePath else basePath ++ "/"
        some { id := currentBasePath ++ String.mk m.filename,
               displayName := String.mk m.filename,
               filePath := currentBasePath ++ String.mk m.filename,
               size := toLongLong m.size }

/-- `DataAnalyzer::parseAndroidPhotoList`. -/
def parseAndroidPhotoList (output basePath : String) : List DataItem :=
  (splitSkipEmpty (Char.ofNat 10) output.data).filterMap (photoOfLine basePath)

/-! ## Listings in the `ls -l` line format -/

/-- One entry line of `ls -l` output: the fields, each as the text that stands in the
line, the white space `gap1` to `gap7` that separates two fields (one space unless the
columns are padded), and the white space before and after the line (such as a carriage
return before the line feed). -/
structure LsEntry where
  directory : Bool := false
  permissions : List Char
  links : List Char
  owner : List Char
  group : List Char
  size : List Char
  year : List Char
  month : List Char
  day : List Char
  hour : List Char
  minute : List Char
  name : List Char
  gap1 : List Char := [Char.ofNat 32]
  gap2 : List Char := [Char.ofNat 32]
  gap3 : List Char := [Char.ofNat 32]
  gap4 : List Char := [Char.ofNat 32]
  gap5 : List Char := [Char.ofNat 32]
  gap6 : List Char := [Char.ofNat 32]
  gap7 : List Char := [Char.ofNat 32]
  leading : List Char := []
  trailing : List Char := []
deriving DecidableEq, Repr

/-- The time and the name of an entry, as they stand at the end of its line. -/
def LsEntry.fromTime (e : LsEntry) : List Char :=
  e.hour ++ Char.ofNat 58 :: (e.minute ++ (e.gap7 ++ e.name))

/-- The date of an entry and what follows it in its line. -/
def LsEntry.fromDate (e : LsEntry) : List Char :=
  e.year ++ Char.ofNat 45 :: (e.month ++ Char.ofNat 45 :: (e.day ++ (e.gap6 ++ e.fromTime)))

/-- The owner of an entry and what follows it in its line. -/
def LsEntry.fromOwner (e : LsEntry) : List Char :=
  e.owner ++ (e.gap3 ++ (e.group ++ (e.gap4 ++ (e.size ++ (e.gap5 ++ e.fromDate)))))

/-- The line of an entry without the white space around it: the type character and the
fields in order, each gap between two fields. -/
def LsEntry.line (e : LsEntry) : List Char :=
  (if e.directory then Char.ofNat 100 else Char.ofNat 45) ::
    (e.permissions ++ (e.gap1 ++ (e.links ++ (e.gap2 ++ e.fromOwner))))

/-- Whether a text is white space between two fields: at least one character, each of
them white space for the regular expression and none a line feed. -/
def isGap (g : List Char) : Bool :=
  !g.isEmpty && g.all (fun c => isRegexSpace c && c.toNat != 10)

/-- Whether a text is white space around a line: characters that `QString::trimmed`
removes, none of them a line feed. -/
def isMargin (g : List Char) : Bool := g.all (fun c => isSpace c && c.toNat != 10)

/-- Whether the fields of an entry are fields of the `ls -l` line format: nine permission
characters out of r, w, x and -; a link count and a size in decimal digits; an owner and
a group without white space; a date of 4, 2 and 2 digits and a time of 2 and 2 digits; a
name that has no line feed and neither starts nor ends with white space; white space
between the fields and around the line. -/
def LsEntry.wellFormed (e : LsEntry) : Bool :=
  e.permissions.length == 9 &&
  e.permissions.all (fun c => c.toNat == 114 || c.toNat == 119 || c.toNat == 120 ||
    c.toNat == 45) &&
  !e.links.isEmpty && e.links.all isRegexDigit &&
  !e.owner.isEmpty && e.owner.all (fun c => !isRegexSpace c) &&
  !e.group.isEmpty && e.group.all (fun c => !isRegexSpace c) &&
  !e.size.isEmpty && e.size.all isRegexDigit &&
  e.year.length == 4 && e.year.all isRegexDigit &&
  e.month.length == 2 && e.month.all isRegexDigit &&
  e.day.length == 2 && e.day.all isRegexDigit &&
  e.hour.length == 2 && e.hour.all isRegexDigit &&
  e.minute.length == 2 && e.minute.all isRegexDigit &&
  !e.name.isEmpty && e.name.all (fun c => c.toNat != 10) &&
  e.name.head?.all (fun c => !isSpace c) && e.name.getLast?.all (fun c => !isSpace c) &&
  isGap e.gap1 && isGap e.gap2 && isGap e.gap3 && isGap e.gap4 && isGap e.gap5 &&
  isGap e.gap6 && isGap e.gap7 && isMargin e.leading && isMargin e.trailing

/-- Whether an entry is a regular file, not hidden, with an image extension. -/
def LsEntry.isPhoto (e : LsEntry) : Bool :=
  !e.directory && e.name.head? != some (Char.ofNat 46) &&
    photoExtensions.any (endsWithIgnoreCase e.name)

/-- The base path with the slash that `parseAndroidPhotoList` adds when it is missing. -/
def withSlash (basePath : String) : String :=
  if basePath.data.getLast? = some (Char.ofNat 47) then basePath else basePath ++ "/"

/-- The item of a photo entry under a base path: its size is the number written by the
size field (0 beyond 64 bits), its path the base path, a slash, and the name. -/
def LsEntry.item (basePath : String) (e : LsEntry) : DataItem :=
  { id := withSlash basePath ++ String.mk e.name, displayName := String.mk e.name,
    filePath := withSlash basePath ++ String.mk e.name, size := toLongLong e.size }

/-- One line of `ls -l` output: the line of an entry, or any other line, such as the
header "total 24", the line of a symbolic link or an empty line. -/
inductive LsLine where
  | entry (e : LsEntry)
  | other (text : List Char)
deriving DecidableEq, Repr

/-- The text of a line, without its line feed. -/
def LsLine.text : LsLine → List Char
  | .entry e => e.leading ++ (e.line ++ e.trailing)
  | .other text => text

/-- Whether a line is a line of the `ls -l` format: a well-formed entry, or a text without
line feed whose first character after the white space, if any, is neither the `-` of a
file nor the `d` of a directory. -/
def LsLine.wellFormed : LsLine → Bool
  | .entry e => e.wellFormed
  | .other text =>
    text.all (fun c => c.toNat != 10) &&
      (trimmed text).head?.all (fun c => c.toNat != 45 && c.toNat != 100)

/-- The photo entry of a line: the entry of an entry line that is a photo. -/
def LsLine.photo : LsLine → Option LsEntry
  | .entry e => if e.isPhoto then some e else none
  | .other _ => none

/-- The output of `ls -l` for a list of lines: each line ended by a line feed. -/
def lsListing (lines : List LsLine) : String :=
  String.mk (lines.flatMap (fun l => l.text ++ [Char.ofNat 10]))

/-! ## Storing and finalising analyses (`dataanalyzer.cpp`, 444-563) -/

/-- `QMap::remove`. -/
def mapRemove {V : Type} (m : List (String × V)) (k : String) : List (String × V) :=
  m.filter (fun p => !(p.1 == k))

/-- The loop `totalSize = 0; for (item : items) totalSize += item.size` on a `qint64`,
started at `start`. -/
def addSizes (start : Int) (items : List DataItem) : Int :=
  items.foldl (fun total item => wrap64 (total + item.size)) start

/-- The three parsers of `adb shell content query` output. Their regular expressions are
not modelled: every statement about the analyzer holds for arbitrary functions in their
place. -/
structure ContentParsers where
  parseAndroidContacts : String → List DataItem
  parseAndroidMessages : String → List DataItem
  parseAndroidCalls : String → List DataItem

namespace DataAnalyzer

/-- Appends one emitted signal to the trace. -/
def emit (a : DataAnalyzer) (sig : AnalyzerSignal) : DataAnalyzer :=
  { a with emitted := a.emitted ++ [sig] }

/-- The statement `emit analysisFinishedForDevice(deviceId)`; the signal is connected to
`processNextAnalysisTask` with a queued connection, so one more call of it is queued. -/
def emitFinishedForDevice (a : DataAnalyzer) (deviceId : String) : DataAnalyzer :=
  { a.emit (.analysisFinishedForDevice deviceId) with
    queuedProcessNext := a.queuedProcessNext + 1 }

/-- The data sets stored for a device, `m_dataSets[deviceId]`. -/
def deviceSets (a : DataAnalyzer) (deviceId : String) : List (String × DataSet) :=
  mapValue a.m_dataSets deviceId []

/-- The statement `m_dataSets[deviceId][dataType] = dataSet`. -/
def storeDataSet (a : DataAnalyzer) (deviceId dataType : String) (dataSet : DataSet) :
    DataAnalyzer :=
  { a with m_dataSets :=
      mapInsert a.m_dataSets deviceId (mapInsert (a.deviceSets deviceId) dataType dataSet) }

/-- The statement `if (!m_dataSets.contains(deviceId)) m_dataSets[deviceId] = {}`. -/
def ensureDevice (a : DataAnalyzer) (deviceId : String) : DataAnalyzer :=
  if !mapContains a.m_dataSets deviceId then
    { a with m_dataSets := mapInsert a.m_dataSets deviceId [] }
  else a

/-- Whether `m_dataSets` has a data set for the device and the category. -/
def hasDataSet (a : DataAnalyzer) (deviceId dataType : String) : Bool :=
  mapContains a.m_dataSets deviceId && mapContains (a.deviceSets deviceId) dataType

/-- The stored data set `m_dataSets[deviceId][dataType]`. -/
def storedSet (a : DataAnalyzer) (deviceId dataType : String) : DataSet :=
  mapValue (a.deviceSets deviceId) dataType {}

/-- The `failedSet` that `finalizeAnalysis` stores when there is no data set yet. -/
def failedSet (dataType errorMsg : String) : DataSet :=
  { type := dataType, isSupported := false, totalSize := 0,
    errorMessage := if errorMsg.isEmpty then "Análisis falló o no produjo datos." else errorMsg }

/-- The two assignments that `finalizeAnalysis` makes to an existing data set when the
analysis failed. -/
def markFailed (dataSet : DataSet) (errorMsg : String) : DataSet :=
  { dataSet with errorMessage := errorMsg, isSupported := false }

/-- The first block of `finalizeAnalysis` ("asegurar que exista un dataset"). -/
def ensureDataSet (a : DataAnalyzer) (deviceId dataType : String) (success : Bool)
    (errorMsg : String) : DataAnalyzer :=
  if !a.hasDataSet deviceId dataType then
    (a.storeDataSet deviceId dataType (failedSet dataType errorMsg)).emit
      (.dataSetUpdated deviceId dataType)
  else if !success then
    (a.storeDataSet deviceId dataType (markFailed (a.storedSet deviceId dataType) errorMsg)).emit
      (.dataSetUpdated deviceId dataType)
  else a

/-- Assigns `m_pendingTasksPerDevice`. -/
def setPending (a : DataAnalyzer) (pending : List (String × Int)) : DataAnalyzer :=
  { a with m_pendingTasksPerDevice := pending }

/-- The block of `finalizeAnalysis` that decrements the counter of the device and, when
it has reached zero, emits `analysisComplete` and removes the counter. -/
def countDown (a : DataAnalyzer) (deviceId : String) : DataAnalyzer :=
  if mapContains a.m_pendingTasksPerDevice deviceId then
    let a1 := a.setPending (mapInsert a.m_pendingTasksPerDevice deviceId
      (mapValue a.m_pendingTasksPerDevice deviceId 0 - 1))
    if mapValue a1.m_pendingTasksPerDevice deviceId 0 ≤ 0 then
      (a1.emit (.analysisComplete deviceId)).setPending
        (mapRemove a1.m_pendingTasksPerDevice deviceId)
    else a1
  else a

/-- `DataAnalyzer::finalizeAnalysis`. -/
def finalizeAnalysis (a : DataAnalyzer) (deviceId dataType : String) (success : Bool)
    (errorMsg : String) : DataAnalyzer :=
  if deviceId.isEmpty || dataType.isEmpty then a.emitFinishedForDevice deviceId
  else
    let a1 := a.ensureDataSet deviceId dataType success errorMsg
    let a2 := if success then a1.emit (.analysisProgress deviceId dataType 100)
      else a1.emit (.analysisError deviceId dataType errorMsg)
    (a2.countDown deviceId).emitFinishedForDevice deviceId

/-- The data set that `onAnalysisProcessFinished` builds from the output of a process
that ended normally. -/
def parsedSet (ps : ContentParsers) (dataType basePath stdOut : String) : DataSet :=
  let items :=
    if dataType = "photos" then parseAndroidPhotoList stdOut basePath
    else if dataType = "contacts" then ps.parseAndroidContacts stdOut
    else if dataType = "messages" then ps.parseAndroidMessages stdOut
    else if dataType = "calls" then ps.parseAndroidCalls stdOut
    else []
  { type := dataType, isSupported := true, items := items, totalSize := addSizes 0 items }

/-- `DataAnalyzer::onAnalysisProcessFinished`, given the exit code, whether the exit was
normal, and what the process wrote to its two outputs. -/
def onAnalysisProcessFinished (ps : ContentParsers) (a : DataAnalyzer) (exitCode : Int)
    (normalExit : Bool) (stdOut stdErr : String) : DataAnalyzer :=
  if a.m_currentAnalysisTask.deviceId.isEmpty then a
  else
    let deviceId := a.m_currentAnalysisTask.deviceId
    let dataType := mapValue a.m_currentAnalysisTask.data "type" ""
    if exitCode ≠ 0 ∨ normalExit = false then
      let errorMsg := "Error en análisis de " ++ dataType ++ " (Código: " ++ toString exitCode ++
        "): " ++ (if stdErr.isEmpty then "Error desconocido" else stdErr)
      (a.emit (.analysisError deviceId dataType errorMsg)).finalizeAnalysis deviceId dataType
        false errorMsg
    else
      let dataSet := parsedSet ps dataType (mapValue a.m_currentAnalysisTask.data "basePath" "")
        stdOut
      (((a.storeDataSet deviceId dataType dataSet).emit (.dataSetUpdated deviceId dataType)).emit
        (.analysisProgress deviceId dataType 100)).finalizeAnalysis deviceId dataType true ""

end DataAnalyzer

/-! ## Data streamed by the bridge client (`dataanalyzer.cpp`, 577-893, 1183-1382) -/

/-- One element of the JSON array of a `MEDIA_DATA` or `FILES_DATA` message, as the
parsers read it: each text member is what `toString()` gives for it (empty when the member
is absent or not a string, as for an element that is not an object), `size` is
`toVariant().toLongLong()`, and `metadata` lists the members of the object "metadata" with
their values as text. -/
structure FileEntry where
  path : String := ""
  name : String := ""
  size : Int := 0
  type : String := ""
  mimeType : String := ""
  metadata : List (String × String) := []
deriving DecidableEq, Repr

/-- One element of the JSON array of contacts (the telephone numbers, mail addresses and
photo of a contact are only copied into its `data`, and are left out). -/
structure ContactEntry where
  id : String := ""
  displayName : String := ""
deriving DecidableEq, Repr

/-- One element of the JSON array of messages. -/
structure MessageEntry where
  id : String := ""
  address : String := ""
  body : String := ""
deriving DecidableEq, Repr

/-- `QString::length`: the number of UTF-16 code units. -/
def utf16Length (s : String) : Int :=
  ((s.data.map (fun c => if c.toNat < 65536 then (1 : Int) else 2)).sum)

/-- `QString::endsWith`. -/
def endsWith (s suffix : String) : Bool := suffix.data.isSuffixOf s.data

/-- `QString::toLower` on ASCII text. -/
def toLower (s : String) : String := String.mk (s.data.map Char.toLower)

/-- The category that `parseJsonMediaData` files a media type under. -/
def mediaCategory (type : String) : String :=
  if type = "IMAGE" then "photos" else if type = "VIDEO" then "videos"
  else if type = "AUDIO" then "music" else "other"

/-- The category that `parseJsonFilesData` files a file type under. -/
def fileCategory (type : String) : String :=
  if type = "DOCUMENT" then "documents" else if type = "APK" then "applications"
  else if type = "ARCHIVE" then "archives" else "other"

/-- The loop `item.data[it.key()] = it.value()` over the members of "metadata". -/
def addMetadata (data metadata : List (String × String)) : List (String × String) :=
  metadata.foldl (fun d kv => mapInsert d kv.1 kv.2) data

/-- The `DataItem` that `parseJsonMediaData` builds from one element. -/
def mediaItem (obj : FileEntry) : DataItem :=
  let data0 := mapInsert [] "mediaType" (mediaCategory obj.type)
  let data1 := mapInsert data0 "mimeType" obj.mimeType
  { id := obj.path, displayName := obj.name, filePath := obj.path, size := obj.size,
    data := addMetadata data1 obj.metadata }

/-- `DataAnalyzer::parseJsonMediaData`. -/
def parseJsonMediaData (jsonArray : List FileEntry) : List DataItem :=
  jsonArray.filterMap fun obj =>
    if obj.path.isEmpty || obj.name.isEmpty then none else some (mediaItem obj)

/-- The `DataItem` that `parseJsonFilesData` builds from one element. -/
def fileItem (obj : FileEntry) : DataItem :=
  let data0 := mapInsert [] "fileType" (fileCategory obj.type)
  { id := obj.path, displayName := obj.name, filePath := obj.path, size := obj.size,
    data := mapInsert data0 "mimeType" obj.mimeType }

/-- `DataAnalyzer::parseJsonFilesData`. -/
def parseJsonFilesData (jsonArray : List FileEntry) : List DataItem :=
  jsonArray.filterMap fun obj =>
    if obj.path.isEmpty || obj.name.isEmpty then none else some (fileItem obj)

/-- `DataAnalyzer::parseJsonContactsData`. -/
def parseJsonContactsData (jsonArray : List ContactEntry) : List DataItem :=
  jsonArray.filterMap fun obj =>
    if obj.id.isEmpty || obj.displayName.isEmpty then none
    else some { id := obj.id, displayName := obj.displayName, size := 1024 }

/-- `DataAnalyzer::parseJsonMessagesData`. -/
def parseJsonMessagesData (jsonArray : List MessageEntry) : List DataItem :=
  jsonArray.filterMap fun obj =>
    if obj.id.isEmpty || obj.body.isEmpty then none
    else some { id := obj.id, displayName := "Mensaje de " ++ obj.address,
                size := utf16Length obj.body + utf16Length obj.address }

/-- The category of an item of a media batch: its `data["mediaType"]`, or, without that
entry, the category of its extension. -/
def mediaTypeOf (item : DataItem) : String :=
  if mapContains item.data "mediaType" then mapValue item.data "mediaType" ""
  else
    let filePath := toLower item.filePath
    if endsWith filePath ".jpg" || endsWith filePath ".jpeg" || endsWith filePath ".png" ||
        endsWith filePath ".gif" then "photos"
    else if endsWith filePath ".mp4" || endsWith filePath ".3gp" || endsWith filePath ".mkv" ||
        endsWith filePath ".avi" then "videos"
    else if endsWith filePath ".mp3" || endsWith filePath ".m4a" || endsWith filePath ".ogg" ||
        endsWith filePath ".flac" then "music"
    else "other"

/-- The category of an item of a files batch: its `data["fileType"]`, or, without that
entry, the category of its extension. -/
def fileTypeOf (item : DataItem) : String :=
  if mapContains item.data "fileType" then mapValue item.data "fileType" ""
  else
    let filePath := toLower item.filePath
    if endsWith filePath ".pdf" || endsWith filePath ".doc" || endsWith filePath ".docx" ||
        endsWith filePath ".txt" then "documents"
    else if endsWith filePath ".apk" then "applications"
    else "other"

/-- The statement `itemsByType[type].append(item)` on a `QMap` kept in the order of its
keys (the order of code points, which is the order of `QString` for the names met). -/
def appendByType :
    List (String × List DataItem) → String → DataItem → List (String × List DataItem)
  | [], type, item => [(type, [item])]
  | (k, v) :: rest, type, item =>
    if type = k then (k, v ++ [item]) :: rest
    else if type < k then (type, [item]) :: (k, v) :: rest
    else (k, v) :: appendByType rest type item

/-- The loop "agrupar elementos por tipo". -/
def groupByType (typeOf : DataItem → String) (items : List DataItem) :
    List (String × List DataItem) :=
  items.foldl (fun m item => appendByType m (typeOf item) item) []

/-- The body of the loop over `typeItems` when the data set exists: an item whose
`filePath` is not among `existingPaths` is appended and its size added to the `qint64`
total. -/
def appendIfNew (existingPaths : List String) (dataSet : DataSet) (item : DataItem) : DataSet :=
  if !existingPaths.contains item.filePath then
    { dataSet with items := dataSet.items ++ [item],
                   totalSize := wrap64 (dataSet.totalSize + item.size) }
  else dataSet

namespace DataAnalyzer

/-- The body of the loop "actualizar conjuntos de datos por tipo" for one category. -/
def mergeTypeItems (a : DataAnalyzer) (deviceId type : String) (typeItems : List DataItem) :
    DataAnalyzer :=
  let a1 := a.ensureDevice deviceId
  if !mapContains (a1.deviceSets deviceId) type then
    a1.storeDataSet deviceId type
      { type := type, isSupported := true, items := typeItems,
        totalSize := addSizes 0 typeItems }
  else
    let existingPaths := (a1.storedSet deviceId type).items.map DataItem.filePath
    a1.storeDataSet deviceId type
      (typeItems.foldl (appendIfNew existingPaths) (a1.storedSet deviceId type))

/-- What `onBridgeClientMediaData` and `onBridgeClientFilesData` do with the grouped items
of a batch: the data sets are updated category by category, `dataSetUpdated` is emitted
for each category, and the progress `((index + 1) * 100) / count` is reported for the
category of the current task. The progress is computed in `int`: the sum and the product
wrap at 32 bits and the division truncates; a division by 0, or of -2^31 by -1, ends the
program before anything is reported. -/
def mergeBatch (a : DataAnalyzer) (index count : Int)
    (itemsByType : List (String × List DataItem)) : DataAnalyzer :=
  let deviceId := a.m_currentAnalysisTask.deviceId
  let a1 := itemsByType.foldl (fun x p => x.mergeTypeItems deviceId p.1 p.2) a
  let a2 := itemsByType.foldl (fun x p => x.emit (.dataSetUpdated deviceId p.1)) a1
  let product := wrap32 (wrap32 (index + 1) * 100)
  if count = 0 ∨ (product = -2147483648 ∧ count = -1) then { a2 with crashed := true }
  else a2.emit (.analysisProgress deviceId a.m_currentAnalysisTask.dataType
    (Int.tdiv product count))

/-- `DataAnalyzer::onBridgeClientMediaData`. -/
def onBridgeClientMediaData (a : DataAnalyzer) (index count : Int)
    (mediaData : List FileEntry) : DataAnalyzer :=
  if a.m_currentAnalysisTask.deviceId.isEmpty then a
  else a.mergeBatch index count (groupByType mediaTypeOf (parseJsonMediaData mediaData))

/-- `DataAnalyzer::onBridgeClientFilesData`. -/
def onBridgeClientFilesData (a : DataAnalyzer) (index count : Int)
    (filesData : List FileEntry) : DataAnalyzer :=
  if a.m_currentAnalysisTask.deviceId.isEmpty then a
  else a.mergeBatch index count (groupByType fileTypeOf (parseJsonFilesData filesData))

/-- What `onBridgeClientContactsData` and `onBridgeClientMessagesData` do with the parsed
items: the data set of the category is replaced. -/
def replaceSet (a : DataAnalyzer) (dataType : String) (items : List DataItem) : DataAnalyzer :=
  let deviceId := a.m_currentAnalysisTask.deviceId
  (((a.ensureDevice deviceId).storeDataSet deviceId dataType
    { type := dataType, isSupported := true, items := items, totalSize := addSizes 0 items }).emit
    (.dataSetUpdated deviceId dataType)).emit (.analysisProgress deviceId dataType 100)

/-- `DataAnalyzer::onBridgeClientContactsData`. -/
def onBridgeClientContactsData (a : DataAnalyzer) (contactsData : List ContactEntry) :
    DataAnalyzer :=
  if a.m_currentAnalysisTask.deviceId.isEmpty then a
  else a.replaceSet "contacts" (parseJsonContactsData contactsData)

/-- `DataAnalyzer::onBridgeClientMessagesData`. -/
def onBridgeClientMessagesData (a : DataAnalyzer) (messagesData : List MessageEntry) :
    DataAnalyzer :=
  if a.m_currentAnalysisTask.deviceId.isEmpty then a
  else a.replaceSet "messages" (parseJsonMessagesData messagesData)

/-- The statement `m_bridgeScanComplete[deviceId][dataType] = true`. -/
def markScanComplete (a : DataAnalyzer) (deviceId dataType : String) : DataAnalyzer :=
  let perType := mapInsert (mapValue a.m_bridgeScanComplete deviceId []) dataType true
  { a with m_bridgeScanComplete := mapInsert a.m_bridgeScanComplete deviceId perType }

/-- `DataAnalyzer::onBridgeClientScanCompleted` (the connections to the bridge client,
which it removes at the end, are not part of the analyzer model). -/
def onBridgeClientScanCompleted (a : DataAnalyzer) : DataAnalyzer :=
  if !a.m_currentAnalysisTask.deviceId.isEmpty && !a.m_currentAnalysisTask.dataType.isEmpty then
    (a.markScanComplete a.m_currentAnalysisTask.deviceId
      a.m_currentAnalysisTask.dataType).finalizeAnalysis a.m_currentAnalysisTask.deviceId
      a.m_currentAnalysisTask.dataType true ""
  else a

/-- `DataAnalyzer::onBridgeClientScanError`. -/
def onBridgeClientScanError (a : DataAnalyzer) (errorMessage : String) : DataAnalyzer :=
  if !a.m_currentAnalysisTask.deviceId.isEmpty && !a.m_currentAnalysisTask.dataType.isEmpty then
    a.finalizeAnalysis a.m_currentAnalysisTask.deviceId a.m_currentAnalysisTask.dataType false
      errorMessage
  else a

end DataAnalyzer

/-! ## Simulated iOS analyses and the direct photo listing (`dataanalyzer.cpp`, 224-246,
898-922, 996-1118) -/

/-- The item number `i` of `analyzeIOSContacts`. -/
def iosContact (i : Nat) : DataItem :=
  { id := toString i, displayName := "Contacto iOS " ++ toString i, size := 512 }

/-- The item number `i` of `analyzeIOSMessages`. -/
def iosMessage (i : Nat) : DataItem :=
  { id := toString i, displayName := "Mensaje iOS " ++ toString i, size := 256 }

/-- The item number `i` of `analyzeIOSPhotos`. -/
def iosPhoto (i : Nat) : DataItem :=
  { id := "IMG_" ++ toString i ++ ".JPG", displayName := "Foto iOS " ++ toString i,
    filePath := "/private/var/mobile/Media/DCIM/100APPLE/IMG_" ++ toString i ++ ".JPG",
    size := (1 + ((i : Int) % 3)) * 1024 * 1024 }

/-- The item number `i` of `analyzeIOSCalls`. -/
def iosCall (i : Nat) : DataItem :=
  { id := toString i, displayName := "Llamada iOS " ++ toString i, size := 128 }

namespace DataAnalyzer

/-- What each simulated iOS analysis does: the items numbered 1 to `n` are generated, their
sizes added up, and the data set stored and announced. -/
def storeSimulated (a : DataAnalyzer) (deviceId dataType : String) (n : Nat)
    (gen : Nat → DataItem) : DataAnalyzer :=
  (a.storeDataSet deviceId dataType
    { type := dataType, isSupported := true, items := (List.range' 1 n).map gen,
      totalSize := addSizes 0 ((List.range' 1 n).map gen) }).emit
    (.dataSetUpdated deviceId dataType)

/-- `DataAnalyzer::analyzeIOSContacts`. -/
def analyzeIOSContacts (a : DataAnalyzer) (deviceId : String) : DataAnalyzer :=
  a.storeSimulated deviceId "contacts" 20 iosContact

/-- `DataAnalyzer::analyzeIOSMessages`. -/
def analyzeIOSMessages (a : DataAnalyzer) (deviceId : String) : DataAnalyzer :=
  a.storeSimulated deviceId "messages" 15 iosMessage

/-- `DataAnalyzer::analyzeIOSPhotos`. -/
def analyzeIOSPhotos (a : DataAnalyzer) (deviceId : String) : DataAnalyzer :=
  a.storeSimulated deviceId "photos" 10 iosPhoto

/-- `DataAnalyzer::analyzeIOSCalls`. -/
def analyzeIOSCalls (a : DataAnalyzer) (deviceId : String) : DataAnalyzer :=
  a.storeSimulated deviceId "calls" 8 iosCall

/-- `DataAnalyzer::startIOSAnalysis`. -/
def startIOSAnalysis (a : DataAnalyzer) (task : AnalysisTask) : DataAnalyzer :=
  if task.dataType = "photos" then
    (a.analyzeIOSPhotos task.deviceId).finalizeAnalysis task.deviceId task.dataType true ""
  else if task.dataType = "contacts" then
    (a.analyzeIOSContacts task.deviceId).finalizeAnalysis task.deviceId task.dataType true ""
  else if task.dataType = "messages" then
    (a.analyzeIOSMessages task.deviceId).finalizeAnalysis task.deviceId task.dataType true ""
  else if task.dataType = "calls" then
    (a.analyzeIOSCalls task.deviceId).finalizeAnalysis task.deviceId task.dataType true ""
  else
    a.finalizeAnalysis task.deviceId task.dataType false
      "Tipo de dato no soportado para análisis iOS."

/-- Assigns `m_currentAnalysisTask.data`. -/
def setTaskData (a : DataAnalyzer) (data : List (String × String)) : DataAnalyzer :=
  { a with m_currentAnalysisTask := { a.m_currentAnalysisTask with data := data } }

/-- `DataAnalyzer::analyzeAndroidPhotosReal`: without an ADB path the task is finalised as
failed; otherwise the base path and the category are noted in the current task and the
listing process is started (its end is `onAnalysisProcessFinished`). -/
def analyzeAndroidPhotosReal (w : World) (a : DataAnalyzer) (deviceId : String) :
    DataAnalyzer :=
  if w.adbPath.isEmpty then
    a.finalizeAnalysis deviceId "photos" false
      "No se pudo construir el comando ADB (path no encontrado)."
  else
    a.setTaskData (mapInsert (mapInsert a.m_currentAnalysisTask.data "basePath"
      "/sdcard/DCIM/Camera/") "type" "photos")

end DataAnalyzer

/-- What can happen to the analyzer: the calls and slots that create or change data sets. -/
inductive AnalyzerEvent where
  /-- A call of `analyzeDevice` by the consumer. -/
  | analyzeDevice (w : World) (deviceId : String) (quickScan : Bool)
  /-- The start of the direct photo listing. -/
  | androidPhotos (w : World) (deviceId : String)
  /-- The end of the analysis process. -/
  | processFinished (ps : ContentParsers) (exitCode : Int) (normalExit : Bool)
      (stdOut stdErr : String)
  /-- A batch of media data from the bridge client. -/
  | mediaData (index count : Int) (mediaData : List FileEntry)
  /-- A batch of files data from the bridge client. -/
  | filesData (index count : Int) (filesData : List FileEntry)
  /-- The contacts from the bridge client. -/
  | contactsData (contactsData : List ContactEntry)
  /-- The messages from the bridge client. -/
  | messagesData (messagesData : List MessageEntry)
  /-- The bridge client reports the end of its scan. -/
  | scanCompleted
  /-- The bridge client reports an error of its scan. -/
  | scanError (errorMessage : String)
  /-- A simulated iOS analysis of a task. -/
  | iosAnalysis (task : AnalysisTask)
  /-- A call of `finalizeAnalysis` from any other place. -/
  | finalize (deviceId dataType : String) (success : Bool) (errorMsg : String)

/-- What an event does to an analyzer whose program runs. -/
def DataAnalyzer.deliver (a : DataAnalyzer) : AnalyzerEvent → DataAnalyzer
  | .analyzeDevice w deviceId quickScan => (analyzeDevice w a deviceId quickScan).2
  | .androidPhotos w deviceId => a.analyzeAndroidPhotosReal w deviceId
  | .processFinished ps exitCode normalExit stdOut stdErr =>
    a.onAnalysisProcessFinished ps exitCode normalExit stdOut stdErr
  | .mediaData index count mediaData => a.onBridgeClientMediaData index count mediaData
  | .filesData index count filesData => a.onBridgeClientFilesData index count filesData
  | .contactsData contactsData => a.onBridgeClientContactsData contactsData
  | .messagesData messagesData => a.onBridgeClientMessagesData messagesData
  | .scanCompleted => a.onBridgeClientScanCompleted
  | .scanError errorMessage => a.onBridgeClientScanError errorMessage
  | .iosAnalysis task => a.startIOSAnalysis task
  | .finalize deviceId dataType success errorMsg =>
    a.finalizeAnalysis deviceId dataType success errorMsg

/-- The analyzer after one event: a program that has ended handles nothing. -/
def DataAnalyzer.handle (a : DataAnalyzer) (e : AnalyzerEvent) : DataAnalyzer :=
  if a.crashed then a else a.deliver e

/-- The analyzer after a sequence of events. -/
def DataAnalyzer.handleAll (a : DataAnalyzer) (events : List AnalyzerEvent) : DataAnalyzer :=
  events.foldl DataAnalyzer.handle a

/-- The arguments of one call of `finalizeAnalysis`. -/
structure Finalisation where
  deviceId : String
  dataType : String
  success : Bool := true
  errorMsg : String := ""
deriving DecidableEq, Repr

/-- The analyzer after a sequence of calls of `finalizeAnalysis`. -/
def DataAnalyzer.finalizeAll (a : DataAnalyzer) (calls : List Finalisation) : DataAnalyzer :=
  calls.foldl (fun x f => x.finalizeAnalysis f.deviceId f.dataType f.success f.errorMsg) a

/-- The pending-task counter of a device, if it has one. -/
def DataAnalyzer.pendingCount (a : DataAnalyzer) (deviceId : String) : Option Int :=
  if mapContains a.m_pendingTasksPerDevice deviceId then
    some (mapValue a.m_pendingTasksPerDevice deviceId 0)
  else none

/-- How many times `analysisComplete deviceId` occurs in a trace. -/
def completions (deviceId : String) (emitted : List AnalyzerSignal) : Nat :=
  emitted.count (.analysisComplete deviceId)

/-- How many of the calls finalise a task of the device. -/
def finalisationsOf (deviceId : String) (calls : List Finalisation) : Nat :=
  (calls.filter (fun f => f.deviceId = deviceId)).length

/-- The number of tasks that a call of `analyzeDevice` appends to the queue. -/
def tasksQueued (w : World) (a : DataAnalyzer) (deviceId : String) (quickScan : Bool) : Nat :=
  (analyzeDevice w a deviceId quickScan).2.m_analysisQueue.length - a.m_analysisQueue.length

/-- A registry with the one authorized iOS device "I1". -/
def oneIPhone : World :=
  { connectedDevices := [("I1", { id := "I1", type := "ios", authorized := true })] }

/-- The finalisations of the four tasks of "I1", that of the messages a failure, with a
finalisation for another device in between. -/
def fourFinalisations : List Finalisation :=
  [{ deviceId := "I1", dataType := "photos" }, { deviceId := "I1", dataType := "contacts" },
   { deviceId := "A1", dataType := "photos" },
   { deviceId := "I1", dataType := "messages", success := false, errorMsg := "sin acceso" },
   { deviceId := "I1", dataType := "calls" }]

/-! ## Scenarios of the analyzer -/

/-- The analyzer in the middle of a scan of the photos of "A1" over the bridge client,
eight tasks of the device still pending. -/
def scanningPhotos : DataAnalyzer :=
  { m_currentAnalysisTask := { deviceId := "A1", dataType := "photos", useBridgeClient := true },
    m_pendingTasksPerDevice := [("A1", 8)] }

/-- The JSON element of the picture "/sdcard/DCIM/a.jpg" of 10 bytes. -/
def pictureA : FileEntry :=
  { path := "/sdcard/DCIM/a.jpg", name := "a.jpg", size := 10, type := "IMAGE",
    mimeType := "image/jpeg" }

/-- The JSON element of the picture "/sdcard/DCIM/b.jpg" of 20 bytes. -/
def pictureB : FileEntry :=
  { path := "/sdcard/DCIM/b.jpg", name := "b.jpg", size := 20, type := "IMAGE",
    mimeType := "image/jpeg" }

/-- The JSON element of a picture "/sdcard/DCIM/x.jpg" of 2^63 - 1 bytes. -/
def hugePictureA : FileEntry :=
  { path := "/sdcard/DCIM/x.jpg", name := "x.jpg", size := 9223372036854775807,
    type := "IMAGE", mimeType := "image/jpeg" }

/-- The JSON element of a picture "/sdcard/DCIM/y.jpg" of 2^63 - 1 bytes. -/
def hugePictureB : FileEntry :=
  { path := "/sdcard/DCIM/y.jpg", name := "y.jpg", size := 9223372036854775807,
    type := "IMAGE", mimeType := "image/jpeg" }

/-- The file paths of the items of a data set, in order. -/
def DataSet.filePaths (dataSet : DataSet) : List String := dataSet.items.map DataItem.filePath

/-- A registry with the one authorized Android device "A1", without bridge client. -/
def oneAndroid : World :=
  { connectedDevices := [("A1", { id := "A1", type := "android", authorized := true })] }

/-- A listing of a camera directory as `ls -l` prints it, the columns padded and every
line ended by a carriage return and a line feed: the header, a photo of 3133747 bytes, the
directory "thumbs", a symbolic link, a photo with a capital extension of 2048000 bytes,
and a photo of 512 bytes. -/
def cameraListing : List LsLine :=
  [.other "total 5080\r".data,
   .entry { permissions := "rw-rw----".data, links := "1".data, owner := "u0_a171".data,
            group := "media_rw".data, size := "3133747".data, year := "2024".data,
            month := "03".data, day := "29".data, hour := "10".data, minute := "00".data,
            name := "IMG_20240329_100000.jpg".data, trailing := "\r".data },
   .entry { directory := true, permissions := "rwxrwx--x".data, links := "2".data,
            owner := "u0_a171".data, group := "media_rw".data, size := "4096".data,
            year := "2024".data, month := "03".data, day := "28".data, hour := "09".data,
            minute := "15".data, name := "thumbs".data, gap4 := "    ".data,
            trailing := "\r".data },
   .other "lrwxrwxrwx 1 root    root           11 2024-03-28 09:15 last -> pic.png\r".data,
   .entry { permissions := "rw-rw----".data, links := "1".data, owner := "u0_a171".data,
            group := "media_rw".data, size := "2048000".data, year := "2024".data,
            month := "04".data, day := "01".data, hour := "18".data, minute := "30".data,
            name := "IMG_2.JPG".data, trailing := "\r".data },
   .entry { permissions := "rw-rw----".data, links := "1".data, owner := "root".data,
            group := "media_rw".data, size := "512".data, year := "2023".data,
            month := "12".data, day := "31".data, hour := "23".data, minute := "59".data,
            name := "pic.png".data, gap2 := " \t".data, gap4 := "        ".data,
            trailing := "\r".data }]

/-- A listing of three photos and one directory: the size field of the first photo is
2^63, that of the other two 2^63 - 1. -/
def hugeListing : List LsLine :=
  [.entry { permissions := "rw-rw----".data, links := "1".data, owner := "root".data,
            group := "media_rw".data, size := "9223372036854775808".data, year := "2024".data,
            month := "03".data, day := "29".data, hour := "10".data, minute := "00".data,
            name := "a.jpg".data },
   .entry { directory := true, permissions := "rwxrwx--x".data, links := "2".data,
            owner := "root".data, group := "media_rw".data, size := "4096".data,
            year := "2024".data, month := "03".data, day := "28".data, hour := "09".data,
            minute := "15".data, name := "thumbs".data },
   .entry { permissions := "rw-rw----".data, links := "1".data, owner := "root".data,
            group := "media_rw".data, size := "9223372036854775807".data, year := "2024".data,
            month := "04".data, day := "01".data, hour := "18".data, minute := "30".data,
            name := "b.jpg".data },
   .entry { permissions := "rw-rw----".data, links := "1".data, owner := "root".data,
            group := "media_rw".data, size := "9223372036854775807".data, year := "2023".data,
            month := "12".data, day := "31".data, hour := "23".data, minute := "59".data,
            name := "c.jpg".data }]

/-- The analyzer while the process that lists the photos of "A1" runs. -/
def listingPhotos : DataAnalyzer :=
  DataAnalyzer.analyzeAndroidPhotosReal oneAndroid
    { m_currentAnalysisTask := { deviceId := "A1", dataType := "photos" },
      m_pendingTasksPerDevice := [("A1", 5)], m_dataSets := [("A1", [])] } "A1"

/-- Parsers that find nothing, used where the other categories play no role. -/
def noContent : ContentParsers :=
  { parseAndroidContacts := fun _ => [], parseAndroidMessages := fun _ => [],
    parseAndroidCalls := fun _ => [] }

/-! ## The transfer engine (`datatransfermanager.cpp`) -/

/-- Record `TransferTask` of `datatransfermanager.h`; the default value is the
value-initialised `TransferTask()`. -/
structure TransferTask where
  sourceId : String := ""
  destId : String := ""
  dataType : String := ""
  clearDestination : Bool := false
  itemsToTransfer : List DataItem := []
  totalItems : Int := 0
  processedItems : Int := 0
  totalSize : Int := 0
  processedSize : Int := 0
  currentItemIndex : Int := 0
  currentItemName : String := ""
  status : String := ""
  tempFilePath : String := ""
  errorMessage : String := ""
  useBridgeClient : Bool := false
deriving DecidableEq, Repr

/-- Signals of `DataTransferManager`. -/
inductive TransferSignal where
  | transferStarted (totalSize : Int)
  | transferProgress (overallProgress : Int)
  | transferTaskStarted (dataType : String) (totalItems : Int)
  | transferTaskProgress (dataType : String) (taskProgressPercent processedItems totalItems
      processedSize totalSize : Int) (currentItemName : String)
  | transferTaskCompleted (dataType : String) (successCount : Int)
  | transferTaskFailed (dataType : String) (errorMessage : String)
  | transferCompleted
  | transferCancelled
  | transferFailed (errorMessage : String)
  | transferFinished (success : Bool) (message : String)
deriving DecidableEq, Repr

/-- The calls the engine defers with `QTimer::singleShot`: the two member functions
and the bodies of the two 100 ms lambdas of `startContactsTransfer` and
`startMessagesTransfer`. -/
inductive Deferred where
  | startNextTransferTask
  | processNextTransferStep
  | contactsItem
  | messagesItem
deriving DecidableEq, Repr

/-- The signals of an `AdbSocketClient` that the engine connects to its slots. -/
inductive BridgeSignal where
  | fileReady
  | fileSaved
  | fileTransferProgress
  | errorOccurred
deriving DecidableEq, Repr

/-- Member variables of `DataTransferManager`, together with: whether each of the two
`QProcess` members is running, the signal-slot connections currently made from bridge
clients (one entry per `connect`, so a connection made twice is listed twice), the calls
that were deferred and have not yet run, the signals emitted so far, whether
`m_transferMutex` is held (`locked`), and whether the thread of the engine is blocked for
ever because it asked for the mutex while holding it (`hung`). -/
structure DataTransferManager where
  m_isTransferring : Bool := false
  m_dataTypeQueue : List String := []
  m_taskStates : List (String × TransferTask) := []
  m_currentTask : TransferTask := {}
  m_tempDirOwner : String := ""
  m_totalTransferSize : Int := 0
  m_totalTransferredSizePreviousTasks : Int := 0
  pullRunning : Bool := false
  pushRunning : Bool := false
  connections : List (String × BridgeSignal) := []
  pending : List Deferred := []
  emitted : List TransferSignal := []
  locked : Bool := false
  hung : Bool := false
deriving DecidableEq, Repr

/-- `qBound(lo, v, hi)`. -/
def qBound (lo v hi : Int) : Int := max lo (min hi v)

/-- `QString::startsWith`. -/
def startsWith (s pre : String) : Bool := pre.data.isPrefixOf s.data

/-- The replacement made by `getTempPathForItem`: each character that is invalid in a
file name (backslash, slash, colon, asterisk, question mark, double quote, less-than,
greater-than, vertical bar; given here by their code points) becomes an underscore. -/
def safeName (itemName : String) : String :=
  String.mk (itemName.data.map
    (fun c => if c.toNat ∈ [92, 47, 58, 42, 63, 34, 60, 62, 124] then Char.ofNat 95 else c))

/-- The element at a C++ `int` index of a `QList`. -/
def itemAt (items : List DataItem) (i : Int) : DataItem := items.getD i.toNat {}

namespace DataTransferManager

/-- `m_transferMutex.lock()`, as made by `QMutexLocker locker(&m_transferMutex)`. The
mutex is a plain `QMutex`, not a recursive one (`datatransfermanager.h`, 343): a thread
that asks for it while holding it waits for itself and never goes on. -/
def lock (s : DataTransferManager) : DataTransferManager :=
  if s.locked then { s with hung := true } else { s with locked := true }

/-- `locker.unlock()`, and the release made by the destructor of the locker when the
function returns. -/
def unlock (s : DataTransferManager) : DataTransferManager :=
  { s with locked := false }

/-- The statements `f` that follow a call: they run when the call has returned, and not
at all when the thread is blocked in it. -/
def andThen (s : DataTransferManager) (f : DataTransferManager → DataTransferManager) :
    DataTransferManager :=
  if s.hung then s else f s

/-- The value `b` returned by a function whose last call has left the engine in `s`; a
function that does not return is given the flag `false`. -/
def returning (b : Bool) (s : DataTransferManager) : Bool × DataTransferManager :=
  (b && !s.hung, s)

/-- Appends one emitted signal to the trace. -/
def emit (s : DataTransferManager) (sig : TransferSignal) : DataTransferManager :=
  { s with emitted := s.emitted ++ [sig] }

/-- `QTimer::singleShot(.., this, ..)`: records a deferred call. -/
def defer (s : DataTransferManager) (d : Deferred) : DataTransferManager :=
  { s with pending := s.pending ++ [d] }

/-- Assigns `m_currentTask`. -/
def setTask (s : DataTransferManager) (t : TransferTask) : DataTransferManager :=
  { s with m_currentTask := t }

/-- Assigns `m_currentTask.status`. -/
def setStatus (s : DataTransferManager) (status : String) : DataTransferManager :=
  s.setTask { s.m_currentTask with status := status }

/-- Assigns `m_currentTask.errorMessage`. -/
def setErrorMessage (s : DataTransferManager) (msg : String) : DataTransferManager :=
  s.setTask { s.m_currentTask with errorMessage := msg }

/-- Assigns `m_currentTask.currentItemName`. -/
def setItemName (s : DataTransferManager) (name : String) : DataTransferManager :=
  s.setTask { s.m_currentTask with currentItemName := name }

/-- Assigns `m_currentTask.tempFilePath`. -/
def setTempFilePath (s : DataTransferManager) (path : String) : DataTransferManager :=
  s.setTask { s.m_currentTask with tempFilePath := path }

/-- Assigns `m_currentTask.processedSize`. -/
def setProcessedSize (s : DataTransferManager) (n : Int) : DataTransferManager :=
  s.setTask { s.m_currentTask with processedSize := n }

/-- The statement `m_currentTask.currentItemIndex++`. -/
def nextIndex (s : DataTransferManager) : DataTransferManager :=
  s.setTask { s.m_currentTask with currentItemIndex := s.m_currentTask.currentItemIndex + 1 }

/-- The statement `m_currentTask.processedItems++`. -/
def countItem (s : DataTransferManager) : DataTransferManager :=
  s.setTask { s.m_currentTask with processedItems := s.m_currentTask.processedItems + 1 }

/-- The statement `m_currentTask.processedSize += n` on a `qint64`. -/
def creditSize (s : DataTransferManager) (n : Int) : DataTransferManager :=
  s.setTask { s.m_currentTask with processedSize := wrap64 (s.m_currentTask.processedSize + n) }

/-- The statement `m_totalTransferredSizePreviousTasks += n` on a `qint64`. -/
def addPreviousTasks (s : DataTransferManager) (n : Int) : DataTransferManager :=
  { s with m_totalTransferredSizePreviousTasks :=
      wrap64 (s.m_totalTransferredSizePreviousTasks + n) }

/-- Records that `m_pullProcess` was started (`true`) or has ended. -/
def setPullRunning (s : DataTransferManager) (b : Bool) : DataTransferManager :=
  { s with pullRunning := b }

/-- Records that `m_pushProcess` was started (`true`) or has ended. -/
def setPushRunning (s : DataTransferManager) (b : Bool) : DataTransferManager :=
  { s with pushRunning := b }

/-- The `connect` calls of one `connectToBridgeClient`. -/
def addConnections (s : DataTransferManager) (cs : List (String × BridgeSignal)) :
    DataTransferManager :=
  { s with connections := s.connections ++ cs }

/-- The statement `m_taskStates[m_currentTask.dataType] = m_currentTask`, made when the
map has the key. -/
def storeCurrentTask (s : DataTransferManager) : DataTransferManager :=
  if mapContains s.m_taskStates s.m_currentTask.dataType then
    { s with m_taskStates := mapInsert s.m_taskStates s.m_currentTask.dataType s.m_currentTask }
  else s

/-- Whether `m_currentTask.currentItemIndex < m_currentTask.itemsToTransfer.size()`. -/
def indexInRange (s : DataTransferManager) : Bool :=
  decide (s.m_currentTask.currentItemIndex < (s.m_currentTask.itemsToTransfer.length : Int))

/-- The item `m_currentTask.itemsToTransfer[m_currentTask.currentItemIndex]`. -/
def currentItem (s : DataTransferManager) : DataItem :=
  itemAt s.m_currentTask.itemsToTransfer s.m_currentTask.currentItemIndex

/-- The value `DataTransferManager::isTransferInProgress` returns to a caller that does
not hold the mutex. -/
def isTransferInProgress (s : DataTransferManager) : Bool := s.m_isTransferring

/-- The value `DataTransferManager::getOverallProgress` returns once it has taken the
mutex. -/
def getOverallProgress (s : DataTransferManager) : Int :=
  if s.m_totalTransferSize ≤ 0 then
    if s.m_isTransferring ∧ s.m_dataTypeQueue ≠ [] then 0 else 100
  else
    let currentTotalProcessed :=
      wrap64 (s.m_totalTransferredSizePreviousTasks + s.m_currentTask.processedSize)
    qBound 0 (percentOf currentTotalProcessed s.m_totalTransferSize) 100

/-- The value `DataTransferManager::getActiveTasksInfo` returns to a caller that does not
hold the mutex (each task without its item list). -/
def getActiveTasksInfo (s : DataTransferManager) : List TransferTask :=
  (if s.m_isTransferring ∧ s.m_currentTask.dataType ≠ "" then
      [{ s.m_currentTask with itemsToTransfer := [] }] else []) ++
  (s.m_dataTypeQueue.filter (fun t => mapContains s.m_taskStates t)).map
    (fun t => { mapValue s.m_taskStates t {} with itemsToTransfer := [] })

/-- `DataTransferManager::emitOverallProgress`: `getOverallProgress` takes the mutex for
the time of its call, then the value is emitted. -/
def emitOverallProgress (s : DataTransferManager) : DataTransferManager :=
  s.lock.andThen fun s0 => s0.unlock.emit (.transferProgress s0.getOverallProgress)

/-- The value that `emitTaskProgress` computes for its local `taskProgressPercent` (lines
881-889). -/
def taskProgressPercent (t : TransferTask) : Int :=
  qBound 0
    (if t.totalSize > 0 then percentOf t.processedSize t.totalSize
     else if t.totalItems > 0 then percentOf t.processedItems t.totalItems
     else if t.status = "completed" ∨ t.status = "failed" then 100 else 0) 100

/-- `DataTransferManager::emitTaskProgress`. -/
def emitTaskProgress (s : DataTransferManager) : DataTransferManager :=
  s.lock.andThen fun s0 =>
    if !s0.m_isTransferring || s0.m_currentTask.dataType.isEmpty then s0.unlock
    else
      let t := s0.m_currentTask
      s0.unlock.emit (.transferTaskProgress t.dataType (taskProgressPercent t)
        t.processedItems t.totalItems t.processedSize t.totalSize t.currentItemName)

/-- `DataTransferManager::cleanupTempDirectory` (the directory itself lives outside
the model; the member naming it is cleared). -/
def cleanupTempDirectory (s : DataTransferManager) : DataTransferManager :=
  { s with m_tempDirOwner := "" }

/-- `DataTransferManager::prepareTempDirectory`. -/
def prepareTempDirectory (w : World) (s : DataTransferManager) : Bool × DataTransferManager :=
  let s1 := s.cleanupTempDirectory
  if w.tempLocation.isEmpty then (false, s1)
  else if !w.mkpathOk then (false, s1)
  else (true, { s1 with m_tempDirOwner :=
    w.tempLocation ++ "/MobileDataBridge_Transfer_" ++ w.timestamp })

/-- `DataTransferManager::getTempPathForItem`. -/
def getTempPathForItem (s : DataTransferManager) (itemName : String) : String :=
  if s.m_tempDirOwner.isEmpty then ""
  else s.m_tempDirOwner ++ "/" ++ safeName itemName

/-- `DataTransferManager::disconnectBridgeClientSignals`: when the device has a bridge
client, every connection from it to the engine is removed. -/
def disconnectBridgeClientSignals (w : World) (s : DataTransferManager) (deviceId : String) :
    DataTransferManager :=
  if mapContains w.bridgeClients deviceId then
    { s with connections := s.connections.filter (fun c => c.1 != deviceId) }
  else s

/-- `DataTransferManager::connectToBridgeClient`. -/
def connectToBridgeClient (w : World) (s : DataTransferManager) (deviceId role : String) :
    Bool × DataTransferManager :=
  if !isBridgeClientConnected w deviceId then (false, s)
  else if !setRole w deviceId then (false, s)
  else if role = "source" then
    (true, s.addConnections
      [(deviceId, .fileReady), (deviceId, .fileTransferProgress), (deviceId, .errorOccurred)])
  else if role = "destination" then
    (true, s.addConnections [(deviceId, .fileSaved), (deviceId, .errorOccurred)])
  else (true, s)

/-- The disconnection made by `finalizeCurrentTask` "si se usó" the bridge client. -/
def disconnectCurrentTask (w : World) (s : DataTransferManager) : DataTransferManager :=
  if s.m_currentTask.useBridgeClient then
    disconnectBridgeClientSignals w
      (disconnectBridgeClientSignals w s s.m_currentTask.sourceId) s.m_currentTask.destId
  else s

/-- The signals and the accounting of `finalizeCurrentTask` for a successful task. -/
def reportTaskCompleted (s : DataTransferManager) : DataTransferManager :=
  ((s.emit (.transferTaskProgress s.m_currentTask.dataType 100 s.m_currentTask.totalItems
      s.m_currentTask.totalItems s.m_currentTask.totalSize s.m_currentTask.totalSize "")).emit
    (.transferTaskCompleted s.m_currentTask.dataType s.m_currentTask.processedItems)
    ).addPreviousTasks s.m_currentTask.totalSize

/-- The signal and the accounting of `finalizeCurrentTask` for a failed task. -/
def reportTaskFailed (s : DataTransferManager) (errorMsg : String) : DataTransferManager :=
  (s.emit (.transferTaskFailed s.m_currentTask.dataType errorMsg)).addPreviousTasks
    s.m_currentTask.processedSize

/-- The statements of `finalizeCurrentTask` between the two early returns and the call of
`emitOverallProgress` (lines 833-855): the task is marked and stored, the bridge clients
are disconnected, the outcome is announced and accounted for. -/
def closeCurrentTask (w : World) (s : DataTransferManager) (success : Bool)
    (errorMsg : String) : DataTransferManager :=
  let s1 := ((s.setStatus (if success then "completed" else "failed")).setErrorMessage
    errorMsg).storeCurrentTask
  let s2 := disconnectCurrentTask w s1
  if success then s2.reportTaskCompleted else s2.reportTaskFailed errorMsg

/-- `DataTransferManager::finalizeCurrentTask`. The mutex taken at line 821 is still held
when `emitOverallProgress` is called at line 857, and is released at line 859 only. -/
def finalizeCurrentTask (w : World) (s : DataTransferManager) (success : Bool)
    (errorMsg : String) : DataTransferManager :=
  s.lock.andThen fun s0 =>
    if !s0.m_isTransferring && !success && s0.m_currentTask.status = "failed" then s0.unlock
    else if s0.m_currentTask.dataType.isEmpty then s0.unlock.defer .startNextTransferTask
    else
      (closeCurrentTask w s0 success errorMsg).emitOverallProgress.andThen fun s1 =>
        s1.unlock.defer .startNextTransferTask

/-- `DataTransferManager::transferAndroidToAndroid`: the flag and the task, whose
`errorMessage` the function sets on failure. -/
def transferAndroidToAndroid (w : World) (task : TransferTask) : Bool × TransferTask :=
  if task.dataType = "photos" ∨ task.dataType = "videos" ∨ task.dataType = "music" ∨
      task.dataType = "documents" then
    if task.useBridgeClient then (true, task)
    else if w.adbPath.isEmpty then (false, { task with errorMessage := "Ruta ADB no encontrada." })
    else if !w.mkdirFinished then
      (false, { task with errorMessage := "Timeout al crear directorio destino." })
    else if w.mkdirExitCode ≠ 0 then
      (false, { task with errorMessage := "Fallo al crear directorio destino." })
    else (true, task)
  else if task.dataType = "contacts" ∨ task.dataType = "messages" ∨ task.dataType = "calls" then
    (true, task)
  else
    (false, { task with errorMessage :=
      "Tipo '" ++ task.dataType ++ "' no implementado para Android->Android." })

/-- `DataTransferManager::transferAndroidToIOS`. -/
def transferAndroidToIOS (task : TransferTask) : Bool × TransferTask :=
  (false, { task with errorMessage :=
    "Transferencia Android->iOS aún no implementada completamente." })

/-- `DataTransferManager::transferIOSToAndroid`. -/
def transferIOSToAndroid (task : TransferTask) : Bool × TransferTask :=
  (false, { task with errorMessage :=
    "Transferencia iOS->Android aún no implementada completamente." })

/-- `DataTransferManager::transferIOSToIOS`. -/
def transferIOSToIOS (task : TransferTask) : Bool × TransferTask :=
  (false, { task with errorMessage :=
    "Transferencia iOS->iOS aún no implementada completamente." })

/-- `DataTransferManager::startPhotoPull`. In the branch for an item without source path
`emitTaskProgress` is called (line 517) before the mutex is released (line 518). -/
def startPhotoPull (w : World) (s : DataTransferManager) : DataTransferManager :=
  s.lock.andThen fun s0 =>
    if !s0.m_isTransferring then s0.unlock
    else if !s0.indexInRange then
      finalizeCurrentTask w s0.unlock false "Error interno: Índice fuera de límites (pull)."
    else
      let item := s0.currentItem
      let s1 := s0.setItemName item.displayName
      if item.filePath.isEmpty then
        s1.countItem.emitTaskProgress.andThen fun x => x.unlock.defer .processNextTransferStep
      else
        let s2 := s1.setTempFilePath (s1.getTempPathForItem item.displayName)
        if w.adbPath.isEmpty then
          finalizeCurrentTask w s2.unlock false "Error: Ruta ADB no encontrada (pull)."
        else
          (s2.setStatus "pulling").unlock.emitTaskProgress.andThen fun x =>
            x.setPullRunning true

/-- `DataTransferManager::startPhotoPush`. In the branch for a missing scratch file
`emitTaskProgress` is called (line 595) before the mutex is released (line 597). -/
def startPhotoPush (w : World) (s : DataTransferManager) : DataTransferManager :=
  s.lock.andThen fun s0 =>
    if !s0.m_isTransferring then s0.unlock
    else if !s0.indexInRange then
      finalizeCurrentTask w s0.unlock false "Error interno: Índice fuera de límites (push)."
    else if s0.m_currentTask.tempFilePath.isEmpty || !w.tempFileExists then
      s0.countItem.emitTaskProgress.andThen fun x => x.unlock.defer .processNextTransferStep
    else if w.adbPath.isEmpty then
      finalizeCurrentTask w s0.unlock false "Error: Ruta ADB no encontrada (push)."
    else
      ((s0.setStatus "pushing").unlock).setPushRunning true

/-- `DataTransferManager::onPullProcessFinished`. In the failure branch `emitTaskProgress`
is called (line 562) before the mutex is released (line 564). -/
def onPullProcessFinished (w : World) (s : DataTransferManager) (exitCode : Int)
    (normalExit : Bool) : DataTransferManager :=
  s.lock.andThen fun s0 =>
    if !s0.m_isTransferring then s0.unlock
    else if exitCode ≠ 0 ∨ normalExit = false then
      s0.countItem.emitTaskProgress.andThen fun x => x.unlock.defer .processNextTransferStep
    else startPhotoPush w s0.unlock

/-- `DataTransferManager::onPushProcessFinished`. `emitTaskProgress` and
`emitOverallProgress` are called (lines 675-676) before the mutex is released (line
678). -/
def onPushProcessFinished (s : DataTransferManager) (exitCode : Int) (normalExit : Bool) :
    DataTransferManager :=
  s.lock.andThen fun s0 =>
    if !s0.m_isTransferring then s0.unlock
    else if !s0.indexInRange then s0.unlock.defer .processNextTransferStep
    else
      let s1 := if exitCode ≠ 0 ∨ normalExit = false then s0 else s0.creditSize s0.currentItem.size
      (s1.countItem.emitTaskProgress.andThen emitOverallProgress).andThen fun x =>
        x.unlock.defer .processNextTransferStep

/-- `DataTransferManager::startPhotoPullViaBridge`. -/
def startPhotoPullViaBridge (w : World) (s : DataTransferManager) (_item : DataItem) :
    Bool × DataTransferManager :=
  if s.lock.hung then (false, s.lock)
  else
    let s0 := s.lock
    if !s0.m_isTransferring then (false, s0.unlock)
    else if !isBridgeClientConnected w s0.m_currentTask.sourceId ||
        !isBridgeClientConnected w s0.m_currentTask.destId then (false, s0.unlock)
    else
      let c1 := connectToBridgeClient w s0 s0.m_currentTask.sourceId "source"
      if !c1.1 then (false, c1.2.unlock)
      else
        let c2 := connectToBridgeClient w c1.2 s0.m_currentTask.destId "destination"
        if !c2.1 then (false, c2.2.unlock)
        else if !requestFile w s0.m_currentTask.sourceId then
          (false, (disconnectBridgeClientSignals w
            (disconnectBridgeClientSignals w c2.2 s0.m_currentTask.sourceId)
            s0.m_currentTask.destId).unlock)
        else
          returning true ((c2.2.setStatus "transferring_via_bridge").unlock.emitTaskProgress)

/-- `DataTransferManager::startContactsTransfer`, called on `m_currentTask`. -/
def startContactsTransfer (w : World) (s : DataTransferManager) : Bool × DataTransferManager :=
  if s.lock.hung then (false, s.lock)
  else if !s.lock.indexInRange then
    (false, finalizeCurrentTask w s.lock.unlock false
      "Error en transferencia de contactos: índice inválido")
  else (true, (s.lock.defer .contactsItem).unlock)

/-- `DataTransferManager::startMessagesTransfer`, called on `m_currentTask`. -/
def startMessagesTransfer (w : World) (s : DataTransferManager) : Bool × DataTransferManager :=
  if s.lock.hung then (false, s.lock)
  else if !s.lock.indexInRange then
    (false, finalizeCurrentTask w s.lock.unlock false
      "Error en transferencia de mensajes: índice inválido")
  else (true, (s.lock.defer .messagesItem).unlock)

/-- The body of the lambda that `startContactsTransfer` and `startMessagesTransfer`
run 100 ms later: the simulated transfer of the current item. -/
def simulatedItem (s : DataTransferManager) : DataTransferManager :=
  s.lock.andThen fun s0 =>
    if !s0.m_isTransferring then s0.unlock
    else if s0.indexInRange then
      (((s0.countItem.creditSize s0.currentItem.size).unlock.emitTaskProgress.andThen
        emitOverallProgress).andThen fun x => x.defer .processNextTransferStep)
    else s0.unlock

/-- The dispatch at the end of `processNextTransferStep` (lines 378-400), made after the
mutex was released: how the current item is transferred. -/
def transferCurrentItem (w : World) (s : DataTransferManager) (item : DataItem) :
    DataTransferManager :=
  let dataType := s.m_currentTask.dataType
  if dataType = "photos" ∨ dataType = "videos" ∨ dataType = "music" ∨
      dataType = "documents" then
    if s.m_currentTask.useBridgeClient then
      let r := startPhotoPullViaBridge w s item
      if !r.1 then r.2.andThen (startPhotoPull w) else r.2
    else startPhotoPull w s
  else if dataType = "contacts" then (startContactsTransfer w s).2
  else if dataType = "messages" then (startMessagesTransfer w s).2
  else finalizeCurrentTask w s false
    ("Tipo de datos no soportado internamente para transferencia: " ++ dataType)

/-- `DataTransferManager::processNextTransferStep`. -/
def processNextTransferStep (w : World) (s : DataTransferManager) : DataTransferManager :=
  s.lock.andThen fun s0 =>
    if !s0.m_isTransferring then s0.unlock
    else
      let s1 := s0.nextIndex
      if s1.m_currentTask.currentItemIndex ≥ s1.m_currentTask.totalItems then
        finalizeCurrentTask w s1.unlock true ""
      else if s1.m_currentTask.itemsToTransfer.isEmpty || !s1.indexInRange then
        finalizeCurrentTask w s1.unlock false
          "Error interno: Índice fuera de límites o lista vacía."
      else
        transferCurrentItem w (s1.setItemName s1.currentItem.displayName).unlock s1.currentItem

/-- The platform dispatch of `startNextTransferTask`: whether the task could be
started, and the task with the error message set by the branch taken. -/
def startPlatformTask (w : World) (task : TransferTask) : Bool × TransferTask :=
  let sourceType := (getDeviceInfo w task.sourceId).type
  let destType := (getDeviceInfo w task.destId).type
  if sourceType = "android" ∧ destType = "android" then transferAndroidToAndroid w task
  else if sourceType = "android" ∧ destType = "ios" then transferAndroidToIOS task
  else if sourceType = "ios" ∧ destType = "android" then transferIOSToAndroid task
  else if sourceType = "ios" ∧ destType = "ios" then transferIOSToIOS task
  else (false, { task with errorMessage := "Combinación de tipos de dispositivo no soportada." })

/-- The assignment `m_currentTask = m_taskStates[nextDataType]` of
`startNextTransferTask` and the four resets that follow it. -/
def takeTask (s : DataTransferManager) (nextDataType : String) : DataTransferManager :=
  s.setTask { mapValue s.m_taskStates nextDataType {} with
    status := "starting", currentItemIndex := -1, processedItems := 0, processedSize := 0 }

/-- The platform dispatch of `startNextTransferTask` and what follows it (lines 316-341):
the task is either finalised as failed or given its first step. -/
def dispatchCurrentTask (w : World) (s : DataTransferManager) : DataTransferManager :=
  let r := startPlatformTask w s.m_currentTask
  let s2 := s.setTask r.2
  if !r.1 then
    finalizeCurrentTask w s2 false
      (if s2.m_currentTask.errorMessage.isEmpty then
        "No se pudo iniciar la tarea específica de la plataforma."
      else s2.m_currentTask.errorMessage)
  else processNextTransferStep w s2

/-- The second half of `startNextTransferTask` (lines 313-341), made after the mutex was
released: the task just made current is announced and dispatched. -/
def launchCurrentTask (w : World) (s : DataTransferManager) : DataTransferManager :=
  (s.emit (.transferTaskStarted s.m_currentTask.dataType
    s.m_currentTask.totalItems)).emitTaskProgress.andThen (dispatchCurrentTask w)

/-- The branch of `startNextTransferTask` for a drained queue on an active engine (lines
275-287). -/
def closeTransfer (s : DataTransferManager) : DataTransferManager :=
  ((({ s with m_isTransferring := false }.cleanupTempDirectory.unlock.emit
    (.transferProgress 100)).emit .transferCompleted).emit
    (.transferFinished true "Transferencia Completada"))

/-- `DataTransferManager::startNextTransferTask`. -/
def startNextTransferTask (w : World) (s : DataTransferManager) : DataTransferManager :=
  s.lock.andThen fun s0 =>
    match s0.m_dataTypeQueue with
    | [] => if s0.m_isTransferring then s0.closeTransfer else s0.unlock
    | nextDataType :: rest =>
      if !s0.m_isTransferring then s0.unlock
      else if !mapContains s0.m_taskStates nextDataType then
        { s0 with m_dataTypeQueue := rest }.unlock.defer .startNextTransferTask
      else
        launchCurrentTask w ({ s0 with m_dataTypeQueue := rest }.takeTask nextDataType).unlock

/-- `DataTransferManager::onBridgeClientFileReady`. -/
def onBridgeClientFileReady (w : World) (s : DataTransferManager) (_filePath : String) :
    DataTransferManager :=
  s.lock.andThen fun s0 =>
    if !s0.m_isTransferring then s0.unlock
    else if !isBridgeClientConnected w s0.m_currentTask.destId then
      s0.countItem.unlock.emitTaskProgress.andThen fun x => x.defer .processNextTransferStep
    else s0.unlock

/-- `DataTransferManager::onBridgeClientFileSaved`. -/
def onBridgeClientFileSaved (s : DataTransferManager) (result : String) : DataTransferManager :=
  s.lock.andThen fun s0 =>
    if !s0.m_isTransferring then s0.unlock
    else
      let s1 := if s0.indexInRange then
          (if startsWith result "OK" then s0.creditSize s0.currentItem.size else s0).countItem
        else s0
      (s1.unlock.emitTaskProgress.andThen emitOverallProgress).andThen fun x =>
        x.defer .processNextTransferStep

/-- `DataTransferManager::onBridgeClientFileProgress`. -/
def onBridgeClientFileProgress (s : DataTransferManager) (_filePath : String)
    (bytesReceived totalBytes : Int) : DataTransferManager :=
  s.lock.andThen fun s0 =>
    if !s0.m_isTransferring then s0.unlock
    else
      let s1 := if s0.indexInRange then
          s0.setProcessedSize (partialSize bytesReceived totalBytes s0.currentItem.size)
        else s0
      s1.unlock.emitTaskProgress.andThen emitOverallProgress

/-- `DataTransferManager::onBridgeClientError`. -/
def onBridgeClientError (s : DataTransferManager) (_errorMessage : String) :
    DataTransferManager :=
  s.lock.andThen fun s0 =>
    if !s0.m_isTransferring then s0.unlock
    else
      let s1 := if s0.indexInRange then s0.countItem else s0
      s1.unlock.emitTaskProgress.andThen fun x => x.defer .processNextTransferStep

/-- The guarded call `if (!id.isEmpty()) disconnectBridgeClientSignals(id)` that
`cancelTransfer` makes for each endpoint of the current task. -/
def disconnectUnlessEmpty (w : World) (s : DataTransferManager) (deviceId : String) :
    DataTransferManager :=
  if !deviceId.isEmpty then disconnectBridgeClientSignals w s deviceId else s

/-- The block "Limpiar estado" of `cancelTransfer`. -/
def clearState (s : DataTransferManager) : DataTransferManager :=
  { s with m_dataTypeQueue := [], m_taskStates := [], m_currentTask := {} }

/-- `DataTransferManager::cancelTransfer`; both processes are terminated. -/
def cancelTransfer (w : World) (s : DataTransferManager) : DataTransferManager :=
  s.lock.andThen fun s0 =>
    if !s0.m_isTransferring then s0.unlock
    else
      let s1 := ({ s0 with m_isTransferring := false }.setPullRunning false).setPushRunning false
      let s2 := disconnectUnlessEmpty w (disconnectUnlessEmpty w s1 s1.m_currentTask.sourceId)
        s1.m_currentTask.destId
      ((s2.clearState.cleanupTempDirectory.unlock.emit .transferCancelled).emit
        (.transferFinished false "Transferencia Cancelada"))

/-- The test of the loop of `startTransfer` that lets a requested category become a
task: its source data set has items, is supported and carries no error, and the
category is supported between the two platforms. -/
def yieldsTask (a : DataAnalyzer) (sourceId sourceType destType dataType : String) : Bool :=
  let dataSet := getDataSet a sourceId dataType
  !(dataSet.items.isEmpty || !dataSet.isSupported || !dataSet.errorMessage.isEmpty) &&
    isTypeSupported sourceType destType dataType

/-- The `TransferTask taskInfo` that the loop of `startTransfer` fills in for a category
that passed both checks. -/
def newTask (sourceId destId dataType : String) (clearDestination bridgeAvailable : Bool)
    (dataSet : DataSet) : TransferTask :=
  { sourceId := sourceId, destId := destId, dataType := dataType,
    clearDestination := clearDestination, itemsToTransfer := dataSet.items,
    totalItems := dataSet.items.length,
    totalSize := if dataSet.totalSize > 0 then dataSet.totalSize
      else wrap64 ((dataSet.items.length : Int) * 1024),
    processedItems := 0, processedSize := 0, currentItemIndex := -1, status := "waiting",
    useBridgeClient :=
      if dataType = "photos" ∨ dataType = "videos" ∨ dataType = "music" ∨
        dataType = "documents" then bridgeAvailable else false }

/-- The three statements of the loop that queue a task: `m_dataTypeQueue.enqueue`,
`m_taskStates[dataType] = taskInfo`, `m_totalTransferSize += taskInfo.totalSize`. -/
def enqueueTask (s : DataTransferManager) (taskInfo : TransferTask) : DataTransferManager :=
  { s with m_dataTypeQueue := s.m_dataTypeQueue ++ [taskInfo.dataType],
           m_taskStates := mapInsert s.m_taskStates taskInfo.dataType taskInfo,
           m_totalTransferSize := wrap64 (s.m_totalTransferSize + taskInfo.totalSize) }

/-- The loop of `startTransfer` over the requested categories ("Popular cola y calcular
tamaño total"). -/
def enqueueTransferTasks (a : DataAnalyzer) (sourceId destId sourceType destType : String)
    (clearDestination bridgeAvailable : Bool) :
    List String → DataTransferManager → DataTransferManager
  | [], s => s
  | dataType :: rest, s =>
    let dataSet := getDataSet a sourceId dataType
    if dataSet.items.isEmpty || !dataSet.isSupported || !dataSet.errorMessage.isEmpty then
      enqueueTransferTasks a sourceId destId sourceType destType clearDestination
        bridgeAvailable rest s
    else if !isTypeSupported sourceType destType dataType then
      enqueueTransferTasks a sourceId destId sourceType destType clearDestination
        bridgeAvailable rest s
    else
      enqueueTransferTasks a sourceId destId sourceType destType clearDestination
        bridgeAvailable rest
        (s.enqueueTask (newTask sourceId destId dataType clearDestination bridgeAvailable dataSet))

/-- The block "Resetear estado" of `startTransfer`. -/
def resetState (s : DataTransferManager) : DataTransferManager :=
  { s with m_dataTypeQueue := [], m_taskStates := [], m_totalTransferSize := 0,
           m_totalTransferredSizePreviousTasks := 0, m_currentTask := {} }

/-- The conjunction `sourceBridgeAvailable && destBridgeAvailable` of `startTransfer`:
both devices are Android devices with a connected bridge client. -/
def bridgesAvailable (w : World) (sourceId destId : String) : Bool :=
  (decide ((getDeviceInfo w sourceId).type = "android") && isBridgeClientConnected w sourceId) &&
    (decide ((getDeviceInfo w destId).type = "android") && isBridgeClientConnected w destId)

/-- The statements of `startTransfer` from the guard of line 59 to line 147, run with the
mutex held: `false` with the engine as a rejected start leaves it when the function
returns, or `true` with the engine marked active and holding the queue just built. -/
def buildTransfer (w : World) (a : DataAnalyzer) (s : DataTransferManager)
    (sourceId destId : String) (dataTypes : List String) (clearDestination : Bool) :
    Bool × DataTransferManager :=
  if s.m_isTransferring then
    (false, (s.emit (.transferFailed "Ya hay una transferencia en progreso")).unlock)
  else
    let sourceDevice := getDeviceInfo w sourceId
    let destDevice := getDeviceInfo w destId
    if sourceDevice.id.isEmpty || destDevice.id.isEmpty then
      (false, (s.emit (.transferFailed "Uno o ambos dispositivos no están disponibles")).unlock)
    else if !sourceDevice.authorized || !destDevice.authorized then
      (false, (s.emit (.transferFailed "Uno o ambos dispositivos no están autorizados")).unlock)
    else
      let p := prepareTempDirectory w s
      if !p.1 then
        (false, (p.2.emit
          (.transferFailed "No se pudo crear directorio temporal para la transferencia")).unlock)
      else
        let s2 := enqueueTransferTasks a sourceId destId sourceDevice.type destDevice.type
          clearDestination (bridgesAvailable w sourceId destId) dataTypes p.2.resetState
        if s2.m_dataTypeQueue.isEmpty then
          (false, ((s2.emit (.transferFailed
            "No hay tipos de datos válidos seleccionados o compatibles para transferir")
            ).cleanupTempDirectory).unlock)
        else (true, { s2 with m_isTransferring := true })

/-- `DataTransferManager::startTransfer` up to the point where the engine is marked
active (line 147): the mutex is taken and the transfer is built. -/
def startTransferSetup (w : World) (a : DataAnalyzer) (s : DataTransferManager)
    (sourceId destId : String) (dataTypes : List String) (clearDestination : Bool) :
    Bool × DataTransferManager :=
  if s.lock.hung then (false, s.lock)
  else buildTransfer w a s.lock sourceId destId dataTypes clearDestination

/-- `DataTransferManager::startTransfer`: the returned flag and the engine afterwards. -/
def startTransfer (w : World) (a : DataAnalyzer) (s : DataTransferManager)
    (sourceId destId : String) (dataTypes : List String) (clearDestination : Bool) :
    Bool × DataTransferManager :=
  let r := startTransferSetup w a s sourceId destId dataTypes clearDestination
  if !r.1 then r
  else
    returning true (startNextTransferTask w
      (((r.2.unlock).emit (.transferStarted r.2.m_totalTransferSize)).emit (.transferProgress 0)))

end DataTransferManager

/-! ## The event loop of the transfer engine -/

/-- What a bridge client emits, with the arguments of the signal. -/
inductive BridgeEmission where
  | fileReady (filePath : String)
  | fileSaved (result : String)
  | fileTransferProgress (filePath : String) (bytesReceived totalBytes : Int)
  | errorOccurred (errorMessage : String)
deriving DecidableEq, Repr

/-- The signal a bridge emission is an emission of. -/
def BridgeEmission.signal : BridgeEmission → BridgeSignal
  | .fileReady _ => .fileReady
  | .fileSaved _ => .fileSaved
  | .fileTransferProgress _ _ _ => .fileTransferProgress
  | .errorOccurred _ => .errorOccurred

/-- The slot of the engine connected to a bridge signal, run once. -/
def DataTransferManager.slot (w : World) (s : DataTransferManager) :
    BridgeEmission → DataTransferManager
  | .fileReady filePath => s.onBridgeClientFileReady w filePath
  | .fileSaved result => s.onBridgeClientFileSaved result
  | .fileTransferProgress filePath r t => s.onBridgeClientFileProgress filePath r t
  | .errorOccurred msg => s.onBridgeClientError msg

/-- Runs a deferred call. -/
def DataTransferManager.runDeferred (w : World) (s : DataTransferManager) :
    Deferred → DataTransferManager
  | .startNextTransferTask => s.startNextTransferTask w
  | .processNextTransferStep => s.processNextTransferStep w
  | .contactsItem => s.simulatedItem
  | .messagesItem => s.simulatedItem

/-- What the event loop can deliver to the engine. -/
inductive Event where
  /-- A call of `startTransfer` by the consumer, given the analyzer it reads. -/
  | startTransfer (a : DataAnalyzer) (sourceId destId : String) (dataTypes : List String)
      (clearDestination : Bool)
  /-- A call of `cancelTransfer` by the consumer. -/
  | cancelTransfer
  /-- The deferred call at position `i` of the pending list comes due. -/
  | timer (i : Nat)
  /-- `m_pullProcess` finishes. -/
  | pullFinished (exitCode : Int) (normalExit : Bool)
  /-- `m_pushProcess` finishes. -/
  | pushFinished (exitCode : Int) (normalExit : Bool)
  /-- The bridge client of `deviceId` emits a signal. -/
  | bridge (deviceId : String) (e : BridgeEmission)
deriving DecidableEq, Repr

/-- What an event does to an engine whose thread is free to take it. A deferred call runs
only if it is pending, a process reports its end only if it was started, and a bridge
signal runs the connected slot once per connection made for it, as long as the thread is
not blocked in one of the runs. -/
def deliver (w : World) (s : DataTransferManager) : Event → DataTransferManager
  | .startTransfer a sourceId destId dataTypes clearDestination =>
    (s.startTransfer w a sourceId destId dataTypes clearDestination).2
  | .cancelTransfer => s.cancelTransfer w
  | .timer i =>
    match s.pending.get? i with
    | some d => DataTransferManager.runDeferred w { s with pending := s.pending.eraseIdx i } d
    | none => s
  | .pullFinished exitCode normalExit =>
    if s.pullRunning then
      DataTransferManager.onPullProcessFinished w { s with pullRunning := false } exitCode
        normalExit
    else s
  | .pushFinished exitCode normalExit =>
    if s.pushRunning then
      DataTransferManager.onPushProcessFinished { s with pushRunning := false } exitCode
        normalExit
    else s
  | .bridge deviceId e =>
    Nat.iterate (fun x => x.andThen fun y => DataTransferManager.slot w y e)
      (s.connections.count (deviceId, e.signal)) s

/-- One turn of the event loop. The engine lives on one thread: once that thread is
blocked on the mutex, no event is delivered any more. -/
def step (w : World) (s : DataTransferManager) (e : Event) : DataTransferManager :=
  if s.hung then s else deliver w s e

/-- The engine after a sequence of events, each with the world it happens in. -/
def run (s : DataTransferManager) : List (World × Event) → DataTransferManager
  | [] => s
  | (w, e) :: rest => run (step w s e) rest

/-- Whether a signal is a `transferTaskFailed`. -/
def TransferSignal.isTaskFailed : TransferSignal → Bool
  | .transferTaskFailed _ _ => true
  | _ => false

/-- Whether each value of a sequence is at most the next one. -/
def nonDecreasing : List Int → Bool
  | a :: b :: rest => decide (a ≤ b) && nonDecreasing (b :: rest)
  | _ => true

/-- The values carried by the `transferProgress` signals of a trace, in order. -/
def overallProgressValues : List TransferSignal → List Int
  | [] => []
  | .transferProgress p :: rest => p :: overallProgressValues rest
  | _ :: rest => overallProgressValues rest

/-! ## Concrete scenarios -/

/-- Two authorized Android devices, "S" and "D", without bridge clients. -/
def twoAndroids : World :=
  { connectedDevices :=
      [("S", { id := "S", type := "android", authorized := true }),
       ("D", { id := "D", type := "android", authorized := true })] }

/-- The same two devices, each with a connected bridge client. -/
def twoAndroidsBridged : World :=
  { twoAndroids with
    bridgeClients := [("S", { connected := true }), ("D", { connected := true })] }

/-- The same two devices, "D" not authorized. -/
def destUnauthorized : World :=
  { connectedDevices :=
      [("S", { id := "S", type := "android", authorized := true }),
       ("D", { id := "D", type := "android", authorized := false })] }

/-- An analyzer that found one contact of 10 bytes on "S". -/
def oneContact : DataAnalyzer :=
  { m_dataSets := [("S", [("contacts",
      { type := "contacts", items := [{ id := "c1", displayName := "Ana", size := 10 }],
        totalSize := 10, isSupported := true })])] }

/-- An analyzer that found on "S" one contact of 10 bytes, two messages of 5 bytes each,
and a calendar data set that ended with an error. -/
def contactsAndMessages : DataAnalyzer :=
  { m_dataSets := [("S", [
      ("contacts",
        { type := "contacts", items := [{ id := "c1", displayName := "Ana", size := 10 }],
          totalSize := 10, isSupported := true }),
      ("messages",
        { type := "messages",
          items := [{ id := "m1", displayName := "m1", size := 5 },
                    { id := "m2", displayName := "m2", size := 5 }],
          totalSize := 10, isSupported := true }),
      ("calendar",
        { type := "calendar", isSupported := false, errorMessage := "sin acceso" })])] }

/-- An analyzer that found two photos of 10 bytes each on "S". -/
def twoPhotos : DataAnalyzer :=
  { m_dataSets := [("S", [("photos",
      { type := "photos",
        items := [{ id := "/p/a.jpg", displayName := "a.jpg", filePath := "/p/a.jpg", size := 10 },
                  { id := "/p/b.jpg", displayName := "b.jpg", filePath := "/p/b.jpg", size := 10 }],
        totalSize := 20, isSupported := true })])] }

/-- A transfer of the two photos over the bridge clients, up to the answer to the second
photo: for each photo the source announces the file and the destination confirms that it
saved it. -/
def twoPhotosBridgeRun : List (World × Event) :=
  [(twoAndroidsBridged, .startTransfer twoPhotos "S" "D" ["photos"] false),
   (twoAndroidsBridged, .bridge "S" (.fileReady "/p/a.jpg")),
   (twoAndroidsBridged, .bridge "D" (.fileSaved "OK")),
   (twoAndroidsBridged, .timer 0),
   (twoAndroidsBridged, .bridge "S" (.fileReady "/p/b.jpg")),
   (twoAndroidsBridged, .bridge "D" (.fileSaved "OK"))]

/-- An authorized Android device "S" and an authorized iOS device "I". -/
def androidAndIOS : World :=
  { connectedDevices :=
      [("S", { id := "S", type := "android", authorized := true }),
       ("I", { id := "I", type := "ios", authorized := true })] }

/-- The engine right after `startTransfer` has queued contacts and messages from "S" to
"D" and made the contacts task current. -/
def contactsStarted : DataTransferManager :=
  (DataTransferManager.startTransfer twoAndroids contactsAndMessages {} "S" "D"
    ["contacts", "messages"] false).2

/-- The engine with the contacts of "S" queued for the iOS device "I", as `startTransfer`
leaves it when it releases the mutex (line 149), before it starts the first task. -/
def contactsQueuedForIOS : DataTransferManager :=
  (DataTransferManager.startTransferSetup androidAndIOS oneContact {} "S" "I" ["contacts"]
    false).2.unlock

/-- The two devices with bridge clients, that of "D" no longer connected. -/
def destBridgeLost : World :=
  { twoAndroids with
    bridgeClients := [("S", { connected := true }), ("D", { connected := false })] }

/-- The two-photo transfer over the bridge clients, right after the first photo has been
requested from "S". -/
def firstPhotoRequested : DataTransferManager :=
  (DataTransferManager.startTransfer twoAndroidsBridged twoPhotos {} "S" "D" ["photos"]
    false).2

/-- The sum of the sizes of a list of items. -/
def sumOfSizes (items : List DataItem) : Int := (items.map DataItem.size).sum

/-- The engine while it works through the items of the only task of a transfer, a
contacts task over `items`: it is active with nothing else queued, the mutex is free and
the thread runs, the total to transfer is the sum of the item sizes, the current item has
index `idx`, `done` items have been counted and the bytes of the first `done` items
credited in 64 bits, and the one deferred call still to run is `d`. -/
def ContactsLoop (items : List DataItem) (idx done : Nat) (d : Deferred)
    (s : DataTransferManager) : Prop :=
  s.m_isTransferring = true ∧ s.m_dataTypeQueue = [] ∧ s.locked = false ∧ s.hung = false ∧
  s.m_totalTransferSize = sumOfSizes items ∧ s.m_totalTransferredSizePreviousTasks = 0 ∧
  s.m_currentTask.dataType = "contacts" ∧ s.m_currentTask.itemsToTransfer = items ∧
  s.m_currentTask.totalItems = items.length ∧
  s.m_currentTask.totalSize = sumOfSizes items ∧ s.m_currentTask.currentItemIndex = idx ∧
  s.m_currentTask.processedItems = done ∧
  s.m_currentTask.processedSize = wrap64 (sumOfSizes (items.take done)) ∧ s.pending = [d]

/-- Every stored data set has as its total size the sum of the sizes of its items, reduced
to 64 bits. -/
def SizesConsistent (a : DataAnalyzer) : Prop :=
  ∀ p ∈ a.m_dataSets, ∀ q ∈ p.2, q.2.totalSize = wrap64 (sumOfSizes q.2.items)

/-- `AdbSocketClient::ConnectionState`. -/
inductive ConnectionState where
  | Disconnected
  | Connecting
  | Connected
  | Error
deriving DecidableEq, Repr

/-- `AdbSocketClient::TransferRole`. -/
inductive TransferRole where
  | Source
  | Destination
  | Unknown
deriving DecidableEq, Repr

/-- Signals of `AdbSocketClient`. -/
inductive ClientSignal where
  | connected
  | disconnected
  | errorOccurred (errorMessage : String)
  | deviceInfoReceived (deviceInfo : String)
  | scanStarted
  | scanProgress (progress : Int)
  | scanCompleted
  | scanError (errorMessage : String)
  | mediaDataReceived (index count : Int) (mediaData : String)
  | filesDataReceived (index count : Int) (filesData : String)
  | fileReady (filePath : String)
  | fileSaved (result : String)
  | pongReceived
  | unknownResponseReceived (response : String)
  | contactsDataReceived (contactsData : String)
  | messagesDataReceived (messagesData : String)
  | connectionStateChanged (state : ConnectionState)
  | fileTransferProgress (filePath : String) (bytesReceived totalBytes : Int)
deriving DecidableEq, Repr

/-- What `QJsonDocument::fromJson` makes of a text: whether the document is an object,
and whether it is an array. -/
structure JsonDecoder where
  isObject : String → Bool
  isArray : String → Bool

/-- How an attempt `connectToHost` followed by `waitForConnected(5000)` ends: the
connection is established, or it is not; in the latter case the socket may have raised its
error signal (it does for a refused connection, not for a wait that timed out), with the
text of `errorString()`. -/
inductive ConnectOutcome where
  | established
  | failed (socketError : Option String)
deriving DecidableEq, Repr

/-- Member variables of `AdbSocketClient`, together with: whether the socket is in a state
other than `UnconnectedState`, whether `m_reconnectTimer` is running, how many deferred
calls of `processNextCommand` and of the `connectToDevice` of `onLaunchAppFinished` are
still to run, the frames written to the socket (oldest first), and the signals emitted so
far. -/
structure AdbSocketClient where
  m_connected : Bool := false
  m_reconnectAttempts : Int := 0
  m_connectionState : ConnectionState := .Disconnected
  m_transferRole : TransferRole := .Unknown
  m_deviceId : String := ""
  m_adbPath : String := ""
  m_buffer : String := ""
  m_commandQueue : List String := []
  m_isProcessingCommands : Bool := false
  socketOpen : Bool := false
  reconnectTimerActive : Bool := false
  drainPending : Nat := 0
  connectPending : Nat := 0
  written : List String := []
  emitted : List ClientSignal := []
deriving DecidableEq, Repr

/-- `MAX_RECONNECT_ATTEMPTS` of `adbsocketclient.h`. -/
def MAX_RECONNECT_ATTEMPTS : Int := 3

/-- `QString::mid(n)` for a position inside an ASCII tag at the front of the text. -/
def mid (s : String) (n : Nat) : String := String.mk (s.data.drop n)

/-- The integer written by a text, as `QString::toInt` and `QString::toLongLong` read it:
white space around it is dropped, then an optional sign and at least one decimal digit
must remain and nothing else. -/
def signedDecimal (s : List Char) : Option Int :=
  let t := trimmed s
  let neg := decide (t.head? = some (Char.ofNat 45))
  let digits := if t.head? = some (Char.ofNat 45) ∨ t.head? = some (Char.ofNat 43) then t.tail
    else t
  if digits.isEmpty || !digits.all isRegexDigit then none
  else some (if neg then -(decimalValue digits : Int) else (decimalValue digits : Int))

/-- `QString::toInt`: 0 when the text is not an integer or does not fit in 32 bits. -/
def toInt (s : List Char) : Int :=
  match signedDecimal s with
  | some v => if -2147483648 ≤ v ∧ v ≤ 2147483647 then v else 0
  | none => 0

/-- `QString::toLongLong` on any text: 0 when the text is not an integer or does not fit
in 64 bits. -/
def toLongLongSigned (s : List Char) : Int :=
  match signedDecimal s with
  | some v => if -9223372036854775808 ≤ v ∧ v ≤ 9223372036854775807 then v else 0
  | none => 0

/-- What the branches for `MEDIA_DATA:` and `FILES_DATA:` take from the text after the
tag: the text is split at the colons without its empty parts; with at least three parts,
the first two are read as integers and the others are joined again with colons. -/
def dataFrameParts (rest : String) : Option (Int × Int × String) :=
  let parts := splitSkipEmpty (Char.ofNat 58) rest.data
  if parts.length ≥ 3 then
    some (toInt (parts.getD 0 []), toInt (parts.getD 1 []),
      String.mk (List.intercalate [Char.ofNat 58] (parts.drop 2)))
  else none

/-- What the branch for `FILE_TRANSFER_PROGRESS:` takes from the text after position 22
(which starts with the colon of the tag). -/
def progressFrameParts (rest : String) : Option (String × Int × Int) :=
  let parts := splitSkipEmpty (Char.ofNat 58) rest.data
  if parts.length ≥ 3 then
    some (String.mk (parts.getD 0 []), toLongLongSigned (parts.getD 1 []),
      toLongLongSigned (parts.getD 2 []))
  else none

/-- The complete lines of a buffer (each without its line feed), and the text after the
last line feed; `cur` holds, in reverse, the line read so far. -/
def splitLines : List Char → List Char → List (List Char) × List Char
  | [], cur => ([], cur.reverse)
  | c :: rest, cur =>
    if c.toNat = 10 then ((cur.reverse :: (splitLines rest []).1), (splitLines rest []).2)
    else splitLines rest (c :: cur)

namespace AdbSocketClient

/-- Appends one emitted signal to the trace. -/
def emit (s : AdbSocketClient) (sig : ClientSignal) : AdbSocketClient :=
  { s with emitted := s.emitted ++ [sig] }

/-- `AdbSocketClient::setConnectionState`. -/
def setConnectionState (s : AdbSocketClient) (state : ConnectionState) : AdbSocketClient :=
  if s.m_connectionState ≠ state then
    { s with m_connectionState := state }.emit (.connectionStateChanged state)
  else s

/-- The slot that the constructor connects to the signal `connected` of the socket. -/
def onSocketConnected (s : AdbSocketClient) : AdbSocketClient :=
  ({ s with m_connected := true, m_reconnectAttempts := 0 }.setConnectionState
    .Connected).emit .connected

/-- The slot that the constructor connects to the signal `disconnected` of the socket. -/
def onSocketDisconnected (s : AdbSocketClient) : AdbSocketClient :=
  let s1 := ({ s with m_connected := false }.setConnectionState .Disconnected).emit
    .disconnected
  if s1.m_reconnectAttempts < MAX_RECONNECT_ATTEMPTS then { s1 with reconnectTimerActive := true }
  else s1

/-- `AdbSocketClient::handleSocketError`. -/
def handleSocketError (s : AdbSocketClient) (errorString : String) : AdbSocketClient :=
  (s.setConnectionState .Error).emit (.errorOccurred ("Socket error: " ++ errorString))

/-- The socket leaves the connected state: it is closed and raises `disconnected`. -/
def closeSocket (s : AdbSocketClient) : AdbSocketClient :=
  if s.socketOpen then { s with socketOpen := false }.onSocketDisconnected else s

/-- `AdbSocketClient::disconnectFromDevice`; the socket closes within the wait. -/
def disconnectFromDevice (s : AdbSocketClient) : AdbSocketClient :=
  let s1 := s.closeSocket
  let s2 := { s1 with m_connected := false, reconnectTimerActive := false,
                      m_reconnectAttempts := 0 }
  let s3 := s2.setConnectionState .Disconnected
  { s3 with m_commandQueue := [], m_isProcessingCommands := false }

/-- `AdbSocketClient::connectToDevice`, with the outcome of the attempt. -/
def connectToDevice (s : AdbSocketClient) (deviceId : String) (outcome : ConnectOutcome) :
    Bool × AdbSocketClient :=
  let s1 := if s.m_connected then s.disconnectFromDevice else s
  let s2 := { s1 with m_deviceId := deviceId }.setConnectionState .Connecting
  match outcome with
  | .established => (true, { s2 with socketOpen := true }.onSocketConnected)
  | .failed socketError =>
    let s3 := match socketError with
      | some errorString => s2.handleSocketError errorString
      | none => s2
    (false, s3.setConnectionState .Error)

/-- `AdbSocketClient::isConnected`. -/
def isConnected (s : AdbSocketClient) : Bool := s.m_connected

/-- `AdbSocketClient::sendCommand`: `written` tells whether the socket took the whole
frame, `flushed` is what `flush()` returns. -/
def sendCommand (s : AdbSocketClient) (command : String) (written flushed : Bool) :
    Bool × AdbSocketClient :=
  if !s.m_connected then (false, s)
  else if !written then (false, s)
  else (flushed, { s with written := s.written ++ [command ++ "\n"] })

/-- `AdbSocketClient::setRole`. -/
def setRole (s : AdbSocketClient) (role : String) (written flushed : Bool) :
    Bool × AdbSocketClient :=
  let r := if toLower role = "source" then TransferRole.Source
    else if toLower role = "destination" then TransferRole.Destination
    else TransferRole.Unknown
  { s with m_transferRole := r }.sendCommand ("SET_ROLE:" ++ role) written flushed

/-- `AdbSocketClient::ping`. -/
def ping (s : AdbSocketClient) (written flushed : Bool) : Bool × AdbSocketClient :=
  s.sendCommand "PING" written flushed

/-- `AdbSocketClient::checkConnectionState`. -/
def checkConnectionState (s : AdbSocketClient) (written flushed : Bool) : AdbSocketClient :=
  if s.m_connected then (s.ping written flushed).2 else s

/-- `AdbSocketClient::enqueueCommand`. -/
def enqueueCommand (s : AdbSocketClient) (command : String) : Bool × AdbSocketClient :=
  if command.isEmpty then (false, s)
  else
    let s1 := { s with m_commandQueue := s.m_commandQueue ++ [command] }
    if !s1.m_isProcessingCommands then
      (true, { s1 with m_isProcessingCommands := true, drainPending := s1.drainPending + 1 })
    else (true, s1)

/-- `AdbSocketClient::processNextCommand`. -/
def processNextCommand (s : AdbSocketClient) (written flushed : Bool) : AdbSocketClient :=
  match s.m_commandQueue with
  | [] => { s with m_isProcessingCommands := false }
  | command :: rest =>
    let s1 := ({ s with m_commandQueue := rest }.sendCommand command written flushed).2
    { s1 with drainPending := s1.drainPending + 1 }

/-- `AdbSocketClient::forwardTcpPort`: `forwarded` tells whether the forwarding command
ended in time with exit code 0. -/
def forwardTcpPort (adbPath : String) (forwarded : Bool) : Bool :=
  if adbPath.isEmpty then false else forwarded

/-- `AdbSocketClient::reconnectTimer`. -/
def reconnectTimer (s : AdbSocketClient) (forwarded : Bool) (outcome : ConnectOutcome) :
    AdbSocketClient :=
  if !s.m_connected ∧ !s.m_deviceId.isEmpty ∧ s.m_reconnectAttempts < MAX_RECONNECT_ATTEMPTS then
    let s1 := { s with m_reconnectAttempts := s.m_reconnectAttempts + 1 }
    if forwardTcpPort s1.m_adbPath forwarded then (s1.connectToDevice s1.m_deviceId outcome).2
    else { s1 with reconnectTimerActive := true }
  else { s with reconnectTimerActive := false }

end AdbSocketClient

/-- What the device-bridge tool and the socket answer during one `setupBridgeClient`:
whether the package is listed as installed, whether the package file to install is found,
whether the forwarding command succeeds, and how the connection attempt ends. -/
structure SetupAnswers where
  appInstalled : Bool := true
  apkFound : Bool := true
  forwarded : Bool := true
  outcome : ConnectOutcome := .established
deriving DecidableEq, Repr

namespace AdbSocketClient

/-- `AdbSocketClient::setupBridgeClient` (`installApp` and `launchApp` start the tool and
return; the end of the tool is reported to the three slots below). -/
def setupBridgeClient (s : AdbSocketClient) (deviceId adbPath : String) (t : SetupAnswers) :
    Bool × AdbSocketClient :=
  let s1 := { s with m_deviceId := deviceId, m_adbPath := adbPath }
  if !t.appInstalled && !t.apkFound then
    (false, s1.emit (.errorOccurred "Failed to install Bridge Client app"))
  else if !forwardTcpPort adbPath t.forwarded then
    (false, s1.emit (.errorOccurred "Failed to forward TCP port"))
  else s1.connectToDevice deviceId t.outcome

/-- `AdbSocketClient::onAdbForwardFinished`. -/
def onAdbForwardFinished (s : AdbSocketClient) (exitCode : Int) (normalExit : Bool) :
    AdbSocketClient :=
  if exitCode ≠ 0 ∨ normalExit = false then s.emit (.errorOccurred "ADB command failed") else s

/-- `AdbSocketClient::onInstallAppFinished`. -/
def onInstallAppFinished (s : AdbSocketClient) (exitCode : Int) (normalExit : Bool) :
    AdbSocketClient :=
  if exitCode ≠ 0 ∨ normalExit = false then
    s.emit (.errorOccurred "Failed to install Bridge Client app")
  else s

/-- `AdbSocketClient::onLaunchAppFinished`: after a launch that succeeded the connection
attempt is deferred by one second. -/
def onLaunchAppFinished (s : AdbSocketClient) (exitCode : Int) (normalExit : Bool) :
    AdbSocketClient :=
  if exitCode ≠ 0 ∨ normalExit = false then
    s.emit (.errorOccurred "Failed to launch Bridge Client app")
  else { s with connectPending := s.connectPending + 1 }

/-- The branches of `processResponse` for `MEDIA_DATA:` and `FILES_DATA:`, which differ
in the signal they emit: `rest` is the text after the tag. -/
def onDataFrame (dec : JsonDecoder) (s : AdbSocketClient)
    (signal : Int → Int → String → ClientSignal) (rest : String) : AdbSocketClient :=
  match dataFrameParts rest with
  | some (index, count, jsonStr) =>
    if dec.isArray jsonStr then s.emit (signal index count jsonStr) else s
  | none => s

/-- The branch of `processResponse` for `FILE_TRANSFER_PROGRESS:`. -/
def onProgressFrame (s : AdbSocketClient) (rest : String) : AdbSocketClient :=
  match progressFrameParts rest with
  | some (filePath, bytesReceived, totalBytes) =>
    s.emit (.fileTransferProgress filePath bytesReceived totalBytes)
  | none => s

/-- `AdbSocketClient::processResponse`. -/
def processResponse (dec : JsonDecoder) (s : AdbSocketClient) (response : String) :
    AdbSocketClient :=
  if startsWith response "CONNECTED:" then s
  else if startsWith response "DEVICE_INFO:" then
    if dec.isObject (mid response 12) then s.emit (.deviceInfoReceived (mid response 12)) else s
  else if startsWith response "ROLE_SET:" then s
  else if response = "SCAN_STARTED" then s.emit .scanStarted
  else if startsWith response "SCAN_PROGRESS:" then
    s.emit (.scanProgress (toInt (mid response 14).data))
  else if response = "SCAN_COMPLETED" then s.emit .scanCompleted
  else if startsWith response "SCAN_ERROR:" then s.emit (.scanError (mid response 11))
  else if startsWith response "MEDIA_COUNT:" then s
  else if startsWith response "MEDIA_DATA:" then
    onDataFrame dec s .mediaDataReceived (mid response 11)
  else if startsWith response "FILES_COUNT:" then s
  else if startsWith response "FILES_DATA:" then
    onDataFrame dec s .filesDataReceived (mid response 11)
  else if startsWith response "FILE_READY:" then s.emit (.fileReady (mid response 11))
  else if startsWith response "FILE_SAVED:" then s.emit (.fileSaved (mid response 11))
  else if response = "PONG" then s.emit .pongReceived
  else if startsWith response "ERROR:" then s.emit (.errorOccurred (mid response 6))
  else if startsWith response "CONTACTS_DATA:" then
    if dec.isArray (mid response 14) then s.emit (.contactsDataReceived (mid response 14))
    else s
  else if startsWith response "MESSAGES_DATA:" then
    if dec.isArray (mid response 14) then s.emit (.messagesDataReceived (mid response 14))
    else s
  else if startsWith response "FILE_TRANSFER_PROGRESS:" then
    onProgressFrame s (mid response 22)
  else s.emit (.unknownResponseReceived response)

/-- The body of the loop of `readFromSocket` for one complete line. -/
def processLine (dec : JsonDecoder) (s : AdbSocketClient) (line : List Char) :
    AdbSocketClient :=
  if (trimmed line).isEmpty then s else processResponse dec s (String.mk (trimmed line))

/-- `AdbSocketClient::readFromSocket`, for the text `data` that has arrived: the complete
lines of the buffer are processed in order, the text after the last line feed stays in the
buffer. -/
def readFromSocket (dec : JsonDecoder) (s : AdbSocketClient) (data : String) :
    AdbSocketClient :=
  let r := splitLines (s.m_buffer.data ++ data.data) []
  r.1.foldl (processLine dec) { s with m_buffer := String.mk r.2 }

end AdbSocketClient

/-- What can happen to a bridge client session: the calls of its public functions, and
what the socket, the timers and the device-bridge tool deliver, each with the answers that
the call receives from outside. -/
inductive ClientEvent where
  | connectToDevice (deviceId : String) (outcome : ConnectOutcome)
  | disconnectFromDevice
  | setupBridgeClient (deviceId adbPath : String) (t : SetupAnswers)
  | setRole (role : String) (written flushed : Bool)
  | sendCommand (command : String) (written flushed : Bool)
  | enqueueCommand (command : String)
  /-- A deferred `processNextCommand` comes due. -/
  | drainTimer (written flushed : Bool)
  /-- The deferred `connectToDevice` of `onLaunchAppFinished` comes due. -/
  | connectTimer (outcome : ConnectOutcome)
  /-- `m_reconnectTimer` fires. -/
  | reconnectTimer (forwarded : Bool) (outcome : ConnectOutcome)
  /-- `m_connectionCheckTimer` fires. -/
  | connectionCheckTimer (written flushed : Bool)
  /-- The peer closes the connection. -/
  | peerClosed
  /-- The socket raises its error signal. -/
  | socketError (errorString : String)
  /-- Text arrives on the socket. -/
  | readyRead (data : String)
  | adbForwardFinished (exitCode : Int) (normalExit : Bool)
  | installAppFinished (exitCode : Int) (normalExit : Bool)
  | launchAppFinished (exitCode : Int) (normalExit : Bool)
deriving DecidableEq, Repr

/-- One turn of the event loop of a session. A timer fires only while it is running, a
deferred call runs only while it is pending. -/
def AdbSocketClient.step (dec : JsonDecoder) (s : AdbSocketClient) :
    ClientEvent → AdbSocketClient
  | .connectToDevice deviceId outcome => (s.connectToDevice deviceId outcome).2
  | .disconnectFromDevice => s.disconnectFromDevice
  | .setupBridgeClient deviceId adbPath t => (s.setupBridgeClient deviceId adbPath t).2
  | .setRole role written flushed => (s.setRole role written flushed).2
  | .sendCommand command written flushed => (s.sendCommand command written flushed).2
  | .enqueueCommand command => (s.enqueueCommand command).2
  | .drainTimer written flushed =>
    if 0 < s.drainPending then
      AdbSocketClient.processNextCommand { s with drainPending := s.drainPending - 1 } written
        flushed
    else s
  | .connectTimer outcome =>
    if 0 < s.connectPending then
      (AdbSocketClient.connectToDevice { s with connectPending := s.connectPending - 1 }
        s.m_deviceId outcome).2
    else s
  | .reconnectTimer forwarded outcome =>
    if s.reconnectTimerActive then s.reconnectTimer forwarded outcome else s
  | .connectionCheckTimer written flushed => s.checkConnectionState written flushed
  | .peerClosed => s.closeSocket
  | .socketError errorString => s.handleSocketError errorString
  | .readyRead data => s.readFromSocket dec data
  | .adbForwardFinished exitCode normalExit => s.onAdbForwardFinished exitCode normalExit
  | .installAppFinished exitCode normalExit => s.onInstallAppFinished exitCode normalExit
  | .launchAppFinished exitCode normalExit => s.onLaunchAppFinished exitCode normalExit

/-- The session after a sequence of events. -/
def AdbSocketClient.run (dec : JsonDecoder) (s : AdbSocketClient) (events : List ClientEvent) :
    AdbSocketClient :=
  events.foldl (AdbSocketClient.step dec) s

/-- The decoder of the scenarios below, whose JSON texts are all valid: it takes a text
for an array when it starts with an opening square bracket, and for an object when it
starts with an opening brace. It stands for `QJsonDocument::fromJson` on valid JSON only;
a text that is not valid JSON, which `fromJson` rejects, occurs in no scenario. -/
def bracketDecoder : JsonDecoder :=
  { isObject := fun t => t.data.head? = some (Char.ofNat 123),
    isArray := fun t => t.data.head? = some (Char.ofNat 91) }

/-- The tags of the protocol that `processResponse` looks for at the front of a frame, in
the order in which it tries them. -/
def protocolTags : List String :=
  ["CONNECTED:", "DEVICE_INFO:", "ROLE_SET:", "SCAN_PROGRESS:", "SCAN_ERROR:", "MEDIA_COUNT:",
   "MEDIA_DATA:", "FILES_COUNT:", "FILES_DATA:", "FILE_READY:", "FILE_SAVED:", "ERROR:",
   "CONTACTS_DATA:", "MESSAGES_DATA:", "FILE_TRANSFER_PROGRESS:"]

/-- The words of the protocol that `processResponse` compares a whole frame with. -/
def protocolWords : List String := ["SCAN_STARTED", "SCAN_COMPLETED", "PONG"]

/-- The vocabulary as the specification lists it: fifteen entries, each matched against
the front of the frame. -/
def listedVocabulary : List String :=
  ["CONNECTED:", "DEVICE_INFO:", "SCAN_STARTED", "SCAN_PROGRESS:", "SCAN_COMPLETED",
   "SCAN_ERROR:", "MEDIA_DATA:", "FILES_DATA:", "FILE_READY:", "FILE_SAVED:", "PONG", "ERROR:",
   "CONTACTS_DATA:", "MESSAGES_DATA:", "FILE_TRANSFER_PROGRESS:"]

/-- Whether a frame matches an entry of the vocabulary as the specification lists it. -/
def matchesListedVocabulary (response : String) : Bool :=
  listedVocabulary.any (startsWith response)

/-- A session connected to "A1" on which two commands were queued: the drain loop has sent
the first one, and the peer closed the connection during the pause before the second. -/
def scanQueuedThenClosed : AdbSocketClient :=
  AdbSocketClient.run bracketDecoder {}
    [.connectToDevice "A1" .established, .enqueueCommand "GET_DEVICE_INFO",
     .enqueueCommand "START_SCAN", .drainTimer true true, .peerClosed]

/-- The events of a session that is set up for "A1" and connected, closed by the peer, and
then tries twice to connect again, in vain. -/
def twoFailedReconnects : List ClientEvent :=
  [.setupBridgeClient "A1" "adb" {}, .peerClosed, .reconnectTimer true (.failed none),
   .reconnectTimer true (.failed (some "Connection refused"))]

/-- A `MEDIA_DATA` frame for batch 0 of 1 whose JSON array holds one object, with a title
that contains two colons in a row. -/
def mediaFrameWithEmptyField : String :=
  "MEDIA_DATA:0:1:[\x7b\"name\":\"a.mp3\",\"title\":\"Intro :: Live\"\x7d]"

/-- While a session is connected its reconnect attempt counter is 0. -/
def AdbSocketClient.CounterIdle (s : AdbSocketClient) : Prop :=
  s.m_connected = true → s.m_reconnectAttempts = 0

/-! ## The device registry (`devicemanager.cpp`)

The registry `connectedDevices` is a `QMap`, kept here in the order of its keys, because
the loops over `connectedDevices.keys()` emit their signals in that order. -/

/-- Signals of `DeviceManager`. -/
inductive RegistrySignal where
  | deviceConnected (device : DeviceInfo)
  | deviceDisconnected (deviceId : String)
  | deviceAuthorizationChanged (deviceId : String) (authorized : Bool)
  | deviceListUpdated
  | error (message : String)
deriving DecidableEq, Repr

/-- The registry of `DeviceManager`, together with: the standard output of each of the two
listing processes that has not been read yet, the number of connections made from the
signal `finished` of each process to its slot, and the signals emitted so far. -/
structure DeviceManager where
  connectedDevices : List (String × DeviceInfo) := []
  adbOutput : String := ""
  ideviceOutput : String := ""
  androidListSlots : Nat := 0
  iosListSlots : Nat := 0
  emitted : List RegistrySignal := []
deriving DecidableEq, Repr

/-- The order of two texts, character by character (the order of code points, which is
the order of `QString` for the identifiers met). -/
def charsLess : List Char → List Char → Bool
  | [], [] => false
  | [], _ :: _ => true
  | _ :: _, [] => false
  | a :: as, b :: bs =>
    if a.toNat < b.toNat then true else if b.toNat < a.toNat then false else charsLess as bs

/-- `m[k] = v` on a map kept in the order of its keys. -/
def mapInsertOrdered {V : Type} : List (String × V) → String → V → List (String × V)
  | [], k, v => [(k, v)]
  | (k0, v0) :: rest, k, v =>
    if k = k0 then (k, v) :: rest
    else if charsLess k.data k0.data then (k, v) :: (k0, v0) :: rest
    else (k0, v0) :: mapInsertOrdered rest k v

/-- The class `\w` of a regular expression compiled without Unicode properties: the ASCII
letters and digits and the underscore. -/
def isRegexWord (c : Char) : Bool :=
  isRegexDigit c || (decide (65 ≤ c.toNat) && decide (c.toNat ≤ 90)) ||
    (decide (97 ≤ c.toNat) && decide (c.toNat ≤ 122)) || c.toNat == 95

/-- The match of `^([^\s]+)\s+(\w+)(.*)$` against a trimmed line without line feed: the
three captured groups. Each repeated class is followed by a character outside it, so the
greedy match is the only one. -/
def matchDeviceLine (line : List Char) : Option (List Char × List Char × List Char) :=
  let deviceId := line.takeWhile (fun c => !isRegexSpace c)
  let r1 := line.dropWhile (fun c => !isRegexSpace c)
  let r2 := r1.dropWhile isRegexSpace
  let deviceState := r2.takeWhile isRegexWord
  if deviceId.isEmpty || (r1.takeWhile isRegexSpace).isEmpty || deviceState.isEmpty then none
  else some (deviceId, deviceState, r2.dropWhile isRegexWord)

/-- The first match of `tag([^\s]+)` in a text: group 1 of the leftmost place at which the
tag is followed by a character that is not white space. -/
def findTagged (tag : List Char) : List Char → Option (List Char)
  | [] => none
  | c :: rest =>
    if tag.isPrefixOf (c :: rest) &&
        !(((c :: rest).drop tag.length).takeWhile (fun x => !isRegexSpace x)).isEmpty then
      some (((c :: rest).drop tag.length).takeWhile (fun x => !isRegexSpace x))
    else findTagged tag rest

namespace DeviceManager

/-- The constructor: the signal `finished` of `adbProcess` is connected to
`onAndroidDeviceListFinished` (lines 28-29), that of `ideviceProcess` to
`onIOSDeviceListFinished` (lines 31-32), and that of `adbProcess` to
`onAndroidDeviceListFinished` once more (lines 35-36). -/
def new : DeviceManager := { androidListSlots := 2, iosListSlots := 1 }

/-- Appends one emitted signal to the trace. -/
def emit (m : DeviceManager) (sig : RegistrySignal) : DeviceManager :=
  { m with emitted := m.emitted ++ [sig] }

/-- The statement `connectedDevices[deviceId] = device`. -/
def setDevice (m : DeviceManager) (deviceId : String) (device : DeviceInfo) : DeviceManager :=
  { m with connectedDevices := mapInsertOrdered m.connectedDevices deviceId device }

/-- The record that `parseAndroidDeviceList` builds for a device that is new. -/
def newAndroidDevice (deviceId : String) (authorized : Bool) (deviceProps : List Char) :
    DeviceInfo :=
  let model := match findTagged "model:".data deviceProps with
    | some x => String.mk x
    | none => "Android Device"
  let name := match findTagged "device:".data deviceProps with
    | some x => String.mk x
    | none => model
  { id := deviceId, type := "android", authorized := authorized, model := model, name := name }

/-- What the first loop of `parseAndroidDeviceList` does with a line that matches: the
identifier is noted as found; a device already in the registry gets its authorization
updated, with a signal when it changed; a new one is added and announced. -/
def noteAndroidDevice (st : List String × DeviceManager) (deviceId : String)
    (authorized : Bool) (deviceProps : List Char) : List String × DeviceManager :=
  if mapContains st.2.connectedDevices deviceId then
    let device := mapValue st.2.connectedDevices deviceId {}
    let m1 := st.2.setDevice deviceId { device with authorized := authorized }
    (st.1 ++ [deviceId],
      if device.authorized ≠ authorized then
        m1.emit (.deviceAuthorizationChanged deviceId authorized)
      else m1)
  else
    (st.1 ++ [deviceId],
      (st.2.setDevice deviceId (newAndroidDevice deviceId authorized deviceProps)).emit
        (.deviceConnected (newAndroidDevice deviceId authorized deviceProps)))

/-- The body of the first loop of `parseAndroidDeviceList` for one line; the state of the
loop is `foundIds` and the manager. -/
def parseAndroidLine (st : List String × DeviceManager) (line : List Char) :
    List String × DeviceManager :=
  if (trimmed line).isEmpty then st
  else
    match matchDeviceLine (trimmed line) with
    | none => st
    | some (deviceId, deviceState, props) =>
      noteAndroidDevice st (String.mk deviceId) (decide (String.mk deviceState = "device"))
        (trimmed props)

/-- The body of the loop "verificar dispositivos desconectados" of both parsers: a device
of the given platform that was in the registry and was not found is announced as
disconnected and removed. -/
def dropVanished (foundIds : List String) (type : String) (m : DeviceManager)
    (id : String) : DeviceManager :=
  if !foundIds.contains id && (mapValue m.connectedDevices id {}).type == type then
    { m.emit (.deviceDisconnected id) with
      connectedDevices := mapRemove m.connectedDevices id }
  else m

/-- `DeviceManager::parseAndroidDeviceList`. -/
def parseAndroidDeviceList (m : DeviceManager) (output : String) : DeviceManager :=
  let currentIds := m.connectedDevices.map Prod.fst
  let lines := splitSkipEmpty (Char.ofNat 10) output.data
  let st := (lines.drop 1).foldl parseAndroidLine ([], m)
  (currentIds.foldl (dropVanished st.1 "android") st.2).emit .deviceListUpdated

/-- `DeviceManager::onAndroidDeviceListFinished`: the output is read, and so taken out of
the process, only when the listing ended normally with exit code 0. -/
def onAndroidDeviceListFinished (m : DeviceManager) (exitCode : Int) (normalExit : Bool) :
    DeviceManager :=
  if exitCode ≠ 0 ∨ normalExit = false then m
  else parseAndroidDeviceList { m with adbOutput := "" } m.adbOutput

/-- The body of the first loop of `parseIOSDeviceList` for one line; `trusted` lists the
devices for which `checkIOSPermissions` answers true. -/
def parseIOSLine (trusted : List String) (st : List String × DeviceManager)
    (line : List Char) : List String × DeviceManager :=
  if (trimmed line).isEmpty then st
  else if !mapContains st.2.connectedDevices (String.mk (trimmed line)) then
    (st.1 ++ [String.mk (trimmed line)],
      (st.2.setDevice (String.mk (trimmed line))
        { id := String.mk (trimmed line), type := "ios", model := "iPhone/iPad",
          name := "iOS Device", authorized := trusted.contains (String.mk (trimmed line)) }).emit
        (.deviceConnected
          { id := String.mk (trimmed line), type := "ios", model := "iPhone/iPad",
            name := "iOS Device", authorized := trusted.contains (String.mk (trimmed line)) }))
  else (st.1 ++ [String.mk (trimmed line)], st.2)

/-- `DeviceManager::parseIOSDeviceList`. -/
def parseIOSDeviceList (trusted : List String) (m : DeviceManager) (output : String) :
    DeviceManager :=
  let currentIds := m.connectedDevices.map Prod.fst
  let lines := splitSkipEmpty (Char.ofNat 10) output.data
  let st := lines.foldl (parseIOSLine trusted) ([], m)
  (currentIds.foldl (dropVanished st.1 "ios") st.2).emit .deviceListUpdated

/-- `DeviceManager::onIOSDeviceListFinished`. -/
def onIOSDeviceListFinished (trusted : List String) (m : DeviceManager) (exitCode : Int)
    (normalExit : Bool) : DeviceManager :=
  if exitCode ≠ 0 ∨ normalExit = false then m
  else parseIOSDeviceList trusted { m with ideviceOutput := "" } m.ideviceOutput

end DeviceManager

/-- What the two listing processes deliver to the registry: the end of a run, with its exit
code, whether it ended normally, and what it wrote to its standard output. -/
inductive RegistryEvent where
  | androidListFinished (exitCode : Int) (normalExit : Bool) (output : String)
  | iosListFinished (exitCode : Int) (normalExit : Bool) (output : String)
      (trusted : List String)
deriving DecidableEq, Repr

/-- One poll: the output of the run is placed in the process, and the slot runs once per
connection made from the signal `finished`. -/
def DeviceManager.step (m : DeviceManager) : RegistryEvent → DeviceManager
  | .androidListFinished exitCode normalExit output =>
    Nat.iterate (fun x => x.onAndroidDeviceListFinished exitCode normalExit)
      m.androidListSlots { m with adbOutput := output }
  | .iosListFinished exitCode normalExit output trusted =>
    Nat.iterate (fun x => x.onIOSDeviceListFinished trusted exitCode normalExit)
      m.iosListSlots { m with ideviceOutput := output }

/-- The Android devices of a registry: the identifiers of its entries of type "android",
in the order of the registry. -/
def DeviceManager.androidIds (m : DeviceManager) : List String :=
  (m.connectedDevices.filter (fun p => p.2.type == "android")).map Prod.fst

/-- The output of `adb devices -l` with one authorized device, "R58M123ABC". -/
def oneDeviceListing : String :=
  "List of devices attached\nR58M123ABC             device product:a52q model:SM_A525F device:a52q transport_id:1\n\n"

/-- A registry that holds the trusted iOS device "00008030-001A" and nothing else, as the
constructor and one poll of the iOS listing leave it. -/
def registryWithIPhone : DeviceManager :=
  DeviceManager.new.step (.iosListFinished 0 true "00008030-001A\n" ["00008030-001A"])

/-! ## Scenarios with skipped items, progress events, cancelled and failed transfers -/

/-- The transfer of contacts and messages from "S" to "D", cancelled right after its
start. -/
def cancelledContacts : DataTransferManager :=
  DataTransferManager.cancelTransfer twoAndroids contactsStarted

/-- The two-photo transfer from "S" to "D" without bridge clients, right after its start:
the subprocess that pulls the first photo is running. -/
def firstPhotoPulling : DataTransferManager :=
  (DataTransferManager.startTransfer twoAndroids twoPhotos {} "S" "D" ["photos"] false).2

/-- The same transfer once the first photo has been pulled: the subprocess that pushes it
is running. -/
def firstPhotoPushing : DataTransferManager :=
  step twoAndroids firstPhotoPulling (.pullFinished 0 true)

/-- The two-photo transfer over the bridge clients once the first photo has been saved on
"D" and the second one requested from "S". -/
def secondPhotoRequested : DataTransferManager :=
  run {} (twoPhotosBridgeRun.take 4)

/-- The transfer of the contact of "S" to the iOS device "I" as the call of
`startTransfer` leaves it: its only task has been announced as failed. -/
def contactsForIOSFailed : DataTransferManager :=
  (DataTransferManager.startTransfer androidAndIOS oneContact {} "S" "I" ["contacts"] false).2

/-- The start of the transfer of contacts and messages from "S" to "D", and its
cancellation. -/
def startedThenCancelledRun : List (World × Event) :=
  [(twoAndroids, .startTransfer contactsAndMessages "S" "D" ["contacts", "messages"] false),
   (twoAndroids, .cancelTransfer)]

/-- The two-photo transfer over the bridge clients up to the request for the second
photo, followed by one progress report of the source for that photo: 5 of its 10 bytes. -/
def secondPhotoProgressRun : List (World × Event) :=
  twoPhotosBridgeRun.take 4 ++
    [(twoAndroidsBridged, .bridge "S" (.fileTransferProgress "/p/b.jpg" 5 10))]

/-- An analyzer that found one contact of 10 bytes and two photos of 10 bytes each on
"S". -/
def contactAndPhotos : DataAnalyzer :=
  { m_dataSets := [("S", [
      ("contacts",
        { type := "contacts", items := [{ id := "c1", displayName := "Ana", size := 10 }],
          totalSize := 10, isSupported := true }),
      ("photos",
        { type := "photos",
          items := [{ id := "/p/a.jpg", displayName := "a.jpg", filePath := "/p/a.jpg", size := 10 },
                    { id := "/p/b.jpg", displayName := "b.jpg", filePath := "/p/b.jpg", size := 10 }],
          totalSize := 20, isSupported := true })])] }

/-- The transfer of the contact and the photos of "S" to the iOS device "I" as the call of
`startTransfer` leaves it: the contacts task has been announced as failed, the photos are
queued. -/
def contactsFailedPhotosQueued : DataTransferManager :=
  (DataTransferManager.startTransfer androidAndIOS contactAndPhotos {} "S" "I"
    ["contacts", "photos"] false).2

/-- Whether a signal is a `transferFinished`. -/
def TransferSignal.isTransferFinished : TransferSignal → Bool
  | .transferFinished _ _ => true
  | _ => false

/-- Whether a signal is a `transferFailed`. -/
def TransferSignal.isTransferFailed : TransferSignal → Bool
  | .transferFailed _ => true
  | _ => false

/-- The JSON element of the picture "/sdcard/DCIM/c.jpg" of 10 bytes, without the member
"type". -/
def untaggedPicture : FileEntry :=
  { path := "/sdcard/DCIM/c.jpg", name := "c.jpg", size := 10, mimeType := "image/jpeg" }

/-! ## Predicates used in the statements -/

/-- The conditions under which a requested category becomes a task: the data set of the
source has at least one item, is marked supported, has an empty error message, and the
category is supported between the platforms of the two devices. -/
def EligibleCategory (w : World) (a : DataAnalyzer) (sourceId destId c : String) : Prop :=
  (getDataSet a sourceId c).items ≠ [] ∧ (getDataSet a sourceId c).isSupported = true ∧
  (getDataSet a sourceId c).errorMessage = "" ∧
  isTypeSupported (getDeviceInfo w sourceId).type (getDeviceInfo w destId).type c = true

instance (w : World) (a : DataAnalyzer) (sourceId destId c : String) :
    Decidable (EligibleCategory w a sourceId destId c) :=
  inferInstanceAs (Decidable (_ ∧ _ ∧ _ ∧ _))

/-- Every entry of the task-state map is a task of the category it is filed under, and
every queued category has an entry. -/
def WellKeyed (s : DataTransferManager) : Prop :=
  (∀ p ∈ s.m_taskStates, p.2.dataType = p.1) ∧
  ∀ c ∈ s.m_dataTypeQueue, mapContains s.m_taskStates c = true

/-- The engine is either active or has an empty category queue. -/
def IdleQueueEmpty (s : DataTransferManager) : Prop :=
  s.m_isTransferring = false → s.m_dataTypeQueue = []

/-- The mutex of the engine is free, unless the thread of the engine is blocked on it. -/
def MutexFree (s : DataTransferManager) : Prop :=
  s.hung = false → s.locked = false

/-! ## What the per-item and per-task handlers leave alone -/

/-- The signals a handler working on the task of category `d` may emit. -/
def TaskLevel (d : String) : TransferSignal → Prop
  | .transferProgress _ => True
  | .transferTaskProgress c _ _ _ _ _ _ => c = d
  | .transferTaskCompleted c _ => c = d
  | .transferTaskFailed c _ => c = d
  | _ => False

/-- `Frame s s'`: going from `s` to `s'` keeps the active flag, the category queue and
the category of the current task, and only adds task-level signals to the trace. -/
def Frame (s s' : DataTransferManager) : Prop :=
  s'.m_isTransferring = s.m_isTransferring ∧ s'.m_dataTypeQueue = s.m_dataTypeQueue ∧
  s'.m_currentTask.dataType = s.m_currentTask.dataType ∧
  ∃ new, s'.emitted = s.emitted ++ new ∧ ∀ x ∈ new, TaskLevel s.m_currentTask.dataType x

/-! ## Theorems -/

set_option maxRecDepth 8000

/-! ### Machine numbers -/

theorem wrap64_of_range (x : Int) (h0 : -2 ^ 63 ≤ x) (h1 : x < 2 ^ 63) : wrap64 x = x := by
  unfold wrap64
  rw [Int.emod_eq_of_lt (by omega) (by omega)]
  omega

theorem wrap64_add_wrap64 (x y : Int) : wrap64 (wrap64 x + y) = wrap64 (x + y) := by
  unfold wrap64
  have h : ((x + 2 ^ 63) % 2 ^ 64 - 2 ^ 63 + y + 2 ^ 63) % 2 ^ 64 = (x + y + 2 ^ 63) % 2 ^ 64 := by
    omega
  rw [h]

theorem Frame.refl (s : DataTransferManager) : Frame s s :=
  ⟨rfl, rfl, rfl, [], by simp, by simp⟩

theorem Frame.trans {a b c : DataTransferManager} (h1 : Frame a b) (h2 : Frame b c) :
    Frame a c := by
  obtain ⟨ha, hq, hd, n1, he1, hn1⟩ := h1
  obtain ⟨hb, hq2, hd2, n2, he2, hn2⟩ := h2
  refine ⟨hb.trans ha, hq2.trans hq, hd2.trans hd, n1 ++ n2, ?_, ?_⟩
  · rw [he2, he1, List.append_assoc]
  · intro x hx
    rcases List.mem_append.1 hx with h | h
    · exact hn1 x h
    · rw [← hd]; exact hn2 x h

/-- A state that differs from `b` in neither of the framed members extends a frame. -/
theorem Frame.congr {a b c : DataTransferManager} (h : Frame a b)
    (h1 : c.m_isTransferring = b.m_isTransferring) (h2 : c.m_dataTypeQueue = b.m_dataTypeQueue)
    (h3 : c.m_currentTask.dataType = b.m_currentTask.dataType) (h4 : c.emitted = b.emitted) :
    Frame a c :=
  Frame.trans h ⟨h1, h2, h3, [], by simp [h4], by simp⟩

namespace DataTransferManager

theorem frame_emit {a s : DataTransferManager} (h : Frame a s) (sig : TransferSignal)
    (hs : TaskLevel s.m_currentTask.dataType sig) : Frame a (s.emit sig) :=
  Frame.trans h ⟨rfl, rfl, rfl, [sig], rfl, by simpa using hs⟩

theorem frame_defer {a s : DataTransferManager} (h : Frame a s) (d : Deferred) :
    Frame a (s.defer d) := h.congr rfl rfl rfl rfl

theorem frame_lock {a s : DataTransferManager} (h : Frame a s) : Frame a s.lock := by
  unfold lock
  split <;> exact h.congr rfl rfl rfl rfl

theorem frame_unlock {a s : DataTransferManager} (h : Frame a s) : Frame a s.unlock :=
  h.congr rfl rfl rfl rfl

theorem frame_andThen {a s : DataTransferManager} (h : Frame a s)
    (f : DataTransferManager → DataTransferManager) (hf : ∀ x, Frame a x → Frame a (f x)) :
    Frame a (s.andThen f) := by
  unfold andThen
  split
  · exact h
  · exact hf s h

theorem frame_setStatus {a s : DataTransferManager} (h : Frame a s) (x : String) :
    Frame a (s.setStatus x) := h.congr rfl rfl rfl rfl

theorem frame_setErrorMessage {a s : DataTransferManager} (h : Frame a s) (x : String) :
    Frame a (s.setErrorMessage x) := h.congr rfl rfl rfl rfl

theorem frame_setItemName {a s : DataTransferManager} (h : Frame a s) (x : String) :
    Frame a (s.setItemName x) := h.congr rfl rfl rfl rfl

theorem frame_setTempFilePath {a s : DataTransferManager} (h : Frame a s) (x : String) :
    Frame a (s.setTempFilePath x) := h.congr rfl rfl rfl rfl

theorem frame_setProcessedSize {a s : DataTransferManager} (h : Frame a s) (x : Int) :
    Frame a (s.setProcessedSize x) := h.congr rfl rfl rfl rfl

theorem frame_nextIndex {a s : DataTransferManager} (h : Frame a s) : Frame a s.nextIndex :=
  h.congr rfl rfl rfl rfl

theorem frame_countItem {a s : DataTransferManager} (h : Frame a s) : Frame a s.countItem :=
  h.congr rfl rfl rfl rfl

theorem frame_creditSize {a s : DataTransferManager} (h : Frame a s) (n : Int) :
    Frame a (s.creditSize n) := h.congr rfl rfl rfl rfl

theorem frame_addPreviousTasks {a s : DataTransferManager} (h : Frame a s) (n : Int) :
    Frame a (s.addPreviousTasks n) := h.congr rfl rfl rfl rfl

theorem frame_setPullRunning {a s : DataTransferManager} (h : Frame a s) (b : Bool) :
    Frame a (s.setPullRunning b) := h.congr rfl rfl rfl rfl

theorem frame_setPushRunning {a s : DataTransferManager} (h : Frame a s) (b : Bool) :
    Frame a (s.setPushRunning b) := h.congr rfl rfl rfl rfl

theorem frame_addConnections {a s : DataTransferManager} (h : Frame a s)
    (cs : List (String × BridgeSignal)) : Frame a (s.addConnections cs) :=
  h.congr rfl rfl rfl rfl

theorem frame_storeCurrentTask {a s : DataTransferManager} (h : Frame a s) :
    Frame a s.storeCurrentTask := by
  unfold storeCurrentTask
  split
  · exact h.congr rfl rfl rfl rfl
  · exact h

theorem frame_emitOverallProgress {a s : DataTransferManager} (h : Frame a s) :
    Frame a s.emitOverallProgress :=
  frame_andThen (frame_lock h) _ fun _ hx => frame_emit (frame_unlock hx) _ trivial

theorem frame_emitTaskProgress {a s : DataTransferManager} (h : Frame a s) :
    Frame a s.emitTaskProgress := by
  refine frame_andThen (frame_lock h) _ fun x hx => ?_
  dsimp only
  split
  · exact frame_unlock hx
  · exact frame_emit (frame_unlock hx) _ rfl

theorem frame_disconnect {a s : DataTransferManager} (h : Frame a s) (w : World) (d : String) :
    Frame a (disconnectBridgeClientSignals w s d) := by
  unfold disconnectBridgeClientSignals
  split
  · exact h.congr rfl rfl rfl rfl
  · exact h

theorem frame_disconnectCurrentTask {a s : DataTransferManager} (h : Frame a s) (w : World) :
    Frame a (disconnectCurrentTask w s) := by
  unfold disconnectCurrentTask
  split
  · exact frame_disconnect (frame_disconnect h w _) w _
  · exact h

theorem frame_connect {a s : DataTransferManager} (h : Frame a s) (w : World)
    (d role : String) : Frame a (connectToBridgeClient w s d role).2 := by
  unfold connectToBridgeClient
  split_ifs
  · exact h
  · exact h
  · exact frame_addConnections h _
  · exact frame_addConnections h _
  · exact h

theorem frame_reportTaskCompleted {a s : DataTransferManager} (h : Frame a s) :
    Frame a s.reportTaskCompleted := by
  unfold reportTaskCompleted
  refine frame_addPreviousTasks (frame_emit (frame_emit h _ ?_) _ ?_) _ <;> rfl

theorem frame_reportTaskFailed {a s : DataTransferManager} (h : Frame a s) (msg : String) :
    Frame a (s.reportTaskFailed msg) := by
  unfold reportTaskFailed
  refine frame_addPreviousTasks (frame_emit h _ ?_) _
  rfl

theorem frame_closeCurrentTask {a s : DataTransferManager} (h : Frame a s) (w : World)
    (success : Bool) (errorMsg : String) : Frame a (closeCurrentTask w s success errorMsg) := by
  unfold closeCurrentTask
  dsimp only
  split
  · exact frame_reportTaskCompleted (frame_disconnectCurrentTask (frame_storeCurrentTask
      (frame_setErrorMessage (frame_setStatus h _) _)) w)
  · exact frame_reportTaskFailed (frame_disconnectCurrentTask (frame_storeCurrentTask
      (frame_setErrorMessage (frame_setStatus h _) _)) w) _

theorem frame_finalizeCurrentTask {a s : DataTransferManager} (h : Frame a s) (w : World)
    (success : Bool) (errorMsg : String) :
    Frame a (finalizeCurrentTask w s success errorMsg) := by
  refine frame_andThen (frame_lock h) _ fun x hx => ?_
  dsimp only
  split
  · exact frame_unlock hx
  split
  · exact frame_defer (frame_unlock hx) _
  · exact frame_andThen (frame_emitOverallProgress (frame_closeCurrentTask hx w _ _)) _
      fun y hy => frame_defer (frame_unlock hy) _

theorem frame_startPhotoPull {a s : DataTransferManager} (h : Frame a s) (w : World) :
    Frame a (startPhotoPull w s) := by
  refine frame_andThen (frame_lock h) _ fun x hx => ?_
  dsimp only
  split
  · exact frame_unlock hx
  split
  · exact frame_finalizeCurrentTask (frame_unlock hx) w _ _
  split
  · exact frame_andThen (frame_emitTaskProgress (frame_countItem (frame_setItemName hx _))) _
      fun y hy => frame_defer (frame_unlock hy) _
  split
  · exact frame_finalizeCurrentTask
      (frame_unlock (frame_setTempFilePath (frame_setItemName hx _) _)) w _ _
  · exact frame_andThen (frame_emitTaskProgress (frame_unlock (frame_setStatus
      (frame_setTempFilePath (frame_setItemName hx _) _) _))) _
      fun y hy => frame_setPullRunning hy _

theorem frame_startPhotoPush {a s : DataTransferManager} (h : Frame a s) (w : World) :
    Frame a (startPhotoPush w s) := by
  refine frame_andThen (frame_lock h) _ fun x hx => ?_
  dsimp only
  split
  · exact frame_unlock hx
  split
  · exact frame_finalizeCurrentTask (frame_unlock hx) w _ _
  split
  · exact frame_andThen (frame_emitTaskProgress (frame_countItem hx)) _
      fun y hy => frame_defer (frame_unlock hy) _
  split
  · exact frame_finalizeCurrentTask (frame_unlock hx) w _ _
  · exact frame_setPushRunning (frame_unlock (frame_setStatus hx _)) _

theorem frame_onPullProcessFinished {a s : DataTransferManager} (h : Frame a s) (w : World)
    (exitCode : Int) (normalExit : Bool) :
    Frame a (onPullProcessFinished w s exitCode normalExit) := by
  refine frame_andThen (frame_lock h) _ fun x hx => ?_
  dsimp only
  split
  · exact frame_unlock hx
  split
  · exact frame_andThen (frame_emitTaskProgress (frame_countItem hx)) _
      fun y hy => frame_defer (frame_unlock hy) _
  · exact frame_startPhotoPush (frame_unlock hx) w

theorem frame_onPushProcessFinished {a s : DataTransferManager} (h : Frame a s)
    (exitCode : Int) (normalExit : Bool) :
    Frame a (onPushProcessFinished s exitCode normalExit) := by
  refine frame_andThen (frame_lock h) _ fun x hx => ?_
  dsimp only
  split
  · exact frame_unlock hx
  split
  · exact frame_defer (frame_unlock hx) _
  · refine frame_andThen (frame_andThen (frame_emitTaskProgress (frame_countItem ?_)) _
      fun y hy => frame_emitOverallProgress hy) _ fun y hy => frame_defer (frame_unlock hy) _
    split
    · exact hx
    · exact frame_creditSize hx _

theorem frame_startPhotoPullViaBridge {a s : DataTransferManager} (h : Frame a s) (w : World)
    (item : DataItem) : Frame a (startPhotoPullViaBridge w s item).2 := by
  unfold startPhotoPullViaBridge
  have hx := frame_lock h
  split
  · exact hx
  dsimp only
  split
  · exact frame_unlock hx
  split
  · exact frame_unlock hx
  have h1 := frame_connect hx w s.lock.m_currentTask.sourceId "source"
  have h2 := frame_connect h1 w s.lock.m_currentTask.destId "destination"
  split
  · exact frame_unlock h1
  split
  · exact frame_unlock h2
  split
  · exact frame_unlock (frame_disconnect (frame_disconnect h2 w _) w _)
  · exact frame_emitTaskProgress (frame_unlock (frame_setStatus h2 _))

theorem frame_startContactsTransfer {a s : DataTransferManager} (h : Frame a s) (w : World) :
    Frame a (startContactsTransfer w s).2 := by
  unfold startContactsTransfer
  split
  · exact frame_lock h
  split
  · exact frame_finalizeCurrentTask (frame_unlock (frame_lock h)) w _ _
  · exact frame_unlock (frame_defer (frame_lock h) _)

theorem frame_startMessagesTransfer {a s : DataTransferManager} (h : Frame a s) (w : World) :
    Frame a (startMessagesTransfer w s).2 := by
  unfold startMessagesTransfer
  split
  · exact frame_lock h
  split
  · exact frame_finalizeCurrentTask (frame_unlock (frame_lock h)) w _ _
  · exact frame_unlock (frame_defer (frame_lock h) _)

theorem frame_simulatedItem {a s : DataTransferManager} (h : Frame a s) :
    Frame a s.simulatedItem := by
  refine frame_andThen (frame_lock h) _ fun x hx => ?_
  dsimp only
  split
  · exact frame_unlock hx
  split
  · exact frame_andThen (frame_andThen (frame_emitTaskProgress (frame_unlock
      (frame_creditSize (frame_countItem hx) _))) _ fun y hy => frame_emitOverallProgress hy) _
      fun y hy => frame_defer hy _
  · exact frame_unlock hx

theorem frame_transferCurrentItem {a s : DataTransferManager} (h : Frame a s) (w : World)
    (item : DataItem) : Frame a (transferCurrentItem w s item) := by
  unfold transferCurrentItem
  dsimp only
  split
  · split
    · split
      · exact frame_andThen (frame_startPhotoPullViaBridge h w _) _
          fun y hy => frame_startPhotoPull hy w
      · exact frame_startPhotoPullViaBridge h w _
    · exact frame_startPhotoPull h w
  split
  · exact frame_startContactsTransfer h w
  split
  · exact frame_startMessagesTransfer h w
  · exact frame_finalizeCurrentTask h w _ _

theorem frame_processNextTransferStep {a s : DataTransferManager} (h : Frame a s)
    (w : World) : Frame a (processNextTransferStep w s) := by
  refine frame_andThen (frame_lock h) _ fun x hx => ?_
  dsimp only
  split
  · exact frame_unlock hx
  have h1 := frame_nextIndex hx
  split
  · exact frame_finalizeCurrentTask (frame_unlock h1) w _ _
  split
  · exact frame_finalizeCurrentTask (frame_unlock h1) w _ _
  · exact frame_transferCurrentItem (frame_unlock (frame_setItemName h1 _)) w _

theorem frame_slot {a s : DataTransferManager} (h : Frame a s) (w : World)
    (e : BridgeEmission) : Frame a (slot w s e) := by
  cases e with
  | fileReady p =>
    show Frame a (onBridgeClientFileReady w s p)
    refine frame_andThen (frame_lock h) _ fun x hx => ?_
    dsimp only
    split
    · exact frame_unlock hx
    split
    · exact frame_andThen (frame_emitTaskProgress (frame_unlock (frame_countItem hx))) _
        fun y hy => frame_defer hy _
    · exact frame_unlock hx
  | fileSaved r =>
    show Frame a (onBridgeClientFileSaved s r)
    refine frame_andThen (frame_lock h) _ fun x hx => ?_
    dsimp only
    split
    · exact frame_unlock hx
    refine frame_andThen (frame_andThen (frame_emitTaskProgress (frame_unlock ?_)) _
      fun y hy => frame_emitOverallProgress hy) _ fun y hy => frame_defer hy _
    split
    · refine frame_countItem ?_
      split
      · exact frame_creditSize hx _
      · exact hx
    · exact hx
  | fileTransferProgress p r t =>
    show Frame a (onBridgeClientFileProgress s p r t)
    refine frame_andThen (frame_lock h) _ fun x hx => ?_
    dsimp only
    split
    · exact frame_unlock hx
    refine frame_andThen (frame_emitTaskProgress (frame_unlock ?_)) _
      fun y hy => frame_emitOverallProgress hy
    split
    · exact frame_setProcessedSize hx _
    · exact hx
  | errorOccurred m =>
    show Frame a (onBridgeClientError s m)
    refine frame_andThen (frame_lock h) _ fun x hx => ?_
    dsimp only
    split
    · exact frame_unlock hx
    refine frame_andThen (frame_emitTaskProgress (frame_unlock ?_)) _
      fun y hy => frame_defer hy _
    split
    · exact frame_countItem hx
    · exact hx

theorem frame_iterate_slot {a s : DataTransferManager} (h : Frame a s) (w : World)
    (e : BridgeEmission) (n : Nat) :
    Frame a (Nat.iterate (fun x => x.andThen fun y => slot w y e) n s) := by
  induction n generalizing s with
  | zero => exact h
  | succ n ih => exact ih (frame_andThen h _ fun y hy => frame_slot hy w e)

end DataTransferManager

/-! ### Association lists and the queue built by `startTransfer` -/

theorem mapContains_iff {V : Type} (m : List (String × V)) (k : String) :
    mapContains m k = true ↔ ∃ p ∈ m, p.1 = k := by
  simp [mapContains]

theorem mem_mapInsert {V : Type} {m : List (String × V)} {k : String} {v : V}
    {p : String × V} (h : p ∈ mapInsert m k v) : p ∈ m ∨ p = (k, v) := by
  unfold mapInsert at h
  split at h
  · obtain ⟨q, hq, rfl⟩ := List.mem_map.1 h
    by_cases hk : (q.1 == k) = true
    · right; simp [hk]
    · left; simpa [hk] using hq
  · simpa using h

theorem mapContains_mapInsert_self {V : Type} (m : List (String × V)) (k : String) (v : V) :
    mapContains (mapInsert m k v) k = true := by
  unfold mapInsert
  split
  · rename_i h
    obtain ⟨p, hp, hk⟩ := (mapContains_iff m k).1 h
    refine (mapContains_iff _ k).2 ⟨(k, v), List.mem_map.2 ⟨p, hp, by simp [hk]⟩, rfl⟩
  · exact (mapContains_iff _ k).2 ⟨(k, v), by simp, rfl⟩

theorem mapContains_mapInsert_of {V : Type} {m : List (String × V)} {c : String}
    (h : mapContains m c = true) (k : String) (v : V) :
    mapContains (mapInsert m k v) c = true := by
  obtain ⟨p, hp, hc⟩ := (mapContains_iff m c).1 h
  unfold mapInsert
  split
  · by_cases hk : (p.1 == k) = true
    · have : k = c := by rw [← hc]; exact (by simpa using hk : p.1 = k).symm
      exact (mapContains_iff _ c).2 ⟨(k, v), List.mem_map.2 ⟨p, hp, by simp [hk]⟩, this⟩
    · exact (mapContains_iff _ c).2 ⟨p, List.mem_map.2 ⟨p, hp, by simp [hk]⟩, hc⟩
  · exact (mapContains_iff _ c).2 ⟨p, by simp [hp], hc⟩

theorem mapValue_mem {V : Type} {m : List (String × V)} {k : String} (d : V)
    (h : mapContains m k = true) : (k, mapValue m k d) ∈ m := by
  unfold mapValue
  cases hf : m.find? (fun p => p.1 == k) with
  | none =>
    obtain ⟨p, hp, hk⟩ := (mapContains_iff m k).1 h
    have := List.find?_eq_none.1 hf p hp
    simp [hk] at this
  | some p =>
    have h1 := List.mem_of_find?_eq_some hf
    have h2 := List.find?_some hf
    have : p.1 = k := by simpa using h2
    simpa [← this] using h1

namespace DataTransferManager

theorem yieldsTask_iff (w : World) (a : DataAnalyzer) (sourceId destId c : String) :
    yieldsTask a sourceId (getDeviceInfo w sourceId).type (getDeviceInfo w destId).type c = true
      ↔ EligibleCategory w a sourceId destId c := by
  simp [yieldsTask, EligibleCategory, String.isEmpty_iff, and_assoc]

theorem enqueueTransferTasks_spec (a : DataAnalyzer) (sourceId destId st dt : String)
    (clr br : Bool) (dataTypes : List String) (s : DataTransferManager) (hs : WellKeyed s) :
    (enqueueTransferTasks a sourceId destId st dt clr br dataTypes s).m_dataTypeQueue =
      s.m_dataTypeQueue ++ dataTypes.filter (fun c => yieldsTask a sourceId st dt c) ∧
    WellKeyed (enqueueTransferTasks a sourceId destId st dt clr br dataTypes s) ∧
    (enqueueTransferTasks a sourceId destId st dt clr br dataTypes s).m_isTransferring =
      s.m_isTransferring ∧
    (enqueueTransferTasks a sourceId destId st dt clr br dataTypes s).emitted = s.emitted ∧
    (enqueueTransferTasks a sourceId destId st dt clr br dataTypes s).pending = s.pending := by
  induction dataTypes generalizing s with
  | nil => simp [enqueueTransferTasks, hs]
  | cons c rest ih =>
    unfold enqueueTransferTasks
    dsimp only
    split
    · rename_i h
      have hy : yieldsTask a sourceId st dt c = false := by
        unfold yieldsTask; simp only [h]; rfl
      simpa [List.filter_cons, hy] using ih s hs
    split
    · rename_i h1 h
      have hy : yieldsTask a sourceId st dt c = false := by
        unfold yieldsTask
        have : isTypeSupported st dt c = false := by simpa using h
        simp [this]
      simpa [List.filter_cons, hy] using ih s hs
    · rename_i h1 h2
      have hy : yieldsTask a sourceId st dt c = true := by
        unfold yieldsTask
        have h3 : isTypeSupported st dt c = true := by simpa using h2
        have h4 : (((getDataSet a sourceId c).items.isEmpty ||
          !(getDataSet a sourceId c).isSupported) ||
          !(getDataSet a sourceId c).errorMessage.isEmpty) = false := by simpa using h1
        simp only [h4, h3]; rfl
      have hw : WellKeyed (s.enqueueTask (newTask sourceId destId c clr br
          (getDataSet a sourceId c))) := by
        constructor
        · intro p hp
          rcases mem_mapInsert hp with h | h
          · exact hs.1 p h
          · rw [h]
        · intro x hx
          rcases List.mem_append.1 hx with h | h
          · exact mapContains_mapInsert_of (hs.2 x h) _ _
          · have : x = c := by simpa [newTask] using h
            rw [this]; exact mapContains_mapInsert_self _ _ _
      have h := ih _ hw
      simpa [List.filter_cons, hy, enqueueTask, newTask] using h

theorem enqueueTransferTasks_mutex (a : DataAnalyzer) (sourceId destId st dt : String)
    (clr br : Bool) (dataTypes : List String) (s : DataTransferManager) :
    (enqueueTransferTasks a sourceId destId st dt clr br dataTypes s).locked = s.locked ∧
    (enqueueTransferTasks a sourceId destId st dt clr br dataTypes s).hung = s.hung := by
  induction dataTypes generalizing s with
  | nil => exact ⟨rfl, rfl⟩
  | cons c rest ih =>
    unfold enqueueTransferTasks
    dsimp only
    split
    · exact ih s
    split
    · exact ih s
    · exact ih _

end DataTransferManager

/-! ### The mutex -/

namespace DataTransferManager

theorem lock_of_free {s : DataTransferManager} (h : s.locked = false) :
    s.lock = { s with locked := true } := by
  simp [lock, h]

theorem lock_of_held {s : DataTransferManager} (h : s.locked = true) :
    s.lock = { s with hung := true } := by
  simp [lock, h]

theorem andThen_of_running {s : DataTransferManager} (h : s.hung = false)
    (f : DataTransferManager → DataTransferManager) : s.andThen f = f s := by
  simp [andThen, h]

theorem andThen_of_hung {s : DataTransferManager} (h : s.hung = true)
    (f : DataTransferManager → DataTransferManager) : s.andThen f = s := by
  simp [andThen, h]

/-- A member function called while the mutex is free takes it and runs its body. -/
theorem enter {s : DataTransferManager} (hl : s.locked = false) (hh : s.hung = false)
    (f : DataTransferManager → DataTransferManager) :
    s.lock.andThen f = f { s with locked := true } := by
  rw [lock_of_free hl]
  exact andThen_of_running (show ({ s with locked := true } : DataTransferManager).hung = false
    from hh) f

/-- A member function called while the mutex is held blocks the thread at once. -/
theorem enter_held {s : DataTransferManager} (hl : s.locked = true)
    (f : DataTransferManager → DataTransferManager) :
    s.lock.andThen f = { s with hung := true } := by
  rw [lock_of_held hl]
  exact andThen_of_hung (show ({ s with hung := true } : DataTransferManager).hung = true
    from rfl) f

/-- Taking and releasing the mutex leaves an engine whose mutex was free as it was. -/
theorem unlock_of_free {s : DataTransferManager} (h : s.locked = false) :
    ({ s with locked := true } : DataTransferManager).unlock = s := by
  show ({ s with locked := false } : DataTransferManager) = s
  rw [← h]

/-! ### Starting tasks -/

theorem startPlatformTask_dataType (w : World) (task : TransferTask) :
    (startPlatformTask w task).2.dataType = task.dataType := by
  unfold startPlatformTask transferAndroidToAndroid transferAndroidToIOS transferIOSToAndroid
    transferIOSToIOS
  dsimp only
  split_ifs <;> rfl

theorem frame_dispatchCurrentTask {a s : DataTransferManager} (h : Frame a s) (w : World) :
    Frame a (dispatchCurrentTask w s) := by
  unfold dispatchCurrentTask
  dsimp only
  have h4 := h.congr (c := s.setTask (startPlatformTask w s.m_currentTask).2)
    rfl rfl (startPlatformTask_dataType w _) rfl
  split
  · exact frame_finalizeCurrentTask h4 w _ _
  · exact frame_processNextTransferStep h4 w

/-- Launching the current task keeps the active flag, the queue and the category of the
current task, and adds `transferTaskStarted` followed by task-level signals. -/
theorem launchCurrentTask_spec (w : World) (s : DataTransferManager) :
    (launchCurrentTask w s).m_isTransferring = s.m_isTransferring ∧
    (launchCurrentTask w s).m_dataTypeQueue = s.m_dataTypeQueue ∧
    (launchCurrentTask w s).m_currentTask.dataType = s.m_currentTask.dataType ∧
    ∃ new, (launchCurrentTask w s).emitted = s.emitted ++
        TransferSignal.transferTaskStarted s.m_currentTask.dataType s.m_currentTask.totalItems
          :: new ∧
      ∀ x ∈ new, TaskLevel s.m_currentTask.dataType x := by
  have h1 : Frame (s.emit (.transferTaskStarted s.m_currentTask.dataType
      s.m_currentTask.totalItems)) (launchCurrentTask w s) := by
    unfold launchCurrentTask
    exact frame_andThen (frame_emitTaskProgress (Frame.refl _)) _
      fun y hy => frame_dispatchCurrentTask hy w
  obtain ⟨f1, f2, f3, new, f4, f5⟩ := h1
  refine ⟨f1, f2, f3, new, ?_, f5⟩
  rw [f4]; simp [emit]

/-- Starting the next task, with the mutex free, when the queue is `c :: rest` and `c` has
a well-keyed entry: `c` becomes the current task, `rest` stays queued, the engine stays
active, and the trace grows by `transferTaskStarted c _` followed by task-level signals
of `c`. -/
theorem startNextTransferTask_cons (w : World) (s : DataTransferManager) (c : String)
    (rest : List String) (hq : s.m_dataTypeQueue = c :: rest)
    (ha : s.m_isTransferring = true) (hc : mapContains s.m_taskStates c = true)
    (hd : (mapValue s.m_taskStates c {}).dataType = c)
    (hl : s.locked = false) (hh : s.hung = false) :
    (startNextTransferTask w s).m_isTransferring = true ∧
    (startNextTransferTask w s).m_dataTypeQueue = rest ∧
    (startNextTransferTask w s).m_currentTask.dataType = c ∧
    ∃ n new, (startNextTransferTask w s).emitted =
        s.emitted ++ TransferSignal.transferTaskStarted c n :: new ∧
      ∀ x ∈ new, TaskLevel c x := by
  unfold startNextTransferTask
  rw [enter hl hh]
  dsimp only
  rw [hq]
  dsimp only
  rw [if_neg (by simp [ha]), if_neg (by simp [hc])]
  obtain ⟨f1, f2, f3, new, f4, f5⟩ :=
    launchCurrentTask_spec w
      (({ s with locked := true, m_dataTypeQueue := rest }.takeTask c).unlock)
  have hd' : (({ s with locked := true, m_dataTypeQueue := rest }.takeTask c).unlock
      ).m_currentTask.dataType = c := hd
  rw [hd'] at f3 f4 f5
  exact ⟨f1.trans ha, f2, f3, _, new, f4, f5⟩

end DataTransferManager

theorem IdleQueueEmpty.of_same_queue {s s' : DataTransferManager} (hs : IdleQueueEmpty s)
    (h1 : s'.m_isTransferring = s.m_isTransferring)
    (h2 : s'.m_dataTypeQueue = s.m_dataTypeQueue) : IdleQueueEmpty s' := by
  intro h
  rw [h2]
  exact hs (h1 ▸ h)

theorem IdleQueueEmpty.of_frame {s s' : DataTransferManager} (h : Frame s s')
    (hs : IdleQueueEmpty s) : IdleQueueEmpty s' :=
  hs.of_same_queue h.1 h.2.1

namespace DataTransferManager

theorem startNextTransferTask_idle (w : World) (s : DataTransferManager)
    (hs : IdleQueueEmpty s) : IdleQueueEmpty (startNextTransferTask w s) := by
  unfold startNextTransferTask andThen
  have h0 : IdleQueueEmpty s.lock := hs.of_frame (frame_lock (Frame.refl s))
  split
  · exact h0
  dsimp only
  split
  · rename_i hq
    split
    · intro _; simpa [closeTransfer, emit, cleanupTempDirectory, unlock] using hq
    · exact h0.of_same_queue rfl rfl
  · split
    · exact h0.of_same_queue rfl rfl
    rename_i ha
    have ha' : s.lock.m_isTransferring = true := by simpa using ha
    split
    · intro h; simp [defer, unlock, ha'] at h
    · intro h
      rw [(launchCurrentTask_spec w _).1] at h
      simp [takeTask, setTask, unlock, ha'] at h

end DataTransferManager

/-! ### Setting up a transfer -/

namespace DataTransferManager

theorem getDeviceInfo_unknown (w : World) (deviceId : String)
    (h : mapContains w.connectedDevices deviceId = false) : getDeviceInfo w deviceId = {} := by
  simp [getDeviceInfo, h]

theorem prepareTempDirectory_frame (w : World) (s : DataTransferManager) :
    (prepareTempDirectory w s).2.m_isTransferring = s.m_isTransferring ∧
    (prepareTempDirectory w s).2.m_dataTypeQueue = s.m_dataTypeQueue ∧
    (prepareTempDirectory w s).2.emitted = s.emitted ∧
    (prepareTempDirectory w s).2.pending = s.pending ∧
    (prepareTempDirectory w s).2.locked = s.locked ∧
    (prepareTempDirectory w s).2.hung = s.hung := by
  unfold prepareTempDirectory
  dsimp only
  split_ifs <;> exact ⟨rfl, rfl, rfl, rfl, rfl, rfl⟩

/-- A rejected start adds one `transferFailed` signal, releases the mutex, and leaves the
active flag and the pending calls as they were; the queue is as it was or empty. -/
theorem buildTransfer_false (w : World) (a : DataAnalyzer) (s : DataTransferManager)
    (sourceId destId : String) (dataTypes : List String) (clr : Bool)
    (h : (buildTransfer w a s sourceId destId dataTypes clr).1 = false) :
    (∃ msg, (buildTransfer w a s sourceId destId dataTypes clr).2.emitted =
      s.emitted ++ [.transferFailed msg]) ∧
    (buildTransfer w a s sourceId destId dataTypes clr).2.m_isTransferring =
      s.m_isTransferring ∧
    ((buildTransfer w a s sourceId destId dataTypes clr).2.m_dataTypeQueue =
        s.m_dataTypeQueue ∨
      (buildTransfer w a s sourceId destId dataTypes clr).2.m_dataTypeQueue = []) ∧
    (buildTransfer w a s sourceId destId dataTypes clr).2.pending = s.pending ∧
    (buildTransfer w a s sourceId destId dataTypes clr).2.locked = false ∧
    (buildTransfer w a s sourceId destId dataTypes clr).2.hung = s.hung := by
  unfold buildTransfer at h ⊢
  dsimp only at h ⊢
  split
  · exact ⟨⟨_, rfl⟩, rfl, Or.inl rfl, rfl, rfl, rfl⟩
  split
  · exact ⟨⟨_, rfl⟩, rfl, Or.inl rfl, rfl, rfl, rfl⟩
  split
  · exact ⟨⟨_, rfl⟩, rfl, Or.inl rfl, rfl, rfl, rfl⟩
  have hp := prepareTempDirectory_frame w s
  split
  · exact ⟨⟨_, congrArg (· ++ [_]) hp.2.2.1⟩, hp.1, Or.inl hp.2.1, hp.2.2.2.1, rfl,
      hp.2.2.2.2.2⟩
  · rename_i h1 h2 h3 h4
    rw [if_neg h1, if_neg h2, if_neg h3, if_neg h4] at h
    obtain ⟨e1, -, e3, e4, e5⟩ := enqueueTransferTasks_spec a sourceId destId
      (getDeviceInfo w sourceId).type (getDeviceInfo w destId).type clr
      (bridgesAvailable w sourceId destId) dataTypes (prepareTempDirectory w s).2.resetState
      ⟨by simp [resetState], by simp [resetState]⟩
    obtain ⟨-, e7⟩ := enqueueTransferTasks_mutex a sourceId destId
      (getDeviceInfo w sourceId).type (getDeviceInfo w destId).type clr
      (bridgesAvailable w sourceId destId) dataTypes (prepareTempDirectory w s).2.resetState
    split
    · rename_i h5
      refine ⟨⟨_, congrArg (· ++ [_]) (e4.trans hp.2.2.1)⟩, e3.trans hp.1, Or.inr ?_,
        e5.trans hp.2.2.2.1, rfl, e7.trans hp.2.2.2.2.2⟩
      exact List.isEmpty_iff.1 h5
    · rename_i h5
      rw [if_neg h5] at h
      cases h

/-- On an engine that is transferring the start is rejected by the first guard: one
`transferFailed` is added, the mutex is released, nothing else changes. -/
theorem buildTransfer_active (w : World) (a : DataAnalyzer) (s : DataTransferManager)
    (sourceId destId : String) (dataTypes : List String) (clr : Bool)
    (ha : s.m_isTransferring = true) :
    buildTransfer w a s sourceId destId dataTypes clr =
      (false, (s.emit (.transferFailed "Ya hay una transferencia en progreso")).unlock) := by
  unfold buildTransfer
  rw [if_pos ha]

/-- A successful setup happens on an inactive engine with valid devices, and leaves it
active with the filtered request as its queue, every queued category well keyed. -/
theorem buildTransfer_true (w : World) (a : DataAnalyzer) (s : DataTransferManager)
    (sourceId destId : String) (dataTypes : List String) (clr : Bool)
    (h : (buildTransfer w a s sourceId destId dataTypes clr).1 = true) :
    s.m_isTransferring = false ∧
    (buildTransfer w a s sourceId destId dataTypes clr).2.m_isTransferring = true ∧
    (buildTransfer w a s sourceId destId dataTypes clr).2.m_dataTypeQueue =
      dataTypes.filter (fun c => yieldsTask a sourceId (getDeviceInfo w sourceId).type
        (getDeviceInfo w destId).type c) ∧
    WellKeyed (buildTransfer w a s sourceId destId dataTypes clr).2 ∧
    (buildTransfer w a s sourceId destId dataTypes clr).2.emitted = s.emitted ∧
    (buildTransfer w a s sourceId destId dataTypes clr).2.pending = s.pending ∧
    (buildTransfer w a s sourceId destId dataTypes clr).2.locked = s.locked ∧
    (buildTransfer w a s sourceId destId dataTypes clr).2.hung = s.hung := by
  unfold buildTransfer at h ⊢
  dsimp only at h ⊢
  split at h
  · cases h
  split at h
  · cases h
  split at h
  · cases h
  split at h
  · cases h
  split at h
  · cases h
  rename_i h1 h2 h3 h4 h5
  rw [if_neg h1, if_neg h2, if_neg h3, if_neg h4, if_neg h5]
  have hp := prepareTempDirectory_frame w s
  obtain ⟨e1, e2, -, e4, e5⟩ := enqueueTransferTasks_spec a sourceId destId
    (getDeviceInfo w sourceId).type (getDeviceInfo w destId).type clr
    (bridgesAvailable w sourceId destId) dataTypes (prepareTempDirectory w s).2.resetState
    ⟨by simp [resetState], by simp [resetState]⟩
  obtain ⟨e6, e7⟩ := enqueueTransferTasks_mutex a sourceId destId
    (getDeviceInfo w sourceId).type (getDeviceInfo w destId).type clr
    (bridgesAvailable w sourceId destId) dataTypes (prepareTempDirectory w s).2.resetState
  refine ⟨by simpa using h1, rfl, ?_, e2, e4.trans hp.2.2.1, e5.trans hp.2.2.2.1,
    e6.trans hp.2.2.2.2.1, e7.trans hp.2.2.2.2.2⟩
  exact e1.trans (List.nil_append _)

/-- The transfer is not built when a device is unknown or unauthorized, or no category
is eligible. -/
theorem buildTransfer_rejects (w : World) (a : DataAnalyzer) (s : DataTransferManager)
    (sourceId destId : String) (dataTypes : List String) (clr : Bool)
    (hbad : mapContains w.connectedDevices sourceId = false ∨
      mapContains w.connectedDevices destId = false ∨
      (getDeviceInfo w sourceId).authorized = false ∨
      (getDeviceInfo w destId).authorized = false ∨
      ∀ c ∈ dataTypes, ¬ EligibleCategory w a sourceId destId c) :
    (buildTransfer w a s sourceId destId dataTypes clr).1 = false := by
  by_contra hne
  have ht : (buildTransfer w a s sourceId destId dataTypes clr).1 = true := by
    simpa using hne
  have hq := (buildTransfer_true w a s sourceId destId dataTypes clr ht).2.2.1
  unfold buildTransfer at ht
  dsimp only at ht
  split at ht
  · cases ht
  split at ht
  · cases ht
  split at ht
  · cases ht
  split at ht
  · cases ht
  split at ht
  · cases ht
  rename_i h1 h2 h3 h4 h5
  rcases hbad with hb | hb | hb | hb | hb
  · rw [getDeviceInfo_unknown w _ hb] at h2; exact h2 rfl
  · rw [getDeviceInfo_unknown w _ hb] at h2; exact h2 (by rw [Bool.or_eq_true]; exact Or.inr rfl)
  · simp [hb] at h3
  · simp [hb] at h3
  · apply h5
    have hnil : dataTypes.filter (fun c => yieldsTask a sourceId (getDeviceInfo w sourceId).type
        (getDeviceInfo w destId).type c) = [] := by
      apply List.filter_eq_nil_iff.2
      intro c hc hy
      exact hb c hc ((yieldsTask_iff w a sourceId destId c).1 hy)
    have e1 := (enqueueTransferTasks_spec a sourceId destId
      (getDeviceInfo w sourceId).type (getDeviceInfo w destId).type clr
      (bridgesAvailable w sourceId destId) dataTypes (prepareTempDirectory w s).2.resetState
      ⟨by simp [resetState], by simp [resetState]⟩).1
    rw [e1, hnil]; rfl

/-- With the mutex free, `startTransferSetup` is `buildTransfer` on the engine holding
it. -/
theorem startTransferSetup_of_free (w : World) (a : DataAnalyzer) (s : DataTransferManager)
    (sourceId destId : String) (dataTypes : List String) (clr : Bool)
    (hl : s.locked = false) (hh : s.hung = false) :
    startTransferSetup w a s sourceId destId dataTypes clr =
      buildTransfer w a { s with locked := true } sourceId destId dataTypes clr := by
  unfold startTransferSetup
  rw [lock_of_free hl]
  rw [if_neg (by simp [hh])]

/-- A setup that returns true was made with the mutex free on a thread that runs. -/
theorem startTransferSetup_true_free (w : World) (a : DataAnalyzer) (s : DataTransferManager)
    (sourceId destId : String) (dataTypes : List String) (clr : Bool)
    (h : (startTransferSetup w a s sourceId destId dataTypes clr).1 = true) :
    s.locked = false ∧ s.hung = false := by
  unfold startTransferSetup at h
  split at h
  · cases h
  · rename_i hn
    unfold lock at hn
    split at hn
    · simp at hn
    · rename_i hl
      exact ⟨by simpa using hl, by simpa using hn⟩

end DataTransferManager

/-! ### The mutex is free between two events -/

theorem MutexFree.of_unlocked {s : DataTransferManager} (h : s.locked = false) : MutexFree s :=
  fun _ => h

theorem MutexFree.of_flags {s s' : DataTransferManager} (hs : MutexFree s)
    (h1 : s'.locked = s.locked) (h2 : s'.hung = s.hung) : MutexFree s' := by
  intro h
  rw [h1]
  exact hs (h2 ▸ h)

namespace DataTransferManager

theorem mutexFree_andThen (s : DataTransferManager)
    (f : DataTransferManager → DataTransferManager) (hf : s.hung = false → MutexFree (f s)) :
    MutexFree (s.andThen f) := by
  unfold andThen
  split
  · rename_i h
    intro h2
    rw [h] at h2
    cases h2
  · rename_i h
    exact hf (by simpa using h)

theorem mutexFree_enter (s : DataTransferManager)
    (f : DataTransferManager → DataTransferManager) (hf : ∀ x, MutexFree (f x)) :
    MutexFree (s.lock.andThen f) :=
  mutexFree_andThen _ _ fun _ => hf _

theorem mutexFree_emitOverallProgress (s : DataTransferManager) :
    MutexFree s.emitOverallProgress :=
  mutexFree_enter _ _ fun _ => .of_unlocked rfl

theorem mutexFree_emitTaskProgress (s : DataTransferManager) :
    MutexFree s.emitTaskProgress := by
  refine mutexFree_enter _ _ fun x => ?_
  dsimp only
  split <;> exact .of_unlocked rfl

theorem mutexFree_finalizeCurrentTask (w : World) (s : DataTransferManager) (success : Bool)
    (errorMsg : String) : MutexFree (finalizeCurrentTask w s success errorMsg) := by
  refine mutexFree_enter _ _ fun x => ?_
  dsimp only
  split
  · exact .of_unlocked rfl
  split
  · exact .of_unlocked rfl
  · exact mutexFree_andThen _ _ fun _ => .of_unlocked rfl

theorem mutexFree_startPhotoPull (w : World) (s : DataTransferManager) :
    MutexFree (startPhotoPull w s) := by
  refine mutexFree_enter _ _ fun x => ?_
  dsimp only
  split
  · exact .of_unlocked rfl
  split
  · exact mutexFree_finalizeCurrentTask w _ _ _
  split
  · exact mutexFree_andThen _ _ fun _ => .of_unlocked rfl
  split
  · exact mutexFree_finalizeCurrentTask w _ _ _
  · exact mutexFree_andThen _ _ fun _ => (mutexFree_emitTaskProgress _).of_flags rfl rfl

theorem mutexFree_startPhotoPush (w : World) (s : DataTransferManager) :
    MutexFree (startPhotoPush w s) := by
  refine mutexFree_enter _ _ fun x => ?_
  dsimp only
  split
  · exact .of_unlocked rfl
  split
  · exact mutexFree_finalizeCurrentTask w _ _ _
  split
  · exact mutexFree_andThen _ _ fun _ => .of_unlocked rfl
  split
  · exact mutexFree_finalizeCurrentTask w _ _ _
  · exact .of_unlocked rfl

theorem mutexFree_onPullProcessFinished (w : World) (s : DataTransferManager) (exitCode : Int)
    (normalExit : Bool) : MutexFree (onPullProcessFinished w s exitCode normalExit) := by
  refine mutexFree_enter _ _ fun x => ?_
  dsimp only
  split
  · exact .of_unlocked rfl
  split
  · exact mutexFree_andThen _ _ fun _ => .of_unlocked rfl
  · exact mutexFree_startPhotoPush w _

theorem mutexFree_onPushProcessFinished (s : DataTransferManager) (exitCode : Int)
    (normalExit : Bool) : MutexFree (onPushProcessFinished s exitCode normalExit) := by
  refine mutexFree_enter _ _ fun x => ?_
  dsimp only
  split
  · exact .of_unlocked rfl
  split
  · exact .of_unlocked rfl
  · exact mutexFree_andThen _ _ fun _ => .of_unlocked rfl

theorem mutexFree_startPhotoPullViaBridge (w : World) (s : DataTransferManager)
    (item : DataItem) : MutexFree (startPhotoPullViaBridge w s item).2 := by
  unfold startPhotoPullViaBridge
  split
  · rename_i h
    intro h2
    rw [h] at h2
    cases h2
  dsimp only
  split
  · exact .of_unlocked rfl
  split
  · exact .of_unlocked rfl
  split
  · exact .of_unlocked rfl
  split
  · exact .of_unlocked rfl
  split
  · exact .of_unlocked rfl
  · exact mutexFree_emitTaskProgress _

theorem mutexFree_startContactsTransfer (w : World) (s : DataTransferManager) :
    MutexFree (startContactsTransfer w s).2 := by
  unfold startContactsTransfer
  split
  · rename_i h
    intro h2
    rw [h] at h2
    cases h2
  split
  · exact mutexFree_finalizeCurrentTask w _ _ _
  · exact .of_unlocked rfl

theorem mutexFree_startMessagesTransfer (w : World) (s : DataTransferManager) :
    MutexFree (startMessagesTransfer w s).2 := by
  unfold startMessagesTransfer
  split
  · rename_i h
    intro h2
    rw [h] at h2
    cases h2
  split
  · exact mutexFree_finalizeCurrentTask w _ _ _
  · exact .of_unlocked rfl

theorem mutexFree_simulatedItem (s : DataTransferManager) : MutexFree s.simulatedItem := by
  refine mutexFree_enter _ _ fun x => ?_
  dsimp only
  split
  · exact .of_unlocked rfl
  split
  · refine mutexFree_andThen _ _ fun _ => MutexFree.of_flags ?_ rfl rfl
    exact mutexFree_andThen _ _ fun _ => mutexFree_emitOverallProgress _
  · exact .of_unlocked rfl

theorem mutexFree_transferCurrentItem (w : World) (s : DataTransferManager) (item : DataItem) :
    MutexFree (transferCurrentItem w s item) := by
  unfold transferCurrentItem
  dsimp only
  split
  · split
    · split
      · exact mutexFree_andThen _ _ fun _ => mutexFree_startPhotoPull w _
      · exact mutexFree_startPhotoPullViaBridge w _ _
    · exact mutexFree_startPhotoPull w _
  split
  · exact mutexFree_startContactsTransfer w _
  split
  · exact mutexFree_startMessagesTransfer w _
  · exact mutexFree_finalizeCurrentTask w _ _ _

theorem mutexFree_processNextTransferStep (w : World) (s : DataTransferManager) :
    MutexFree (processNextTransferStep w s) := by
  refine mutexFree_enter _ _ fun x => ?_
  dsimp only
  split
  · exact .of_unlocked rfl
  split
  · exact mutexFree_finalizeCurrentTask w _ _ _
  split
  · exact mutexFree_finalizeCurrentTask w _ _ _
  · exact mutexFree_transferCurrentItem w _ _

theorem mutexFree_launchCurrentTask (w : World) (s : DataTransferManager) :
    MutexFree (launchCurrentTask w s) := by
  unfold launchCurrentTask
  refine mutexFree_andThen _ _ fun _ => ?_
  unfold dispatchCurrentTask
  dsimp only
  split
  · exact mutexFree_finalizeCurrentTask w _ _ _
  · exact mutexFree_processNextTransferStep w _

theorem mutexFree_startNextTransferTask (w : World) (s : DataTransferManager) :
    MutexFree (startNextTransferTask w s) := by
  refine mutexFree_enter _ _ fun x => ?_
  dsimp only
  split
  · split
    · exact .of_unlocked rfl
    · exact .of_unlocked rfl
  · split
    · exact .of_unlocked rfl
    split
    · exact .of_unlocked rfl
    · exact mutexFree_launchCurrentTask w _

theorem mutexFree_slot (w : World) (s : DataTransferManager) (e : BridgeEmission) :
    MutexFree (slot w s e) := by
  cases e with
  | fileReady p =>
    show MutexFree (onBridgeClientFileReady w s p)
    refine mutexFree_enter _ _ fun x => ?_
    dsimp only
    split
    · exact .of_unlocked rfl
    split
    · exact mutexFree_andThen _ _ fun _ => (mutexFree_emitTaskProgress _).of_flags rfl rfl
    · exact .of_unlocked rfl
  | fileSaved r =>
    show MutexFree (onBridgeClientFileSaved s r)
    refine mutexFree_enter _ _ fun x => ?_
    dsimp only
    split
    · exact .of_unlocked rfl
    · refine mutexFree_andThen _ _ fun _ => MutexFree.of_flags ?_ rfl rfl
      exact mutexFree_andThen _ _ fun _ => mutexFree_emitOverallProgress _
  | fileTransferProgress p r t =>
    show MutexFree (onBridgeClientFileProgress s p r t)
    refine mutexFree_enter _ _ fun x => ?_
    dsimp only
    split
    · exact .of_unlocked rfl
    · exact mutexFree_andThen _ _ fun _ => mutexFree_emitOverallProgress _
  | errorOccurred m =>
    show MutexFree (onBridgeClientError s m)
    refine mutexFree_enter _ _ fun x => ?_
    dsimp only
    split
    · exact .of_unlocked rfl
    · exact mutexFree_andThen _ _ fun _ => (mutexFree_emitTaskProgress _).of_flags rfl rfl

theorem mutexFree_iterate_slot (w : World) (e : BridgeEmission) (n : Nat)
    (s : DataTransferManager) (hs : MutexFree s) :
    MutexFree (Nat.iterate (fun x => x.andThen fun y => slot w y e) n s) := by
  induction n generalizing s with
  | zero => exact hs
  | succ n ih =>
    exact ih _ (mutexFree_andThen s (fun y => slot w y e) fun _ => mutexFree_slot w s e)

theorem mutexFree_cancelTransfer (w : World) (s : DataTransferManager) :
    MutexFree (cancelTransfer w s) := by
  refine mutexFree_enter _ _ fun x => ?_
  dsimp only
  split
  · exact .of_unlocked rfl
  · exact .of_unlocked rfl

theorem mutexFree_startTransfer (w : World) (a : DataAnalyzer) (s : DataTransferManager)
    (sourceId destId : String) (dataTypes : List String) (clr : Bool) :
    MutexFree (startTransfer w a s sourceId destId dataTypes clr).2 := by
  unfold startTransfer
  dsimp only
  split
  · rename_i h
    have hf : (startTransferSetup w a s sourceId destId dataTypes clr).1 = false := by
      simpa using h
    unfold startTransferSetup at hf ⊢
    split
    · rename_i hh
      intro h2
      rw [hh] at h2
      cases h2
    · rename_i hh
      rw [if_neg hh] at hf
      exact .of_unlocked (buildTransfer_false w a _ _ _ _ _ hf).2.2.2.2.1
  · exact mutexFree_startNextTransferTask w _

end DataTransferManager

theorem MutexFree.after_step (w : World) (s : DataTransferManager) (e : Event) (hs : MutexFree s) :
    MutexFree (step w s e) := by
  unfold MobileDataBridge.step
  split
  · exact hs
  cases e with
  | startTransfer a sourceId destId dataTypes clr =>
    exact DataTransferManager.mutexFree_startTransfer w a s sourceId destId dataTypes clr
  | cancelTransfer => exact DataTransferManager.mutexFree_cancelTransfer w s
  | timer i =>
    show MutexFree (match s.pending.get? i with
      | some d => DataTransferManager.runDeferred w { s with pending := s.pending.eraseIdx i } d
      | none => s)
    split
    · rename_i d _
      cases d with
      | startNextTransferTask => exact DataTransferManager.mutexFree_startNextTransferTask w _
      | processNextTransferStep => exact DataTransferManager.mutexFree_processNextTransferStep w _
      | contactsItem => exact DataTransferManager.mutexFree_simulatedItem _
      | messagesItem => exact DataTransferManager.mutexFree_simulatedItem _
    · exact hs
  | pullFinished exitCode normalExit =>
    show MutexFree (if s.pullRunning then _ else s)
    split
    · exact DataTransferManager.mutexFree_onPullProcessFinished w _ _ _
    · exact hs
  | pushFinished exitCode normalExit =>
    show MutexFree (if s.pushRunning then _ else s)
    split
    · exact DataTransferManager.mutexFree_onPushProcessFinished _ _ _
    · exact hs
  | bridge deviceId e => exact DataTransferManager.mutexFree_iterate_slot w e _ s hs

theorem MutexFree.after_run (s : DataTransferManager) (hs : MutexFree s)
    (evs : List (World × Event)) : MutexFree (run s evs) := by
  induction evs generalizing s with
  | nil => exact hs
  | cons p rest ih => exact ih _ (hs.after_step p.1 s p.2)

/-- A blocked engine takes no event. -/
theorem run_of_hung (s : DataTransferManager) (h : s.hung = true)
    (evs : List (World × Event)) : run s evs = s := by
  induction evs with
  | nil => rfl
  | cons p rest ih =>
    show run (step p.1 s p.2) rest = s
    have : step p.1 s p.2 = s := by
      unfold step
      rw [if_pos h]
    rw [this]
    exact ih

/-! ### The event loop -/

theorem disconnectUnlessEmpty_eq (w : World) (s : DataTransferManager) (d : String) :
    ∃ cs, DataTransferManager.disconnectUnlessEmpty w s d = { s with connections := cs } := by
  unfold DataTransferManager.disconnectUnlessEmpty DataTransferManager.disconnectBridgeClientSignals
  split_ifs
  · exact ⟨_, rfl⟩
  · exact ⟨_, rfl⟩
  · exact ⟨_, rfl⟩

/-- The engine after `cancelTransfer` on an active engine, member by member. -/
theorem cancelTransfer_active (w : World) (s : DataTransferManager)
    (ha : s.m_isTransferring = true) (hl : s.locked = false) (hh : s.hung = false) :
    ∃ cs, s.cancelTransfer w =
      { m_isTransferring := false, m_dataTypeQueue := [], m_taskStates := [],
        m_currentTask := {}, m_tempDirOwner := "",
        m_totalTransferSize := s.m_totalTransferSize,
        m_totalTransferredSizePreviousTasks := s.m_totalTransferredSizePreviousTasks,
        pullRunning := false, pushRunning := false, connections := cs, pending := s.pending,
        emitted := s.emitted ++
          [.transferCancelled, .transferFinished false "Transferencia Cancelada"],
        locked := false, hung := false } := by
  unfold DataTransferManager.cancelTransfer
  rw [DataTransferManager.enter hl hh]
  dsimp only
  rw [if_neg (by simp [ha])]
  obtain ⟨c1, h1⟩ := disconnectUnlessEmpty_eq w
    (({ s with locked := true, m_isTransferring := false }.setPullRunning false).setPushRunning
      false) s.m_currentTask.sourceId
  obtain ⟨c2, h2⟩ := disconnectUnlessEmpty_eq w
    { (({ s with locked := true, m_isTransferring := false } : DataTransferManager
      ).setPullRunning false).setPushRunning false with connections := c1 }
    s.m_currentTask.destId
  refine ⟨c2, ?_⟩
  show ((DataTransferManager.disconnectUnlessEmpty w (DataTransferManager.disconnectUnlessEmpty w
    _ s.m_currentTask.sourceId) s.m_currentTask.destId
      ).clearState.cleanupTempDirectory.unlock.emit _).emit _ = _
  rw [h1, h2]
  simp [DataTransferManager.emit, DataTransferManager.cleanupTempDirectory,
    DataTransferManager.clearState, DataTransferManager.setPullRunning,
    DataTransferManager.setPushRunning, DataTransferManager.unlock, hh]

/-- `cancelTransfer` on an inactive engine only takes and releases the mutex. -/
theorem cancelTransfer_inactive (w : World) (s : DataTransferManager)
    (ha : s.m_isTransferring = false) (hl : s.locked = false) (hh : s.hung = false) :
    s.cancelTransfer w = s := by
  unfold DataTransferManager.cancelTransfer
  rw [DataTransferManager.enter hl hh]
  dsimp only
  rw [if_pos (by simp [ha])]
  show ({ s with locked := false } : DataTransferManager) = s
  rw [← hl]

theorem IdleQueueEmpty.cancelTransfer (w : World) (s : DataTransferManager)
    (hs : IdleQueueEmpty s) : IdleQueueEmpty (s.cancelTransfer w) := by
  unfold DataTransferManager.cancelTransfer DataTransferManager.andThen
  have h0 : IdleQueueEmpty s.lock := hs.of_frame (DataTransferManager.frame_lock (Frame.refl s))
  split
  · exact h0
  dsimp only
  split
  · exact h0.of_same_queue rfl rfl
  · intro _
    rfl

theorem IdleQueueEmpty.startTransfer (w : World) (a : DataAnalyzer) (s : DataTransferManager)
    (sourceId destId : String) (dataTypes : List String) (clr : Bool)
    (hs : IdleQueueEmpty s) :
    IdleQueueEmpty (s.startTransfer w a sourceId destId dataTypes clr).2 := by
  unfold DataTransferManager.startTransfer
  dsimp only
  have h0 : IdleQueueEmpty s.lock := hs.of_frame (DataTransferManager.frame_lock (Frame.refl s))
  split
  · rename_i h
    have hf : (s.startTransferSetup w a sourceId destId dataTypes clr).1 = false := by
      simpa using h
    unfold DataTransferManager.startTransferSetup at hf ⊢
    split
    · exact h0
    · rename_i hh
      rw [if_neg hh] at hf
      obtain ⟨-, h2, h3, -⟩ :=
        DataTransferManager.buildTransfer_false w a s.lock sourceId destId dataTypes clr hf
      intro hi
      rcases h3 with h3 | h3
      · rw [h3]; exact h0 (h2 ▸ hi)
      · exact h3
  · rename_i h
    have ht : (s.startTransferSetup w a sourceId destId dataTypes clr).1 = true := by
      simpa using h
    obtain ⟨hl, hh⟩ :=
      DataTransferManager.startTransferSetup_true_free w a s sourceId destId dataTypes clr ht
    rw [DataTransferManager.startTransferSetup_of_free w a s sourceId destId dataTypes clr hl hh]
      at ht ⊢
    have h2 := (DataTransferManager.buildTransfer_true w a _ sourceId destId dataTypes clr ht).2.1
    apply DataTransferManager.startNextTransferTask_idle
    intro hi
    exact absurd (h2 ▸ hi : true = false) (by decide)

theorem IdleQueueEmpty.step (w : World) (s : DataTransferManager) (e : Event)
    (hs : IdleQueueEmpty s) : IdleQueueEmpty (step w s e) := by
  unfold MobileDataBridge.step
  split
  · exact hs
  cases e with
  | startTransfer a sourceId destId dataTypes clr =>
    exact hs.startTransfer w a s sourceId destId dataTypes clr
  | cancelTransfer => exact hs.cancelTransfer w s
  | timer i =>
    show IdleQueueEmpty (match s.pending.get? i with
      | some d => DataTransferManager.runDeferred w { s with pending := s.pending.eraseIdx i } d
      | none => s)
    split
    · rename_i d _
      have h0 : IdleQueueEmpty { s with pending := s.pending.eraseIdx i } := hs
      cases d with
      | startNextTransferTask => exact DataTransferManager.startNextTransferTask_idle w _ h0
      | processNextTransferStep =>
        exact h0.of_frame (DataTransferManager.frame_processNextTransferStep (Frame.refl _) w)
      | contactsItem => exact h0.of_frame (DataTransferManager.frame_simulatedItem (Frame.refl _))
      | messagesItem => exact h0.of_frame (DataTransferManager.frame_simulatedItem (Frame.refl _))
    · exact hs
  | pullFinished exitCode normalExit =>
    show IdleQueueEmpty (if s.pullRunning then _ else s)
    split
    · have h0 : IdleQueueEmpty { s with pullRunning := false } := hs
      exact h0.of_frame (DataTransferManager.frame_onPullProcessFinished (Frame.refl _) w _ _)
    · exact hs
  | pushFinished exitCode normalExit =>
    show IdleQueueEmpty (if s.pushRunning then _ else s)
    split
    · have h0 : IdleQueueEmpty { s with pushRunning := false } := hs
      exact h0.of_frame (DataTransferManager.frame_onPushProcessFinished (Frame.refl _) _ _)
    · exact hs
  | bridge deviceId e =>
    exact hs.of_frame (DataTransferManager.frame_iterate_slot (Frame.refl s) w e _)

theorem IdleQueueEmpty.run (s : DataTransferManager) (hs : IdleQueueEmpty s)
    (evs : List (World × Event)) : IdleQueueEmpty (run s evs) := by
  induction evs generalizing s with
  | nil => exact hs
  | cons p rest ih => exact ih _ (hs.step p.1 s p.2)

/-- A successful `startTransfer`: the eligible requested categories are `c :: rest`, which
is the queue built by the loop; on return `c` is the current task, `rest` is queued, and
the trace has grown by `transferStarted`, `transferProgress 0`, `transferTaskStarted c`
and task-level signals of `c`. -/
theorem startTransfer_true_spec (w : World) (a : DataAnalyzer) (s : DataTransferManager)
    (sourceId destId : String) (dataTypes : List String) (clearDestination : Bool)
    (h : (s.startTransfer w a sourceId destId dataTypes clearDestination).1 = true) :
    ∃ c rest n new,
      dataTypes.filter (fun c => decide (EligibleCategory w a sourceId destId c)) = c :: rest ∧
      (s.startTransferSetup w a sourceId destId dataTypes clearDestination).2.m_dataTypeQueue =
        c :: rest ∧
      (s.startTransfer w a sourceId destId dataTypes clearDestination).2.m_currentTask.dataType
        = c ∧
      (s.startTransfer w a sourceId destId dataTypes clearDestination).2.m_dataTypeQueue = rest ∧
      (s.startTransfer w a sourceId destId dataTypes clearDestination).2.emitted =
        s.emitted ++ ([.transferStarted (s.startTransferSetup w a sourceId destId dataTypes
          clearDestination).2.m_totalTransferSize, .transferProgress 0,
          .transferTaskStarted c n] ++ new) ∧
      ∀ x ∈ new, TaskLevel c x := by
  have hfilter : dataTypes.filter (fun c => DataTransferManager.yieldsTask a sourceId
        (getDeviceInfo w sourceId).type (getDeviceInfo w destId).type c) =
      dataTypes.filter (fun c => decide (EligibleCategory w a sourceId destId c)) := by
    apply List.filter_congr
    intro c _
    rw [Bool.eq_iff_iff]
    simpa using DataTransferManager.yieldsTask_iff w a sourceId destId c
  have ht : (s.startTransferSetup w a sourceId destId dataTypes clearDestination).1 = true := by
    unfold DataTransferManager.startTransfer at h
    dsimp only at h
    by_contra hne
    rw [if_pos (by simpa using hne)] at h
    exact hne h
  obtain ⟨hl, hh⟩ := DataTransferManager.startTransferSetup_true_free w a s sourceId destId
    dataTypes clearDestination ht
  have hsetup := DataTransferManager.startTransferSetup_of_free w a s sourceId destId dataTypes
    clearDestination hl hh
  have htb := ht
  rw [hsetup] at htb
  obtain ⟨-, h2, h3, h4, h5, -, -, h8⟩ :=
    DataTransferManager.buildTransfer_true w a _ sourceId destId dataTypes clearDestination htb
  rw [← hsetup] at h2 h3 h4 h5 h8
  rw [hfilter] at h3
  have heq : (s.startTransfer w a sourceId destId dataTypes clearDestination).2 =
      DataTransferManager.startNextTransferTask w
        ((((s.startTransferSetup w a sourceId destId dataTypes clearDestination).2.unlock).emit
          (.transferStarted (s.startTransferSetup w a sourceId destId dataTypes
            clearDestination).2.m_totalTransferSize)).emit (.transferProgress 0)) := by
    unfold DataTransferManager.startTransfer
    simp [ht, DataTransferManager.returning]
  rw [heq]
  cases hl2 : dataTypes.filter (fun c => decide (EligibleCategory w a sourceId destId c)) with
  | nil =>
    exfalso
    have hr := DataTransferManager.buildTransfer_rejects w a { s with locked := true } sourceId
      destId dataTypes clearDestination (Or.inr (Or.inr (Or.inr (Or.inr (fun c hc he => by
        have := List.filter_eq_nil_iff.1 hl2 c hc
        exact this (by simpa using he))))))
    rw [htb] at hr
    cases hr
  | cons c rest =>
    rw [hl2] at h3
    have hc := h4.2 c (by rw [h3]; exact List.mem_cons_self _ _)
    have hd := h4.1 _ (mapValue_mem {} hc)
    obtain ⟨-, f2, f3, n, new, f4, f5⟩ := DataTransferManager.startNextTransferTask_cons w
      ((((s.startTransferSetup w a sourceId destId dataTypes clearDestination).2.unlock).emit
          (.transferStarted (s.startTransferSetup w a sourceId destId dataTypes
            clearDestination).2.m_totalTransferSize)).emit (.transferProgress 0))
      c rest h3 h2 hc hd rfl (h8.trans hh)
    refine ⟨c, rest, n, new, rfl, h3, f3, f2, ?_, f5⟩
    rw [f4]
    show ((s.startTransferSetup w a sourceId destId dataTypes clearDestination).2.emitted ++ [_]
      ++ [_]) ++ _ = _
    rw [h5]
    simp

/-! ### Support rules and analyzer -/

/-- The three incompatibility rules are the only way `isTypeSupported` answers false. -/
theorem isTypeSupported_false_cases (s d c : String) :
    isTypeSupported s d c = false ↔
      (c = "messages" ∧ s = "android" ∧ d = "ios") ∨ (c = "calls" ∧ d = "ios") ∨
        ((c = "calendar" ∨ c = "applications") ∧ s ≠ d) := by
  unfold isTypeSupported
  by_cases h1 : c = "contacts"
  · subst h1; simp
  by_cases h2 : c = "photos"
  · subst h2; simp
  by_cases h3 : c = "videos"
  · subst h3; simp
  by_cases h4 : c = "documents"
  · subst h4; simp
  by_cases h5 : c = "music"
  · subst h5; simp
  by_cases h6 : c = "messages"
  · subst h6; simp
  by_cases h7 : c = "calls"
  · subst h7; simp
  by_cases h8 : c = "calendar"
  · subst h8; simp
  by_cases h9 : c = "applications"
  · subst h9; simp
  simp [h1, h2, h3, h4, h5, h6, h7, h8, h9]

/-- C4: `isTypeSupported s d c` is false exactly when `c` is "messages" from android to
ios, or `c` is "calls" towards ios, or `c` is "calendar"/"applications" between
different platforms; hence contacts, photos, videos, documents and music are
supported on every platform pair, and so is every category outside the four
restricted ones. -/
theorem isTypeSupported_false_iff (s d c : String) :
    (isTypeSupported s d c = false ↔
      (c = "messages" ∧ s = "android" ∧ d = "ios") ∨ (c = "calls" ∧ d = "ios") ∨
        ((c = "calendar" ∨ c = "applications") ∧ s ≠ d)) ∧
    (c ∈ ["contacts", "photos", "videos", "documents", "music"] →
      isTypeSupported s d c = true) ∧
    (c ∉ ["messages", "calls", "calendar", "applications"] →
      isTypeSupported s d c = true) := by
  refine ⟨isTypeSupported_false_cases s d c, ?_, ?_⟩
  · intro h
    simp only [List.mem_cons, List.mem_singleton, List.not_mem_nil, or_false] at h
    unfold isTypeSupported
    rcases h with h | h | h | h | h <;> subst h <;> simp
  · intro h
    simp only [List.mem_cons, List.mem_singleton, List.not_mem_nil, or_false, not_or] at h
    obtain ⟨h6, h7, h8, h9⟩ := h
    unfold isTypeSupported
    simp [h6, h7, h8, h9]

/-- C5: `getIncompatibilityReason s d c` is the empty string exactly when
`isTypeSupported s d c` is true; the reason for ("android", "ios", "messages") is
not empty. -/
theorem getIncompatibilityReason_empty_iff (s d c : String) :
    (getIncompatibilityReason s d c = "" ↔ isTypeSupported s d c = true) ∧
    getIncompatibilityReason "android" "ios" "messages" ≠ "" := by
  constructor
  · constructor
    · intro h
      by_contra hn
      have hf : isTypeSupported s d c = false := by simpa using hn
      have hc := (isTypeSupported_false_cases s d c).1 hf
      unfold getIncompatibilityReason at h
      rw [hf] at h
      simp only [Bool.false_eq_true, if_false] at h
      split_ifs at h <;> first | (exact absurd h (by decide)) | tauto
    · intro h
      simp [getIncompatibilityReason, h]
  · decide

/-- C2: for a device id absent from the registry, or registered but not authorized,
`analyzeDevice` returns false, queues no task and leaves the stored data sets, the
pending-task counters and every other member of the analyzer unchanged (only an
error signal may be added to the trace). -/
theorem analyzeDevice_rejected (w : World) (a : DataAnalyzer) (deviceId : String)
    (quickScan : Bool)
    (h : mapContains w.connectedDevices deviceId = false ∨
      (getDeviceInfo w deviceId).authorized = false) :
    (analyzeDevice w a deviceId quickScan).1 = false ∧
    (analyzeDevice w a deviceId quickScan).2.m_analysisQueue = a.m_analysisQueue ∧
    (analyzeDevice w a deviceId quickScan).2.m_dataSets = a.m_dataSets ∧
    (analyzeDevice w a deviceId quickScan).2.m_pendingTasksPerDevice =
      a.m_pendingTasksPerDevice ∧
    { (analyzeDevice w a deviceId quickScan).2 with emitted := a.emitted } = a := by
  have hauth : (getDeviceInfo w deviceId).authorized = false := by
    rcases h with h | h
    · simp [getDeviceInfo, h]
    · exact h
  unfold analyzeDevice
  by_cases hid : (getDeviceInfo w deviceId).id.isEmpty = true
  · simp [hid]
  · simp [hid, hauth]

/-- C2 at a concrete registry: an unknown id and an unauthorized device are both
rejected by an analyzer that already holds data. -/
theorem analyzeDevice_rejected_witness :
    (analyzeDevice { connectedDevices := [("A1", { id := "A1", type := "android" })] }
        { m_pendingTasksPerDevice := [("B2", 3)] } "A1" false).1 = false ∧
    (analyzeDevice { connectedDevices := [("A1", { id := "A1", type := "android" })] }
        { m_pendingTasksPerDevice := [("B2", 3)] } "A1" false).2.m_pendingTasksPerDevice
      = [("B2", 3)] :=
  have h := analyzeDevice_rejected
    { connectedDevices := [("A1", { id := "A1", type := "android" })] }
    { m_pendingTasksPerDevice := [("B2", 3)] } "A1" false (Or.inr (by decide))
  ⟨h.1, h.2.2.2.1⟩

/-! ### The transfer engine -/

/-- C1 fails as stated: while the transfer of contacts and messages from "S" to "D" is
running, a start towards "X", a device unknown to the registry, returns false and adds
`transferFailed` to the trace, and the engine is still transferring, with the contacts task
current and the messages task queued. -/
theorem rejected_start_leaves_transfer_running :
    contactsStarted.hung = false ∧
    mapContains twoAndroids.connectedDevices "X" = false ∧
    (contactsStarted.startTransfer twoAndroids contactsAndMessages "S" "X" ["contacts"]
      false).1 = false ∧
    (contactsStarted.startTransfer twoAndroids contactsAndMessages "S" "X" ["contacts"]
      false).2.emitted = contactsStarted.emitted ++
        [.transferFailed "Ya hay una transferencia en progreso"] ∧
    (contactsStarted.startTransfer twoAndroids contactsAndMessages "S" "X" ["contacts"]
      false).2.isTransferInProgress = true ∧
    (contactsStarted.startTransfer twoAndroids contactsAndMessages "S" "X" ["contacts"]
      false).2.getActiveTasksInfo.map TransferTask.dataType = ["contacts", "messages"] := by
  decide

/-- C1 (amended): in any state reached from the initial one in which the thread of the
engine is not blocked, `startTransfer` returns false, adds exactly one `transferFailed` to
the trace and defers no call, whenever the source or the destination is not in the
registry, either device is unauthorized, or no requested category is eligible. An engine
that was not transferring is left inactive with no current or queued task; on an engine
that was transferring the call changes nothing but the trace, so the transfer in progress
goes on. -/
theorem startTransfer_rejected (evs : List (World × Event)) (w : World) (a : DataAnalyzer)
    (sourceId destId : String) (dataTypes : List String) (clearDestination : Bool)
    (hrun : (run {} evs).hung = false)
    (hbad : mapContains w.connectedDevices sourceId = false ∨
      mapContains w.connectedDevices destId = false ∨
      (getDeviceInfo w sourceId).authorized = false ∨
      (getDeviceInfo w destId).authorized = false ∨
      ∀ c ∈ dataTypes, ¬ EligibleCategory w a sourceId destId c) :
    ((run {} evs).startTransfer w a sourceId destId dataTypes clearDestination).1 = false ∧
    ((run {} evs).startTransfer w a sourceId destId dataTypes clearDestination).2.hung = false ∧
    (∃ msg, ((run {} evs).startTransfer w a sourceId destId dataTypes clearDestination).2.emitted
      = (run {} evs).emitted ++ [.transferFailed msg]) ∧
    ((run {} evs).startTransfer w a sourceId destId dataTypes clearDestination).2.pending =
      (run {} evs).pending ∧
    ((run {} evs).m_isTransferring = false →
      ((run {} evs).startTransfer w a sourceId destId dataTypes
        clearDestination).2.isTransferInProgress = false ∧
      ((run {} evs).startTransfer w a sourceId destId dataTypes
        clearDestination).2.getActiveTasksInfo = []) ∧
    ((run {} evs).m_isTransferring = true →
      ((run {} evs).startTransfer w a sourceId destId dataTypes clearDestination).2 =
        (run {} evs).emit (.transferFailed "Ya hay una transferencia en progreso")) := by
  have hfree : (run {} evs).locked = false :=
    MutexFree.after_run {} (MutexFree.of_unlocked rfl) evs hrun
  have hidleq : IdleQueueEmpty (run {} evs) := IdleQueueEmpty.run {} (fun _ => rfl) evs
  generalize run {} evs = s at hrun hfree hidleq ⊢
  have hsetup := DataTransferManager.startTransferSetup_of_free w a s sourceId destId dataTypes
    clearDestination hfree hrun
  have hf := DataTransferManager.buildTransfer_rejects w a { s with locked := true } sourceId
    destId dataTypes clearDestination hbad
  obtain ⟨h1, h2, h3, h4, -, h6⟩ := DataTransferManager.buildTransfer_false w a
    { s with locked := true } sourceId destId dataTypes clearDestination hf
  have heq : s.startTransfer w a sourceId destId dataTypes clearDestination =
      DataTransferManager.buildTransfer w a { s with locked := true } sourceId destId dataTypes
        clearDestination := by
    unfold DataTransferManager.startTransfer
    rw [hsetup]
    simp [hf]
  rw [heq]
  refine ⟨hf, h6.trans hrun, h1, h4, ?_, ?_⟩
  · intro hidle
    have hq : (DataTransferManager.buildTransfer w a { s with locked := true } sourceId destId
        dataTypes clearDestination).2.m_dataTypeQueue = [] := by
      rcases h3 with h3 | h3
      · rw [h3]; exact hidleq hidle
      · exact h3
    refine ⟨h2.trans hidle, ?_⟩
    unfold DataTransferManager.getActiveTasksInfo
    rw [hq, h2.trans hidle]
    simp
  · intro hactive
    rw [DataTransferManager.buildTransfer_active w a { s with locked := true } sourceId destId
      dataTypes clearDestination hactive]
    show ({ s with locked := false, emitted := s.emitted ++ [_] } : DataTransferManager) = _
    rw [← hfree]
    rfl

/-- C1 (amended) at two concrete states: after a transfer was started and cancelled, a
new start towards the unauthorized "D" is rejected and leaves nothing current or queued;
while a transfer is running, a start towards the unknown "X" leaves it as it is. -/
theorem startTransfer_rejected_witness :
    (((run {} startedThenCancelledRun).startTransfer destUnauthorized oneContact "S" "D"
      ["contacts"] false).1 = false ∧
    ((run {} startedThenCancelledRun).startTransfer destUnauthorized oneContact "S" "D"
      ["contacts"] false).2.getActiveTasksInfo = []) ∧
    ((run {} (startedThenCancelledRun.take 1)).startTransfer twoAndroids contactsAndMessages
      "S" "X" ["contacts"] false).2 = (run {} (startedThenCancelledRun.take 1)).emit
        (.transferFailed "Ya hay una transferencia en progreso") :=
  have h := startTransfer_rejected startedThenCancelledRun destUnauthorized oneContact "S" "D"
    ["contacts"] false (by decide) (Or.inr (Or.inr (Or.inr (Or.inl (by decide)))))
  have h2 := startTransfer_rejected (startedThenCancelledRun.take 1) twoAndroids
    contactsAndMessages "S" "X" ["contacts"] false (by decide) (Or.inr (Or.inl (by decide)))
  ⟨⟨h.1, (h.2.2.2.2.1 (by decide)).2⟩, h2.2.2.2.2.2 (by decide)⟩

/-- C3: when `startTransfer` returns true, the queue built by its loop is the requested
list restricted, in request order, to the eligible categories (the data set of the source
has an item, is supported, has no error message, and the category is supported between
the two platforms); on return its first category is the current task and the others are
still queued; and no `transferTaskFailed` is emitted for any other category. -/
theorem startTransfer_queue (w : World) (a : DataAnalyzer) (s : DataTransferManager)
    (sourceId destId : String) (dataTypes : List String) (clearDestination : Bool)
    (h : (s.startTransfer w a sourceId destId dataTypes clearDestination).1 = true) :
    (s.startTransferSetup w a sourceId destId dataTypes clearDestination).2.m_dataTypeQueue =
      dataTypes.filter (fun c => decide (EligibleCategory w a sourceId destId c)) ∧
    (s.startTransfer w a sourceId destId dataTypes clearDestination).2.m_currentTask.dataType ::
      (s.startTransfer w a sourceId destId dataTypes clearDestination).2.m_dataTypeQueue =
      dataTypes.filter (fun c => decide (EligibleCategory w a sourceId destId c)) ∧
    ∃ new, (s.startTransfer w a sourceId destId dataTypes clearDestination).2.emitted =
        s.emitted ++ new ∧
      ∀ c msg, TransferSignal.transferTaskFailed c msg ∈ new →
        c ∈ dataTypes ∧ EligibleCategory w a sourceId destId c := by
  obtain ⟨c, rest, n, new, h1, h2, h3, h4, h5, h6⟩ :=
    startTransfer_true_spec w a s sourceId destId dataTypes clearDestination h
  refine ⟨h2.trans h1.symm, by rw [h3, h4, h1], _, h5, ?_⟩
  intro c' msg hm
  have hcm : c ∈ dataTypes ∧ EligibleCategory w a sourceId destId c := by
    have : c ∈ dataTypes.filter (fun c => decide (EligibleCategory w a sourceId destId c)) := by
      rw [h1]; exact List.mem_cons_self _ _
    simpa using List.mem_filter.1 this
  simp only [List.cons_append, List.nil_append, List.mem_cons, reduceCtorEq, false_or] at hm
  have := h6 _ hm
  rw [show c' = c from this]
  exact hcm

/-- C3 at a concrete request: of contacts, calendar (analysis error), photos (never
analyzed) and messages, the tasks are contacts and messages, in that order. -/
theorem startTransfer_queue_witness :
    (DataTransferManager.startTransfer twoAndroids contactsAndMessages {} "S" "D"
        ["contacts", "calendar", "photos", "messages"] false).2.m_currentTask.dataType ::
      (DataTransferManager.startTransfer twoAndroids contactsAndMessages {} "S" "D"
        ["contacts", "calendar", "photos", "messages"] false).2.m_dataTypeQueue =
      ["contacts", "messages"] :=
  (startTransfer_queue twoAndroids contactsAndMessages {} "S" "D"
    ["contacts", "calendar", "photos", "messages"] false (by decide)).2.1.trans (by decide)

/-- C6 fails on the code: in the two-photo transfer over the bridge clients, after the
first photo (10 of the 20 bytes) was saved and the second one requested, one progress
report for the second photo (5 of its 10 bytes) makes the engine emit the overall
progress 25, twice, after 0 and 50; the transfer is still running and `transferFinished`
has not been emitted. -/
theorem overallProgress_not_monotone :
    overallProgressValues (run {} secondPhotoProgressRun).emitted = [0, 50, 25, 25] ∧
    nonDecreasing (overallProgressValues (run {} secondPhotoProgressRun).emitted) = false ∧
    (run {} secondPhotoProgressRun).m_isTransferring = true ∧
    (run {} secondPhotoProgressRun).hung = false ∧
    (run {} secondPhotoProgressRun).emitted.any TransferSignal.isTransferFinished = false := by
  decide

/-- C8 fails on the code: in the two-photo transfer over the bridge clients, the step
after the second confirmation finalises the task as completed with `processedItems = 3`
and `totalItems = 2`, and `transferTaskCompleted "photos" 3` is emitted. -/
theorem completed_with_extra_items :
    (run {} (twoPhotosBridgeRun ++ [(twoAndroidsBridged, .timer 0)])).m_currentTask.status =
      "completed" ∧
    (run {} (twoPhotosBridgeRun ++ [(twoAndroidsBridged, .timer 0)])).m_currentTask.processedItems
      = 3 ∧
    (run {} (twoPhotosBridgeRun ++ [(twoAndroidsBridged, .timer 0)])).m_currentTask.totalItems
      = 2 ∧
    TransferSignal.transferTaskCompleted "photos" 3 ∈
      (run {} (twoPhotosBridgeRun ++ [(twoAndroidsBridged, .timer 0)])).emitted := by
  decide

/-- C9 fails on the code: in the two-photo transfer over the bridge clients, the slot for
`fileSaved` is connected twice by the time the second photo is confirmed, and the engine
reaches a state, still active, whose current task has `processedItems = 3 > totalItems = 2`. -/
theorem processedItems_exceeds_totalItems :
    (run {} twoPhotosBridgeRun).m_isTransferring = true ∧
    (run {} twoPhotosBridgeRun).connections.count ("D", BridgeSignal.fileSaved) = 2 ∧
    (run {} twoPhotosBridgeRun).m_currentTask.processedItems = 3 ∧
    (run {} twoPhotosBridgeRun).m_currentTask.totalItems = 2 ∧
    ¬ (run {} twoPhotosBridgeRun).m_currentTask.processedItems ≤
      (run {} twoPhotosBridgeRun).m_currentTask.totalItems := by
  decide

/-- C10: on an engine whose mutex is free, as it is between two calls, `cancelTransfer`
on an active engine makes it inactive, empties the category queue and the task-state map,
resets the current task, forgets the scratch directory and adds exactly
`transferCancelled` and `transferFinished false` to the trace; on an inactive engine, in
particular when called a second time, it changes nothing. -/
theorem cancelTransfer_spec (w : World) (s : DataTransferManager)
    (hfree : s.locked = false) (hrun : s.hung = false) :
    (s.m_isTransferring = true →
      (s.cancelTransfer w).m_isTransferring = false ∧
      (s.cancelTransfer w).m_dataTypeQueue = [] ∧
      (s.cancelTransfer w).m_taskStates = [] ∧
      (s.cancelTransfer w).m_currentTask = {} ∧
      (s.cancelTransfer w).m_tempDirOwner = "" ∧
      (s.cancelTransfer w).emitted = s.emitted ++
        [.transferCancelled, .transferFinished false "Transferencia Cancelada"]) ∧
    (s.m_isTransferring = false → s.cancelTransfer w = s) ∧
    (s.cancelTransfer w).cancelTransfer w = s.cancelTransfer w := by
  have hafter : (s.cancelTransfer w).m_isTransferring = false ∧
      (s.cancelTransfer w).locked = false ∧ (s.cancelTransfer w).hung = false := by
    by_cases ha : s.m_isTransferring = true
    · obtain ⟨cs, h⟩ := cancelTransfer_active w s ha hfree hrun
      rw [h]
      exact ⟨rfl, rfl, rfl⟩
    · have ha2 : s.m_isTransferring = false := by simpa using ha
      rw [cancelTransfer_inactive w s ha2 hfree hrun]
      exact ⟨ha2, hfree, hrun⟩
  refine ⟨?_, ?_, ?_⟩
  · intro ha
    obtain ⟨cs, h⟩ := cancelTransfer_active w s ha hfree hrun
    rw [h]
    exact ⟨rfl, rfl, rfl, rfl, rfl, rfl⟩
  · intro ha
    exact cancelTransfer_inactive w s ha hfree hrun
  · exact cancelTransfer_inactive w _ hafter.1 hafter.2.1 hafter.2.2

/-- C10 at a concrete state: the transfer of contacts and messages from "S" to "D" is
cancelled right after its start, and cancelled again. -/
theorem cancelTransfer_spec_witness :
    (contactsStarted.cancelTransfer twoAndroids).m_isTransferring = false ∧
    (contactsStarted.cancelTransfer twoAndroids).emitted = contactsStarted.emitted ++
      [.transferCancelled, .transferFinished false "Transferencia Cancelada"] ∧
    (contactsStarted.cancelTransfer twoAndroids).cancelTransfer twoAndroids =
      contactsStarted.cancelTransfer twoAndroids :=
  have h := cancelTransfer_spec twoAndroids contactsStarted (by decide) (by decide)
  ⟨(h.1 (by decide)).1, (h.1 (by decide)).2.2.2.2.2, h.2.2⟩

/-! ### Failing tasks -/

namespace DataTransferManager

theorem disconnectBridgeClientSignals_eq (w : World) (s : DataTransferManager) (d : String) :
    ∃ cs, disconnectBridgeClientSignals w s d = { s with connections := cs } := by
  unfold disconnectBridgeClientSignals
  split
  · exact ⟨_, rfl⟩
  · exact ⟨_, rfl⟩

theorem disconnectCurrentTask_eq (w : World) (s : DataTransferManager) :
    ∃ cs, disconnectCurrentTask w s = { s with connections := cs } := by
  unfold disconnectCurrentTask
  split
  · obtain ⟨c1, h1⟩ := disconnectBridgeClientSignals_eq w s s.m_currentTask.sourceId
    obtain ⟨c2, h2⟩ := disconnectBridgeClientSignals_eq w { s with connections := c1 }
      s.m_currentTask.destId
    exact ⟨c2, by rw [h1, h2]⟩
  · exact ⟨_, rfl⟩

theorem storeCurrentTask_eq (s : DataTransferManager) :
    ∃ ts, s.storeCurrentTask = { s with m_taskStates := ts } := by
  unfold storeCurrentTask
  split
  · exact ⟨_, rfl⟩
  · exact ⟨_, rfl⟩

/-- The engine after the statements of `finalizeCurrentTask` for a failed task that
precede the call of `emitOverallProgress`, member by member. -/
theorem closeCurrentTask_failed (w : World) (s : DataTransferManager) (msg : String) :
    ∃ cs ts, closeCurrentTask w s false msg =
      { s with
        m_currentTask := { s.m_currentTask with status := "failed", errorMessage := msg },
        m_taskStates := ts, connections := cs,
        emitted := s.emitted ++ [.transferTaskFailed s.m_currentTask.dataType msg],
        m_totalTransferredSizePreviousTasks :=
          wrap64 (s.m_totalTransferredSizePreviousTasks + s.m_currentTask.processedSize) } := by
  unfold closeCurrentTask
  simp only [Bool.false_eq_true, if_false]
  obtain ⟨ts, hts⟩ := storeCurrentTask_eq ((s.setStatus "failed").setErrorMessage msg)
  obtain ⟨cs, hcs⟩ := disconnectCurrentTask_eq w
    ((s.setStatus "failed").setErrorMessage msg).storeCurrentTask
  rw [hcs, hts]
  exact ⟨cs, ts, rfl⟩

/-- The engine after the statements of `finalizeCurrentTask` for a completed task that
precede the call of `emitOverallProgress`, member by member. -/
theorem closeCurrentTask_completed (w : World) (s : DataTransferManager) (msg : String) :
    ∃ cs ts, closeCurrentTask w s true msg =
      { s with
        m_currentTask := { s.m_currentTask with status := "completed", errorMessage := msg },
        m_taskStates := ts, connections := cs,
        emitted := s.emitted ++
          [.transferTaskProgress s.m_currentTask.dataType 100 s.m_currentTask.totalItems
            s.m_currentTask.totalItems s.m_currentTask.totalSize s.m_currentTask.totalSize "",
           .transferTaskCompleted s.m_currentTask.dataType s.m_currentTask.processedItems],
        m_totalTransferredSizePreviousTasks :=
          wrap64 (s.m_totalTransferredSizePreviousTasks + s.m_currentTask.totalSize) } := by
  unfold closeCurrentTask
  simp only [if_true]
  obtain ⟨ts, hts⟩ := storeCurrentTask_eq ((s.setStatus "completed").setErrorMessage msg)
  obtain ⟨cs, hcs⟩ := disconnectCurrentTask_eq w
    ((s.setStatus "completed").setErrorMessage msg).storeCurrentTask
  rw [hcs, hts]
  refine ⟨cs, ts, ?_⟩
  simp [reportTaskCompleted, emit, addPreviousTasks, setStatus, setErrorMessage, setTask]

theorem closeCurrentTask_mutex (w : World) (s : DataTransferManager) (success : Bool)
    (msg : String) :
    (closeCurrentTask w s success msg).locked = s.locked ∧
    (closeCurrentTask w s success msg).hung = s.hung := by
  cases success
  · obtain ⟨cs, ts, h⟩ := closeCurrentTask_failed w s msg
    rw [h]
    exact ⟨rfl, rfl⟩
  · obtain ⟨cs, ts, h⟩ := closeCurrentTask_completed w s msg
    rw [h]
    exact ⟨rfl, rfl⟩

/-- `finalizeCurrentTask` on an active engine whose current task has a category, called
with the mutex free: the task is closed, and the thread blocks in the call of
`emitOverallProgress`, which asks for the mutex that `finalizeCurrentTask` holds. -/
theorem finalizeCurrentTask_blocks (w : World) (s : DataTransferManager) (success : Bool)
    (msg : String) (ha : s.m_isTransferring = true) (hd : s.m_currentTask.dataType ≠ "")
    (hl : s.locked = false) (hh : s.hung = false) :
    finalizeCurrentTask w s success msg =
      { closeCurrentTask w { s with locked := true } success msg with hung := true } := by
  have hd' : ¬ s.m_currentTask.dataType.isEmpty = true := by
    rw [String.isEmpty_iff]; exact hd
  unfold finalizeCurrentTask
  rw [enter hl hh]
  dsimp only
  rw [if_neg (by simp [ha]), if_neg hd']
  have hm := closeCurrentTask_mutex w { s with locked := true } success msg
  unfold emitOverallProgress
  rw [enter_held hm.1]
  exact andThen_of_hung rfl _

/-- `emitTaskProgress` on an active engine whose current task has a category, called
with the mutex free. -/
theorem emitTaskProgress_active_eq (s : DataTransferManager) (ha : s.m_isTransferring = true)
    (hd : s.m_currentTask.dataType ≠ "") (hl : s.locked = false) (hh : s.hung = false) :
    s.emitTaskProgress = s.emit (.transferTaskProgress s.m_currentTask.dataType
      (taskProgressPercent s.m_currentTask) s.m_currentTask.processedItems
      s.m_currentTask.totalItems s.m_currentTask.processedSize s.m_currentTask.totalSize
      s.m_currentTask.currentItemName) := by
  have hd' : ¬ s.m_currentTask.dataType.isEmpty = true := by
    rw [String.isEmpty_iff]; exact hd
  unfold emitTaskProgress
  rw [enter hl hh]
  dsimp only
  rw [if_neg (by simp [ha, hd'])]
  rw [unlock_of_free hl]

theorem emitTaskProgress_active (s : DataTransferManager) (ha : s.m_isTransferring = true)
    (hd : s.m_currentTask.dataType ≠ "") (hl : s.locked = false) (hh : s.hung = false) :
    ∃ pct, s.emitTaskProgress = s.emit (.transferTaskProgress s.m_currentTask.dataType pct
      s.m_currentTask.processedItems s.m_currentTask.totalItems s.m_currentTask.processedSize
      s.m_currentTask.totalSize s.m_currentTask.currentItemName) :=
  ⟨_, emitTaskProgress_active_eq s ha hd hl hh⟩

/-- The platform dispatch fails, with a non-empty message, for every pair of platforms
other than android to android. -/
theorem startPlatformTask_cross (w : World) (task : TransferTask)
    (hp : ¬ ((getDeviceInfo w task.sourceId).type = "android" ∧
      (getDeviceInfo w task.destId).type = "android")) :
    ∃ msg, msg ≠ "" ∧ startPlatformTask w task = (false, { task with errorMessage := msg }) := by
  unfold startPlatformTask transferAndroidToIOS transferIOSToAndroid transferIOSToIOS
  dsimp only
  rw [if_neg hp]
  split_ifs
  · exact ⟨_, by decide, rfl⟩
  · exact ⟨_, by decide, rfl⟩
  · exact ⟨_, by decide, rfl⟩
  · exact ⟨_, by decide, rfl⟩

end DataTransferManager

namespace DataTransferManager

/-- Launching the current task when its two devices are not both Android devices: the
task is announced, failed at once with a non-empty message, and the thread blocks in
`finalizeCurrentTask`. -/
theorem launchCurrentTask_cross (w : World) (b : DataTransferManager)
    (ha : b.m_isTransferring = true) (hd : b.m_currentTask.dataType ≠ "")
    (hl : b.locked = false) (hh : b.hung = false)
    (hp : ¬ ((getDeviceInfo w b.m_currentTask.sourceId).type = "android" ∧
      (getDeviceInfo w b.m_currentTask.destId).type = "android")) :
    ∃ msg pct, msg ≠ "" ∧
      (launchCurrentTask w b).m_currentTask =
        { b.m_currentTask with status := "failed", errorMessage := msg } ∧
      (launchCurrentTask w b).m_isTransferring = true ∧
      (launchCurrentTask w b).m_dataTypeQueue = b.m_dataTypeQueue ∧
      (launchCurrentTask w b).pending = b.pending ∧
      (launchCurrentTask w b).pullRunning = b.pullRunning ∧
      (launchCurrentTask w b).pushRunning = b.pushRunning ∧
      (launchCurrentTask w b).emitted = b.emitted ++
        [.transferTaskStarted b.m_currentTask.dataType b.m_currentTask.totalItems,
         .transferTaskProgress b.m_currentTask.dataType pct b.m_currentTask.processedItems
           b.m_currentTask.totalItems b.m_currentTask.processedSize b.m_currentTask.totalSize
           b.m_currentTask.currentItemName,
         .transferTaskFailed b.m_currentTask.dataType msg] ∧
      (launchCurrentTask w b).hung = true := by
  obtain ⟨pct, hpct0⟩ := emitTaskProgress_active (b.emit (.transferTaskStarted
    b.m_currentTask.dataType b.m_currentTask.totalItems)) ha hd hl hh
  have hpct : (b.emit (.transferTaskStarted b.m_currentTask.dataType
      b.m_currentTask.totalItems)).emitTaskProgress =
      (b.emit (.transferTaskStarted b.m_currentTask.dataType b.m_currentTask.totalItems)).emit
        (.transferTaskProgress b.m_currentTask.dataType pct b.m_currentTask.processedItems
           b.m_currentTask.totalItems b.m_currentTask.processedSize b.m_currentTask.totalSize
           b.m_currentTask.currentItemName) := hpct0
  obtain ⟨msg, hmsg, hr⟩ := startPlatformTask_cross w b.m_currentTask hp
  have hme : ¬ msg.isEmpty = true := by rw [String.isEmpty_iff]; exact hmsg
  obtain ⟨x, hx⟩ : ∃ x, x =
      (((b.emit (.transferTaskStarted b.m_currentTask.dataType b.m_currentTask.totalItems)).emit
        (.transferTaskProgress b.m_currentTask.dataType pct b.m_currentTask.processedItems
           b.m_currentTask.totalItems b.m_currentTask.processedSize b.m_currentTask.totalSize
           b.m_currentTask.currentItemName)).setTask
        { b.m_currentTask with errorMessage := msg }) := ⟨_, rfl⟩
  have heq : launchCurrentTask w b = finalizeCurrentTask w x false msg := by
    rw [hx]
    unfold launchCurrentTask
    rw [hpct, andThen_of_running (show ((b.emit _).emit _).hung = false from hh)]
    unfold dispatchCurrentTask
    dsimp only
    have hr' : startPlatformTask w ((b.emit (.transferTaskStarted b.m_currentTask.dataType
        b.m_currentTask.totalItems)).emit (.transferTaskProgress b.m_currentTask.dataType pct
          b.m_currentTask.processedItems b.m_currentTask.totalItems
          b.m_currentTask.processedSize b.m_currentTask.totalSize
          b.m_currentTask.currentItemName)).m_currentTask =
        (false, { b.m_currentTask with errorMessage := msg }) := hr
    rw [hr']
    simp [setTask, hme]
  have hxa : x.m_isTransferring = true := by rw [hx]; exact ha
  have hxd : x.m_currentTask.dataType ≠ "" := by rw [hx]; exact hd
  have hxl : x.locked = false := by rw [hx]; exact hl
  have hxh : x.hung = false := by rw [hx]; exact hh
  rw [heq, finalizeCurrentTask_blocks w x false msg hxa hxd hxl hxh]
  obtain ⟨cs, ts, hc⟩ := closeCurrentTask_failed w { x with locked := true } msg
  rw [hc, hx]
  refine ⟨msg, pct, hmsg, rfl, ha, rfl, rfl, rfl, rfl, ?_, rfl⟩
  simp [emit, setTask]

/-- Starting the next task, with the mutex free, when the queue is `c :: rest`, `c` has a
well-keyed entry and the two devices of that task are not both Android devices. -/
theorem startNextTransferTask_cross (w : World) (s : DataTransferManager) (c : String)
    (rest : List String) (hq : s.m_dataTypeQueue = c :: rest)
    (ha : s.m_isTransferring = true) (hc : mapContains s.m_taskStates c = true)
    (hd : (mapValue s.m_taskStates c {}).dataType = c) (hne : c ≠ "")
    (hp : ¬ ((getDeviceInfo w (mapValue s.m_taskStates c {}).sourceId).type = "android" ∧
      (getDeviceInfo w (mapValue s.m_taskStates c {}).destId).type = "android"))
    (hl : s.locked = false) (hh : s.hung = false) :
    ∃ msg pct, msg ≠ "" ∧
      (startNextTransferTask w s).m_currentTask =
        { mapValue s.m_taskStates c {} with
          status := "failed", currentItemIndex := -1, processedItems := 0, processedSize := 0,
          errorMessage := msg } ∧
      (startNextTransferTask w s).m_isTransferring = true ∧
      (startNextTransferTask w s).m_dataTypeQueue = rest ∧
      (startNextTransferTask w s).pending = s.pending ∧
      (startNextTransferTask w s).pullRunning = s.pullRunning ∧
      (startNextTransferTask w s).pushRunning = s.pushRunning ∧
      (startNextTransferTask w s).emitted = s.emitted ++
        [.transferTaskStarted c (mapValue s.m_taskStates c {}).totalItems,
         .transferTaskProgress c pct 0 (mapValue s.m_taskStates c {}).totalItems 0
           (mapValue s.m_taskStates c {}).totalSize
           (mapValue s.m_taskStates c {}).currentItemName,
         .transferTaskFailed c msg] ∧
      (startNextTransferTask w s).hung = true := by
  have hd' : (({ s with locked := true, m_dataTypeQueue := rest }.takeTask c).unlock
      ).m_currentTask.dataType = c := hd
  obtain ⟨msg, pct, h1, h2, h3, h4, h5, h6, h7, h8, h9⟩ :=
    launchCurrentTask_cross w (({ s with locked := true, m_dataTypeQueue := rest }.takeTask
      c).unlock) ha (by rw [hd']; exact hne) rfl hh hp
  have heq : startNextTransferTask w s =
      launchCurrentTask w (({ s with locked := true, m_dataTypeQueue := rest }.takeTask
        c).unlock) := by
    unfold startNextTransferTask
    rw [enter hl hh]
    dsimp only
    rw [hq]
    dsimp only
    rw [if_neg (by simp [ha]), if_neg (by simp [hc])]
  rw [heq]
  rw [hd'] at h8
  exact ⟨msg, pct, h1, h2, h3, h4, h5, h6, h7, h8, h9⟩

end DataTransferManager

/-- C14 fails on the code: when the current task is finalised as failed, the next queued
task is never started. In the transfer of the contact and the photos of "S" to the iOS
device "I" the contacts task fails when it is started; `transferTaskFailed` is emitted,
the engine stays active and the photos stay queued, but the thread is then blocked inside
`finalizeCurrentTask`: no call is deferred and whatever events follow, the engine stays as
it is, so the photos task is never started. The same holds of every failed finalisation
made, with the mutex free, on an active engine whose current task has a category: it emits
exactly `transferTaskFailed category message`, keeps the engine active and the queue
unchanged, defers nothing and blocks the thread. -/
theorem failed_task_blocks_the_queue :
    (contactsFailedPhotosQueued.emitted.getLast? = some (.transferTaskFailed "contacts"
      "Transferencia Android->iOS aún no implementada completamente.") ∧
    contactsFailedPhotosQueued.m_isTransferring = true ∧
    contactsFailedPhotosQueued.m_dataTypeQueue = ["photos"] ∧
    contactsFailedPhotosQueued.pending = [] ∧
    contactsFailedPhotosQueued.hung = true ∧
    contactsFailedPhotosQueued.emitted.any TransferSignal.isTransferFailed = false ∧
    ∀ evs, run contactsFailedPhotosQueued evs = contactsFailedPhotosQueued) ∧
    ∀ (w : World) (s : DataTransferManager) (msg : String), s.m_isTransferring = true →
      s.m_currentTask.dataType ≠ "" → s.locked = false → s.hung = false →
      (s.finalizeCurrentTask w false msg).emitted =
        s.emitted ++ [.transferTaskFailed s.m_currentTask.dataType msg] ∧
      (s.finalizeCurrentTask w false msg).m_currentTask.status = "failed" ∧
      (s.finalizeCurrentTask w false msg).m_isTransferring = true ∧
      (s.finalizeCurrentTask w false msg).m_dataTypeQueue = s.m_dataTypeQueue ∧
      (s.finalizeCurrentTask w false msg).pending = s.pending ∧
      (s.finalizeCurrentTask w false msg).hung = true := by
  refine ⟨⟨by decide, by decide, by decide, by decide, by decide, by decide,
    fun evs => run_of_hung _ (by decide) evs⟩, ?_⟩
  intro w s msg ha hd hl hh
  rw [DataTransferManager.finalizeCurrentTask_blocks w s false msg ha hd hl hh]
  obtain ⟨cs, ts, hc⟩ := DataTransferManager.closeCurrentTask_failed w
    { s with locked := true } msg
  rw [hc]
  exact ⟨rfl, rfl, ha, rfl, rfl, rfl⟩

/-- C15: starting the next task, with the mutex free, when the platforms of its two
devices are not (android, android): the task (of a named category `c`, filed under its
category) becomes current and is failed at once with a non-empty message; its
`processedItems` and `processedSize` are 0, no process is started and no item step is
deferred, and the signals emitted are `transferTaskStarted c`, one `transferTaskProgress`
with zero items and bytes, and `transferTaskFailed c message`. (The call then blocks in
`finalizeCurrentTask`.) -/
theorem crossPlatform_task_fails (w : World) (s : DataTransferManager) (c : String)
    (rest : List String) (hq : s.m_dataTypeQueue = c :: rest)
    (ha : s.m_isTransferring = true) (hc : mapContains s.m_taskStates c = true)
    (hd : (mapValue s.m_taskStates c {}).dataType = c) (hne : c ≠ "")
    (hp : ¬ ((getDeviceInfo w (mapValue s.m_taskStates c {}).sourceId).type = "android" ∧
      (getDeviceInfo w (mapValue s.m_taskStates c {}).destId).type = "android"))
    (hfree : s.locked = false) (hrun : s.hung = false) :
    ∃ msg pct, msg ≠ "" ∧
      (s.startNextTransferTask w).m_currentTask =
        { mapValue s.m_taskStates c {} with
          status := "failed", currentItemIndex := -1, processedItems := 0, processedSize := 0,
          errorMessage := msg } ∧
      (s.startNextTransferTask w).m_isTransferring = true ∧
      (s.startNextTransferTask w).m_dataTypeQueue = rest ∧
      (s.startNextTransferTask w).pending = s.pending ∧
      (s.startNextTransferTask w).pullRunning = s.pullRunning ∧
      (s.startNextTransferTask w).pushRunning = s.pushRunning ∧
      (s.startNextTransferTask w).emitted = s.emitted ++
        [.transferTaskStarted c (mapValue s.m_taskStates c {}).totalItems,
         .transferTaskProgress c pct 0 (mapValue s.m_taskStates c {}).totalItems 0
           (mapValue s.m_taskStates c {}).totalSize
           (mapValue s.m_taskStates c {}).currentItemName,
         .transferTaskFailed c msg] ∧
      (s.startNextTransferTask w).hung = true :=
  DataTransferManager.startNextTransferTask_cross w s c rest hq ha hc hd hne hp hfree hrun

/-- C15 at a concrete state: the contacts of the Android device "S" queued for the iOS
device "I". -/
theorem crossPlatform_task_fails_witness :
    ∃ msg, msg ≠ "" ∧
      (contactsQueuedForIOS.startNextTransferTask androidAndIOS).m_currentTask.processedItems
        = 0 ∧
      (contactsQueuedForIOS.startNextTransferTask androidAndIOS).m_currentTask.processedSize
        = 0 ∧
      TransferSignal.transferTaskFailed "contacts" msg ∈
        (contactsQueuedForIOS.startNextTransferTask androidAndIOS).emitted :=
  have ⟨msg, _, h1, h2, _, _, _, _, _, h8, _⟩ :=
    crossPlatform_task_fails androidAndIOS contactsQueuedForIOS "contacts" [] (by decide)
      (by decide) (by decide) (by decide) (by decide) (by decide) (by decide) (by decide)
  ⟨msg, h1, by rw [h2], by rw [h2], by rw [h8]; simp⟩

/-! ### Item handlers -/

namespace DataTransferManager

/-- `emitTaskProgress` called while the mutex is held blocks the thread. -/
theorem emitTaskProgress_held (s : DataTransferManager) (hl : s.locked = true) :
    s.emitTaskProgress = { s with hung := true } := by
  unfold emitTaskProgress
  exact enter_held hl _

/-- `emitTaskProgress` called with the mutex free emits at most one signal. -/
theorem emitTaskProgress_free (s : DataTransferManager) (hl : s.locked = false)
    (hh : s.hung = false) :
    s.emitTaskProgress = s ∨
    ∃ pct, s.emitTaskProgress = s.emit (.transferTaskProgress s.m_currentTask.dataType pct
      s.m_currentTask.processedItems s.m_currentTask.totalItems s.m_currentTask.processedSize
      s.m_currentTask.totalSize s.m_currentTask.currentItemName) := by
  unfold emitTaskProgress
  rw [enter hl hh]
  dsimp only
  rw [unlock_of_free hl]
  split
  · exact Or.inl rfl
  · exact Or.inr ⟨_, rfl⟩

/-- `emitOverallProgress` called with the mutex free emits the computed value. -/
theorem emitOverallProgress_free (s : DataTransferManager) (hl : s.locked = false)
    (hh : s.hung = false) :
    s.emitOverallProgress = s.emit (.transferProgress s.getOverallProgress) := by
  unfold emitOverallProgress
  rw [enter hl hh]
  show (({ s with locked := true } : DataTransferManager).unlock).emit _ = _
  rw [unlock_of_free hl]
  rfl

theorem held_countItem_unlock {s : DataTransferManager} (hl : s.locked = false) :
    ({ s with locked := true } : DataTransferManager).countItem.unlock = s.countItem := by
  cases s
  cases hl
  rfl

theorem lock_currentTask (s : DataTransferManager) : s.lock.m_currentTask = s.m_currentTask := by
  unfold lock
  split <;> rfl

/-- Statements that leave the item counter alone leave it alone when they are skipped
as well. -/
theorem andThen_processedItems (s : DataTransferManager)
    (f : DataTransferManager → DataTransferManager) (n : Int)
    (hf : (f s).m_currentTask.processedItems = n) (hs : s.m_currentTask.processedItems = n) :
    (s.andThen f).m_currentTask.processedItems = n := by
  unfold andThen
  split
  · exact hs
  · exact hf

theorem emitTaskProgress_currentTask (s : DataTransferManager) :
    s.emitTaskProgress.m_currentTask = s.m_currentTask := by
  unfold emitTaskProgress andThen
  split
  · exact lock_currentTask s
  · dsimp only
    split <;> exact lock_currentTask s

theorem emitOverallProgress_currentTask (s : DataTransferManager) :
    s.emitOverallProgress.m_currentTask = s.m_currentTask := by
  unfold emitOverallProgress andThen
  split
  · exact lock_currentTask s
  · exact lock_currentTask s

/-- The slot for `fileReady` on an active engine whose destination has no connected bridge
client, run with the mutex free. -/
theorem onBridgeClientFileReady_absent (w : World) (s : DataTransferManager)
    (filePath : String) (ha : s.m_isTransferring = true)
    (hdst : isBridgeClientConnected w s.m_currentTask.destId = false)
    (hl : s.locked = false) (hh : s.hung = false) :
    s.onBridgeClientFileReady w filePath =
      s.countItem.emitTaskProgress.defer .processNextTransferStep := by
  unfold onBridgeClientFileReady
  rw [enter hl hh]
  dsimp only
  rw [if_neg (by simp [ha]), if_pos (by simp [hdst]), held_countItem_unlock hl]
  apply andThen_of_running
  rcases emitTaskProgress_free s.countItem hl hh with h | ⟨pct, h⟩ <;> rw [h] <;> exact hh

end DataTransferManager

/-- C12 fails on the code: in the two-photo transfer over the bridge clients the first
photo has been saved and the second one requested, so the slot for `fileReady` is
connected twice; the client of "D" has lost its connection and "S" announces the second
photo once. The one signal raises `processedItems` from 1 to 3, above `totalItems = 2`,
and defers `processNextTransferStep` twice; `processedSize` stays at 10 and the task is
not failed. One run of the slot does what the claim says, on every active engine whose
destination has no connected bridge client: `processedItems` is one more, nothing else of
the task changes, and `processNextTransferStep` is deferred. -/
theorem fileReady_counts_item_twice :
    (secondPhotoRequested.m_currentTask.processedItems = 1 ∧
     secondPhotoRequested.m_currentTask.totalItems = 2 ∧
     secondPhotoRequested.m_currentTask.processedSize = 10 ∧
     secondPhotoRequested.connections.count ("S", BridgeSignal.fileReady) = 2 ∧
     (step destBridgeLost secondPhotoRequested
        (.bridge "S" (.fileReady "/p/b.jpg"))).m_currentTask.processedItems = 3 ∧
     (step destBridgeLost secondPhotoRequested
        (.bridge "S" (.fileReady "/p/b.jpg"))).m_currentTask.processedSize = 10 ∧
     (step destBridgeLost secondPhotoRequested
        (.bridge "S" (.fileReady "/p/b.jpg"))).m_currentTask.status =
          "transferring_via_bridge" ∧
     (step destBridgeLost secondPhotoRequested
        (.bridge "S" (.fileReady "/p/b.jpg"))).pending =
          [.processNextTransferStep, .processNextTransferStep]) ∧
    ∀ (w : World) (s : DataTransferManager) (filePath : String),
      s.m_isTransferring = true → isBridgeClientConnected w s.m_currentTask.destId = false →
      s.locked = false → s.hung = false →
      (s.onBridgeClientFileReady w filePath).m_currentTask =
        { s.m_currentTask with processedItems := s.m_currentTask.processedItems + 1 } ∧
      (s.onBridgeClientFileReady w filePath).pending =
        s.pending ++ [.processNextTransferStep] ∧
      (s.onBridgeClientFileReady w filePath).m_isTransferring = true ∧
      (s.onBridgeClientFileReady w filePath).hung = false := by
  refine ⟨by decide, ?_⟩
  intro w s filePath ha hdst hl hh
  rw [DataTransferManager.onBridgeClientFileReady_absent w s filePath ha hdst hl hh]
  rcases DataTransferManager.emitTaskProgress_free s.countItem hl hh with h | ⟨pct, h⟩ <;>
    rw [h] <;> exact ⟨rfl, rfl, ha, hh⟩

/-! ### Items skipped in the subprocess path -/

/-- C26 fails on the code: the handlers of a finished pull and of a finished push count
the item, and credit its bytes, as the claim says, but the engine does not continue with
the next item. In the two-photo transfer through the subprocesses, a pull of the first
photo that ends with exit code 1 leaves `processedItems = 1` and `processedSize = 0`, and a
push that ends with code 0 leaves `processedItems = 1` and `processedSize = 10`; in both
cases no signal is emitted, no call is deferred and the thread is blocked, so that the
second photo is never handled. The same holds on every active engine with the mutex free:
after a failed pull, and after any push with the index of the current item in range, the
task differs only in `processedItems` (one more) and, after a push that exited normally
with code 0, in `processedSize` (the size of the current item more, as a 64-bit sum); the
trace and the deferred calls are as before and the thread is blocked in
`emitTaskProgress`. -/
theorem subprocess_handlers_block :
    ((step twoAndroids firstPhotoPulling (.pullFinished 1 true)).m_currentTask.processedItems
        = 1 ∧
     (step twoAndroids firstPhotoPulling (.pullFinished 1 true)).m_currentTask.processedSize
        = 0 ∧
     (step twoAndroids firstPhotoPulling (.pullFinished 1 true)).emitted =
        firstPhotoPulling.emitted ∧
     (step twoAndroids firstPhotoPulling (.pullFinished 1 true)).pending = [] ∧
     (step twoAndroids firstPhotoPulling (.pullFinished 1 true)).hung = true ∧
     (step twoAndroids firstPhotoPushing (.pushFinished 0 true)).m_currentTask.processedItems
        = 1 ∧
     (step twoAndroids firstPhotoPushing (.pushFinished 0 true)).m_currentTask.processedSize
        = 10 ∧
     (step twoAndroids firstPhotoPushing (.pushFinished 0 true)).emitted =
        firstPhotoPushing.emitted ∧
     (step twoAndroids firstPhotoPushing (.pushFinished 0 true)).pending = [] ∧
     (step twoAndroids firstPhotoPushing (.pushFinished 0 true)).hung = true ∧
     (∀ evs, run (step twoAndroids firstPhotoPulling (.pullFinished 1 true)) evs =
        step twoAndroids firstPhotoPulling (.pullFinished 1 true)) ∧
     (∀ evs, run (step twoAndroids firstPhotoPushing (.pushFinished 0 true)) evs =
        step twoAndroids firstPhotoPushing (.pushFinished 0 true))) ∧
    ∀ (w : World) (s : DataTransferManager) (exitCode : Int) (normalExit : Bool),
      s.m_isTransferring = true → s.locked = false → s.hung = false →
      ((exitCode ≠ 0 ∨ normalExit = false) →
        s.onPullProcessFinished w exitCode normalExit =
          { s.countItem with locked := true, hung := true }) ∧
      (s.indexInRange = true → exitCode = 0 ∧ normalExit = true →
        s.onPushProcessFinished exitCode normalExit =
          { (s.creditSize s.currentItem.size).countItem with locked := true, hung := true }) ∧
      (s.indexInRange = true → ¬ (exitCode = 0 ∧ normalExit = true) →
        s.onPushProcessFinished exitCode normalExit =
          { s.countItem with locked := true, hung := true }) := by
  refine ⟨⟨by decide, by decide, by decide, by decide, by decide, by decide, by decide,
    by decide, by decide, by decide, fun evs => run_of_hung _ (by decide) evs,
    fun evs => run_of_hung _ (by decide) evs⟩, ?_⟩
  intro w s exitCode normalExit ha hl hh
  refine ⟨?_, ?_, ?_⟩
  · intro hfail
    unfold DataTransferManager.onPullProcessFinished
    rw [DataTransferManager.enter hl hh]
    dsimp only
    rw [if_neg (by simp [ha]), if_pos hfail,
      DataTransferManager.emitTaskProgress_held _ rfl]
    exact DataTransferManager.andThen_of_hung rfl _
  · intro hin hok
    have hnf : ¬ (exitCode ≠ 0 ∨ normalExit = false) := by
      rintro (h | h)
      · exact h hok.1
      · rw [hok.2] at h; cases h
    unfold DataTransferManager.onPushProcessFinished
    rw [DataTransferManager.enter hl hh]
    dsimp only
    rw [if_neg (by simp [ha]), if_neg (by
      show ¬ (!s.indexInRange) = true
      simp [hin]), if_neg hnf, DataTransferManager.emitTaskProgress_held _ rfl,
      DataTransferManager.andThen_of_hung rfl, DataTransferManager.andThen_of_hung rfl]
    rfl
  · intro hin hno
    have hf : exitCode ≠ 0 ∨ normalExit = false := by
      by_contra h
      apply hno
      constructor
      · by_contra h1; exact h (Or.inl h1)
      · cases normalExit
        · exact absurd (Or.inr rfl) h
        · rfl
    unfold DataTransferManager.onPushProcessFinished
    rw [DataTransferManager.enter hl hh]
    dsimp only
    rw [if_neg (by simp [ha]), if_neg (by
      show ¬ (!s.indexInRange) = true
      simp [hin]), if_pos hf, DataTransferManager.emitTaskProgress_held _ rfl,
      DataTransferManager.andThen_of_hung rfl, DataTransferManager.andThen_of_hung rfl]
    rfl

/-! ### Progress events of the bridge client -/

/-- C27 fails on the code: in the two-photo transfer over the bridge clients the first
photo has been saved, so one item is counted and its 10 bytes are credited, and the second
photo has been requested; a `fileTransferProgress` for 5 of 10 bytes then leaves
`processedSize` at 5, the partial size of the second photo alone, below the 10 bytes
credited before. What holds for every state: the event leaves `processedItems` as it
is. -/
theorem fileProgress_drops_credited_bytes :
    (secondPhotoRequested.m_currentTask.processedItems = 1 ∧
     secondPhotoRequested.m_currentTask.processedSize = 10 ∧
     secondPhotoRequested.m_currentTask.currentItemIndex = 1 ∧
     (step twoAndroidsBridged secondPhotoRequested
        (.bridge "S" (.fileTransferProgress "/p/b.jpg" 5 10))).m_currentTask.processedItems
        = 1 ∧
     (step twoAndroidsBridged secondPhotoRequested
        (.bridge "S" (.fileTransferProgress "/p/b.jpg" 5 10))).m_currentTask.processedSize
        = 5 ∧
     (secondPhotoRequested.onBridgeClientFileProgress "/p/b.jpg" 5 10).m_currentTask.processedSize
        = 5) ∧
    ∀ (s : DataTransferManager) (filePath : String) (bytesReceived totalBytes : Int),
      (s.onBridgeClientFileProgress filePath bytesReceived totalBytes).m_currentTask.processedItems
        = s.m_currentTask.processedItems := by
  refine ⟨by decide, ?_⟩
  intro s filePath bytesReceived totalBytes
  have h0 : s.lock.m_currentTask.processedItems = s.m_currentTask.processedItems :=
    congrArg TransferTask.processedItems (DataTransferManager.lock_currentTask s)
  unfold DataTransferManager.onBridgeClientFileProgress
  apply DataTransferManager.andThen_processedItems _ _ _ ?_ h0
  dsimp only
  split
  · exact h0
  · apply DataTransferManager.andThen_processedItems
    · rw [DataTransferManager.emitOverallProgress_currentTask,
        DataTransferManager.emitTaskProgress_currentTask]
      split <;> exact h0
    · rw [DataTransferManager.emitTaskProgress_currentTask]
      split <;> exact h0

/-! ### A contacts task run to its end -/

theorem sumOfSizes_take_succ (items : List DataItem) (k : Nat) (hk : k < items.length) :
    sumOfSizes (items.take (k + 1)) = sumOfSizes (items.take k) + (itemAt items k).size := by
  unfold sumOfSizes itemAt
  rw [List.take_succ, List.map_append, List.sum_append]
  congr 1
  have h1 : items[k]? = some items[k] := List.getElem?_eq_getElem hk
  have h2 : (k : Int).toNat = k := Int.toNat_natCast k
  have h3 : items.get? k = some items[k] := by rw [List.get?_eq_getElem?]; exact h1
  rw [h1, h2, List.getD, h3]
  simp

theorem sumOfSizes_nonneg (items : List DataItem) (h : ∀ i ∈ items, 0 ≤ i.size) :
    0 ≤ sumOfSizes items := by
  unfold sumOfSizes
  apply List.sum_nonneg
  intro x hx
  obtain ⟨i, hi, rfl⟩ := List.mem_map.1 hx
  exact h i hi

theorem sumOfSizes_take_le (items : List DataItem) (h : ∀ i ∈ items, 0 ≤ i.size) (k : Nat) :
    0 ≤ sumOfSizes (items.take k) ∧ sumOfSizes (items.take k) ≤ sumOfSizes items := by
  have h1 := sumOfSizes_nonneg (items.take k) (fun i hi => h i (List.mem_of_mem_take hi))
  have h2 := sumOfSizes_nonneg (items.drop k) (fun i hi => h i (List.mem_of_mem_drop hi))
  have h3 : sumOfSizes items = sumOfSizes (items.take k) + sumOfSizes (items.drop k) := by
    unfold sumOfSizes
    rw [← List.sum_append, ← List.map_append, List.take_append_drop]
  constructor
  · exact h1
  · omega

/-- The deferred call at the head of the pending calls comes due. -/
theorem step_timer_head (w : World) (s : DataTransferManager) (d : Deferred)
    (rest : List Deferred) (hh : s.hung = false) (hp : s.pending = d :: rest) :
    step w s (.timer 0) = DataTransferManager.runDeferred w { s with pending := rest } d := by
  unfold step
  rw [if_neg (by simp [hh])]
  show (match s.pending.get? 0 with
    | some d => DataTransferManager.runDeferred w { s with pending := s.pending.eraseIdx 0 } d
    | none => s) = _
  rw [hp]
  rfl

namespace DataTransferManager

/-- The simulated transfer of the current item on an active engine whose current task has
a category and whose item index is in range, run with the mutex free. -/
theorem simulatedItem_eq (s : DataTransferManager) (ha : s.m_isTransferring = true)
    (hd : s.m_currentTask.dataType ≠ "") (hin : s.indexInRange = true)
    (hl : s.locked = false) (hh : s.hung = false) :
    s.simulatedItem =
      ((((s.countItem.creditSize s.currentItem.size).emit
        (.transferTaskProgress s.m_currentTask.dataType
          (taskProgressPercent (s.countItem.creditSize s.currentItem.size).m_currentTask)
          (s.m_currentTask.processedItems + 1) s.m_currentTask.totalItems
          (wrap64 (s.m_currentTask.processedSize + s.currentItem.size))
          s.m_currentTask.totalSize s.m_currentTask.currentItemName)).emit
        (.transferProgress (s.countItem.creditSize s.currentItem.size).getOverallProgress)).defer
        .processNextTransferStep) := by
  have hu : (({ s with locked := true } : DataTransferManager).countItem.creditSize
      s.currentItem.size).unlock = s.countItem.creditSize s.currentItem.size := by
    cases s
    cases hl
    rfl
  unfold simulatedItem
  rw [enter hl hh]
  dsimp only
  rw [if_neg (by simp [ha]), if_pos (by exact hin)]
  have hu2 : (({ s with locked := true } : DataTransferManager).countItem.creditSize
      (currentItem { s with locked := true }).size).unlock =
      s.countItem.creditSize s.currentItem.size := hu
  rw [hu2, emitTaskProgress_active_eq (s.countItem.creditSize s.currentItem.size)
    (by exact ha) (by exact hd) (by exact hl) (by exact hh)]
  rw [andThen_of_running (s := (s.countItem.creditSize s.currentItem.size).emit _)
    (by exact hh) emitOverallProgress]
  rw [emitOverallProgress_free _ (by exact hl) (by exact hh)]
  rw [andThen_of_running (by exact hh)]
  rfl

/-- The item step on an active engine whose next item is a contact, run with the mutex
free: the index moves on and the simulated transfer of the contact is deferred. -/
theorem processNextTransferStep_contact (w : World) (s : DataTransferManager)
    (ha : s.m_isTransferring = true) (hd : s.m_currentTask.dataType = "contacts")
    (hin : s.nextIndex.indexInRange = true) (hne : s.m_currentTask.itemsToTransfer ≠ [])
    (hlt : s.m_currentTask.currentItemIndex + 1 < s.m_currentTask.totalItems)
    (hl : s.locked = false) (hh : s.hung = false) :
    s.processNextTransferStep w =
      (s.nextIndex.setItemName s.nextIndex.currentItem.displayName).defer .contactsItem := by
  unfold processNextTransferStep
  rw [enter hl hh]
  dsimp only
  rw [if_neg (by simp [ha]), if_neg (by
    show ¬ s.m_currentTask.currentItemIndex + 1 ≥ s.m_currentTask.totalItems
    omega), if_neg (by
    show ¬ ((s.m_currentTask.itemsToTransfer.isEmpty || !s.nextIndex.indexInRange) = true)
    simp [hin, hne])]
  unfold transferCurrentItem
  dsimp only
  rw [if_neg (by
    show ¬ (s.m_currentTask.dataType = "photos" ∨ s.m_currentTask.dataType = "videos" ∨
      s.m_currentTask.dataType = "music" ∨ s.m_currentTask.dataType = "documents")
    rw [hd]; decide), if_pos (by exact hd)]
  unfold startContactsTransfer
  rw [lock_of_free (by rfl)]
  rw [if_neg (by show ¬ s.hung = true; simp [hh]), if_neg (by
    show ¬ (!s.nextIndex.indexInRange) = true
    simp [hin])]
  cases s
  cases hl
  rfl

end DataTransferManager

/-- The simulated transfer of the current contact: the item is counted, its bytes are
credited, and the two progress signals are emitted, the overall one with the value
computed from the new state. -/
theorem ContactsLoop.item {items : List DataItem} {k : Nat} {s : DataTransferManager}
    (w : World) (h : ContactsLoop items k k .contactsItem s) (hk : k < items.length) :
    ContactsLoop items k (k + 1) .processNextTransferStep (step w s (.timer 0)) ∧
    ∃ sig, (step w s (.timer 0)).emitted = s.emitted ++
      [sig, .transferProgress (step w s (.timer 0)).getOverallProgress] := by
  obtain ⟨ha, hq, hl, hh, hT, hprev, hd, hi, ht, hts, hx, hp, hs, hpend⟩ := h
  have hin : DataTransferManager.indexInRange { s with pending := [] } = true := by
    simp [DataTransferManager.indexInRange, hx, hi, hk]
  have hd0 : ({ s with pending := [] } : DataTransferManager).m_currentTask.dataType ≠ "" := by
    show s.m_currentTask.dataType ≠ ""
    rw [hd]; decide
  have hstep : step w s (.timer 0) =
      DataTransferManager.simulatedItem { s with pending := [] } :=
    step_timer_head w s _ [] hh hpend
  rw [hstep, DataTransferManager.simulatedItem_eq _ (by exact ha) hd0 hin (by exact hl)
    (by exact hh)]
  refine ⟨⟨ha, hq, hl, hh, hT, hprev, hd, hi, ht, hts, hx, ?_, ?_, rfl⟩, ?_⟩
  · show s.m_currentTask.processedItems + 1 = _
    rw [hp]; push_cast; rfl
  · show wrap64 (s.m_currentTask.processedSize +
      (itemAt s.m_currentTask.itemsToTransfer s.m_currentTask.currentItemIndex).size) = _
    rw [hs, hi, hx, wrap64_add_wrap64, sumOfSizes_take_succ items k hk]
  · apply Exists.intro
    show (s.emitted ++ [_]) ++ [_] = _
    rw [List.append_assoc]
    rfl

namespace DataTransferManager

theorem startPlatformTask_contacts (w : World) (task : TransferTask)
    (hs : (getDeviceInfo w task.sourceId).type = "android")
    (hd : (getDeviceInfo w task.destId).type = "android") (hc : task.dataType = "contacts") :
    startPlatformTask w task = (true, task) := by
  unfold startPlatformTask transferAndroidToAndroid
  dsimp only
  rw [if_pos ⟨hs, hd⟩, hc]
  rfl

/-- Launching a contacts task between two Android devices, with the mutex free: the task
is announced with its progress, and its first item is due. -/
theorem launchCurrentTask_contacts (w : World) (b : DataTransferManager)
    (ha : b.m_isTransferring = true) (hd : b.m_currentTask.dataType = "contacts")
    (hne : b.m_currentTask.itemsToTransfer ≠ [])
    (ht : b.m_currentTask.totalItems = b.m_currentTask.itemsToTransfer.length)
    (hx : b.m_currentTask.currentItemIndex = -1)
    (hl : b.locked = false) (hh : b.hung = false)
    (hst : (getDeviceInfo w b.m_currentTask.sourceId).type = "android")
    (hdt : (getDeviceInfo w b.m_currentTask.destId).type = "android") :
    ∃ e, launchCurrentTask w b =
      (({ b with emitted := e } : DataTransferManager).nextIndex.setItemName
        b.nextIndex.currentItem.displayName).defer .contactsItem := by
  have hd0 : b.m_currentTask.dataType ≠ "" := by rw [hd]; decide
  have hlen : 0 < b.m_currentTask.itemsToTransfer.length := List.length_pos.2 hne
  unfold launchCurrentTask
  rw [emitTaskProgress_active_eq _ (by exact ha) (by exact hd0) (by exact hl) (by exact hh),
    andThen_of_running (by exact hh)]
  unfold dispatchCurrentTask
  dsimp only
  rw [startPlatformTask_contacts w _ (by exact hst) (by exact hdt) (by exact hd)]
  dsimp only
  rw [if_neg (by simp)]
  rw [processNextTransferStep_contact w _ (by exact ha) (by exact hd) (by
      simp only [indexInRange, nextIndex, setTask, emit, decide_eq_true_eq]
      rw [hx]
      omega) (by exact hne) (by
      show b.m_currentTask.currentItemIndex + 1 < b.m_currentTask.totalItems
      rw [hx, ht]
      omega) (by exact hl) (by exact hh)]
  exact ⟨_, rfl⟩

end DataTransferManager

/-- What `startTransfer` leaves behind for a request of the contacts of an Android device
towards another Android device, when the total size of the data set is the sum of the
item sizes, above 0 and below 2^63: the contacts task is current, its first item is
due. -/
theorem ContactsLoop.start (w : World) (a : DataAnalyzer) (src dst : String)
    (hsi : (getDeviceInfo w src).id ≠ "") (hsa : (getDeviceInfo w src).authorized = true)
    (hst : (getDeviceInfo w src).type = "android")
    (hdi : (getDeviceInfo w dst).id ≠ "") (hda : (getDeviceInfo w dst).authorized = true)
    (hdt : (getDeviceInfo w dst).type = "android")
    (htl : w.tempLocation ≠ "") (hmk : w.mkpathOk = true)
    (hitems : (getDataSet a src "contacts").items ≠ [])
    (hsup : (getDataSet a src "contacts").isSupported = true)
    (herr : (getDataSet a src "contacts").errorMessage = "")
    (hsum : (getDataSet a src "contacts").totalSize =
      sumOfSizes (getDataSet a src "contacts").items)
    (h0 : 0 < sumOfSizes (getDataSet a src "contacts").items)
    (h1 : sumOfSizes (getDataSet a src "contacts").items < 2 ^ 63) :
    ContactsLoop (getDataSet a src "contacts").items 0 0 .contactsItem
      (step w {} (.startTransfer a src dst ["contacts"] false)) := by
  have hsi' : (getDeviceInfo w src).id.isEmpty = false := by
    rw [Bool.eq_false_iff, ne_eq, String.isEmpty_iff]; exact hsi
  have hdi' : (getDeviceInfo w dst).id.isEmpty = false := by
    rw [Bool.eq_false_iff, ne_eq, String.isEmpty_iff]; exact hdi
  have htl' : w.tempLocation.isEmpty = false := by
    rw [Bool.eq_false_iff, ne_eq, String.isEmpty_iff]; exact htl
  have hie : (getDataSet a src "contacts").items.isEmpty = false := by
    rw [Bool.eq_false_iff, ne_eq, List.isEmpty_iff]; exact hitems
  have hee : (getDataSet a src "contacts").errorMessage.isEmpty = true := by
    rw [herr]; rfl
  have hsetup : DataTransferManager.startTransferSetup w a {} src dst ["contacts"] false =
      (true, { m_isTransferring := true, m_dataTypeQueue := ["contacts"],
               m_taskStates := [("contacts", DataTransferManager.newTask src dst "contacts" false
                 (DataTransferManager.bridgesAvailable w src dst) (getDataSet a src "contacts"))],
               m_tempDirOwner := w.tempLocation ++ "/MobileDataBridge_Transfer_" ++ w.timestamp,
               m_totalTransferSize := wrap64 (0 + (DataTransferManager.newTask src dst "contacts"
                 false (DataTransferManager.bridgesAvailable w src dst)
                 (getDataSet a src "contacts")).totalSize),
               locked := true }) := by
    simp [DataTransferManager.startTransferSetup, DataTransferManager.buildTransfer,
      DataTransferManager.lock, DataTransferManager.prepareTempDirectory,
      DataTransferManager.cleanupTempDirectory, DataTransferManager.resetState,
      DataTransferManager.enqueueTransferTasks, DataTransferManager.enqueueTask,
      hsi', hdi', hsa, hda, htl', hmk, hie, hsup, hee, hst, hdt, isTypeSupported,
      mapInsert, mapContains, DataTransferManager.newTask]
  have hts : (DataTransferManager.newTask src dst "contacts" false
      (DataTransferManager.bridgesAvailable w src dst) (getDataSet a src "contacts")).totalSize =
      sumOfSizes (getDataSet a src "contacts").items := by
    show (if (getDataSet a src "contacts").totalSize > 0 then
      (getDataSet a src "contacts").totalSize else _) = _
    rw [if_pos (by rw [hsum]; exact h0), hsum]
  show ContactsLoop _ 0 0 .contactsItem
    (if (({} : DataTransferManager).hung = true) then {} else
      (DataTransferManager.startTransfer w a {} src dst ["contacts"] false).2)
  rw [if_neg (by decide)]
  unfold DataTransferManager.startTransfer
  rw [hsetup]
  dsimp only
  rw [if_neg (by simp)]
  unfold DataTransferManager.startNextTransferTask
  rw [DataTransferManager.enter rfl rfl]
  dsimp only [DataTransferManager.emit, DataTransferManager.unlock]
  rw [if_neg (by simp), if_neg (by simp [mapContains])]
  obtain ⟨b, hb⟩ : ∃ b : DataTransferManager, b = DataTransferManager.unlock
      (DataTransferManager.takeTask
      { m_isTransferring := true, m_dataTypeQueue := [],
        m_taskStates := [("contacts", DataTransferManager.newTask src dst "contacts" false
          (DataTransferManager.bridgesAvailable w src dst) (getDataSet a src "contacts"))],
        m_tempDirOwner := w.tempLocation ++ "/MobileDataBridge_Transfer_" ++ w.timestamp,
        m_totalTransferSize := wrap64 (0 + (DataTransferManager.newTask src dst "contacts"
          false (DataTransferManager.bridgesAvailable w src dst)
          (getDataSet a src "contacts")).totalSize),
        emitted := [] ++ [.transferStarted (wrap64 (0 + (DataTransferManager.newTask src dst
          "contacts" false (DataTransferManager.bridgesAvailable w src dst)
          (getDataSet a src "contacts")).totalSize))] ++ [.transferProgress 0],
        locked := true } "contacts") := ⟨_, rfl⟩
  have b1 : b.m_isTransferring = true := by rw [hb]; rfl
  have b2 : b.m_dataTypeQueue = [] := by rw [hb]; rfl
  have b3 : b.locked = false := by rw [hb]; rfl
  have b4 : b.hung = false := by rw [hb]; rfl
  have b5 : b.m_totalTransferSize = sumOfSizes (getDataSet a src "contacts").items := by
    rw [hb]
    show wrap64 (0 + _) = _
    rw [hts, zero_add, wrap64_of_range _ (by omega) h1]
  have b6 : b.m_totalTransferredSizePreviousTasks = 0 := by rw [hb]; rfl
  have b7 : b.pending = [] := by rw [hb]; rfl
  have b8 : b.m_currentTask = { DataTransferManager.newTask src dst "contacts" false
      (DataTransferManager.bridgesAvailable w src dst) (getDataSet a src "contacts") with
      status := "starting", currentItemIndex := -1, processedItems := 0, processedSize := 0 } := by
    rw [hb]
    simp [DataTransferManager.takeTask, DataTransferManager.unlock, DataTransferManager.setTask,
      mapValue]
  have b9 : b.m_currentTask.totalSize = sumOfSizes (getDataSet a src "contacts").items := by
    rw [b8]; exact hts
  obtain ⟨e, he⟩ := DataTransferManager.launchCurrentTask_contacts w b b1
    (by rw [b8]; rfl) (by rw [b8]; exact hitems) (by rw [b8]; rfl) (by rw [b8]) b3 b4
    (by rw [b8]; exact hst) (by rw [b8]; exact hdt)
  show ContactsLoop _ 0 0 .contactsItem (DataTransferManager.launchCurrentTask w
      (DataTransferManager.unlock (DataTransferManager.takeTask
      { m_isTransferring := true, m_dataTypeQueue := [],
        m_taskStates := [("contacts", DataTransferManager.newTask src dst "contacts" false
          (DataTransferManager.bridgesAvailable w src dst) (getDataSet a src "contacts"))],
        m_tempDirOwner := w.tempLocation ++ "/MobileDataBridge_Transfer_" ++ w.timestamp,
        m_totalTransferSize := wrap64 (0 + (DataTransferManager.newTask src dst "contacts"
          false (DataTransferManager.bridgesAvailable w src dst)
          (getDataSet a src "contacts")).totalSize),
        emitted := [] ++ [.transferStarted (wrap64 (0 + (DataTransferManager.newTask src dst
          "contacts" false (DataTransferManager.bridgesAvailable w src dst)
          (getDataSet a src "contacts")).totalSize))] ++ [.transferProgress 0],
        locked := true } "contacts")))
  rw [← hb, he]
  refine ⟨b1, b2, b3, b4, b5, b6, ?_, ?_, ?_, ?_, ?_, ?_, ?_, ?_⟩
  · show b.m_currentTask.dataType = _
    rw [b8]; rfl
  · show b.m_currentTask.itemsToTransfer = _
    rw [b8]; rfl
  · show b.m_currentTask.totalItems = _
    rw [b8]; rfl
  · exact b9
  · show b.m_currentTask.currentItemIndex + 1 = _
    rw [b8]; rfl
  · show b.m_currentTask.processedItems = _
    rw [b8]; rfl
  · show b.m_currentTask.processedSize = _
    rw [b8]; rfl
  · show b.pending ++ [Deferred.contactsItem] = _
    rw [b7]; rfl

theorem takeWhile_append_stop {p : Char → Bool} (a : List Char) (x : Char) (b : List Char)
    (ha : ∀ c ∈ a, p c = true) (hx : p x = false) :
    (a ++ x :: b).takeWhile p = a ∧ (a ++ x :: b).dropWhile p = x :: b := by
  induction a with
  | nil => simp [List.takeWhile, List.dropWhile, hx]
  | cons c rest ih =>
    have hc : p c = true := ha c (List.mem_cons_self _ _)
    have := ih (fun d hd => ha d (List.mem_cons_of_mem _ hd))
    simp [List.takeWhile, List.dropWhile, hc, this]

theorem skipPermissions_append (perms rest : List Char)
    (h : ∀ c ∈ perms, c.toNat = 114 ∨ c.toNat = 119 ∨ c.toNat = 120 ∨ c.toNat = 45) :
    skipPermissions perms.length (perms ++ rest) = some rest := by
  induction perms with
  | nil => rfl
  | cons c tl ih =>
    have hc := h c (List.mem_cons_self _ _)
    show (if c.toNat = 114 ∨ c.toNat = 119 ∨ c.toNat = 120 ∨ c.toNat = 45 then
      skipPermissions tl.length (tl ++ rest) else none) = some rest
    rw [if_pos hc]
    exact ih (fun d hd => h d (List.mem_cons_of_mem _ hd))

theorem skipDigits_append (ds rest : List Char) (h : ∀ c ∈ ds, isRegexDigit c = true) :
    skipDigits ds.length (ds ++ rest) = some rest := by
  induction ds with
  | nil => rfl
  | cons c tl ih =>
    have hc := h c (List.mem_cons_self _ _)
    show (if isRegexDigit c = true then skipDigits tl.length (tl ++ rest) else none) = some rest
    rw [if_pos hc]
    exact ih (fun d hd => h d (List.mem_cons_of_mem _ hd))

theorem takeWhile_append_head {p : Char → Bool} (a r : List Char)
    (ha : ∀ c ∈ a, p c = true) (hr : ∀ c, r.head? = some c → p c = false) :
    (a ++ r).takeWhile p = a ∧ (a ++ r).dropWhile p = r := by
  cases r with
  | nil =>
    rw [List.append_nil]
    exact ⟨List.takeWhile_eq_self_iff.2 ha, List.dropWhile_eq_nil_iff.2 ha⟩
  | cons x b => exact takeWhile_append_stop a x b ha (hr x rfl)

theorem head?_append_mem {a r : List Char} (ha : a ≠ []) :
    ∀ c, (a ++ r).head? = some c → c ∈ a := by
  intro c hc
  obtain ⟨x, t, hx⟩ := List.exists_cons_of_ne_nil ha
  rw [hx] at hc ⊢
  have : x = c := Option.some.inj hc
  rw [← this]
  exact List.mem_cons_self _ _

theorem isRegexSpace_of_digit {c : Char} (h : isRegexDigit c = true) :
    isRegexSpace c = false := by
  simp only [isRegexDigit, Bool.and_eq_true, decide_eq_true_eq] at h
  have e1 : (c.toNat == 32) = false := by rw [beq_eq_false_iff_ne]; omega
  have e2 : decide (c.toNat ≤ 13) = false := by rw [decide_eq_false_iff_not]; omega
  simp [isRegexSpace, e1, e2]

theorem isRegexSpace_of_not_isSpace {c : Char} (h : isSpace c = false) :
    isRegexSpace c = false := by
  unfold isSpace at h
  simp only [Bool.or_eq_false_iff] at h
  exact h.1.1.1.1.1.1.1.1.1

theorem isRegexDigit_of_space {c : Char} (h : isRegexSpace c = true) :
    isRegexDigit c = false := by
  cases hd : isRegexDigit c
  · rfl
  · rw [isRegexSpace_of_digit hd] at h
    cases h

theorem isGap_spec {g : List Char} (h : isGap g = true) :
    g ≠ [] ∧ (∀ c ∈ g, isRegexSpace c = true) ∧ ∀ c ∈ g, c ≠ Char.ofNat 10 := by
  simp only [isGap, Bool.and_eq_true, Bool.not_eq_true', List.isEmpty_eq_false,
    List.all_eq_true, bne_iff_ne, ne_eq] at h
  refine ⟨h.1, fun c hc => (h.2 c hc).1, fun c hc h0 => (h.2 c hc).2 ?_⟩
  rw [h0]
  rfl

theorem isMargin_spec {g : List Char} (h : isMargin g = true) :
    (∀ c ∈ g, isSpace c = true) ∧ ∀ c ∈ g, c ≠ Char.ofNat 10 := by
  simp only [isMargin, Bool.and_eq_true, List.all_eq_true, bne_iff_ne, ne_eq] at h
  refine ⟨fun c hc => (h c hc).1, fun c hc h0 => (h c hc).2 ?_⟩
  rw [h0]
  rfl

/-- The white space between two fields is skipped as a whole when a field follows. -/
theorem skipSpaces_gap (g r : List Char) (hg : isGap g = true)
    (hr : ∀ c, r.head? = some c → isRegexSpace c = false) :
    skipSpaces (g ++ r) = some r := by
  obtain ⟨g1, g2, -⟩ := isGap_spec hg
  obtain ⟨h1, h2⟩ := takeWhile_append_head g r g2 hr
  unfold skipSpaces
  rw [h1, h2, if_neg (by simpa using g1)]

/-- A field of digits is read as a whole when white space follows. -/
theorem takeDigits_gap (ds g r : List Char) (hne : ds ≠ [])
    (h : ∀ c ∈ ds, isRegexDigit c = true) (hg : isGap g = true) :
    takeDigits (ds ++ (g ++ r)) = some (ds, g ++ r) := by
  obtain ⟨g1, g2, -⟩ := isGap_spec hg
  obtain ⟨h1, h2⟩ := takeWhile_append_head ds (g ++ r) h
    (fun c hc => isRegexDigit_of_space (g2 c (head?_append_mem g1 c hc)))
  unfold takeDigits
  rw [h1, h2, if_neg (by simpa using hne)]

/-- A field without white space is skipped as a whole when white space follows. -/
theorem skipWord_gap (wd g r : List Char) (hne : wd ≠ [])
    (h : ∀ c ∈ wd, isRegexSpace c = false) (hg : isGap g = true) :
    skipWord (wd ++ (g ++ r)) = some (g ++ r) := by
  obtain ⟨g1, g2, -⟩ := isGap_spec hg
  obtain ⟨h1, h2⟩ := takeWhile_append_head (p := fun c => !isRegexSpace c) wd (g ++ r)
    (fun c hc => by simp [h c hc])
    (fun c hc => by simp [g2 c (head?_append_mem g1 c hc)])
  unfold skipWord
  rw [h1, h2, if_neg (by simpa using hne)]

theorem LsEntry.wellFormed_spec {e : LsEntry} (h : e.wellFormed = true) :
    (e.permissions.length = 9 ∧
      ∀ c ∈ e.permissions, c.toNat = 114 ∨ c.toNat = 119 ∨ c.toNat = 120 ∨ c.toNat = 45) ∧
    (e.links ≠ [] ∧ ∀ c ∈ e.links, isRegexDigit c = true) ∧
    (e.owner ≠ [] ∧ ∀ c ∈ e.owner, isRegexSpace c = false) ∧
    (e.group ≠ [] ∧ ∀ c ∈ e.group, isRegexSpace c = false) ∧
    (e.size ≠ [] ∧ ∀ c ∈ e.size, isRegexDigit c = true) ∧
    (e.year.length = 4 ∧ ∀ c ∈ e.year, isRegexDigit c = true) ∧
    (e.month.length = 2 ∧ ∀ c ∈ e.month, isRegexDigit c = true) ∧
    (e.day.length = 2 ∧ ∀ c ∈ e.day, isRegexDigit c = true) ∧
    (e.hour.length = 2 ∧ ∀ c ∈ e.hour, isRegexDigit c = true) ∧
    (e.minute.length = 2 ∧ ∀ c ∈ e.minute, isRegexDigit c = true) ∧
    (e.name ≠ [] ∧ ∀ c ∈ e.name, c.toNat ≠ 10) ∧
    (∀ c, e.name.head? = some c → isSpace c = false) ∧
    (∀ c, e.name.getLast? = some c → isSpace c = false) ∧
    (isGap e.gap1 = true ∧ isGap e.gap2 = true ∧ isGap e.gap3 = true ∧ isGap e.gap4 = true ∧
      isGap e.gap5 = true ∧ isGap e.gap6 = true ∧ isGap e.gap7 = true) ∧
    isMargin e.leading = true ∧ isMargin e.trailing = true := by
  unfold LsEntry.wellFormed at h
  simp only [Bool.and_eq_true] at h
  obtain ⟨⟨⟨⟨⟨⟨⟨⟨⟨⟨⟨⟨⟨⟨⟨⟨⟨⟨⟨⟨⟨⟨⟨⟨⟨⟨⟨⟨⟨⟨⟨⟨a1, a2⟩, b1⟩, b2⟩, c1⟩, c2⟩, d1⟩, d2⟩, e1⟩, e2⟩,
    f1⟩, f2⟩, g1⟩, g2⟩, i1⟩, i2⟩, j1⟩, j2⟩, k1⟩, k2⟩, l1⟩, l2⟩, m1⟩, m2⟩, n1⟩, n2⟩, n3⟩, n4⟩,
    n5⟩, n6⟩, n7⟩, o1⟩, o2⟩ := h
  simp only [beq_iff_eq, List.all_eq_true, Bool.or_eq_true, Bool.not_eq_true',
    List.isEmpty_eq_false, bne_iff_ne, ne_eq] at a1 a2 b1 b2 c1 c2 d1 d2 e1 e2 f1 f2
  simp only [beq_iff_eq, List.all_eq_true, Bool.or_eq_true, Bool.not_eq_true',
    List.isEmpty_eq_false, bne_iff_ne, ne_eq] at g1 g2 i1 i2 j1 j2 k1 k2 l1 l2
  refine ⟨⟨a1, fun c hc => ?_⟩, ⟨b1, b2⟩, ⟨c1, c2⟩, ⟨d1, d2⟩, ⟨e1, e2⟩, ⟨f1, f2⟩, ⟨g1, g2⟩,
    ⟨i1, i2⟩, ⟨j1, j2⟩, ⟨k1, k2⟩, ⟨l1, l2⟩, fun c hc => ?_, fun c hc => ?_,
    ⟨n1, n2, n3, n4, n5, n6, n7⟩, o1, o2⟩
  · rcases a2 c hc with ((h | h) | h) | h
    · exact Or.inl h
    · exact Or.inr (Or.inl h)
    · exact Or.inr (Or.inr (Or.inl h))
    · exact Or.inr (Or.inr (Or.inr h))
  · rw [hc] at m1
    simpa using m1
  · rw [hc] at m2
    simpa using m2

/-- The regular expression matches the line of a well-formed entry, and captures its type
character, its size field and its name. -/
theorem matchLsLine_line (e : LsEntry) (h : e.wellFormed = true) :
    matchLsLine e.line =
      some { type := if e.directory then Char.ofNat 100 else Char.ofNat 45,
             size := e.size, filename := e.name } := by
  obtain ⟨⟨a1, a2⟩, ⟨b1, b2⟩, ⟨c1, c2⟩, ⟨d1, d2⟩, ⟨e1, e2⟩, ⟨f1, f2⟩, ⟨g1, g2⟩, ⟨i1, i2⟩,
    ⟨j1, j2⟩, ⟨k1, k2⟩, ⟨l1, l2⟩, m1, m2, ⟨n1, n2, n3, n4, n5, n6, n7⟩, -, -⟩ :=
    LsEntry.wellFormed_spec h
  have hyear : e.year ≠ [] := by
    intro h0; rw [h0] at f1; simp at f1
  have hhour : e.hour ≠ [] := by
    intro h0; rw [h0] at j1; simp at j1
  have p0 := skipPermissions_append e.permissions
    (e.gap1 ++ (e.links ++ (e.gap2 ++ e.fromOwner))) a2
  rw [a1] at p0
  have q1 : skipSpaces (e.gap1 ++ (e.links ++ (e.gap2 ++ e.fromOwner))) =
      some (e.links ++ (e.gap2 ++ e.fromOwner)) :=
    skipSpaces_gap _ _ n1 fun c hc => isRegexSpace_of_digit (b2 c (head?_append_mem b1 c hc))
  have q2 := takeDigits_gap e.links e.gap2 e.fromOwner b1 b2 n2
  have q3 : skipSpaces (e.gap2 ++ e.fromOwner) = some e.fromOwner :=
    skipSpaces_gap _ _ n2 fun c hc => c2 c (head?_append_mem c1 c hc)
  have q4 : skipWord e.fromOwner =
      some (e.gap3 ++ (e.group ++ (e.gap4 ++ (e.size ++ (e.gap5 ++ e.fromDate))))) :=
    skipWord_gap e.owner e.gap3 _ c1 c2 n3
  have q5 : skipSpaces (e.gap3 ++ (e.group ++ (e.gap4 ++ (e.size ++ (e.gap5 ++ e.fromDate)))))
      = some (e.group ++ (e.gap4 ++ (e.size ++ (e.gap5 ++ e.fromDate)))) :=
    skipSpaces_gap _ _ n3 fun c hc => d2 c (head?_append_mem d1 c hc)
  have q6 : skipWord (e.group ++ (e.gap4 ++ (e.size ++ (e.gap5 ++ e.fromDate)))) =
      some (e.gap4 ++ (e.size ++ (e.gap5 ++ e.fromDate))) :=
    skipWord_gap e.group e.gap4 _ d1 d2 n4
  have q7 : skipSpaces (e.gap4 ++ (e.size ++ (e.gap5 ++ e.fromDate))) =
      some (e.size ++ (e.gap5 ++ e.fromDate)) :=
    skipSpaces_gap _ _ n4 fun c hc => isRegexSpace_of_digit (e2 c (head?_append_mem e1 c hc))
  have q8 := takeDigits_gap e.size e.gap5 e.fromDate e1 e2 n5
  have q9 : skipSpaces (e.gap5 ++ e.fromDate) = some e.fromDate :=
    skipSpaces_gap _ _ n5 fun c hc =>
      isRegexSpace_of_digit (f2 c (head?_append_mem hyear c hc))
  have q10 : skipDate e.fromDate = some (e.gap6 ++ e.fromTime) := by
    have r1 := skipDigits_append e.year (Char.ofNat 45 :: (e.month ++ Char.ofNat 45 ::
      (e.day ++ (e.gap6 ++ e.fromTime)))) f2
    have r2 := skipDigits_append e.month (Char.ofNat 45 :: (e.day ++ (e.gap6 ++ e.fromTime)))
      g2
    have r3 := skipDigits_append e.day (e.gap6 ++ e.fromTime) i2
    rw [f1] at r1
    rw [g1] at r2
    rw [i1] at r3
    simp [skipDate, LsEntry.fromDate, r1, r2, r3, skipChar]
  have q11 : skipSpaces (e.gap6 ++ e.fromTime) = some e.fromTime :=
    skipSpaces_gap _ _ n6 fun c hc =>
      isRegexSpace_of_digit (j2 c (head?_append_mem hhour c hc))
  have q12 : skipTime e.fromTime = some (e.gap7 ++ e.name) := by
    have r1 := skipDigits_append e.hour (Char.ofNat 58 :: (e.minute ++ (e.gap7 ++ e.name))) j2
    have r2 := skipDigits_append e.minute (e.gap7 ++ e.name) k2
    rw [j1] at r1
    rw [k1] at r2
    simp [skipTime, LsEntry.fromTime, r1, r2, skipChar]
  have q13 : takeFilename (e.gap7 ++ e.name) = some e.name := by
    unfold takeFilename
    rw [skipSpaces_gap _ _ n7 fun c hc => isRegexSpace_of_not_isSpace (m1 c hc)]
    show (if e.name.isEmpty = true then none else some e.name) = _
    rw [if_neg (by simpa using l1)]
  have htype : (if e.directory then Char.ofNat 100 else Char.ofNat 45).toNat = 45 ∨
      (if e.directory then Char.ofNat 100 else Char.ofNat 45).toNat = 100 := by
    cases e.directory
    · exact Or.inl (by decide)
    · exact Or.inr (by decide)
  unfold LsEntry.line matchLsLine
  simp only [if_pos htype, p0, q1, q2, q3, q4, q5, q6, q7, q8, q9, q10, q11, q12, q13,
    Option.bind_eq_bind, Option.some_bind, Option.bind]

theorem splitSkipEmptyAux_line (sep : Char) (line rest : List Char) :
    ∀ cur : List Char, (∀ c ∈ line, c ≠ sep) → cur.reverse ++ line ≠ [] →
      splitSkipEmptyAux sep (line ++ sep :: rest) cur =
        (cur.reverse ++ line) :: splitSkipEmptyAux sep rest [] := by
  induction line with
  | nil =>
    intro cur _ hne
    have hc : cur.isEmpty = false := by
      cases cur with
      | nil => simp at hne
      | cons _ _ => rfl
    simp [splitSkipEmptyAux, hc]
  | cons c tl ih =>
    intro cur h _
    have hc : c ≠ sep := h c (List.mem_cons_self _ _)
    have := ih (c :: cur) (fun d hd => h d (List.mem_cons_of_mem _ hd)) (by simp)
    rw [List.cons_append]
    show (if c = sep then _ else splitSkipEmptyAux sep (tl ++ sep :: rest) (c :: cur)) = _
    rw [if_neg hc, this]
    simp

theorem splitSkipEmptyAux_empty (sep : Char) (rest : List Char) :
    splitSkipEmptyAux sep (sep :: rest) [] = splitSkipEmptyAux sep rest [] := by
  simp [splitSkipEmptyAux]

theorem isRegexSpace_lineFeed {c : Char} (h : isRegexSpace c = false) : c ≠ Char.ofNat 10 := by
  intro hc
  rw [hc] at h
  revert h
  decide

theorem LsEntry.line_no_lineFeed (e : LsEntry) (h : e.wellFormed = true) :
    ∀ c ∈ e.line, c ≠ Char.ofNat 10 := by
  obtain ⟨⟨a1, a2⟩, ⟨b1, b2⟩, ⟨c1, c2⟩, ⟨d1, d2⟩, ⟨e1, e2⟩, ⟨f1, f2⟩, ⟨g1, g2⟩, ⟨i1, i2⟩,
    ⟨j1, j2⟩, ⟨k1, k2⟩, ⟨l1, l2⟩, m1, m2, ⟨n1, n2, n3, n4, n5, n6, n7⟩, -, -⟩ :=
    LsEntry.wellFormed_spec h
  have hd : ∀ c, isRegexDigit c = true → c ≠ Char.ofNat 10 := fun c hc =>
    isRegexSpace_lineFeed (isRegexSpace_of_digit hc)
  intro c hc
  simp only [LsEntry.line, LsEntry.fromOwner, LsEntry.fromDate, LsEntry.fromTime,
    List.mem_cons, List.mem_append] at hc
  rcases hc with hc | hc | hc | hc | hc | hc | hc | hc | hc | hc | hc | hc | hc | hc | hc |
    hc | hc | hc | hc | hc | hc | hc
  · rw [hc]; cases e.directory <;> decide
  · intro h0
    rw [h0] at hc
    have := a2 _ hc
    revert this
    decide
  · exact (isGap_spec n1).2.2 c hc
  · exact hd c (b2 c hc)
  · exact (isGap_spec n2).2.2 c hc
  · exact isRegexSpace_lineFeed (c2 c hc)
  · exact (isGap_spec n3).2.2 c hc
  · exact isRegexSpace_lineFeed (d2 c hc)
  · exact (isGap_spec n4).2.2 c hc
  · exact hd c (e2 c hc)
  · exact (isGap_spec n5).2.2 c hc
  · exact hd c (f2 c hc)
  · rw [hc]; decide
  · exact hd c (g2 c hc)
  · rw [hc]; decide
  · exact hd c (i2 c hc)
  · exact (isGap_spec n6).2.2 c hc
  · exact hd c (j2 c hc)
  · rw [hc]; decide
  · exact hd c (k2 c hc)
  · exact (isGap_spec n7).2.2 c hc
  · intro h0
    exact l2 c hc (by rw [h0]; decide)

theorem LsLine.text_no_lineFeed (l : LsLine) (h : l.wellFormed = true) :
    ∀ c ∈ l.text, c ≠ Char.ofNat 10 := by
  cases l with
  | entry e =>
    have he : e.wellFormed = true := h
    obtain ⟨-, -, -, -, -, -, -, -, -, -, -, -, -, -, o1, o2⟩ := LsEntry.wellFormed_spec he
    intro c hc
    simp only [LsLine.text, List.mem_append] at hc
    rcases hc with hc | hc | hc
    · exact (isMargin_spec o1).2 c hc
    · exact e.line_no_lineFeed he c hc
    · exact (isMargin_spec o2).2 c hc
  | other text =>
    simp only [LsLine.wellFormed, Bool.and_eq_true, List.all_eq_true, bne_iff_ne, ne_eq] at h
    intro c hc h0
    exact h.1 c hc (by rw [h0]; decide)

/-- The lines that `split` finds in a listing: the texts of its lines, the empty ones
left out. -/
theorem splitSkipEmpty_listing (lines : List LsLine)
    (h : ∀ l ∈ lines, l.wellFormed = true) :
    splitSkipEmpty (Char.ofNat 10) (lines.flatMap (fun l => l.text ++ [Char.ofNat 10])) =
      (lines.map LsLine.text).filter (fun t => !t.isEmpty) := by
  unfold splitSkipEmpty
  induction lines with
  | nil => rfl
  | cons l rest ih =>
    have hl := h l (List.mem_cons_self _ _)
    have ih' := ih (fun x hx => h x (List.mem_cons_of_mem _ hx))
    simp only [List.flatMap_cons, List.append_assoc, List.singleton_append, List.map_cons]
    by_cases hne : l.text = []
    · rw [hne, List.nil_append, splitSkipEmptyAux_empty, ih']
      simp [List.filter_cons]
    · have := splitSkipEmptyAux_line (Char.ofNat 10) l.text
        (rest.flatMap (fun l => l.text ++ [Char.ofNat 10])) [] (l.text_no_lineFeed hl)
        (by simpa using hne)
      rw [this, ih']
      simp [List.filter_cons, hne]

theorem dropWhile_margin (m r : List Char) (hm : ∀ c ∈ m, isSpace c = true)
    (hr : ∀ c, r.head? = some c → isSpace c = false) : (m ++ r).dropWhile isSpace = r :=
  (takeWhile_append_head m r hm hr).2

/-- The line of a well-formed entry is what `trimmed` leaves of its text. -/
theorem LsEntry.trimmed_text (e : LsEntry) (h : e.wellFormed = true) :
    trimmed (e.leading ++ (e.line ++ e.trailing)) = e.line := by
  obtain ⟨-, -, -, -, -, -, -, -, -, -, ⟨l1, -⟩, -, m2, -, o1, o2⟩ := LsEntry.wellFormed_spec h
  have hhead : ∀ c, (e.line ++ e.trailing).head? = some c → isSpace c = false := by
    intro c hc
    have h0 : some (if e.directory then Char.ofNat 100 else Char.ofNat 45) = some c := hc
    rw [← Option.some.inj h0]
    cases e.directory <;> decide
  have hpre : ∃ pre, e.line = pre ++ e.name :=
    ⟨(if e.directory then Char.ofNat 100 else Char.ofNat 45) :: (e.permissions ++ (e.gap1 ++
      (e.links ++ (e.gap2 ++ (e.owner ++ (e.gap3 ++ (e.group ++ (e.gap4 ++ (e.size ++ (e.gap5 ++
      (e.year ++ Char.ofNat 45 :: (e.month ++ Char.ofNat 45 :: (e.day ++ (e.gap6 ++ (e.hour ++
      Char.ofNat 58 :: (e.minute ++ e.gap7)))))))))))))))), by
        simp [LsEntry.line, LsEntry.fromOwner, LsEntry.fromDate, LsEntry.fromTime]⟩
  obtain ⟨pre, hpre⟩ := hpre
  have hlast : ∀ c, e.line.reverse.head? = some c → isSpace c = false := by
    intro c hc
    apply m2 c
    rw [List.head?_reverse] at hc
    rw [← hc, hpre, List.getLast?_append_of_ne_nil _ l1]
  unfold trimmed
  rw [dropWhile_margin _ _ (isMargin_spec o1).1 hhead, List.reverse_append,
    dropWhile_margin _ _ (by
      intro c hc
      exact (isMargin_spec o2).1 c (List.mem_reverse.1 hc)) hlast, List.reverse_reverse]

/-- The body of the loop of `parseAndroidPhotoList` on a line of the format: the item of
the entry when the line is that of a photo, and nothing otherwise. -/
theorem photoOfLine_text (basePath : String) (l : LsLine) (h : l.wellFormed = true) :
    photoOfLine basePath l.text = l.photo.map (LsEntry.item basePath) := by
  cases l with
  | entry e =>
    have he : e.wellFormed = true := h
    have hne : (e.line).isEmpty = false := by simp [LsEntry.line]
    show photoOfLine basePath (e.leading ++ (e.line ++ e.trailing)) =
      (if e.isPhoto = true then some e else none).map (LsEntry.item basePath)
    unfold photoOfLine
    rw [e.trimmed_text he, matchLsLine_line e he, hne]
    simp only [Bool.false_eq_true, if_false]
    unfold LsEntry.isPhoto LsEntry.item withSlash
    cases hd : e.directory
    · have h45 : ¬ (Char.ofNat 45).toNat = 100 := by decide
      simp only [Bool.false_eq_true, if_false, if_neg h45, Bool.not_false, Bool.true_and]
      by_cases hh : e.name.head? = some (Char.ofNat 46)
      · simp [hh]
      · by_cases hx : photoExtensions.any (endsWithIgnoreCase e.name) = true
        · simp [hh, hx]
        · simp [hh, hx]
    · have h100 : (Char.ofNat 100).toNat = 100 := by decide
      simp [h100]
  | other text =>
    simp only [LsLine.wellFormed, Bool.and_eq_true, List.all_eq_true, bne_iff_ne, ne_eq] at h
    show photoOfLine basePath text = none
    unfold photoOfLine
    split
    · rfl
    · have hm : matchLsLine (trimmed text) = none := by
        cases ht : trimmed text with
        | nil => rfl
        | cons t rest =>
          have h2 := h.2
          rw [ht] at h2
          have h3 : t.toNat ≠ 45 ∧ t.toNat ≠ 100 := by simpa using h2
          have hn : ¬ (t.toNat = 45 ∨ t.toNat = 100) := by
            intro hc
            rcases hc with hc | hc
            · exact h3.1 hc
            · exact h3.2 hc
          unfold matchLsLine
          dsimp only
          rw [if_neg hn]
      rw [hm]

/-- The items parsed from a listing of lines of the format: the items of its photo
entries, in the order of the listing. -/
theorem parseAndroidPhotoList_listing (basePath : String) (lines : List LsLine)
    (h : ∀ l ∈ lines, l.wellFormed = true) :
    parseAndroidPhotoList (lsListing lines) basePath =
      (lines.filterMap LsLine.photo).map (LsEntry.item basePath) := by
  unfold parseAndroidPhotoList lsListing
  rw [splitSkipEmpty_listing lines h]
  induction lines with
  | nil => rfl
  | cons l rest ih =>
    have hl := h l (List.mem_cons_self _ _)
    have ih' := ih (fun x hx => h x (List.mem_cons_of_mem _ hx))
    have hp := photoOfLine_text basePath l hl
    rw [List.map_cons, List.filterMap_cons]
    by_cases hne : l.text = []
    · have hnone : l.photo.map (LsEntry.item basePath) = none := by
        rw [← hp, hne]
        rfl
      have hnone' : l.photo = none := by
        cases hq : l.photo with
        | none => rfl
        | some e => rw [hq] at hnone; cases hnone
      rw [List.filter_cons, hne, hnone']
      simpa using ih'
    · rw [List.filter_cons, if_pos (by simpa using hne), List.filterMap_cons, hp, ih']
      cases hq : l.photo <;> simp

/-! ### The data sets of the analyzer -/

theorem mapValue_of_not_contains {V : Type} (m : List (String × V)) (k : String) (d : V)
    (h : mapContains m k = false) : mapValue m k d = d := by
  unfold mapValue
  cases hf : m.find? (fun p => p.1 == k) with
  | none => rfl
  | some p =>
    have h1 := List.mem_of_find?_eq_some hf
    have h2 : p.1 = k := by simpa using List.find?_some hf
    have : mapContains m k = true := (mapContains_iff m k).2 ⟨p, h1, h2⟩
    rw [h] at this
    cases this

theorem mapValue_mapInsert_self {V : Type} (m : List (String × V)) (k : String) (v d : V) :
    mapValue (mapInsert m k v) k d = v := by
  unfold mapInsert
  split
  · rename_i hc
    unfold mapValue
    induction m with
    | nil => simp [mapContains] at hc
    | cons p rest ih =>
      by_cases hp : (p.1 == k) = true
      · simp [List.find?, hp]
      · have hp' : (p.1 == k) = false := by simpa using hp
        have hc' : mapContains rest k = true := by
          simpa [mapContains, hp'] using hc
        have := ih hc'
        simpa [List.find?, hp'] using this
  · rename_i hc
    have hc' : mapContains m k = false := by simpa using hc
    unfold mapValue
    have hnone : m.find? (fun p => p.1 == k) = none := by
      apply List.find?_eq_none.2
      intro p hp hk
      have : mapContains m k = true := (mapContains_iff m k).2 ⟨p, hp, by simpa using hk⟩
      rw [hc'] at this
      cases this
    simp [List.find?_append, hnone]

theorem mapValue_mapInsert_of_ne {V : Type} (m : List (String × V)) (k k' : String) (v d : V)
    (h : k' ≠ k) : mapValue (mapInsert m k v) k' d = mapValue m k' d := by
  have h1 : (k == k') = false := by simpa using fun e => h e.symm
  have key : ∀ (l : List (String × V)),
      (l.map (fun p => if p.1 == k then (k, v) else p)).find? (fun p => p.1 == k') =
        l.find? (fun p => p.1 == k') := by
    intro l
    induction l with
    | nil => rfl
    | cons p rest ih =>
      by_cases hp : (p.1 == k) = true
      · have hpk : p.1 = k := by simpa using hp
        have h2 : (p.1 == k') = false := by rw [hpk]; exact h1
        simp only [List.map_cons, hp, if_true, List.find?_cons, h1, h2]
        exact ih
      · have hp' : (p.1 == k) = false := by simpa using hp
        by_cases hq : (p.1 == k') = true
        · simp only [List.map_cons, hp', Bool.false_eq_true, if_false, List.find?_cons, hq]
        · have hq' : (p.1 == k') = false := by simpa using hq
          simp only [List.map_cons, hp', Bool.false_eq_true, if_false, List.find?_cons, hq']
          exact ih
  by_cases hc : mapContains m k = true
  · have e : mapInsert m k v = m.map (fun p => if p.1 == k then (k, v) else p) := by
      unfold mapInsert
      rw [if_pos hc]
    rw [e]
    unfold mapValue
    rw [key]
  · have e : mapInsert m k v = m ++ [(k, v)] := by
      unfold mapInsert
      rw [if_neg hc]
    rw [e]
    unfold mapValue
    rw [List.find?_append]
    cases hf : m.find? (fun p => p.1 == k') with
    | none => simp [List.find?, h1]
    | some p => simp

theorem mapContains_mapInsert_of_ne {V : Type} (m : List (String × V)) (k k' : String) (v : V)
    (h : k' ≠ k) : mapContains (mapInsert m k v) k' = mapContains m k' := by
  rw [Bool.eq_iff_iff, mapContains_iff, mapContains_iff]
  constructor
  · rintro ⟨p, hp, hk⟩
    rcases mem_mapInsert hp with h1 | h1
    · exact ⟨p, h1, hk⟩
    · rw [h1] at hk
      exact absurd hk.symm h
  · rintro ⟨p, hp, hk⟩
    exact (mapContains_iff _ _).1 (mapContains_mapInsert_of ((mapContains_iff _ _).2 ⟨p, hp, hk⟩)
      k v)

theorem mapContains_mapRemove_self {V : Type} (m : List (String × V)) (k : String) :
    mapContains (mapRemove m k) k = false := by
  rw [Bool.eq_false_iff]
  intro hc
  obtain ⟨p, hp, hk⟩ := (mapContains_iff _ _).1 hc
  have := (List.mem_filter.1 hp).2
  simp [hk] at this

theorem mapContains_mapRemove_of_ne {V : Type} (m : List (String × V)) (k k' : String)
    (h : k' ≠ k) : mapContains (mapRemove m k) k' = mapContains m k' := by
  rw [Bool.eq_iff_iff, mapContains_iff, mapContains_iff]
  constructor
  · rintro ⟨p, hp, hk⟩
    exact ⟨p, (List.mem_filter.1 hp).1, hk⟩
  · rintro ⟨p, hp, hk⟩
    refine ⟨p, List.mem_filter.2 ⟨hp, ?_⟩, hk⟩
    rw [hk]
    simpa using h

theorem mapValue_mapRemove_of_ne {V : Type} (m : List (String × V)) (k k' : String) (d : V)
    (h : k' ≠ k) : mapValue (mapRemove m k) k' d = mapValue m k' d := by
  unfold mapValue mapRemove
  induction m with
  | nil => rfl
  | cons p rest ih =>
    by_cases hp : (p.1 == k) = true
    · have hpk : p.1 = k := by simpa using hp
      have h2 : (p.1 == k') = false := by rw [hpk]; simpa using fun e => h e.symm
      simp only [List.filter_cons, hp, Bool.not_true, Bool.false_eq_true, if_false,
        List.find?_cons, h2]
      exact ih
    · have hp' : (p.1 == k) = false := by simpa using hp
      by_cases hq : (p.1 == k') = true
      · simp [List.filter_cons, hp', List.find?, hq]
      · have hq' : (p.1 == k') = false := by simpa using hq
        simp only [List.filter_cons, hp', Bool.not_false, if_true, List.find?_cons, hq']
        exact ih

theorem wrap64_wrap64 (x : Int) : wrap64 (wrap64 x) = wrap64 x := by
  have := wrap64_add_wrap64 x 0
  simpa using this

/-- The 64-bit loop adds up to the sum of the sizes, reduced to 64 bits. -/
theorem addSizes_eq (start : Int) (items : List DataItem) :
    wrap64 (addSizes start items) = wrap64 (start + sumOfSizes items) := by
  unfold addSizes sumOfSizes
  induction items generalizing start with
  | nil => simp
  | cons x rest ih =>
    rw [List.foldl_cons, ih, List.map_cons, List.sum_cons, wrap64_add_wrap64]
    congr 1
    ring

theorem addSizes_zero (items : List DataItem) :
    addSizes 0 items = wrap64 (sumOfSizes items) := by
  cases items with
  | nil => rfl
  | cons x rest =>
    have h := addSizes_eq 0 (x :: rest)
    rw [zero_add] at h
    rw [← h]
    have hw : ∀ (l : List DataItem) (start : Int),
        wrap64 (addSizes (wrap64 start) l) = addSizes (wrap64 start) l := by
      intro l
      induction l with
      | nil => intro start; exact wrap64_wrap64 start
      | cons y tl ih => intro start; exact ih _
    exact (hw rest (0 + x.size)).symm

namespace DataAnalyzer

theorem mem_deviceSets {a : DataAnalyzer} {deviceId : String} {q : String × DataSet}
    (h : q ∈ a.deviceSets deviceId) : ∃ p ∈ a.m_dataSets, q ∈ p.2 := by
  unfold deviceSets at h
  by_cases hc : mapContains a.m_dataSets deviceId = true
  · exact ⟨_, mapValue_mem [] hc, h⟩
  · rw [mapValue_of_not_contains _ _ _ (by simpa using hc)] at h
    cases h

theorem storedSet_mem_or (a : DataAnalyzer) (deviceId dataType : String) :
    a.storedSet deviceId dataType = {} ∨
      ∃ p ∈ a.m_dataSets, (dataType, a.storedSet deviceId dataType) ∈ p.2 := by
  unfold storedSet
  by_cases hc : mapContains (a.deviceSets deviceId) dataType = true
  · exact Or.inr (mem_deviceSets (mapValue_mem {} hc))
  · exact Or.inl (mapValue_of_not_contains _ _ _ (by simpa using hc))

end DataAnalyzer

theorem SizesConsistent.storedSet {a : DataAnalyzer} (h : SizesConsistent a)
    (deviceId dataType : String) :
    (a.storedSet deviceId dataType).totalSize =
      wrap64 (sumOfSizes (a.storedSet deviceId dataType).items) := by
  rcases DataAnalyzer.storedSet_mem_or a deviceId dataType with h0 | ⟨p, hp, hq⟩
  · rw [h0]; rfl
  · exact h p hp _ hq

theorem SizesConsistent.storeDataSet {a : DataAnalyzer} (h : SizesConsistent a)
    (deviceId dataType : String) (dataSet : DataSet)
    (hd : dataSet.totalSize = wrap64 (sumOfSizes dataSet.items)) :
    SizesConsistent (a.storeDataSet deviceId dataType dataSet) := by
  intro p hp q hq
  rcases mem_mapInsert hp with h1 | h1
  · exact h p h1 q hq
  · rw [h1] at hq
    rcases mem_mapInsert hq with h2 | h2
    · obtain ⟨p', hp', hq'⟩ := DataAnalyzer.mem_deviceSets h2
      exact h p' hp' q hq'
    · rw [h2]; exact hd

theorem SizesConsistent.of_dataSets_eq {a b : DataAnalyzer} (h : SizesConsistent a)
    (hb : b.m_dataSets = a.m_dataSets) : SizesConsistent b := by
  unfold SizesConsistent
  rw [hb]
  exact h

theorem SizesConsistent.ensureDevice {a : DataAnalyzer} (h : SizesConsistent a)
    (deviceId : String) : SizesConsistent (a.ensureDevice deviceId) := by
  unfold DataAnalyzer.ensureDevice
  split
  · intro p hp q hq
    rcases mem_mapInsert hp with h1 | h1
    · exact h p h1 q hq
    · rw [h1] at hq
      cases hq
  · exact h

theorem DataAnalyzer.countDown_dataSets (a : DataAnalyzer) (deviceId : String) :
    (a.countDown deviceId).m_dataSets = a.m_dataSets := by
  unfold DataAnalyzer.countDown
  split
  · dsimp only
    split <;> rfl
  · rfl

theorem SizesConsistent.ensureDataSet {a : DataAnalyzer} (h : SizesConsistent a)
    (deviceId dataType : String) (success : Bool) (errorMsg : String) :
    SizesConsistent (a.ensureDataSet deviceId dataType success errorMsg) := by
  unfold DataAnalyzer.ensureDataSet
  split
  · exact (h.storeDataSet deviceId dataType _ rfl).of_dataSets_eq rfl
  split
  · exact (h.storeDataSet deviceId dataType
      (DataAnalyzer.markFailed (a.storedSet deviceId dataType) errorMsg)
      (h.storedSet deviceId dataType)).of_dataSets_eq rfl
  · exact h

theorem SizesConsistent.finalizeAnalysis {a : DataAnalyzer} (h : SizesConsistent a)
    (deviceId dataType : String) (success : Bool) (errorMsg : String) :
    SizesConsistent (a.finalizeAnalysis deviceId dataType success errorMsg) := by
  unfold DataAnalyzer.finalizeAnalysis
  split
  · exact h.of_dataSets_eq rfl
  · apply (h.ensureDataSet deviceId dataType success errorMsg).of_dataSets_eq
    show (DataAnalyzer.countDown _ deviceId).m_dataSets = _
    rw [DataAnalyzer.countDown_dataSets]
    split <;> rfl

theorem appendIfNew_consistent (paths : List String) (dataSet : DataSet) (item : DataItem)
    (h : dataSet.totalSize = wrap64 (sumOfSizes dataSet.items)) :
    (appendIfNew paths dataSet item).totalSize =
      wrap64 (sumOfSizes (appendIfNew paths dataSet item).items) := by
  unfold appendIfNew
  split
  · show wrap64 (dataSet.totalSize + item.size) = wrap64 (sumOfSizes (dataSet.items ++ [item]))
    rw [h, wrap64_add_wrap64]
    simp [sumOfSizes]
  · exact h

theorem foldl_appendIfNew_consistent (paths : List String) (items : List DataItem)
    (dataSet : DataSet) (h : dataSet.totalSize = wrap64 (sumOfSizes dataSet.items)) :
    (items.foldl (appendIfNew paths) dataSet).totalSize =
      wrap64 (sumOfSizes (items.foldl (appendIfNew paths) dataSet).items) := by
  induction items generalizing dataSet with
  | nil => exact h
  | cons x rest ih => exact ih _ (appendIfNew_consistent paths dataSet x h)

theorem SizesConsistent.mergeTypeItems {a : DataAnalyzer} (h : SizesConsistent a)
    (deviceId type : String) (typeItems : List DataItem) :
    SizesConsistent (a.mergeTypeItems deviceId type typeItems) := by
  unfold DataAnalyzer.mergeTypeItems
  dsimp only
  split
  · exact (h.ensureDevice deviceId).storeDataSet deviceId type _
      (addSizes_zero typeItems)
  · exact (h.ensureDevice deviceId).storeDataSet deviceId type _
      (foldl_appendIfNew_consistent _ _ _ ((h.ensureDevice deviceId).storedSet deviceId type))

theorem SizesConsistent.mergeBatch {a : DataAnalyzer} (h : SizesConsistent a)
    (index count : Int) (itemsByType : List (String × List DataItem)) :
    SizesConsistent (a.mergeBatch index count itemsByType) := by
  have h1 : ∀ (l : List (String × List DataItem)) (x : DataAnalyzer) (d : String),
      SizesConsistent x →
      SizesConsistent (l.foldl (fun x p => x.mergeTypeItems d p.1 p.2) x) := by
    intro l
    induction l with
    | nil => intro x d hx; exact hx
    | cons p rest ih => intro x d hx; exact ih _ d (hx.mergeTypeItems d p.1 p.2)
  have h2 : ∀ (l : List (String × List DataItem)) (x : DataAnalyzer) (d : String),
      (l.foldl (fun x p => x.emit (.dataSetUpdated d p.1)) x).m_dataSets = x.m_dataSets := by
    intro l
    induction l with
    | nil => intro x d; rfl
    | cons p rest ih => intro x d; exact (ih _ d).trans rfl
  unfold DataAnalyzer.mergeBatch
  dsimp only
  apply (h1 itemsByType a a.m_currentAnalysisTask.deviceId h).of_dataSets_eq
  split
  · exact h2 itemsByType _ _
  · exact h2 itemsByType _ _

theorem SizesConsistent.replaceSet {a : DataAnalyzer} (h : SizesConsistent a)
    (dataType : String) (items : List DataItem) :
    SizesConsistent (a.replaceSet dataType items) := by
  unfold DataAnalyzer.replaceSet
  exact ((h.ensureDevice _).storeDataSet _ dataType _
    (addSizes_zero items)).of_dataSets_eq rfl

theorem SizesConsistent.storeSimulated {a : DataAnalyzer} (h : SizesConsistent a)
    (deviceId dataType : String) (n : Nat) (gen : Nat → DataItem) :
    SizesConsistent (a.storeSimulated deviceId dataType n gen) := by
  unfold DataAnalyzer.storeSimulated
  exact (h.storeDataSet deviceId dataType _
    (addSizes_zero _)).of_dataSets_eq rfl

theorem enqueueAnalysisTasks_spec (deviceId : String) (quickScan useBridgeClient : Bool)
    (types : List String) (a : DataAnalyzer) :
    (enqueueAnalysisTasks deviceId quickScan useBridgeClient types a).m_dataSets =
      a.m_dataSets ∧
    (enqueueAnalysisTasks deviceId quickScan useBridgeClient types a).m_pendingTasksPerDevice =
      a.m_pendingTasksPerDevice ∧
    (enqueueAnalysisTasks deviceId quickScan useBridgeClient types a).emitted = a.emitted ∧
    (enqueueAnalysisTasks deviceId quickScan useBridgeClient types a).m_analysisQueue =
      a.m_analysisQueue ++ types.map (fun t =>
        { deviceId := deviceId, dataType := t, quickScan := quickScan,
          useBridgeClient := useBridgeClient }) := by
  induction types generalizing a with
  | nil => simp [enqueueAnalysisTasks]
  | cons t ts ih =>
    unfold enqueueAnalysisTasks
    dsimp only
    split
    · refine ⟨(ih _).1.trans rfl, (ih _).2.1.trans rfl, (ih _).2.2.1.trans rfl,
        (ih _).2.2.2.trans ?_⟩
      simp
    · refine ⟨(ih _).1.trans rfl, (ih _).2.1.trans rfl, (ih _).2.2.1.trans rfl,
        (ih _).2.2.2.trans ?_⟩
      simp

theorem ite_dataSets (c : Prop) [Decidable c] (x y : DataAnalyzer)
    (v : List (String × List (String × DataSet))) (hx : x.m_dataSets = v)
    (hy : y.m_dataSets = v) : (if c then x else y).m_dataSets = v := by
  split <;> assumption

/-- The data sets after `analyzeDevice`: untouched when the device is unknown or not
authorized, and otherwise those of before with the sets of the device emptied. -/
theorem analyzeDevice_dataSets (w : World) (a : DataAnalyzer) (deviceId : String)
    (quickScan : Bool) :
    ((getDeviceInfo w deviceId).id = "" ∨ (getDeviceInfo w deviceId).authorized = false →
      (analyzeDevice w a deviceId quickScan).2.m_dataSets = a.m_dataSets) ∧
    ((getDeviceInfo w deviceId).id ≠ "" → (getDeviceInfo w deviceId).authorized = true →
      (analyzeDevice w a deviceId quickScan).2.m_dataSets =
        mapInsert a.m_dataSets deviceId []) := by
  constructor
  · intro h
    unfold analyzeDevice
    dsimp only
    split
    · rfl
    split
    · rfl
    · rename_i h1 h2
      rcases h with h | h
      · rw [h] at h1
        exact absurd rfl h1
      · rw [h] at h2
        exact absurd rfl h2
  · intro h1 h2
    have h1' : ¬ (getDeviceInfo w deviceId).id.isEmpty = true := by
      rw [String.isEmpty_iff]; exact h1
    unfold analyzeDevice
    dsimp only
    rw [if_neg h1', if_neg (by simp [h2])]
    split
    · rfl
    · refine ite_dataSets _ _ _ _ ?_ ?_
      · exact (enqueueAnalysisTasks_spec _ _ _ _ _).1.trans (ite_dataSets _ _ _ _ rfl rfl)
      · exact (enqueueAnalysisTasks_spec _ _ _ _ _).1.trans (ite_dataSets _ _ _ _ rfl rfl)

theorem SizesConsistent.emit {a : DataAnalyzer} (h : SizesConsistent a)
    (sig : AnalyzerSignal) : SizesConsistent (a.emit sig) := h.of_dataSets_eq rfl

theorem parsedSet_consistent (ps : ContentParsers) (dataType basePath stdOut : String) :
    (DataAnalyzer.parsedSet ps dataType basePath stdOut).totalSize =
      wrap64 (sumOfSizes (DataAnalyzer.parsedSet ps dataType basePath stdOut).items) := by
  unfold DataAnalyzer.parsedSet
  dsimp only
  rw [addSizes_zero]

theorem SizesConsistent.deliver {a : DataAnalyzer} (h : SizesConsistent a)
    (ev : AnalyzerEvent) : SizesConsistent (a.deliver ev) := by
  cases ev with
  | analyzeDevice w deviceId quickScan =>
    show SizesConsistent (analyzeDevice w a deviceId quickScan).2
    obtain ⟨h1, h2⟩ := analyzeDevice_dataSets w a deviceId quickScan
    by_cases hid : (getDeviceInfo w deviceId).id = ""
    · exact h.of_dataSets_eq (h1 (Or.inl hid))
    by_cases hau : (getDeviceInfo w deviceId).authorized = true
    · intro p hp q hq
      rw [h2 hid hau] at hp
      rcases mem_mapInsert hp with h3 | h3
      · exact h p h3 q hq
      · rw [h3] at hq
        cases hq
    · exact h.of_dataSets_eq (h1 (Or.inr (by simpa using hau)))
  | androidPhotos w deviceId =>
    show SizesConsistent (a.analyzeAndroidPhotosReal w deviceId)
    unfold DataAnalyzer.analyzeAndroidPhotosReal
    split
    · exact h.finalizeAnalysis _ _ _ _
    · exact h.of_dataSets_eq rfl
  | processFinished ps exitCode normalExit stdOut stdErr =>
    show SizesConsistent (a.onAnalysisProcessFinished ps exitCode normalExit stdOut stdErr)
    unfold DataAnalyzer.onAnalysisProcessFinished
    split
    · exact h
    dsimp only
    split
    · exact (h.emit _).finalizeAnalysis _ _ _ _
    · exact (((h.storeDataSet _ _ _ (parsedSet_consistent ps _ _ stdOut)).emit _).emit
        _).finalizeAnalysis _ _ _ _
  | mediaData index count mediaData =>
    show SizesConsistent (a.onBridgeClientMediaData index count mediaData)
    unfold DataAnalyzer.onBridgeClientMediaData
    split
    · exact h
    · exact h.mergeBatch _ _ _
  | filesData index count filesData =>
    show SizesConsistent (a.onBridgeClientFilesData index count filesData)
    unfold DataAnalyzer.onBridgeClientFilesData
    split
    · exact h
    · exact h.mergeBatch _ _ _
  | contactsData contactsData =>
    show SizesConsistent (a.onBridgeClientContactsData contactsData)
    unfold DataAnalyzer.onBridgeClientContactsData
    split
    · exact h
    · exact h.replaceSet _ _
  | messagesData messagesData =>
    show SizesConsistent (a.onBridgeClientMessagesData messagesData)
    unfold DataAnalyzer.onBridgeClientMessagesData
    split
    · exact h
    · exact h.replaceSet _ _
  | scanCompleted =>
    show SizesConsistent a.onBridgeClientScanCompleted
    unfold DataAnalyzer.onBridgeClientScanCompleted
    split
    · exact SizesConsistent.finalizeAnalysis (a := a.markScanComplete _ _)
        (h.of_dataSets_eq rfl) _ _ _ _
    · exact h
  | scanError errorMessage =>
    show SizesConsistent (a.onBridgeClientScanError errorMessage)
    unfold DataAnalyzer.onBridgeClientScanError
    split
    · exact h.finalizeAnalysis _ _ _ _
    · exact h
  | iosAnalysis task =>
    show SizesConsistent (a.startIOSAnalysis task)
    unfold DataAnalyzer.startIOSAnalysis DataAnalyzer.analyzeIOSPhotos
      DataAnalyzer.analyzeIOSContacts DataAnalyzer.analyzeIOSMessages
      DataAnalyzer.analyzeIOSCalls
    split_ifs
    · exact (h.storeSimulated _ _ _ _).finalizeAnalysis _ _ _ _
    · exact (h.storeSimulated _ _ _ _).finalizeAnalysis _ _ _ _
    · exact (h.storeSimulated _ _ _ _).finalizeAnalysis _ _ _ _
    · exact (h.storeSimulated _ _ _ _).finalizeAnalysis _ _ _ _
    · exact h.finalizeAnalysis _ _ _ _
  | finalize deviceId dataType success errorMsg =>
    exact h.finalizeAnalysis _ _ _ _

theorem SizesConsistent.handle {a : DataAnalyzer} (h : SizesConsistent a)
    (ev : AnalyzerEvent) : SizesConsistent (a.handle ev) := by
  unfold DataAnalyzer.handle
  split
  · exact h
  · exact h.deliver ev

theorem SizesConsistent.handleAll {a : DataAnalyzer} (h : SizesConsistent a)
    (events : List AnalyzerEvent) : SizesConsistent (a.handleAll events) := by
  unfold DataAnalyzer.handleAll
  induction events generalizing a with
  | nil => exact h
  | cons ev rest ih => exact ih (h.handle ev)

theorem SizesConsistent.getDataSet {a : DataAnalyzer} (h : SizesConsistent a)
    (deviceId dataType : String) :
    (getDataSet a deviceId dataType).totalSize =
      wrap64 (sumOfSizes (getDataSet a deviceId dataType).items) := by
  unfold MobileDataBridge.getDataSet
  split
  · exact h.storedSet deviceId dataType
  · rfl

/-- C16 fails as stated: during the scan of the photos of "A1" over the bridge client, a
media batch with two pictures of 2^63 - 1 bytes each is merged into a data set of two
items whose `totalSize` is -2, while the sizes of its items add up to 2^64 - 2. -/
theorem totalSize_wraps_at_64_bits :
    (getDataSet (scanningPhotos.handle (.mediaData 0 1 [hugePictureA, hugePictureB])) "A1"
      "photos").items.map DataItem.size = [9223372036854775807, 9223372036854775807] ∧
    (getDataSet (scanningPhotos.handle (.mediaData 0 1 [hugePictureA, hugePictureB])) "A1"
      "photos").totalSize = -2 ∧
    sumOfSizes (getDataSet (scanningPhotos.handle (.mediaData 0 1 [hugePictureA, hugePictureB]))
      "A1" "photos").items = 18446744073709551614 := by
  decide

/-- C16 (amended): in every state that the analyzer reaches from its initial one by calls
of `analyzeDevice`, ends of the analysis process, media, files, contacts and messages data
from the bridge client, scan ends and scan errors, simulated iOS analyses and
finalisations (successful or failed), every data set that `getDataSet` returns has as its
`totalSize` the sum of the sizes of its items reduced to 64 bits, which is the sum itself
when that lies between -2^63 and 2^63 - 1; each of these operations keeps the property
for all stored data sets. -/
theorem totalSize_is_sum_of_sizes (events : List AnalyzerEvent) (deviceId dataType : String) :
    (getDataSet (DataAnalyzer.handleAll {} events) deviceId dataType).totalSize =
      wrap64 (sumOfSizes (getDataSet (DataAnalyzer.handleAll {} events) deviceId
        dataType).items) ∧
    (-2 ^ 63 ≤ sumOfSizes (getDataSet (DataAnalyzer.handleAll {} events) deviceId
        dataType).items ∧
      sumOfSizes (getDataSet (DataAnalyzer.handleAll {} events) deviceId dataType).items
        < 2 ^ 63 →
      (getDataSet (DataAnalyzer.handleAll {} events) deviceId dataType).totalSize =
        sumOfSizes (getDataSet (DataAnalyzer.handleAll {} events) deviceId dataType).items) ∧
    SizesConsistent (DataAnalyzer.handleAll {} events) ∧
    ∀ (a : DataAnalyzer) (ev : AnalyzerEvent), SizesConsistent a →
      SizesConsistent (a.handle ev) := by
  have h0 : SizesConsistent {} := by
    intro p hp
    cases hp
  refine ⟨(h0.handleAll events).getDataSet deviceId dataType, fun hr => ?_,
    h0.handleAll events, fun a ev h => h.handle ev⟩
  rw [(h0.handleAll events).getDataSet deviceId dataType, wrap64_of_range _ hr.1 hr.2]

/-! ### Re-analysis, failed finalisations and streamed batches -/

theorem getDataSet_congr {a b : DataAnalyzer} (h : b.m_dataSets = a.m_dataSets)
    (deviceId dataType : String) : getDataSet b deviceId dataType = getDataSet a deviceId dataType := by
  unfold getDataSet
  rw [h]

theorem getDataSet_emit (a : DataAnalyzer) (sig : AnalyzerSignal) (deviceId dataType : String) :
    getDataSet (a.emit sig) deviceId dataType = getDataSet a deviceId dataType := rfl

theorem getDataSet_storeDataSet (a : DataAnalyzer) (deviceId dataType : String)
    (dataSet : DataSet) :
    getDataSet (a.storeDataSet deviceId dataType dataSet) deviceId dataType = dataSet := by
  unfold getDataSet DataAnalyzer.storeDataSet
  dsimp only
  rw [mapValue_mapInsert_self, if_pos ⟨mapContains_mapInsert_self _ _ _,
    mapContains_mapInsert_self _ _ _⟩, mapValue_mapInsert_self]

theorem DataAnalyzer.hasDataSet_storeDataSet (a : DataAnalyzer) (deviceId dataType : String)
    (dataSet : DataSet) : (a.storeDataSet deviceId dataType dataSet).hasDataSet deviceId dataType
      = true := by
  unfold DataAnalyzer.hasDataSet DataAnalyzer.deviceSets DataAnalyzer.storeDataSet
  dsimp only
  rw [mapValue_mapInsert_self, mapContains_mapInsert_self, mapContains_mapInsert_self]
  rfl

/-- The data sets after `finalizeAnalysis` of a named device and category are those that
its first block leaves. -/
theorem DataAnalyzer.finalizeAnalysis_dataSets (a : DataAnalyzer) (deviceId dataType : String)
    (success : Bool) (errorMsg : String) (hd : deviceId ≠ "") (ht : dataType ≠ "") :
    (a.finalizeAnalysis deviceId dataType success errorMsg).m_dataSets =
      (a.ensureDataSet deviceId dataType success errorMsg).m_dataSets := by
  have hc : ¬ (deviceId.isEmpty || dataType.isEmpty) = true := by
    simp [String.isEmpty_iff, hd, ht]
  unfold DataAnalyzer.finalizeAnalysis
  rw [if_neg hc]
  show (DataAnalyzer.countDown _ deviceId).m_dataSets = _
  rw [DataAnalyzer.countDown_dataSets]
  split <;> rfl

/-- A successful `finalizeAnalysis` leaves an existing data set as it is. -/
theorem DataAnalyzer.finalizeAnalysis_success_dataSets (a : DataAnalyzer)
    (deviceId dataType : String) (h : a.hasDataSet deviceId dataType = true) :
    (a.finalizeAnalysis deviceId dataType true "").m_dataSets = a.m_dataSets := by
  unfold DataAnalyzer.finalizeAnalysis
  split
  · rfl
  · show (DataAnalyzer.countDown _ deviceId).m_dataSets = _
    rw [DataAnalyzer.countDown_dataSets]
    have he : a.ensureDataSet deviceId dataType true "" = a := by
      unfold DataAnalyzer.ensureDataSet
      rw [if_neg (by simp [h]), if_neg (by simp)]
    rw [if_pos rfl, he]
    rfl

/-- When the analysis process of the current task ends normally with exit code 0, the
data set stored for the device and category of the task is the one built from that
output, whatever was stored before. -/
theorem DataAnalyzer.onAnalysisProcessFinished_stored (ps : ContentParsers) (a : DataAnalyzer)
    (stdOut stdErr : String) (hcur : a.m_currentAnalysisTask.deviceId ≠ "") :
    getDataSet (a.onAnalysisProcessFinished ps 0 true stdOut stdErr)
        a.m_currentAnalysisTask.deviceId (mapValue a.m_currentAnalysisTask.data "type" "") =
      DataAnalyzer.parsedSet ps (mapValue a.m_currentAnalysisTask.data "type" "")
        (mapValue a.m_currentAnalysisTask.data "basePath" "") stdOut := by
  have hcur' : ¬ a.m_currentAnalysisTask.deviceId.isEmpty = true := by
    rw [String.isEmpty_iff]; exact hcur
  unfold DataAnalyzer.onAnalysisProcessFinished
  rw [if_neg hcur']
  dsimp only
  rw [if_neg (by simp)]
  have hh : DataAnalyzer.hasDataSet (((a.storeDataSet a.m_currentAnalysisTask.deviceId
      (mapValue a.m_currentAnalysisTask.data "type" "")
      (DataAnalyzer.parsedSet ps (mapValue a.m_currentAnalysisTask.data "type" "")
        (mapValue a.m_currentAnalysisTask.data "basePath" "") stdOut)).emit
      (.dataSetUpdated a.m_currentAnalysisTask.deviceId
        (mapValue a.m_currentAnalysisTask.data "type" ""))).emit
      (.analysisProgress a.m_currentAnalysisTask.deviceId
        (mapValue a.m_currentAnalysisTask.data "type" "") 100))
      a.m_currentAnalysisTask.deviceId (mapValue a.m_currentAnalysisTask.data "type" "")
      = true := DataAnalyzer.hasDataSet_storeDataSet a _ _ _
  rw [getDataSet_congr (DataAnalyzer.finalizeAnalysis_success_dataSets _ _ _ hh)]
  exact getDataSet_storeDataSet a _ _ _

/-! ### The pending-task counter -/

namespace DataAnalyzer

/-- The counter and the completions of a device are not touched by the count-down of
another device. -/
theorem countDown_other (a : DataAnalyzer) (d d' : String) (h : d ≠ d') :
    (a.countDown d').pendingCount d = a.pendingCount d ∧
    completions d (a.countDown d').emitted = completions d a.emitted := by
  have hne : (AnalyzerSignal.analysisComplete d' == AnalyzerSignal.analysisComplete d) = false := by
    rw [beq_eq_false_iff_ne]
    intro he
    injection he with he
    exact h he.symm
  unfold countDown
  split
  · dsimp only
    split
    · constructor
      · unfold pendingCount setPending emit
        dsimp only
        rw [mapContains_mapRemove_of_ne _ _ _ h, mapValue_mapRemove_of_ne _ _ _ _ h,
          mapContains_mapInsert_of_ne _ _ _ _ h, mapValue_mapInsert_of_ne _ _ _ _ _ h]
      · unfold completions setPending emit
        dsimp only
        rw [List.count_append, List.count_singleton, hne]
        rfl
    · constructor
      · unfold pendingCount setPending
        dsimp only
        rw [mapContains_mapInsert_of_ne _ _ _ _ h, mapValue_mapInsert_of_ne _ _ _ _ _ h]
      · rfl
  · exact ⟨rfl, rfl⟩

/-- The count-down of a device with counter `c`: the counter becomes `c - 1`, or, when
that is not positive, the counter is removed and `analysisComplete` is emitted once. -/
theorem countDown_self (a : DataAnalyzer) (d : String) (c : Int)
    (h : a.pendingCount d = some c) :
    (0 < c - 1 → (a.countDown d).pendingCount d = some (c - 1) ∧
      completions d (a.countDown d).emitted = completions d a.emitted) ∧
    (c - 1 ≤ 0 → (a.countDown d).pendingCount d = none ∧
      completions d (a.countDown d).emitted = completions d a.emitted + 1) := by
  have hc : mapContains a.m_pendingTasksPerDevice d = true := by
    unfold pendingCount at h
    by_contra hn
    rw [if_neg hn] at h
    cases h
  have hv : mapValue a.m_pendingTasksPerDevice d 0 = c := by
    unfold pendingCount at h
    rw [if_pos hc] at h
    exact Option.some.inj h
  unfold countDown
  rw [if_pos hc]
  dsimp only
  have hv' : mapValue (a.setPending (mapInsert a.m_pendingTasksPerDevice d
      (mapValue a.m_pendingTasksPerDevice d 0 - 1))).m_pendingTasksPerDevice d 0 = c - 1 := by
    unfold setPending
    dsimp only
    rw [mapValue_mapInsert_self, hv]
  rw [hv']
  constructor
  · intro hpos
    rw [if_neg (by omega)]
    constructor
    · unfold pendingCount setPending
      dsimp only
      rw [mapContains_mapInsert_self, mapValue_mapInsert_self, hv]
      rfl
    · rfl
  · intro hle
    rw [if_pos hle]
    constructor
    · unfold pendingCount setPending emit
      dsimp only
      rw [mapContains_mapRemove_self]
      rfl
    · unfold completions setPending emit
      dsimp only
      rw [List.count_append, List.count_singleton]
      simp

/-- Without a counter the count-down does nothing. -/
theorem countDown_none (a : DataAnalyzer) (d : String) (h : a.pendingCount d = none) :
    a.countDown d = a := by
  have hc : ¬ mapContains a.m_pendingTasksPerDevice d = true := by
    unfold pendingCount at h
    intro hn
    rw [if_pos hn] at h
    cases h
  unfold countDown
  rw [if_neg hc]

/-- What `finalizeAnalysis` does to the counters and to the completions: those of the
count-down of the device, when device and category are named, and nothing otherwise. -/
theorem finalizeAnalysis_counter (a : DataAnalyzer) (deviceId dataType : String)
    (success : Bool) (errorMsg : String) (d : String) :
    ∃ b : DataAnalyzer, b.pendingCount d = a.pendingCount d ∧
      completions d b.emitted = completions d a.emitted ∧
      ((deviceId = "" ∨ dataType = "") →
        (a.finalizeAnalysis deviceId dataType success errorMsg).pendingCount d =
          a.pendingCount d ∧
        completions d (a.finalizeAnalysis deviceId dataType success errorMsg).emitted =
          completions d a.emitted) ∧
      (deviceId ≠ "" → dataType ≠ "" →
        (a.finalizeAnalysis deviceId dataType success errorMsg).pendingCount d =
          (b.countDown deviceId).pendingCount d ∧
        completions d (a.finalizeAnalysis deviceId dataType success errorMsg).emitted =
          completions d (b.countDown deviceId).emitted) := by
  have hcount : ∀ (l : List AnalyzerSignal) (x : AnalyzerSignal),
      (∀ d', x ≠ .analysisComplete d') → completions d (l ++ [x]) = completions d l := by
    intro l x hx
    unfold completions
    rw [List.count_append, List.count_singleton]
    have : (x == AnalyzerSignal.analysisComplete d) = false := by
      rw [beq_eq_false_iff_ne]; exact hx d
    rw [this]
    rfl
  have hens : (a.ensureDataSet deviceId dataType success errorMsg).pendingCount d =
        a.pendingCount d ∧
      completions d (a.ensureDataSet deviceId dataType success errorMsg).emitted =
        completions d a.emitted := by
    unfold ensureDataSet
    split
    · exact ⟨rfl, hcount _ _ (fun d' => by simp)⟩
    split
    · exact ⟨rfl, hcount _ _ (fun d' => by simp)⟩
    · exact ⟨rfl, rfl⟩
  refine ⟨if success then (a.ensureDataSet deviceId dataType success errorMsg).emit
      (.analysisProgress deviceId dataType 100)
    else (a.ensureDataSet deviceId dataType success errorMsg).emit
      (.analysisError deviceId dataType errorMsg), ?_, ?_, ?_, ?_⟩
  · split <;> exact hens.1
  · split
    · exact (hcount _ _ (fun d' => by simp)).trans hens.2
    · exact (hcount _ _ (fun d' => by simp)).trans hens.2
  · intro hempty
    have hc : (deviceId.isEmpty || dataType.isEmpty) = true := by
      rcases hempty with h | h <;> simp [h, String.isEmpty_iff]
    unfold finalizeAnalysis
    rw [if_pos hc]
    exact ⟨rfl, hcount _ _ (fun d' => by simp)⟩
  · intro hd ht
    have hc : ¬ (deviceId.isEmpty || dataType.isEmpty) = true := by
      simp [String.isEmpty_iff, hd, ht]
    unfold finalizeAnalysis
    rw [if_neg hc]
    exact ⟨rfl, hcount _ _ (fun d' => by simp)⟩

end DataAnalyzer

namespace DataAnalyzer

/-- A finalisation for another device, or for a device without counter, changes neither
the counter of the device nor its completions. -/
theorem finalizeAnalysis_counter_same (a : DataAnalyzer) (deviceId dataType : String)
    (success : Bool) (errorMsg : String) (d : String)
    (h : deviceId ≠ d ∨ a.pendingCount d = none) :
    (a.finalizeAnalysis deviceId dataType success errorMsg).pendingCount d = a.pendingCount d ∧
    completions d (a.finalizeAnalysis deviceId dataType success errorMsg).emitted =
      completions d a.emitted := by
  obtain ⟨b, hb1, hb2, h3, h4⟩ := finalizeAnalysis_counter a deviceId dataType success errorMsg d
  by_cases he : deviceId = "" ∨ dataType = ""
  · exact h3 he
  · have hd : deviceId ≠ "" := fun h0 => he (Or.inl h0)
    have ht : dataType ≠ "" := fun h0 => he (Or.inr h0)
    obtain ⟨e1, e2⟩ := h4 hd ht
    by_cases hdev : deviceId = d
    · have hnone : a.pendingCount d = none := by
        rcases h with h | h
        · exact absurd hdev h
        · exact h
      have hbn : b.pendingCount deviceId = none := by rw [hdev, hb1, hnone]
      rw [countDown_none b deviceId hbn] at e1 e2
      exact ⟨e1.trans hb1, e2.trans hb2⟩
    · obtain ⟨o1, o2⟩ := countDown_other b d deviceId (fun h0 => hdev h0.symm)
      exact ⟨(e1.trans o1).trans hb1, (e2.trans o2).trans hb2⟩

/-- A finalisation of a task of the device, whose counter is `c`. -/
theorem finalizeAnalysis_counter_self (a : DataAnalyzer) (d dataType : String)
    (success : Bool) (errorMsg : String) (c : Int) (hd : d ≠ "") (ht : dataType ≠ "")
    (h : a.pendingCount d = some c) :
    (0 < c - 1 →
      (a.finalizeAnalysis d dataType success errorMsg).pendingCount d = some (c - 1) ∧
      completions d (a.finalizeAnalysis d dataType success errorMsg).emitted =
        completions d a.emitted) ∧
    (c - 1 ≤ 0 →
      (a.finalizeAnalysis d dataType success errorMsg).pendingCount d = none ∧
      completions d (a.finalizeAnalysis d dataType success errorMsg).emitted =
        completions d a.emitted + 1) := by
  obtain ⟨b, hb1, hb2, -, h4⟩ := finalizeAnalysis_counter a d dataType success errorMsg d
  obtain ⟨e1, e2⟩ := h4 hd ht
  obtain ⟨s1, s2⟩ := countDown_self b d c (hb1.trans h)
  constructor
  · intro hpos
    obtain ⟨t1, t2⟩ := s1 hpos
    exact ⟨e1.trans t1, (e2.trans t2).trans hb2⟩
  · intro hle
    obtain ⟨t1, t2⟩ := s2 hle
    exact ⟨e1.trans t1, by rw [e2, t2, hb2]⟩

theorem finalizeAll_cons (a : DataAnalyzer) (f : Finalisation) (rest : List Finalisation) :
    a.finalizeAll (f :: rest) =
      (a.finalizeAnalysis f.deviceId f.dataType f.success f.errorMsg).finalizeAll rest := rfl

/-- Once the counter of a device is gone, finalisations leave it so and emit no further
`analysisComplete` for the device. -/
theorem finalizeAll_none (d : String) :
    ∀ (calls : List Finalisation) (a : DataAnalyzer), a.pendingCount d = none →
      (a.finalizeAll calls).pendingCount d = none ∧
      completions d (a.finalizeAll calls).emitted = completions d a.emitted := by
  intro calls
  induction calls with
  | nil => intro a h; exact ⟨h, rfl⟩
  | cons f rest ih =>
    intro a h
    obtain ⟨e1, e2⟩ := finalizeAnalysis_counter_same a f.deviceId f.dataType f.success
      f.errorMsg d (Or.inr h)
    obtain ⟨i1, i2⟩ := ih _ (e1.trans h)
    rw [finalizeAll_cons]
    exact ⟨i1, i2.trans e2⟩

/-- The counter of a device and its completions along a sequence of finalisations, from a
counter of `c >= 1`: before the `c`-th finalisation of a task of the device the counter
is `c` less the number of such finalisations and nothing is emitted; from the `c`-th on
the counter is gone and `analysisComplete` has been emitted once. -/
theorem finalizeAll_counter (d : String) (hd : d ≠ "") :
    ∀ (calls : List Finalisation) (a : DataAnalyzer) (c : Nat), 1 ≤ c →
      a.pendingCount d = some (c : Int) →
      (∀ f ∈ calls, f.deviceId = d → f.dataType ≠ "") →
      (finalisationsOf d calls < c →
        (a.finalizeAll calls).pendingCount d = some (((c - finalisationsOf d calls : Nat)) : Int) ∧
        completions d (a.finalizeAll calls).emitted = completions d a.emitted) ∧
      (c ≤ finalisationsOf d calls →
        (a.finalizeAll calls).pendingCount d = none ∧
        completions d (a.finalizeAll calls).emitted = completions d a.emitted + 1) := by
  intro calls
  induction calls with
  | nil =>
    intro a c hc h _
    constructor
    · intro _
      exact ⟨by simpa [finalisationsOf] using h, rfl⟩
    · intro hle
      simp [finalisationsOf] at hle
      omega
  | cons f rest ih =>
    intro a c hc h hcalls
    have hrest : ∀ g ∈ rest, g.deviceId = d → g.dataType ≠ "" :=
      fun g hg => hcalls g (List.mem_cons_of_mem _ hg)
    rw [finalizeAll_cons]
    by_cases hdev : f.deviceId = d
    · have hn : finalisationsOf d (f :: rest) = finalisationsOf d rest + 1 := by
        simp [finalisationsOf, List.filter_cons, hdev]
      have ht := hcalls f (List.mem_cons_self _ _) hdev
      obtain ⟨s1, s2⟩ := finalizeAnalysis_counter_self a d f.dataType f.success f.errorMsg c hd
        ht h
      rw [hdev, hn]
      by_cases hc1 : c = 1
      · obtain ⟨t1, t2⟩ := s2 (by omega)
        obtain ⟨n1, n2⟩ := finalizeAll_none d rest _ t1
        constructor
        · intro hlt
          omega
        · intro _
          exact ⟨n1, n2.trans t2⟩
      · obtain ⟨t1, t2⟩ := s1 (by omega)
        have t1' : (a.finalizeAnalysis d f.dataType f.success f.errorMsg).pendingCount d =
            some (((c - 1 : Nat)) : Int) := by
          rw [t1]
          congr 1
          omega
        obtain ⟨i1, i2⟩ := ih _ (c - 1) (by omega) t1' hrest
        constructor
        · intro hlt
          obtain ⟨j1, j2⟩ := i1 (by omega)
          refine ⟨?_, j2.trans t2⟩
          rw [j1]
          congr 2
          omega
        · intro hle
          obtain ⟨j1, j2⟩ := i2 (by omega)
          exact ⟨j1, by rw [j2, t2]⟩
    · have hn : finalisationsOf d (f :: rest) = finalisationsOf d rest := by
        simp [finalisationsOf, List.filter_cons, hdev]
      obtain ⟨e1, e2⟩ := finalizeAnalysis_counter_same a f.deviceId f.dataType f.success
        f.errorMsg d (Or.inl hdev)
      obtain ⟨i1, i2⟩ := ih _ c hc (e1.trans h) hrest
      rw [hn]
      constructor
      · intro hlt
        obtain ⟨j1, j2⟩ := i1 hlt
        exact ⟨j1, j2.trans e2⟩
      · intro hle
        obtain ⟨j1, j2⟩ := i2 hle
        exact ⟨j1, by rw [j2, e2]⟩

end DataAnalyzer

theorem ite_prop {α : Type} (P : α → Prop) (c : Prop) [Decidable c] (x y : α) (hx : P x)
    (hy : P y) : P (if c then x else y) := by
  split <;> assumption

/-- What an accepted `analyzeDevice` leaves behind: one task per category of the device
appended to the queue, the counter of the device set to their number, and
`analysisStarted` emitted. -/
theorem analyzeDevice_true (w : World) (a : DataAnalyzer) (deviceId : String)
    (quickScan : Bool) (h : (analyzeDevice w a deviceId quickScan).1 = true) :
    ∃ (types : List String) (u : Bool), 4 ≤ types.length ∧
      (analyzeDevice w a deviceId quickScan).2.m_pendingTasksPerDevice =
        mapInsert a.m_pendingTasksPerDevice deviceId (types.length : Int) ∧
      (analyzeDevice w a deviceId quickScan).2.m_analysisQueue =
        a.m_analysisQueue ++ types.map (fun t =>
          { deviceId := deviceId, dataType := t, quickScan := quickScan,
            useBridgeClient := u }) ∧
      (analyzeDevice w a deviceId quickScan).2.emitted =
        a.emitted ++ [.analysisStarted deviceId] := by
  unfold analyzeDevice at h ⊢
  dsimp only at h ⊢
  split at h
  · cases h
  split at h
  · cases h
  split at h
  · cases h
  rename_i h1 h2 h3
  rw [if_neg h1, if_neg h2, if_neg h3]
  generalize hu : (if (getDeviceInfo w deviceId).type = "android" then
    (if (!isBridgeClientConnected w deviceId) = true then w.setupBridgeClientResult else true)
    else false) = u
  generalize hT : (if (getDeviceInfo w deviceId).type = "android" then
    ["photos", "videos", "contacts", "messages", "calls"] ++
      (if u = true then ["music", "documents", "applications"] else [])
    else ["photos", "contacts", "messages", "calls"]) = types
  refine ⟨types, u, ?_, ?_⟩
  rotate_left
  · refine ite_prop (fun x : DataAnalyzer => x.m_pendingTasksPerDevice = _ ∧
      x.m_analysisQueue = _ ∧ x.emitted = _) _ _ _ ?_ ?_
    · obtain ⟨-, e2, e3, e4⟩ := enqueueAnalysisTasks_spec deviceId quickScan _ _ _
      refine ⟨e2.trans ?_, e4.trans ?_, e3.trans ?_⟩
      · exact ite_prop (fun x : DataAnalyzer => x.m_pendingTasksPerDevice = _) _ _ _ rfl rfl
      · exact congrArg (· ++ _) (ite_prop (fun x : DataAnalyzer => x.m_analysisQueue = _) _ _ _
          rfl rfl)
      · exact ite_prop (fun x : DataAnalyzer => x.emitted = _) _ _ _ rfl rfl
    · obtain ⟨-, e2, e3, e4⟩ := enqueueAnalysisTasks_spec deviceId quickScan _ _ _
      refine ⟨e2.trans ?_, e4.trans ?_, e3.trans ?_⟩
      · exact ite_prop (fun x : DataAnalyzer => x.m_pendingTasksPerDevice = _) _ _ _ rfl rfl
      · exact congrArg (· ++ _) (ite_prop (fun x : DataAnalyzer => x.m_analysisQueue = _) _ _ _
          rfl rfl)
      · exact ite_prop (fun x : DataAnalyzer => x.emitted = _) _ _ _ rfl rfl
  · rw [← hT]
    split_ifs <;> simp

theorem withSlash_getLast (basePath : String) :
    (withSlash basePath).data.getLast? = some (Char.ofNat 47) := by
  unfold withSlash
  split
  · assumption
  · show (basePath.data ++ [Char.ofNat 47]).getLast? = _
    simp

theorem toLongLong_nonneg (digits : List Char) : 0 ≤ toLongLong digits := by
  unfold toLongLong
  split
  · exact Int.ofNat_nonneg _
  · exact le_refl _

/-- C13 fails as stated: in a listing of three photo lines and one directory line, the
size field of the first photo is 2^63 and those of the other two are 2^63 - 1. Three items
are returned, in order, but the first has size 0, not the number of its size field, and
the data set stored for "A1" has the total size -2, while the three sizes add up to
2^64 - 2. -/
theorem listing_sizes_beyond_64_bits :
    (parseAndroidPhotoList (lsListing hugeListing) "/sdcard/DCIM/Camera/").map
        (fun item => (item.filePath, item.size)) =
      [("/sdcard/DCIM/Camera/a.jpg", 0), ("/sdcard/DCIM/Camera/b.jpg", 9223372036854775807),
       ("/sdcard/DCIM/Camera/c.jpg", 9223372036854775807)] ∧
    decimalValue "9223372036854775808".data = 9223372036854775808 ∧
    (getDataSet (listingPhotos.onAnalysisProcessFinished noContent 0 true
      (lsListing hugeListing) "") "A1" "photos").totalSize = -2 ∧
    sumOfSizes (getDataSet (listingPhotos.onAnalysisProcessFinished noContent 0 true
      (lsListing hugeListing) "") "A1" "photos").items = 18446744073709551614 := by
  have hparse := parseAndroidPhotoList_listing "/sdcard/DCIM/Camera/" hugeListing (by decide)
  have hstored := DataAnalyzer.onAnalysisProcessFinished_stored noContent listingPhotos
    (lsListing hugeListing) "" (by decide)
  have htype : mapValue listingPhotos.m_currentAnalysisTask.data "type" "" = "photos" := by
    decide
  have hbase : mapValue listingPhotos.m_currentAnalysisTask.data "basePath" "" =
      "/sdcard/DCIM/Camera/" := by decide
  have hdev : listingPhotos.m_currentAnalysisTask.deviceId = "A1" := by decide
  rw [htype, hbase, hdev] at hstored
  have hset : DataAnalyzer.parsedSet noContent "photos" "/sdcard/DCIM/Camera/"
      (lsListing hugeListing) =
      { type := "photos", isSupported := true,
        items := (hugeListing.filterMap LsLine.photo).map
          (LsEntry.item "/sdcard/DCIM/Camera/"),
        totalSize := addSizes 0 ((hugeListing.filterMap LsLine.photo).map
          (LsEntry.item "/sdcard/DCIM/Camera/")) } := by
    unfold DataAnalyzer.parsedSet
    simp only [if_true, hparse]
  rw [hset] at hstored
  refine ⟨?_, by decide, ?_, ?_⟩
  · rw [hparse]
    decide
  · rw [hstored]
    decide
  · rw [hstored]
    decide

/-- C13 (amended): for a listing whose lines are lines of the `ls -l` format (entry lines
with any white space between the fields and around the line, and other lines such as the
header), `parseAndroidPhotoList` returns, in the order of the listing, one item per line
of a regular file whose name does not start with a dot and ends in an image extension; a
directory line and a line that is not an entry never give an item; the `filePath` of an
item is the base path (with a slash added when it does not end in one) followed by the
name, and its size is the number written by the size field when that is below 2^63, and
0 otherwise. When the listing process of a photos task ends normally, the data set stored
for the device holds exactly these items, and its `totalSize` is the sum of their sizes
reduced to 64 bits, which is the sum itself when that is below 2^63. -/
theorem parseAndroidPhotoList_spec (basePath : String) (lines : List LsLine)
    (ps : ContentParsers) (a : DataAnalyzer) (stdErr : String)
    (h : ∀ l ∈ lines, l.wellFormed = true)
    (hcur : a.m_currentAnalysisTask.deviceId ≠ "")
    (htype : mapValue a.m_currentAnalysisTask.data "type" "" = "photos")
    (hbase : mapValue a.m_currentAnalysisTask.data "basePath" "" = basePath) :
    parseAndroidPhotoList (lsListing lines) basePath =
      (lines.filterMap LsLine.photo).map (LsEntry.item basePath) ∧
    (∀ e : LsEntry, (LsLine.entry e).photo = if e.isPhoto then some e else none) ∧
    (∀ e : LsEntry, e.directory = true → (LsLine.entry e).photo = none) ∧
    (∀ text : List Char, (LsLine.other text).photo = none) ∧
    (∀ e : LsEntry, (e.item basePath).filePath = withSlash basePath ++ String.mk e.name ∧
      (e.item basePath).displayName = String.mk e.name ∧
      (decimalValue e.size < 2 ^ 63 → (e.item basePath).size = decimalValue e.size) ∧
      (2 ^ 63 ≤ decimalValue e.size → (e.item basePath).size = 0)) ∧
    (withSlash basePath).data.getLast? = some (Char.ofNat 47) ∧
    (getDataSet (a.onAnalysisProcessFinished ps 0 true (lsListing lines) stdErr)
      a.m_currentAnalysisTask.deviceId "photos").items =
        (lines.filterMap LsLine.photo).map (LsEntry.item basePath) ∧
    (getDataSet (a.onAnalysisProcessFinished ps 0 true (lsListing lines) stdErr)
      a.m_currentAnalysisTask.deviceId "photos").totalSize =
        wrap64 (sumOfSizes ((lines.filterMap LsLine.photo).map (LsEntry.item basePath))) ∧
    (sumOfSizes ((lines.filterMap LsLine.photo).map (LsEntry.item basePath)) < 2 ^ 63 →
      (getDataSet (a.onAnalysisProcessFinished ps 0 true (lsListing lines) stdErr)
        a.m_currentAnalysisTask.deviceId "photos").totalSize =
          sumOfSizes ((lines.filterMap LsLine.photo).map (LsEntry.item basePath))) := by
  have hparse := parseAndroidPhotoList_listing basePath lines h
  have hstored := DataAnalyzer.onAnalysisProcessFinished_stored ps a (lsListing lines) stdErr
    hcur
  rw [htype, hbase] at hstored
  have hset : DataAnalyzer.parsedSet ps "photos" basePath (lsListing lines) =
      { type := "photos", isSupported := true,
        items := (lines.filterMap LsLine.photo).map (LsEntry.item basePath),
        totalSize := addSizes 0 ((lines.filterMap LsLine.photo).map (LsEntry.item basePath)) }
      := by
    unfold DataAnalyzer.parsedSet
    simp only [if_true, hparse]
  rw [hset] at hstored
  have htotal : (getDataSet (a.onAnalysisProcessFinished ps 0 true (lsListing lines) stdErr)
      a.m_currentAnalysisTask.deviceId "photos").totalSize =
      wrap64 (sumOfSizes ((lines.filterMap LsLine.photo).map (LsEntry.item basePath))) := by
    rw [hstored]
    exact addSizes_zero _
  refine ⟨hparse, fun e => rfl, ?_, fun text => rfl, ?_, withSlash_getLast basePath, ?_, htotal,
    ?_⟩
  · intro e he
    show (if e.isPhoto = true then some e else none) = none
    rw [if_neg (by simp [LsEntry.isPhoto, he])]
  · intro e
    refine ⟨rfl, rfl, fun hfit => ?_, fun hbig => ?_⟩
    · show toLongLong e.size = _
      unfold toLongLong
      rw [if_pos (by omega)]
    · show toLongLong e.size = _
      unfold toLongLong
      rw [if_neg (by omega)]
  · rw [hstored]
  · intro hlt
    rw [htotal]
    apply wrap64_of_range _ _ hlt
    have hnn : 0 ≤ sumOfSizes ((lines.filterMap LsLine.photo).map (LsEntry.item basePath)) := by
      apply sumOfSizes_nonneg
      intro i hi
      obtain ⟨e, -, rfl⟩ := List.mem_map.1 hi
      exact toLongLong_nonneg e.size
    omega

/-- C13 (amended) at the camera listing under "/sdcard/DCIM/Camera/", with its header, a
symbolic link, padded columns and carriage returns: of its three photo lines and one
directory line, three items, with the sizes written in their lines, and a `totalSize` of
3133747 + 2048000 + 512. -/
theorem parseAndroidPhotoList_spec_witness :
    (parseAndroidPhotoList (lsListing cameraListing) "/sdcard/DCIM/Camera/").map
        (fun item => (item.filePath, item.size)) =
      [("/sdcard/DCIM/Camera/IMG_20240329_100000.jpg", 3133747),
       ("/sdcard/DCIM/Camera/IMG_2.JPG", 2048000), ("/sdcard/DCIM/Camera/pic.png", 512)] ∧
    (getDataSet (listingPhotos.onAnalysisProcessFinished noContent 0 true
      (lsListing cameraListing) "") "A1" "photos").items.length = 3 ∧
    (getDataSet (listingPhotos.onAnalysisProcessFinished noContent 0 true
      (lsListing cameraListing) "") "A1" "photos").totalSize = 5182259 :=
  have h := parseAndroidPhotoList_spec "/sdcard/DCIM/Camera/" cameraListing noContent
    listingPhotos "" (by decide) (by decide) (by decide) (by decide)
  ⟨(congrArg (List.map (fun item => (item.filePath, item.size))) h.1).trans (by decide),
    (congrArg List.length h.2.2.2.2.2.2.1).trans (by decide),
    (h.2.2.2.2.2.2.2.2 (by decide)).trans (by decide)⟩

/-- C17 fails on the code: a media batch that names the same file twice is merged into a
device without a photos data set, and the new data set holds two items with the same
`filePath`; merged into a data set that already holds another file, both copies are
appended as well (the paths to compare with are collected once, before the loop). -/
theorem merged_batch_with_duplicates :
    (getDataSet scanningPhotos "A1" "photos").filePaths = [] ∧
    (getDataSet (scanningPhotos.handle (.mediaData 0 1 [pictureA, pictureA])) "A1"
      "photos").filePaths = ["/sdcard/DCIM/a.jpg", "/sdcard/DCIM/a.jpg"] ∧
    (getDataSet (scanningPhotos.handle (.mediaData 0 2 [pictureB])) "A1" "photos").filePaths =
      ["/sdcard/DCIM/b.jpg"] ∧
    (getDataSet ((scanningPhotos.handle (.mediaData 0 2 [pictureB])).handle
      (.mediaData 1 2 [pictureA, pictureA])) "A1" "photos").filePaths =
      ["/sdcard/DCIM/b.jpg", "/sdcard/DCIM/a.jpg", "/sdcard/DCIM/a.jpg"] ∧
    ¬ (getDataSet ((scanningPhotos.handle (.mediaData 0 2 [pictureB])).handle
      (.mediaData 1 2 [pictureA, pictureA])) "A1" "photos").filePaths.Nodup := by
  decide

/-- C18: `analyzeDevice` on a registered, authorized device discards every data set stored
for that device (`getDataSet` then returns the empty, unsupported set for every category)
and leaves the sets of other devices alone; and when the analysis process of the current
task ends normally with exit code 0, the data set stored for the device and category of
the task is the one built from that output alone, whatever was stored before. -/
theorem reanalysis_overwrites (w : World) (ps : ContentParsers) (a : DataAnalyzer)
    (deviceId : String) (quickScan : Bool) (stdOut stdErr : String)
    (hid : (getDeviceInfo w deviceId).id ≠ "")
    (hau : (getDeviceInfo w deviceId).authorized = true)
    (hcur : a.m_currentAnalysisTask.deviceId ≠ "") :
    (∀ t, getDataSet (analyzeDevice w a deviceId quickScan).2 deviceId t =
      { type := t, totalSize := 0, isSupported := false }) ∧
    (∀ d t, d ≠ deviceId →
      getDataSet (analyzeDevice w a deviceId quickScan).2 d t = getDataSet a d t) ∧
    getDataSet (a.onAnalysisProcessFinished ps 0 true stdOut stdErr)
        a.m_currentAnalysisTask.deviceId (mapValue a.m_currentAnalysisTask.data "type" "") =
      DataAnalyzer.parsedSet ps (mapValue a.m_currentAnalysisTask.data "type" "")
        (mapValue a.m_currentAnalysisTask.data "basePath" "") stdOut := by
  have hds := (analyzeDevice_dataSets w a deviceId quickScan).2 hid hau
  refine ⟨?_, ?_, ?_⟩
  · intro t
    unfold getDataSet
    rw [hds, mapValue_mapInsert_self]
    rw [if_neg (by simp [mapContains])]
  · intro d t hne
    unfold getDataSet
    rw [hds, mapContains_mapInsert_of_ne _ _ _ _ hne, mapValue_mapInsert_of_ne _ _ _ _ _ hne]
  · exact DataAnalyzer.onAnalysisProcessFinished_stored ps a stdOut stdErr hcur

/-- C18 at a concrete state: the photos of "A1" found by a scan are discarded when the
device is analyzed again. -/
theorem reanalysis_overwrites_witness :
    getDataSet (analyzeDevice oneAndroid (scanningPhotos.handle (.mediaData 0 1 [pictureA]))
        "A1" false).2 "A1" "photos" = { type := "photos", totalSize := 0, isSupported := false } ∧
    (getDataSet (scanningPhotos.handle (.mediaData 0 1 [pictureA])) "A1" "photos").items ≠ [] :=
  ⟨(reanalysis_overwrites oneAndroid ⟨fun _ => [], fun _ => [], fun _ => []⟩
      (scanningPhotos.handle (.mediaData 0 1 [pictureA])) "A1" false "" "" (by decide)
      (by decide) (by decide)).1 "photos", by decide⟩

/-- C19 fails on the code: the photos of "A1" have a data set (a media batch was merged),
the bridge client then reports a scan error with an empty text, and the data set is left
unsupported with an empty error message. What holds in general: after `finalizeAnalysis`
of a named device and category a data set exists; after a failed one it is unsupported;
and its error message is not empty when the message passed is not empty or no data set
existed before. -/
theorem failed_set_without_message :
    ((scanningPhotos.handle (.mediaData 0 1 [pictureA])).hasDataSet "A1" "photos" = true ∧
     (getDataSet ((scanningPhotos.handle (.mediaData 0 1 [pictureA])).handle (.scanError ""))
        "A1" "photos").isSupported = false ∧
     (getDataSet ((scanningPhotos.handle (.mediaData 0 1 [pictureA])).handle (.scanError ""))
        "A1" "photos").errorMessage = "") ∧
    ∀ (a : DataAnalyzer) (deviceId dataType : String) (success : Bool) (errorMsg : String),
      deviceId ≠ "" → dataType ≠ "" →
      (a.finalizeAnalysis deviceId dataType success errorMsg).hasDataSet deviceId dataType
        = true ∧
      (success = false →
        (getDataSet (a.finalizeAnalysis deviceId dataType success errorMsg) deviceId
          dataType).isSupported = false ∧
        (errorMsg ≠ "" ∨ a.hasDataSet deviceId dataType = false →
          (getDataSet (a.finalizeAnalysis deviceId dataType success errorMsg) deviceId
            dataType).errorMessage ≠ "")) := by
  refine ⟨by decide, ?_⟩
  intro a deviceId dataType success errorMsg hd ht
  have hds := DataAnalyzer.finalizeAnalysis_dataSets a deviceId dataType success errorMsg hd ht
  have hhas : ∀ b : DataAnalyzer, b.m_dataSets = (a.ensureDataSet deviceId dataType success
      errorMsg).m_dataSets → b.hasDataSet deviceId dataType =
        (a.ensureDataSet deviceId dataType success errorMsg).hasDataSet deviceId dataType := by
    intro b hb
    unfold DataAnalyzer.hasDataSet DataAnalyzer.deviceSets
    rw [hb]
  rw [hhas _ hds, getDataSet_congr hds]
  unfold DataAnalyzer.ensureDataSet
  by_cases hex : a.hasDataSet deviceId dataType = true
  · rw [if_neg (by simp [hex])]
    cases success
    · simp only [Bool.not_false, if_true]
      refine ⟨DataAnalyzer.hasDataSet_storeDataSet a _ _ _, fun _ => ?_⟩
      rw [getDataSet_emit, getDataSet_storeDataSet]
      refine ⟨rfl, ?_⟩
      rintro (h | h)
      · exact h
      · rw [hex] at h
        cases h
    · rw [if_neg (by simp)]
      exact ⟨hex, fun h => by cases h⟩
  · rw [if_pos (by simpa using hex)]
    refine ⟨DataAnalyzer.hasDataSet_storeDataSet a _ _ _, fun _ => ?_⟩
    rw [getDataSet_emit, getDataSet_storeDataSet]
    refine ⟨rfl, fun _ => ?_⟩
    show (if errorMsg.isEmpty then "Análisis falló o no produjo datos." else errorMsg) ≠ ""
    split
    · decide
    · rename_i he
      rw [String.isEmpty_iff] at he
      exact he

/-- C20: after an accepted `analyzeDevice` for a named device, which queues n tasks (at
least 4) and sets the counter of the device to n: along any sequence of finalisations
(of tasks of this device, each with a named category, and of other devices), as long as
fewer than n of them were for this device its counter is n less their number and no
`analysisComplete` has been emitted for it; from the n-th on the counter is removed and
`analysisComplete` has been emitted for the device exactly once. -/
theorem analysisComplete_once (w : World) (a : DataAnalyzer) (deviceId : String)
    (quickScan : Bool) (calls : List Finalisation)
    (hok : (analyzeDevice w a deviceId quickScan).1 = true) (hne : deviceId ≠ "")
    (hcalls : ∀ f ∈ calls, f.deviceId = deviceId → f.dataType ≠ "") :
    4 ≤ tasksQueued w a deviceId quickScan ∧
    (analyzeDevice w a deviceId quickScan).2.pendingCount deviceId =
      some (tasksQueued w a deviceId quickScan : Int) ∧
    (finalisationsOf deviceId calls < tasksQueued w a deviceId quickScan →
      ((analyzeDevice w a deviceId quickScan).2.finalizeAll calls).pendingCount deviceId =
        some ((tasksQueued w a deviceId quickScan - finalisationsOf deviceId calls : Nat) : Int) ∧
      completions deviceId ((analyzeDevice w a deviceId quickScan).2.finalizeAll calls).emitted =
        completions deviceId (analyzeDevice w a deviceId quickScan).2.emitted) ∧
    (tasksQueued w a deviceId quickScan ≤ finalisationsOf deviceId calls →
      ((analyzeDevice w a deviceId quickScan).2.finalizeAll calls).pendingCount deviceId =
        none ∧
      completions deviceId ((analyzeDevice w a deviceId quickScan).2.finalizeAll calls).emitted =
        completions deviceId (analyzeDevice w a deviceId quickScan).2.emitted + 1) := by
  obtain ⟨types, u, h4, hp, hq, -⟩ := analyzeDevice_true w a deviceId quickScan hok
  have hn : tasksQueued w a deviceId quickScan = types.length := by
    unfold tasksQueued
    rw [hq]
    simp
  have hpc : (analyzeDevice w a deviceId quickScan).2.pendingCount deviceId =
      some (types.length : Int) := by
    unfold DataAnalyzer.pendingCount
    rw [hp, mapContains_mapInsert_self, mapValue_mapInsert_self]
    rfl
  rw [hn]
  obtain ⟨c1, c2⟩ := DataAnalyzer.finalizeAll_counter deviceId hne calls _ types.length
    (by omega) hpc hcalls
  exact ⟨h4, hpc, c1, c2⟩

/-- C20 at the four tasks of the iOS device "I1": after three of its finalisations the
counter is 1 and nothing was emitted, after the fourth `analysisComplete` was emitted
once. -/
theorem analysisComplete_once_witness :
    ((analyzeDevice oneIPhone {} "I1" false).2.finalizeAll
      (fourFinalisations.take 4)).pendingCount "I1" = some 1 ∧
    completions "I1" ((analyzeDevice oneIPhone {} "I1" false).2.finalizeAll
      (fourFinalisations.take 4)).emitted = 0 ∧
    completions "I1" ((analyzeDevice oneIPhone {} "I1" false).2.finalizeAll
      fourFinalisations).emitted = 1 :=
  have h3 := analysisComplete_once oneIPhone {} "I1" false (fourFinalisations.take 4)
    (by decide) (by decide) (by decide)
  have h4 := analysisComplete_once oneIPhone {} "I1" false fourFinalisations
    (by decide) (by decide) (by decide)
  ⟨(h3.2.2.1 (by decide)).1.trans (by decide), (h3.2.2.1 (by decide)).2.trans (by decide),
    (h4.2.2.2 (by decide)).2.trans (by decide)⟩

/-! ### The frames that carry a batch -/

theorem splitSkipEmptyAux_last (sep : Char) (line : List Char) :
    ∀ cur : List Char, (∀ c ∈ line, c ≠ sep) → cur.reverse ++ line ≠ [] →
      splitSkipEmptyAux sep line cur = [cur.reverse ++ line] := by
  induction line with
  | nil =>
    intro cur _ hne
    have hc : cur.isEmpty = false := by
      cases cur with
      | nil => simp at hne
      | cons _ _ => rfl
    simp [splitSkipEmptyAux, hc]
  | cons c tl ih =>
    intro cur h _
    have hc : c ≠ sep := h c (List.mem_cons_self _ _)
    have := ih (c :: cur) (fun d hd => h d (List.mem_cons_of_mem _ hd)) (by simp)
    show (if c = sep then _ else splitSkipEmptyAux sep tl (c :: cur)) = _
    rw [if_neg hc, this]
    simp

theorem intercalate_cons_cons (sep a b : List Char) (l : List (List Char)) :
    List.intercalate sep (a :: b :: l) = a ++ sep ++ List.intercalate sep (b :: l) := by
  simp [List.intercalate, List.intersperse]

/-- Splitting at a separator gives back the fields that were joined with it, when none of
them is empty or contains the separator. -/
theorem splitSkipEmpty_intercalate (sep : Char) (fields : List (List Char))
    (h : ∀ f ∈ fields, f ≠ [] ∧ ∀ c ∈ f, c ≠ sep) :
    splitSkipEmpty sep (List.intercalate [sep] fields) = fields := by
  unfold splitSkipEmpty
  induction fields with
  | nil => rfl
  | cons f rest ih =>
    have hf := h f (List.mem_cons_self _ _)
    cases rest with
    | nil =>
      have e : List.intercalate [sep] [f] = f := by simp [List.intercalate, List.intersperse]
      rw [e]
      exact splitSkipEmptyAux_last sep f [] hf.2 (by simpa using hf.1)
    | cons g more =>
      rw [intercalate_cons_cons, List.append_assoc, List.singleton_append,
        splitSkipEmptyAux_line sep f _ [] hf.2 (by simpa using hf.1),
        ih (fun x hx => h x (List.mem_cons_of_mem _ hx))]
      rfl

/-- C21 fails on the code: the frame `mediaFrameWithEmptyField` carries batch 0 of 1 with
one element, whose title is "Intro :: Live". The text handed to the decoder, and carried
by `mediaDataReceived`, has the title "Intro : Live": splitting without the empty parts
drops the empty field between the two colons, and the join puts back one colon. The branch
for `FILES_DATA:` does the same. What holds: when the index, the count and every
colon-delimited field of the payload are non-empty, the first two fields are read as
integers and the payload is handed on character for character. -/
theorem data_frame_loses_empty_fields :
    (mediaFrameWithEmptyField =
        "MEDIA_DATA:0:1:" ++ "[\x7b\"name\":\"a.mp3\",\"title\":\"Intro :: Live\"\x7d]" ∧
     dataFrameParts (mid mediaFrameWithEmptyField 11) =
        some (0, 1, "[\x7b\"name\":\"a.mp3\",\"title\":\"Intro : Live\"\x7d]") ∧
     (AdbSocketClient.processResponse bracketDecoder {} mediaFrameWithEmptyField).emitted =
        [.mediaDataReceived 0 1 "[\x7b\"name\":\"a.mp3\",\"title\":\"Intro : Live\"\x7d]"] ∧
     (AdbSocketClient.processResponse bracketDecoder {} "FILES_DATA:0:1:[\"a::b\"]").emitted =
        [.filesDataReceived 0 1 "[\"a:b\"]"]) ∧
    ∀ (idx count : List Char) (fields : List (List Char)), fields ≠ [] →
      (∀ f ∈ idx :: count :: fields, f ≠ [] ∧ ∀ c ∈ f, c ≠ Char.ofNat 58) →
      dataFrameParts (String.mk (List.intercalate [Char.ofNat 58] (idx :: count :: fields))) =
        some (toInt idx, toInt count, String.mk (List.intercalate [Char.ofNat 58] fields)) := by
  refine ⟨by decide, ?_⟩
  intro idx count fields hne h
  unfold dataFrameParts
  dsimp only
  rw [splitSkipEmpty_intercalate _ _ h]
  have hlen : (idx :: count :: fields).length ≥ 3 := by
    cases fields with
    | nil => exact absurd rfl hne
    | cons f rest => simp
  rw [if_pos hlen]
  rfl

/-! ### The frames of the bridge protocol -/

/-- C22 as stated fails on the code: the frame "ROLE_SET:source" starts with none of the
fifteen entries of the vocabulary as listed, and `processResponse` emits nothing for it, so
no `unknownResponseReceived`; the same holds for "MEDIA_COUNT:3", and for both frames when
they arrive on the socket. -/
theorem role_set_frame_not_unknown :
    matchesListedVocabulary "ROLE_SET:source" = false ∧
    (AdbSocketClient.processResponse bracketDecoder {} "ROLE_SET:source").emitted = [] ∧
    matchesListedVocabulary "MEDIA_COUNT:3" = false ∧
    (AdbSocketClient.processResponse bracketDecoder {} "MEDIA_COUNT:3").emitted = [] ∧
    (AdbSocketClient.step bracketDecoder {}
      (.readyRead "ROLE_SET:source\nMEDIA_COUNT:3\n")).emitted = [] := by
  decide

/-- A frame that starts with a tag is the tag followed by some text. -/
theorem startsWith_iff (response tag : String) :
    startsWith response tag = true ↔ ∃ rest, response = String.mk (tag.data ++ rest) := by
  unfold startsWith
  rw [List.isPrefixOf_iff_prefix]
  constructor
  · rintro ⟨rest, h⟩
    exact ⟨rest, by rw [h]⟩
  · rintro ⟨rest, h⟩
    exact ⟨rest, by rw [h]⟩

/-- A frame that starts with `ROLE_SET:`, `MEDIA_COUNT:` or `FILES_COUNT:` leaves the
session as it is. -/
theorem processResponse_silent (dec : JsonDecoder) (s : AdbSocketClient) (rest : List Char) :
    AdbSocketClient.processResponse dec s (String.mk ("ROLE_SET:".data ++ rest)) = s ∧
    AdbSocketClient.processResponse dec s (String.mk ("MEDIA_COUNT:".data ++ rest)) = s ∧
    AdbSocketClient.processResponse dec s (String.mk ("FILES_COUNT:".data ++ rest)) = s := by
  refine ⟨?_, ?_, ?_⟩
  · unfold AdbSocketClient.processResponse
    simp [startsWith, String.ext_iff]
  · unfold AdbSocketClient.processResponse
    simp [startsWith, String.ext_iff]
  · unfold AdbSocketClient.processResponse
    simp [startsWith, String.ext_iff]

/-- C22 (amended): a frame that starts with none of the fifteen tags that
`processResponse` looks for (the twelve listed ones that end in a colon, and `ROLE_SET:`,
`MEDIA_COUNT:`, `FILES_COUNT:`) and is none of the words `SCAN_STARTED`, `SCAN_COMPLETED`,
`PONG` makes `processResponse` emit `unknownResponseReceived` with the frame as its text,
and nothing else. (A frame that does not start with one of the three words is in
particular different from it.) A frame that starts with `ROLE_SET:`, `MEDIA_COUNT:` or
`FILES_COUNT:`, whatever follows the tag, leaves the session unchanged: no signal is
emitted for it. -/
theorem unmatched_frame_is_unknown (dec : JsonDecoder) (s : AdbSocketClient)
    (response : String) :
    ((∀ tag ∈ protocolTags, startsWith response tag = false) →
      (∀ word ∈ protocolWords, response ≠ word) →
      AdbSocketClient.processResponse dec s response =
        s.emit (.unknownResponseReceived response)) ∧
    (startsWith response "ROLE_SET:" = true ∨ startsWith response "MEDIA_COUNT:" = true ∨
        startsWith response "FILES_COUNT:" = true →
      AdbSocketClient.processResponse dec s response = s) := by
  constructor
  · intro htags hwords
    have t := fun tag (h : tag ∈ protocolTags) => htags tag h
    have w := fun word (h : word ∈ protocolWords) => hwords word h
    simp only [protocolTags, protocolWords, List.mem_cons, List.mem_singleton,
      List.not_mem_nil, or_false, forall_eq_or_imp, forall_eq] at t w
    obtain ⟨t1, t2, t3, t4, t5, t6, t7, t8, t9, t10, t11, t12, t13, t14, t15⟩ := t
    obtain ⟨w1, w2, w3⟩ := w
    unfold AdbSocketClient.processResponse
    rw [t1, t2, t3, t4, t5, t6, t7, t8, t9, t10, t11, t12, t13, t14, t15]
    simp [w1, w2, w3]
  · intro h
    rcases h with h | h | h
    · obtain ⟨rest, rfl⟩ := (startsWith_iff _ _).1 h
      exact (processResponse_silent dec s rest).1
    · obtain ⟨rest, rfl⟩ := (startsWith_iff _ _).1 h
      exact (processResponse_silent dec s rest).2.1
    · obtain ⟨rest, rfl⟩ := (startsWith_iff _ _).1 h
      exact (processResponse_silent dec s rest).2.2

/-- C22 (amended) at concrete frames: "HELLO" and "PONGX" start with no tag and are none
of the three words, and each is reported as unknown; "ROLE_SET:destination",
"MEDIA_COUNT:" and "FILES_COUNT:12:x" are accepted without any signal. -/
theorem unmatched_frame_is_unknown_witness :
    (AdbSocketClient.processResponse bracketDecoder {} "HELLO").emitted =
      [.unknownResponseReceived "HELLO"] ∧
    (AdbSocketClient.processResponse bracketDecoder {} "PONGX").emitted =
      [.unknownResponseReceived "PONGX"] ∧
    AdbSocketClient.processResponse bracketDecoder {} "ROLE_SET:destination" = {} ∧
    AdbSocketClient.processResponse bracketDecoder {} "MEDIA_COUNT:" = {} ∧
    AdbSocketClient.processResponse bracketDecoder {} "FILES_COUNT:12:x" = {} :=
  ⟨congrArg AdbSocketClient.emitted
      ((unmatched_frame_is_unknown bracketDecoder {} "HELLO").1 (by decide) (by decide)),
    congrArg AdbSocketClient.emitted
      ((unmatched_frame_is_unknown bracketDecoder {} "PONGX").1 (by decide) (by decide)),
    (unmatched_frame_is_unknown bracketDecoder {} "ROLE_SET:destination").2
      (Or.inl (by decide)),
    (unmatched_frame_is_unknown bracketDecoder {} "MEDIA_COUNT:").2
      (Or.inr (Or.inl (by decide))),
    (unmatched_frame_is_unknown bracketDecoder {} "FILES_COUNT:12:x").2
      (Or.inr (Or.inr (by decide)))⟩

/-! ### Sending while not connected -/

/-- C23 as stated fails on the code: two commands were queued on a connected session,
the drain loop sent the first, and the peer closed the connection during the pause before
the second. The drain loop then takes "START_SCAN" off the queue, the send fails without
writing anything, and the queue is left empty: the command is lost. -/
theorem drain_loop_drops_unsent_command :
    scanQueuedThenClosed.m_connected = false ∧
    scanQueuedThenClosed.m_commandQueue = ["START_SCAN"] ∧
    scanQueuedThenClosed.written = ["GET_DEVICE_INFO\n"] ∧
    scanQueuedThenClosed.drainPending = 1 ∧
    (AdbSocketClient.step bracketDecoder scanQueuedThenClosed
      (.drainTimer true true)).m_commandQueue = [] ∧
    (AdbSocketClient.step bracketDecoder scanQueuedThenClosed
      (.drainTimer true true)).written = ["GET_DEVICE_INFO\n"] := by
  decide

/-- C23 amended: on a session that is not connected, `sendCommand` returns false and
leaves the whole session as it is, so nothing is written and the queue holds the same
commands; `processNextCommand` on a non-empty queue removes the command at the front,
writes nothing, keeps the other commands in their order and defers its next run: the
command whose send it attempted is no longer queued. -/
theorem send_while_disconnected (s : AdbSocketClient) (written flushed : Bool)
    (h : s.m_connected = false) :
    (∀ command, s.sendCommand command written flushed = (false, s)) ∧
    (∀ command rest, s.m_commandQueue = command :: rest →
      s.processNextCommand written flushed =
        { s with m_commandQueue := rest, drainPending := s.drainPending + 1 }) := by
  constructor
  · intro command
    unfold AdbSocketClient.sendCommand
    rw [h]
    rfl
  · intro command rest hq
    unfold AdbSocketClient.processNextCommand
    rw [hq]
    dsimp only
    unfold AdbSocketClient.sendCommand
    dsimp only
    rw [h]
    rfl

/-- C23 amended, at the session whose peer closed the connection with "START_SCAN" still
queued. -/
theorem send_while_disconnected_witness :
    scanQueuedThenClosed.sendCommand "PING" true true = (false, scanQueuedThenClosed) ∧
    (scanQueuedThenClosed.processNextCommand true true).m_commandQueue = [] ∧
    (scanQueuedThenClosed.processNextCommand true true).written = ["GET_DEVICE_INFO\n"] :=
  have h := send_while_disconnected scanQueuedThenClosed true true (by decide)
  ⟨h.1 "PING", by rw [h.2 "START_SCAN" [] (by decide)],
    by rw [h.2 "START_SCAN" [] (by decide)]; decide⟩

/-! ### The reconnect attempt counter -/

namespace AdbSocketClient

theorem setConnectionState_eq (s : AdbSocketClient) (state : ConnectionState) :
    ∃ c e, s.setConnectionState state = { s with m_connectionState := c, emitted := e } := by
  unfold setConnectionState
  split
  · exact ⟨_, _, rfl⟩
  · exact ⟨_, _, rfl⟩

theorem setConnectionState_counter (s : AdbSocketClient) (state : ConnectionState) :
    (s.setConnectionState state).m_reconnectAttempts = s.m_reconnectAttempts ∧
    (s.setConnectionState state).m_connected = s.m_connected := by
  obtain ⟨c, e, h⟩ := setConnectionState_eq s state
  rw [h]
  exact ⟨rfl, rfl⟩

theorem onSocketConnected_counter (s : AdbSocketClient) :
    s.onSocketConnected.m_reconnectAttempts = 0 ∧ s.onSocketConnected.m_connected = true := by
  unfold onSocketConnected
  have h := setConnectionState_counter { s with m_connected := true, m_reconnectAttempts := 0 }
    .Connected
  exact ⟨h.1, h.2⟩

theorem onSocketDisconnected_counter (s : AdbSocketClient) :
    s.onSocketDisconnected.m_reconnectAttempts = s.m_reconnectAttempts ∧
    s.onSocketDisconnected.m_connected = false := by
  unfold onSocketDisconnected
  have h := setConnectionState_counter { s with m_connected := false } .Disconnected
  dsimp only
  split
  · exact ⟨h.1, h.2⟩
  · exact ⟨h.1, h.2⟩

theorem closeSocket_counter (s : AdbSocketClient) :
    s.closeSocket.m_reconnectAttempts = s.m_reconnectAttempts ∧
    (s.closeSocket.m_connected = true → s.m_connected = true) := by
  unfold closeSocket
  split
  · have h := onSocketDisconnected_counter { s with socketOpen := false }
    refine ⟨h.1, fun hc => ?_⟩
    rw [h.2] at hc
    exact Bool.noConfusion hc
  · exact ⟨rfl, id⟩

theorem disconnectFromDevice_counter (s : AdbSocketClient) :
    s.disconnectFromDevice.m_reconnectAttempts = 0 ∧
    s.disconnectFromDevice.m_connected = false := by
  unfold disconnectFromDevice
  dsimp only
  have h := setConnectionState_counter
    { s.closeSocket with m_connected := false, reconnectTimerActive := false,
                         m_reconnectAttempts := 0 } .Disconnected
  exact ⟨h.1, h.2⟩

theorem handleSocketError_counter (s : AdbSocketClient) (errorString : String) :
    (s.handleSocketError errorString).m_reconnectAttempts = s.m_reconnectAttempts ∧
    (s.handleSocketError errorString).m_connected = s.m_connected := by
  unfold handleSocketError
  exact setConnectionState_counter s .Error

/-- The counter and the connected flag after `connectToDevice`: a connection that is
established sets them to 0 and true; after a failed attempt the session is not connected
and the counter is as before, or 0 when a connected session was disconnected first. -/
theorem connectToDevice_counter (s : AdbSocketClient) (deviceId : String)
    (outcome : ConnectOutcome) :
    ((s.connectToDevice deviceId outcome).2.m_connected = true ∧
      (s.connectToDevice deviceId outcome).2.m_reconnectAttempts = 0) ∨
    ((s.connectToDevice deviceId outcome).2.m_connected = false ∧
      (s.connectToDevice deviceId outcome).2.m_reconnectAttempts =
        if s.m_connected then 0 else s.m_reconnectAttempts) := by
  have h1 : (if s.m_connected = true then s.disconnectFromDevice else s).m_connected = false ∧
      (if s.m_connected = true then s.disconnectFromDevice else s).m_reconnectAttempts =
        if s.m_connected then 0 else s.m_reconnectAttempts := by
    by_cases hc : s.m_connected = true
    · rw [if_pos hc, if_pos hc]
      exact ⟨(disconnectFromDevice_counter s).2, (disconnectFromDevice_counter s).1⟩
    · rw [if_neg hc, if_neg hc]
      exact ⟨by simpa using hc, rfl⟩
  unfold connectToDevice
  dsimp only
  generalize (if s.m_connected = true then s.disconnectFromDevice else s) = s1 at h1 ⊢
  have h2 := setConnectionState_counter { s1 with m_deviceId := deviceId } .Connecting
  cases outcome with
  | established =>
    left
    exact ⟨(onSocketConnected_counter _).2, (onSocketConnected_counter _).1⟩
  | failed socketError =>
    right
    dsimp only
    cases socketError with
    | none =>
      dsimp only
      have h3 := setConnectionState_counter
        (setConnectionState { s1 with m_deviceId := deviceId } .Connecting) .Error
      exact ⟨h3.2.trans (h2.2.trans h1.1), h3.1.trans (h2.1.trans h1.2)⟩
    | some errorString =>
      dsimp only
      have h3 := handleSocketError_counter
        (setConnectionState { s1 with m_deviceId := deviceId } .Connecting) errorString
      have h4 := setConnectionState_counter
        ((setConnectionState { s1 with m_deviceId := deviceId } .Connecting).handleSocketError
          errorString) .Error
      exact ⟨h4.2.trans (h3.2.trans (h2.2.trans h1.1)),
        h4.1.trans (h3.1.trans (h2.1.trans h1.2))⟩

theorem sendCommand_counter (s : AdbSocketClient) (command : String) (written flushed : Bool) :
    (s.sendCommand command written flushed).2.m_reconnectAttempts = s.m_reconnectAttempts ∧
    (s.sendCommand command written flushed).2.m_connected = s.m_connected := by
  unfold sendCommand
  split
  · exact ⟨rfl, rfl⟩
  · split
    · exact ⟨rfl, rfl⟩
    · exact ⟨rfl, rfl⟩

theorem processNextCommand_counter (s : AdbSocketClient) (written flushed : Bool) :
    (s.processNextCommand written flushed).m_reconnectAttempts = s.m_reconnectAttempts ∧
    (s.processNextCommand written flushed).m_connected = s.m_connected := by
  unfold processNextCommand
  split
  · exact ⟨rfl, rfl⟩
  · rename_i command rest _
    exact sendCommand_counter { s with m_commandQueue := rest } command written flushed

theorem enqueueCommand_counter (s : AdbSocketClient) (command : String) :
    (s.enqueueCommand command).2.m_reconnectAttempts = s.m_reconnectAttempts ∧
    (s.enqueueCommand command).2.m_connected = s.m_connected := by
  unfold enqueueCommand
  split
  · exact ⟨rfl, rfl⟩
  · dsimp only
    split
    · exact ⟨rfl, rfl⟩
    · exact ⟨rfl, rfl⟩

theorem onDataFrame_eq (dec : JsonDecoder) (s : AdbSocketClient)
    (signal : Int → Int → String → ClientSignal) (rest : String) :
    ∃ e, onDataFrame dec s signal rest = { s with emitted := e } := by
  unfold onDataFrame
  cases dataFrameParts rest with
  | none => exact ⟨_, rfl⟩
  | some p =>
    dsimp only
    split
    · exact ⟨_, rfl⟩
    · exact ⟨_, rfl⟩

theorem onProgressFrame_eq (s : AdbSocketClient) (rest : String) :
    ∃ e, onProgressFrame s rest = { s with emitted := e } := by
  unfold onProgressFrame
  cases progressFrameParts rest with
  | none => exact ⟨_, rfl⟩
  | some p => exact ⟨_, rfl⟩

theorem processResponse_eq (dec : JsonDecoder) (s : AdbSocketClient) (response : String) :
    ∃ e, processResponse dec s response = { s with emitted := e } := by
  unfold processResponse
  repeat first
    | refine ite_prop (fun x : AdbSocketClient => ∃ e, x = { s with emitted := e }) _ _ _ ?_ ?_
    | exact onDataFrame_eq _ _ _ _
    | exact onProgressFrame_eq _ _
    | exact ⟨_, rfl⟩

theorem readFromSocket_counter (dec : JsonDecoder) (s : AdbSocketClient) (data : String) :
    (s.readFromSocket dec data).m_reconnectAttempts = s.m_reconnectAttempts ∧
    (s.readFromSocket dec data).m_connected = s.m_connected := by
  have key : ∀ (lines : List (List Char)) (x : AdbSocketClient),
      (lines.foldl (processLine dec) x).m_reconnectAttempts = x.m_reconnectAttempts ∧
      (lines.foldl (processLine dec) x).m_connected = x.m_connected := by
    intro lines
    induction lines with
    | nil => intro x; exact ⟨rfl, rfl⟩
    | cons line rest ih =>
      intro x
      rw [List.foldl_cons]
      have hx : (processLine dec x line).m_reconnectAttempts = x.m_reconnectAttempts ∧
          (processLine dec x line).m_connected = x.m_connected := by
        unfold processLine
        split
        · exact ⟨rfl, rfl⟩
        · obtain ⟨e, he⟩ := processResponse_eq dec x (String.mk (trimmed line))
          rw [he]
          exact ⟨rfl, rfl⟩
      exact ⟨(ih _).1.trans hx.1, (ih _).2.trans hx.2⟩
  unfold readFromSocket
  exact key _ _

end AdbSocketClient

namespace AdbSocketClient

theorem setRole_counter (s : AdbSocketClient) (role : String) (written flushed : Bool) :
    (s.setRole role written flushed).2.m_reconnectAttempts = s.m_reconnectAttempts ∧
    (s.setRole role written flushed).2.m_connected = s.m_connected := by
  unfold setRole
  exact sendCommand_counter _ _ _ _

theorem checkConnectionState_counter (s : AdbSocketClient) (written flushed : Bool) :
    (s.checkConnectionState written flushed).m_reconnectAttempts = s.m_reconnectAttempts ∧
    (s.checkConnectionState written flushed).m_connected = s.m_connected := by
  unfold checkConnectionState ping
  split
  · exact sendCommand_counter _ _ _ _
  · exact ⟨rfl, rfl⟩

theorem finishedSlots_counter (s : AdbSocketClient) (exitCode : Int) (normalExit : Bool) :
    ((s.onAdbForwardFinished exitCode normalExit).m_reconnectAttempts = s.m_reconnectAttempts ∧
     (s.onAdbForwardFinished exitCode normalExit).m_connected = s.m_connected) ∧
    ((s.onInstallAppFinished exitCode normalExit).m_reconnectAttempts = s.m_reconnectAttempts ∧
     (s.onInstallAppFinished exitCode normalExit).m_connected = s.m_connected) ∧
    ((s.onLaunchAppFinished exitCode normalExit).m_reconnectAttempts = s.m_reconnectAttempts ∧
     (s.onLaunchAppFinished exitCode normalExit).m_connected = s.m_connected) := by
  unfold onAdbForwardFinished onInstallAppFinished onLaunchAppFinished
  refine ⟨?_, ?_, ?_⟩ <;> split <;> exact ⟨rfl, rfl⟩

/-- What one event does to the connected flag and to the counter of a session whose counter
is 0 while it is connected: a connection is established (connected, counter 0), or the
event is the explicit disconnect (not connected, counter 0), or the counter is not lowered
and a session that is connected afterwards was connected before, with the same counter. -/
theorem step_counter (dec : JsonDecoder) (s : AdbSocketClient) (e : ClientEvent)
    (hs : s.CounterIdle) :
    ((s.step dec e).m_connected = true ∧ (s.step dec e).m_reconnectAttempts = 0) ∨
    (e = .disconnectFromDevice ∧ (s.step dec e).m_connected = false ∧
      (s.step dec e).m_reconnectAttempts = 0) ∨
    (((s.step dec e).m_connected = true →
        s.m_connected = true ∧ (s.step dec e).m_reconnectAttempts = s.m_reconnectAttempts) ∧
      s.m_reconnectAttempts ≤ (s.step dec e).m_reconnectAttempts) := by
  have same : ∀ x : AdbSocketClient, x.m_reconnectAttempts = s.m_reconnectAttempts ∧
      x.m_connected = s.m_connected →
      (x.m_connected = true → s.m_connected = true ∧
        x.m_reconnectAttempts = s.m_reconnectAttempts) ∧
      s.m_reconnectAttempts ≤ x.m_reconnectAttempts := by
    intro x hx
    exact ⟨fun hc => ⟨hx.2 ▸ hc, hx.1⟩, le_of_eq hx.1.symm⟩
  have conn : ∀ (x : AdbSocketClient) (deviceId : String) (outcome : ConnectOutcome),
      x.m_reconnectAttempts = s.m_reconnectAttempts → x.m_connected = s.m_connected →
      ((x.connectToDevice deviceId outcome).2.m_connected = true ∧
        (x.connectToDevice deviceId outcome).2.m_reconnectAttempts = 0) ∨
      ((((x.connectToDevice deviceId outcome).2.m_connected = true →
          s.m_connected = true ∧
          (x.connectToDevice deviceId outcome).2.m_reconnectAttempts = s.m_reconnectAttempts) ∧
        s.m_reconnectAttempts ≤ (x.connectToDevice deviceId outcome).2.m_reconnectAttempts)) := by
    intro x deviceId outcome ha hc
    rcases connectToDevice_counter x deviceId outcome with h | h
    · exact Or.inl h
    · right
      refine ⟨fun hco => ?_, ?_⟩
      · rw [h.1] at hco
        exact Bool.noConfusion hco
      · rw [h.2]
        by_cases hcon : s.m_connected = true
        · rw [hc, if_pos hcon, hs hcon]
        · rw [hc, if_neg hcon, ha]
  cases e with
  | connectToDevice deviceId outcome =>
    rcases conn s deviceId outcome rfl rfl with h | h
    · exact Or.inl h
    · exact Or.inr (Or.inr h)
  | disconnectFromDevice =>
    exact Or.inr (Or.inl ⟨rfl, (disconnectFromDevice_counter s).2,
      (disconnectFromDevice_counter s).1⟩)
  | setupBridgeClient deviceId adbPath t =>
    show (_ ∧ _) ∨ _ ∨ (_ ∧ _)
    simp only [step]
    unfold setupBridgeClient
    dsimp only
    split
    · exact Or.inr (Or.inr (same _ ⟨rfl, rfl⟩))
    · split
      · exact Or.inr (Or.inr (same _ ⟨rfl, rfl⟩))
      · rcases conn { s with m_deviceId := deviceId, m_adbPath := adbPath } deviceId t.outcome
          rfl rfl with h | h
        · exact Or.inl h
        · exact Or.inr (Or.inr h)
  | setRole role written flushed =>
    exact Or.inr (Or.inr (same _ (setRole_counter s role written flushed)))
  | sendCommand command written flushed =>
    exact Or.inr (Or.inr (same _ (sendCommand_counter s command written flushed)))
  | enqueueCommand command =>
    exact Or.inr (Or.inr (same _ (enqueueCommand_counter s command)))
  | drainTimer written flushed =>
    simp only [step]
    split
    · exact Or.inr (Or.inr (same _ (processNextCommand_counter
        { s with drainPending := s.drainPending - 1 } written flushed)))
    · exact Or.inr (Or.inr (same _ ⟨rfl, rfl⟩))
  | connectTimer outcome =>
    simp only [step]
    split
    · rcases conn { s with connectPending := s.connectPending - 1 } s.m_deviceId outcome
        rfl rfl with h | h
      · exact Or.inl h
      · exact Or.inr (Or.inr h)
    · exact Or.inr (Or.inr (same _ ⟨rfl, rfl⟩))
  | reconnectTimer forwarded outcome =>
    simp only [step]
    split
    · unfold AdbSocketClient.reconnectTimer
      split
      · rename_i hcond
        have hnc : s.m_connected = false := by
          have := hcond.1
          simpa using this
        dsimp only
        split
        · rcases connectToDevice_counter
            { s with m_reconnectAttempts := s.m_reconnectAttempts + 1 } s.m_deviceId outcome
            with h | h
          · exact Or.inl h
          · right; right
            refine ⟨fun hco => ?_, ?_⟩
            · rw [h.1] at hco
              exact Bool.noConfusion hco
            · rw [h.2]
              show s.m_reconnectAttempts ≤ if s.m_connected = true then 0
                else s.m_reconnectAttempts + 1
              rw [if_neg (by simp [hnc])]
              omega
        · right; right
          refine ⟨fun hco => ?_, ?_⟩
          · exact absurd (hco : s.m_connected = true) (by simp [hnc])
          · show s.m_reconnectAttempts ≤ s.m_reconnectAttempts + 1
            omega
      · exact Or.inr (Or.inr (same _ ⟨rfl, rfl⟩))
    · exact Or.inr (Or.inr (same _ ⟨rfl, rfl⟩))
  | connectionCheckTimer written flushed =>
    exact Or.inr (Or.inr (same _ (checkConnectionState_counter s written flushed)))
  | peerClosed =>
    have h := closeSocket_counter s
    exact Or.inr (Or.inr ⟨fun hc => ⟨h.2 hc, h.1⟩, le_of_eq h.1.symm⟩)
  | socketError errorString =>
    exact Or.inr (Or.inr (same _ (handleSocketError_counter s errorString)))
  | readyRead data =>
    exact Or.inr (Or.inr (same _ (readFromSocket_counter dec s data)))
  | adbForwardFinished exitCode normalExit =>
    exact Or.inr (Or.inr (same _ (finishedSlots_counter s exitCode normalExit).1))
  | installAppFinished exitCode normalExit =>
    exact Or.inr (Or.inr (same _ (finishedSlots_counter s exitCode normalExit).2.1))
  | launchAppFinished exitCode normalExit =>
    exact Or.inr (Or.inr (same _ (finishedSlots_counter s exitCode normalExit).2.2))

/-- A new session has a counter of 0, and every event keeps the counter at 0 while the
session is connected. -/
theorem CounterIdle.after_event (dec : JsonDecoder) (s : AdbSocketClient) (e : ClientEvent)
    (hs : s.CounterIdle) : (s.step dec e).CounterIdle := by
  intro hc
  rcases step_counter dec s e hs with h | h | h
  · exact h.2
  · exact h.2.2
  · rw [(h.1 hc).2]
    exact hs (h.1 hc).1

theorem CounterIdle.after_events (dec : JsonDecoder) (events : List ClientEvent) :
    ∀ s : AdbSocketClient, s.CounterIdle → (s.run dec events).CounterIdle := by
  induction events with
  | nil => intro s hs; exact hs
  | cons e rest ih => intro s hs; exact ih _ (CounterIdle.after_event dec s e hs)

end AdbSocketClient

/-- C24 as stated fails on the code: a session was connected to "A1" and closed by the
peer, and two ticks of the reconnect timer failed to connect again, so its counter is 2;
the explicit disconnect then sets the counter back to 0 although no connection was
established. -/
theorem explicit_disconnect_resets_counter :
    (AdbSocketClient.run bracketDecoder {} twoFailedReconnects).m_reconnectAttempts = 2 ∧
    (AdbSocketClient.step bracketDecoder
      (AdbSocketClient.run bracketDecoder {} twoFailedReconnects)
      .disconnectFromDevice).m_reconnectAttempts = 0 ∧
    (AdbSocketClient.step bracketDecoder
      (AdbSocketClient.run bracketDecoder {} twoFailedReconnects)
      .disconnectFromDevice).m_connected = false := by
  decide

/-- C24 amended: on a session whose counter is 0 while it is connected (every session
reached from a new one is such a session), an event that lowers the reconnect attempt
counter sets it to 0 and is either one that establishes a connection or the explicit
disconnect. No other event lowers it: not a connection attempt that fails, not a close by
the peer, not a tick of the reconnect timer, nor sending, queueing, receiving or the end of
a run of the device-bridge tool. -/
theorem counter_reset_only_by_connect_or_disconnect (dec : JsonDecoder) (s : AdbSocketClient)
    (e : ClientEvent) (hs : s.CounterIdle)
    (hlow : (s.step dec e).m_reconnectAttempts < s.m_reconnectAttempts) :
    (s.step dec e).m_reconnectAttempts = 0 ∧
    ((s.step dec e).m_connected = true ∨ e = .disconnectFromDevice) := by
  rcases AdbSocketClient.step_counter dec s e hs with h | h | h
  · exact ⟨h.2, Or.inl h.1⟩
  · exact ⟨h.2.2, Or.inr h.1⟩
  · exact absurd hlow (not_lt.2 h.2)

/-- C24 amended, at the session with two failed reconnects: the explicit disconnect lowers
the counter from 2 to 0, and so does a third tick of the timer when it connects. -/
theorem counter_reset_only_by_connect_or_disconnect_witness :
    (AdbSocketClient.step bracketDecoder
      (AdbSocketClient.run bracketDecoder {} twoFailedReconnects)
      .disconnectFromDevice).m_reconnectAttempts = 0 ∧
    (AdbSocketClient.step bracketDecoder
      (AdbSocketClient.run bracketDecoder {} twoFailedReconnects)
      (.reconnectTimer true .established)).m_reconnectAttempts = 0 ∧
    (AdbSocketClient.step bracketDecoder
      (AdbSocketClient.run bracketDecoder {} twoFailedReconnects)
      (.reconnectTimer true .established)).m_connected = true :=
  have hs : (AdbSocketClient.run bracketDecoder {} twoFailedReconnects).CounterIdle :=
    fun h => absurd h (by decide)
  have h1 := counter_reset_only_by_connect_or_disconnect bracketDecoder
    (AdbSocketClient.run bracketDecoder {} twoFailedReconnects) .disconnectFromDevice hs
    (by decide)
  have h2 := counter_reset_only_by_connect_or_disconnect bracketDecoder
    (AdbSocketClient.run bracketDecoder {} twoFailedReconnects)
    (.reconnectTimer true .established) hs (by decide)
  ⟨h1.1, h2.1, h2.2.resolve_right (by decide)⟩

/-! ### The poll of the Android listing -/

/-- C25 fails on the code: the registry holds one iOS device, and the Android listing names
one authorized device, "R58M123ABC". The slot is connected twice to the end of the listing
process; its first run reads the output and adds the device, its second run finds the
output already read, takes the listing for empty and removes the device again. After the
poll the registry holds no Android device, and `deviceDisconnected` was emitted for an
identifier that is in the listing. One run of `parseAndroidDeviceList` on the same listing
leaves exactly the listed device, announced as connected, and the iOS device as it was. -/
theorem poll_removes_listed_devices :
    registryWithIPhone.androidListSlots = 2 ∧
    (registryWithIPhone.step (.androidListFinished 0 true oneDeviceListing)).androidIds = [] ∧
    (registryWithIPhone.step (.androidListFinished 0 true oneDeviceListing)).emitted =
      registryWithIPhone.emitted ++
        [.deviceConnected { id := "R58M123ABC", type := "android", model := "SM_A525F",
                            name := "a52q", authorized := true },
         .deviceListUpdated, .deviceDisconnected "R58M123ABC", .deviceListUpdated] ∧
    (registryWithIPhone.step (.androidListFinished 0 true oneDeviceListing)).connectedDevices =
      registryWithIPhone.connectedDevices ∧
    (registryWithIPhone.parseAndroidDeviceList oneDeviceListing).androidIds = ["R58M123ABC"] ∧
    (registryWithIPhone.parseAndroidDeviceList oneDeviceListing).connectedDevices =
      registryWithIPhone.connectedDevices ++
        [("R58M123ABC", { id := "R58M123ABC", type := "android", model := "SM_A525F",
                          name := "a52q", authorized := true })] := by
  decide

/-! ### Continuations on an engine that is not active -/

/-- C28: on an engine that is not active and whose mutex is free, as it is between two
calls, each step continuation (the next step, the start of a pull and of a push, the
handlers of the end of the pull and of the push process, and the slots for `fileReady`,
`fileSaved`, `fileTransferProgress` and the error signal of a bridge client) returns the
engine exactly as it found it: no member is changed, no call is deferred and no signal is
emitted. -/
theorem inactive_continuations_do_nothing (w : World) (s : DataTransferManager)
    (h : s.m_isTransferring = false) (hfree : s.locked = false) (hrun : s.hung = false) :
    s.processNextTransferStep w = s ∧ s.startPhotoPull w = s ∧ s.startPhotoPush w = s ∧
    (∀ exitCode normalExit, s.onPullProcessFinished w exitCode normalExit = s) ∧
    (∀ exitCode normalExit, s.onPushProcessFinished exitCode normalExit = s) ∧
    (∀ filePath, s.onBridgeClientFileReady w filePath = s) ∧
    (∀ result, s.onBridgeClientFileSaved result = s) ∧
    (∀ filePath bytesReceived totalBytes,
      s.onBridgeClientFileProgress filePath bytesReceived totalBytes = s) ∧
    (∀ errorMessage, s.onBridgeClientError errorMessage = s) := by
  have hn : (!({ s with locked := true } : DataTransferManager).m_isTransferring) = true := by
    show (!s.m_isTransferring) = true
    rw [h]; rfl
  have hu := DataTransferManager.unlock_of_free hfree
  refine ⟨?_, ?_, ?_, ?_, ?_, ?_, ?_, ?_, ?_⟩
  · unfold DataTransferManager.processNextTransferStep
    rw [DataTransferManager.enter hfree hrun]; dsimp only; rw [if_pos hn]; exact hu
  · unfold DataTransferManager.startPhotoPull
    rw [DataTransferManager.enter hfree hrun]; dsimp only; rw [if_pos hn]; exact hu
  · unfold DataTransferManager.startPhotoPush
    rw [DataTransferManager.enter hfree hrun]; dsimp only; rw [if_pos hn]; exact hu
  · intro exitCode normalExit
    unfold DataTransferManager.onPullProcessFinished
    rw [DataTransferManager.enter hfree hrun]; dsimp only; rw [if_pos hn]; exact hu
  · intro exitCode normalExit
    unfold DataTransferManager.onPushProcessFinished
    rw [DataTransferManager.enter hfree hrun]; dsimp only; rw [if_pos hn]; exact hu
  · intro filePath
    unfold DataTransferManager.onBridgeClientFileReady
    rw [DataTransferManager.enter hfree hrun]; dsimp only; rw [if_pos hn]; exact hu
  · intro result
    unfold DataTransferManager.onBridgeClientFileSaved
    rw [DataTransferManager.enter hfree hrun]; dsimp only; rw [if_pos hn]; exact hu
  · intro filePath bytesReceived totalBytes
    unfold DataTransferManager.onBridgeClientFileProgress
    rw [DataTransferManager.enter hfree hrun]; dsimp only; rw [if_pos hn]; exact hu
  · intro errorMessage
    unfold DataTransferManager.onBridgeClientError
    rw [DataTransferManager.enter hfree hrun]; dsimp only; rw [if_pos hn]; exact hu

/-- C28 at a concrete state: the transfer of contacts and messages was cancelled right
after its start; the engine is not active, the call deferred before the cancellation is
still pending, and when it comes due nothing but its removal from the pending calls
happens; a late `fileSaved` changes nothing either. -/
theorem inactive_continuations_do_nothing_witness :
    cancelledContacts.m_isTransferring = false ∧
    cancelledContacts.pending = [.contactsItem] ∧
    cancelledContacts.processNextTransferStep twoAndroids = cancelledContacts ∧
    cancelledContacts.onBridgeClientFileSaved "OK" = cancelledContacts ∧
    cancelledContacts.onPullProcessFinished twoAndroids 1 true = cancelledContacts :=
  have h := inactive_continuations_do_nothing twoAndroids cancelledContacts (by decide)
    (by decide) (by decide)
  ⟨by decide, by decide, h.1, h.2.2.2.2.2.2.1 "OK", h.2.2.2.1 1 true⟩

/-! ### The end of a transfer -/

/-- C30 fails on the code: a transfer in which every task failed does not end. The
contact of "S" is to go to the iOS device "I"; the contacts task fails when it is started,
`transferTaskFailed` is the last signal, and the thread is then blocked inside
`finalizeCurrentTask`: the engine stays active, the start of the next task is not deferred,
and whatever events follow, the trace stays the same, without `transferFinished`. The first
half of the claim is what `startNextTransferTask` does when it is run, with the mutex
free, on an active engine with an empty queue: the engine becomes inactive and exactly
overall progress 100, `transferCompleted` and `transferFinished true` are emitted. -/
theorem failed_transfer_never_finishes :
    (contactsForIOSFailed.emitted.getLast? = some (.transferTaskFailed "contacts"
      "Transferencia Android->iOS aún no implementada completamente.") ∧
    contactsForIOSFailed.m_dataTypeQueue = [] ∧
    contactsForIOSFailed.m_isTransferring = true ∧
    contactsForIOSFailed.hung = true ∧
    contactsForIOSFailed.pending = [] ∧
    contactsForIOSFailed.emitted.any TransferSignal.isTransferFinished = false ∧
    ∀ evs, run contactsForIOSFailed evs = contactsForIOSFailed) ∧
    ∀ (w : World) (s : DataTransferManager), s.m_isTransferring = true →
      s.m_dataTypeQueue = [] → s.locked = false → s.hung = false →
      (s.startNextTransferTask w).m_isTransferring = false ∧
      (s.startNextTransferTask w).emitted = s.emitted ++
        [.transferProgress 100, .transferCompleted,
         .transferFinished true "Transferencia Completada"] := by
  refine ⟨⟨by decide, by decide, by decide, by decide, by decide, by decide,
    fun evs => run_of_hung _ (by decide) evs⟩, ?_⟩
  intro w s ha hq hl hh
  have heq : s.startNextTransferTask w =
      DataTransferManager.closeTransfer { s with locked := true } := by
    unfold DataTransferManager.startNextTransferTask
    rw [DataTransferManager.enter hl hh]
    dsimp only
    rw [hq]
    exact if_pos ha
  rw [heq]
  refine ⟨rfl, ?_⟩
  simp [DataTransferManager.closeTransfer, DataTransferManager.emit,
    DataTransferManager.cleanupTempDirectory, DataTransferManager.unlock]

/-! ### The category of a streamed media item -/

theorem addMetadata_contains (metadata data : List (String × String)) (k : String)
    (h : mapContains data k = true) : mapContains (addMetadata data metadata) k = true := by
  unfold addMetadata
  induction metadata generalizing data with
  | nil => exact h
  | cons kv rest ih => exact ih _ (mapContains_mapInsert_of h kv.1 kv.2)

/-- Every item built by `parseJsonMediaData` has the entry "mediaType". -/
theorem mediaItem_tagged (obj : FileEntry) :
    mapContains (mediaItem obj).data "mediaType" = true := by
  unfold mediaItem
  exact addMetadata_contains _ _ _
    (mapContains_mapInsert_of (mapContains_mapInsert_self _ _ _) _ _)

/-- C29 fails on the code: a media batch with the picture "/sdcard/DCIM/c.jpg", whose JSON
element has no member "type", is merged into the data set "other" and not into "photos".
`parseJsonMediaData` gives every item the entry "mediaType" ("other" when the type is none
of IMAGE, VIDEO, AUDIO), so the branch of `onBridgeClientMediaData` that looks at the
extension is never taken for a streamed item. What holds: an item without the entry
"mediaType" would be filed by its extension as the claim says. -/
theorem untagged_media_filed_under_other :
    (untaggedPicture.type = "" ∧
     mediaTypeOf (mediaItem untaggedPicture) = "other" ∧
     (getDataSet (scanningPhotos.handle (.mediaData 0 1 [untaggedPicture])) "A1"
        "photos").filePaths = [] ∧
     (getDataSet (scanningPhotos.handle (.mediaData 0 1 [untaggedPicture])) "A1"
        "other").filePaths = ["/sdcard/DCIM/c.jpg"]) ∧
    (∀ obj : FileEntry, mapContains (mediaItem obj).data "mediaType" = true) ∧
    ∀ item : DataItem, mapContains item.data "mediaType" = false →
      ((endsWith (toLower item.filePath) ".jpg" = true ∨
        endsWith (toLower item.filePath) ".jpeg" = true ∨
        endsWith (toLower item.filePath) ".png" = true ∨
        endsWith (toLower item.filePath) ".gif" = true) → mediaTypeOf item = "photos") := by
  refine ⟨by decide, mediaItem_tagged, ?_⟩
  intro item hno hext
  unfold mediaTypeOf
  rw [if_neg (by simp [hno])]
  dsimp only
  rw [if_pos (by simpa [Bool.or_eq_true, or_assoc] using hext)]

end MobileDataBridge
